import Mathlib

/-! # Verification development for the deferred/forward rendering engine

Shallow embedding of `Code/engine.h` and `Code/engine.cpp`.

Conventions of the embedding
* `std::vector<T>` is a `List T`.  A loop whose counter is a `u32` running up
  to the size of a vector visits every element once: vectors are taken to
  hold fewer than `2^32` elements.
* Fixed-width unsigned integers (`u8`, `u32`, `GLuint`) are natural numbers.
  A sum computed in `u32` and a size returned as `u32` are reduced modulo
  `2^32` explicitly.
* The graphics API is a state `GLState` holding the list of commands issued
  so far (oldest first) and the name generators of the driver.
* A failed `assert` and an out-of-bounds subscript end the run: functions that
  contain one return an `Except`.
* A `float` is kept as its IEEE-754 bit pattern (`f32`); the functions of
  `glm` that compute with floats are the fields of a parameter (`Glm`).
* What the driver and the platform answer (uniform locations, the mapped
  memory, compile and link status, the framebuffer status, the files) is a
  parameter (`Driver`, `Platform`).
* `ELOG`, of `platform.h`, appends its line to `World.log` and returns.
-/

namespace Engine

/-! ## OpenGL model -/

/-- The OpenGL enumerants used by the embedded functions. -/
inductive GLenum where
  | GL_FLOAT
  | GL_UNSIGNED_BYTE
  | GL_ARRAY_BUFFER
  | GL_ELEMENT_ARRAY_BUFFER
  | GL_TEXTURE_2D
  | GL_RGB
  | GL_RGBA
  | GL_RGB8
  | GL_RGBA8
  | GL_TEXTURE_MIN_FILTER
  | GL_TEXTURE_MAG_FILTER
  | GL_TEXTURE_WRAP_R
  | GL_TEXTURE_WRAP_S
  | GL_TEXTURE_WRAP_T
  | GL_LINEAR
  | GL_LINEAR_MIPMAP_LINEAR
  | GL_CLAMP_TO_EDGE
  | GL_UNIFORM_BUFFER
  | GL_NONE
  | GL_FRAMEBUFFER
  | GL_READ_FRAMEBUFFER
  | GL_DRAW_FRAMEBUFFER
  | GL_COLOR_ATTACHMENT0
  | GL_COLOR_ATTACHMENT1
  | GL_COLOR_ATTACHMENT2
  | GL_COLOR_ATTACHMENT3
  | GL_DEPTH_ATTACHMENT
  | GL_COLOR_BUFFER_BIT
  | GL_DEPTH_BUFFER_BIT
  | GL_BLEND
  | GL_DEPTH_TEST
  | GL_SRC_ALPHA
  | GL_ONE_MINUS_SRC_ALPHA
  | GL_TEXTURE0
  | GL_TEXTURE1
  | GL_TEXTURE2
  | GL_TEXTURE3
  | GL_TEXTURE_CUBE_MAP
  | GL_TRIANGLES
  | GL_TRIANGLE_STRIP
  | GL_UNSIGNED_SHORT
  | GL_UNSIGNED_INT
  | GL_NEAREST
  | GL_LEQUAL
  | GL_LESS
  | GL_STATIC_DRAW
  | GL_STREAM_DRAW
  | GL_WRITE_ONLY
  | GL_RGBA16F
  | GL_DEPTH_COMPONENT24
  | GL_DEPTH_COMPONENT
  | GL_VERTEX_SHADER
  | GL_FRAGMENT_SHADER
  deriving DecidableEq, Repr

/-- A `float`, kept as its IEEE-754 bit pattern. -/
abbrev f32 := Nat

/-- A `glm::vec3`. -/
structure vec3 where
  x : f32
  y : f32
  z : f32
  deriving DecidableEq, Repr

/-- A `glm::ivec2`. -/
structure ivec2 where
  x : Int
  y : Int
  deriving DecidableEq, Repr

/-- A `glm::mat4`: its sixteen floats in memory order. -/
structure mat4 where
  floats : List f32
  deriving DecidableEq, Repr

/-- One OpenGL command, with the arguments the source passes to it.  A
pointer to vertex or pixel data is not kept (except the `pixels` of
`glTexImage2D`); queries (`glGet...`, `glCheckFramebufferStatus`) are not
commands and are answered by the driver. -/
inductive GLCall where
  | glGenVertexArrays (name : Nat)
  | glBindVertexArray (name : Nat)
  | glBindBuffer (target : GLenum) (name : Nat)
  | glVertexAttribPointer (index size : Nat) (type : GLenum) (normalized : Bool)
      (stride pointer : Nat)
  | glEnableVertexAttribArray (index : Nat)
  | glGenTextures (name : Nat)
  | glBindTexture (target : GLenum) (name : Nat)
  | glTexImage2D (target : GLenum) (level : Nat) (internalFormat : GLenum)
      (width height : Int) (border : Nat) (format type : GLenum) (pixels : Nat)
  | glTexParameteri (target pname param : GLenum)
  | glGenerateMipmap (target : GLenum)
  | glBindFramebuffer (target : GLenum) (name : Nat)
  | glDrawBuffers (bufs : List GLenum)
  | glClearColor (r g b a : f32)
  | glClear (mask : List GLenum)
  | glViewport (x y width height : Int)
  | glEnable (cap : GLenum)
  | glBlendFunc (sfactor dfactor : GLenum)
  | glDepthFunc (func : GLenum)
  | glUseProgram (program : Nat)
  | glActiveTexture (texture : GLenum)
  | glUniform1i (location : Int) (v0 : Int)
  | glUniformMatrix4fv (location : Int) (count : Nat) (transpose : Bool) (value : mat4)
  | glUniform3fv (location : Int) (count : Nat) (value : vec3)
  | glBindBufferRange (target : GLenum) (index buffer offset size : Nat)
  | glDrawElements (mode : GLenum) (count : Nat) (type : GLenum) (indices : Nat)
  | glDrawArrays (mode : GLenum) (first count : Nat)
  | glBlitFramebuffer (srcX0 srcY0 srcX1 srcY1 dstX0 dstY0 dstX1 dstY1 : Int)
      (mask : List GLenum) (filter : GLenum)
  | glGenBuffers (name : Nat)
  | glBufferData (target : GLenum) (size : Nat) (usage : GLenum)
  | glGenFramebuffers (name : Nat)
  | glFramebufferTexture (target attachment : GLenum) (texture level : Nat)
  | glDrawBuffersValues (n : Nat) (bufs : List Nat)
  | glCreateShader (type : GLenum) (name : Nat)
  | glShaderSource (shader : Nat) (strings : List String)
  | glCompileShader (shader : Nat)
  | glCreateProgram (name : Nat)
  | glAttachShader (program shader : Nat)
  | glLinkProgram (program : Nat)
  | glDetachShader (program shader : Nat)
  | glDeleteShader (shader : Nat)
  /-- The method `Shader::use` of the class of `Shaders.h`. -/
  | shaderUse (shader : Nat)
  /-- The method `Shader::setMat4`. -/
  | shaderSetMat4 (shader : Nat) (name : String) (value : mat4)
  /-- The method `Shader::setVec3`. -/
  | shaderSetVec3 (shader : Nat) (name : String) (value : vec3)
  /-- The method `Shader::setInt`. -/
  | shaderSetInt (shader : Nat) (name : String) (value : Int)
  /-- The constructor `Shader(vertexPath, fragmentPath)`. -/
  | shaderNew (vertexPath fragmentPath : String) (shader : Nat)
  /-- The command `glTexImage2D` with target `GL_TEXTURE_CUBE_MAP_POSITIVE_X + i`. -/
  | glTexImage2DFace (i : Nat) (level : Nat) (internalFormat : GLenum)
      (width height : Int) (border : Nat) (format type : GLenum) (pixels : Nat)
  deriving Repr

/-- State of the graphics API: the commands issued so far, oldest first, and
the number of vertex-array and texture names the driver has handed out.  The
driver returns previously unused, non-zero names; they are numbered
consecutively from 1. -/
structure GLState where
  calls : List GLCall
  vertexArrays : Nat
  textures : Nat
  /-- Buffer names handed out. -/
  buffers : Nat := 0
  /-- Framebuffer names handed out. -/
  framebuffers : Nat := 0
  /-- Shader and program names handed out (one name space). -/
  objects : Nat := 0
  deriving Repr

/-- The state `gl` with the commands `calls` issued before its own. -/
def GLState.after (calls : List GLCall) (gl : GLState) : GLState :=
  { gl with calls := calls ++ gl.calls }

/-- Record one issued command. -/
def GLState.issue (gl : GLState) (c : GLCall) : GLState :=
  { gl with calls := gl.calls ++ [c] }

/-- The call `glGenVertexArrays(1, &h)`: returns the fresh name. -/
def GLState.genVertexArray (gl : GLState) : Nat × GLState :=
  let name := gl.vertexArrays + 1
  (name, { gl with vertexArrays := name, calls := gl.calls ++ [.glGenVertexArrays name] })

/-- The call `glGenTextures(1, &h)`: returns the fresh name. -/
def GLState.genTexture (gl : GLState) : Nat × GLState :=
  let name := gl.textures + 1
  (name, { gl with textures := name, calls := gl.calls ++ [.glGenTextures name] })

/-- The call `glGenBuffers(1, &h)`: returns the fresh name. -/
def GLState.genBuffer (gl : GLState) : Nat × GLState :=
  let name := gl.buffers + 1
  (name, { gl with buffers := name, calls := gl.calls ++ [.glGenBuffers name] })

/-- The call `glGenFramebuffers(1, &h)`: returns the fresh name. -/
def GLState.genFramebuffer (gl : GLState) : Nat × GLState :=
  let name := gl.framebuffers + 1
  (name, { gl with framebuffers := name, calls := gl.calls ++ [.glGenFramebuffers name] })

/-- Conversion of a `GLuint` to the `GLint` a uniform location is passed as. -/
def toGLint (n : Nat) : Int :=
  if n % 2 ^ 32 < 2 ^ 31 then ((n % 2 ^ 32 : Nat) : Int) else ((n % 2 ^ 32 : Nat) : Int) - 2 ^ 32

/-- Conversion of a `GLint` to the `GLuint` field it is stored in. -/
def toGLuint (i : Int) : Nat :=
  (i % 2 ^ 32).toNat

/-- The difference `a - b` of two `u32` values. -/
def u32sub (a b : Nat) : Nat :=
  (a + 2 ^ 32 - b % 2 ^ 32) % 2 ^ 32

/-! ## Data model (`engine.h`) -/

structure Image where
  /-- The pointer `pixels`; `0` is `NULL`. -/
  pixels : Nat
  size : Int × Int
  nchannels : Int
  stride : Int
  deriving DecidableEq, Repr

structure Texture where
  handle : Nat
  filepath : String
  deriving DecidableEq, Repr

structure VertexShaderAttribute where
  location : Nat
  componentCount : Nat
  deriving DecidableEq, Repr

structure VertexShaderLayout where
  attributes : List VertexShaderAttribute
  deriving DecidableEq, Repr

structure VertexBufferAttribute where
  location : Nat
  componentCount : Nat
  offset : Nat
  deriving DecidableEq, Repr

structure VertexBufferLayout where
  attributes : List VertexBufferAttribute
  stride : Nat
  deriving DecidableEq, Repr

structure Vao where
  handle : Nat
  programHandle : Nat
  deriving DecidableEq, Repr

structure Program where
  handle : Nat
  filepath : String
  programName : String
  lastWriteTimestamp : Nat
  vertexInputLayout : VertexShaderLayout
  deriving DecidableEq, Repr

/-- The struct `Submesh`.  The field `vertices` (a `std::vector<float>`) is
kept as the list of the bit patterns of its floats. -/
structure Submesh where
  vertexBufferLayout : VertexBufferLayout
  vertices : List Nat
  indices : List Nat
  vertexOffset : Nat
  indexOffset : Nat
  vaos : List Vao
  deriving DecidableEq, Repr

structure Mesh where
  submeshes : List Submesh
  vertexBufferHandle : Nat
  indexBufferHandle : Nat
  deriving DecidableEq, Repr

/-- The constant `UINT32_MAX`. -/
def UINT32_MAX : Nat := 2 ^ 32 - 1

/-- The struct `Buffer`.  The pointer `data` is `none` while the buffer is not
mapped (`NULL`) and otherwise the mapped region, given by the byte it holds at
each offset. -/
structure Buffer where
  handle : Nat
  type : GLenum
  size : Nat
  head : Nat
  data : Option (Nat → Nat)

inductive Mode where
  | TEXTUREDQUAD
  | DEFERRED
  | FORWARD
  deriving DecidableEq, Repr

structure Model where
  meshIdx : Nat
  materialIdx : List Nat
  deriving DecidableEq, Repr

structure Material where
  name : String
  albedo : vec3
  emissive : vec3
  smoothness : f32
  albedoTextureIdx : Nat
  emissiveTextureIdx : Nat
  specularTextureIdx : Nat
  normalsTextureIdx : Nat
  bumpTextureIdx : Nat
  deriving DecidableEq, Repr

/-- The struct `Camera`, with the default member initialisers of the source
(`-90.f`, `10.f`, `60.f`, ... as bit patterns). -/
structure Camera where
  pitch : f32 := 0
  yaw : f32 := 0xc2b40000
  distanceToOrigin : f32 := 0x41200000
  rotating : Bool := true
  cameraPos : vec3 := ⟨0, 0, 0x41200000⟩
  cameraRight : vec3 := ⟨0, 0, 0xbf800000⟩
  cameraUp : vec3 := ⟨0, 0x3f800000, 0⟩
  cameraFront : vec3 := ⟨0, 0, 0xbf800000⟩
  fov : f32 := 0x42700000
  deriving DecidableEq, Repr

structure Entity where
  matrix : mat4
  modelId : Nat
  localParamsOffset : Nat := 0
  localParamsSize : Nat := 0
  deriving DecidableEq, Repr

inductive LightType where
  | DIRECTIONAL
  | POINTT
  deriving DecidableEq, Repr

/-- The value of an enumerator of `LightType`. -/
def LightType.toNat : LightType → Nat
  | .DIRECTIONAL => 0
  | .POINTT => 1

structure Light where
  type : LightType
  color : vec3
  direction : vec3
  position : vec3
  intensity : f32
  deriving DecidableEq, Repr

/-- The struct `App`.  Left out are `gpuName`, `openGlVersion`, `show` and
`vecShaders`, which no embedded function reads, and `input`, which the
platform fills in and `Update` is passed as an argument.  The defaults are the
default member initialisers of the source where it has one and the zero
value otherwise. -/
structure App where
  deltaTime : f32 := 0
  isRunning : Bool := false
  displaySize : ivec2 := ⟨0, 0⟩
  textures : List Texture := []
  materials : List Material := []
  meshes : List Mesh := []
  models : List Model := []
  programs : List Program := []
  entities : List Entity := []
  lights : List Light := []
  texturedGeometryProgramIdx : Nat := 0
  texturedMeshProgramIdx : Nat := 0
  texturedMeshProgramForward : Nat := 0
  meshProgramIdx : Nat := 0
  lightsProgramIdx : Nat := 0
  drawLightsProgramIdx : Nat := 0
  cubeProgramIdx : Nat := 0
  skyBoxProgramIdx : Nat := 0
  diceTexIdx : Nat := 0
  whiteTexIdx : Nat := 0
  blackTexIdx : Nat := 0
  normalTexIdx : Nat := 0
  magentaTexIdx : Nat := 0
  model : Nat := 0
  toyNormalTexIdx : Nat := 0
  toyHeightTexIdx : Nat := 0
  toyDiffuseTexIdx : Nat := 0
  mode : Mode := .TEXTUREDQUAD
  embeddedVertices : Nat := 0
  embeddedElements : Nat := 0
  programUniformTexture : Nat := 0
  texturedMeshProgram_uTexture : Nat := 0
  texturedMeshProgramIdx_uAlbedo : Nat := 0
  texturedMeshProgramIdx_uPosition : Nat := 0
  texturedMeshProgramIdx_uNormals : Nat := 0
  texturedMeshProgramIdx_uDepth : Nat := 0
  texturedMeshProgramIdx_Deferred : Nat := 0
  texturedMeshProgramIdx_RelieveNormal : Nat := 0
  texturedMeshProgramIdx_RelieveHeight : Nat := 0
  texturedCube : Nat := 0
  cubeFaces : List String :=
    ["front.png", "back.png", "top.png", "bottom.jpg", "left.png", "right.png"]
  vao : Nat := 0
  frameBufferController : Nat := 0
  depthController : Nat := 0
  colorController : Nat := 0
  normalsController : Nat := 0
  albedoController : Nat := 0
  positionController : Nat := 0
  drawLightsProgramIdx_uLightColor : Nat := 0
  drawLightsProgramIdx_uViewProjection : Nat := 0
  drawLightsProgramIdx_uModel : Nat := 0
  camera : Camera := {}
  cBuffer : Buffer := { handle := 0, type := .GL_NONE, size := 0, head := 0, data := none }
  globalParamsOffset : Nat := 0
  globalParamsSize : Nat := 0
  uniformBlockAlignmentOffset : Int := 0
  showGizmo : Bool := true
  version : String := ""
  renderer : String := ""
  vendor : String := ""
  shadingLanguageVersion : String := ""
  extensions : String := ""
  showRelief : Bool := false
  showCubeMap : Bool := false
  cubemapTexture : Nat := 0
  cubeTexture : Nat := 0

/-- The variables of `engine.cpp` that outlive a call: the globals `cShader`,
`sShader` (each `Shader` stands for the number that identifies it), `cubeVAO`
and `skyVAO`, and the `static` locals of `RenderCube`, `renderQuad`,
`RenderSphere` and `Gui`. -/
structure Globals where
  cShader : Nat := 0
  sShader : Nat := 0
  cubeVAO : Nat := 0
  skyVAO : Nat := 0
  RenderCube_cubeVAO : Nat := 0
  RenderCube_cubeVBO : Nat := 0
  quadVAO : Nat := 0
  quadVBO : Nat := 0
  sphereVAO : Nat := 0
  indexCount : Nat := 0
  /-- The local `static int select = 0` of `Gui`. -/
  Gui_select : Int := 0
  /-- The local `static int sel = 0` of `Gui`. -/
  Gui_sel : Int := 0
  deriving DecidableEq, Repr

/-- Everything a call of the engine can read or write: the application
state, the state of the graphics API, the persistent variables and the lines
written by `ELOG`. -/
structure World where
  app : App
  gl : GLState
  globals : Globals := {}
  log : List String := []

/-- Ways in which a run ends without returning. -/
inductive Abort where
  /-- An `assert` failed. -/
  | assertion
  /-- A subscript outside the bounds of its vector. -/
  | outOfBounds
  /-- The fatal capacity error of the uniform allocator. -/
  | capacity
  deriving DecidableEq, Repr

/-! ## `FindVAO` (`engine.cpp`, lines 193-236) -/

/-- The first loop of `FindVAO`: the handle of the first cached VAO built for
the program handle.  Its bound `(u32)submesh.vaos.size()` is the size of the
cache, which holds fewer than `2^32` entries. -/
def findCachedVao (programHandle : Nat) : List Vao → Option Nat
  | [] => none
  | v :: rest =>
    if v.programHandle = programHandle then some v.handle
    else findCachedVao programHandle rest

/-- The inner loop of `FindVAO` over the attributes of the submesh, for one
attribute of the program: at the first attribute with the same location it
issues the pointer and enable commands and stops.  The result is the final
value of `attributeWasLinked`. -/
def linkAttribute (submesh : Submesh) (a : VertexShaderAttribute) :
    List VertexBufferAttribute → GLState → Bool × GLState
  | [], gl => (false, gl)
  | b :: rest, gl =>
    if a.location ≠ b.location then linkAttribute submesh a rest gl
    else
      let index := b.location
      let ncomp := b.componentCount
      let offset := (b.offset + submesh.vertexOffset) % 2 ^ 32
      let stride := submesh.vertexBufferLayout.stride
      let gl := gl.issue (.glVertexAttribPointer index ncomp .GL_FLOAT false stride offset)
      let gl := gl.issue (.glEnableVertexAttribArray index)
      (true, gl)

/-- The outer loop of `FindVAO` over the attributes of the program, with the
`assert(attributeWasLinked)` that ends each round (assertions are compiled
in). -/
def linkAttributes (submesh : Submesh) : List VertexShaderAttribute → GLState → Except Abort GLState
  | [], gl => .ok gl
  | a :: rest, gl =>
    match linkAttribute submesh a submesh.vertexBufferLayout.attributes gl with
    | (false, _) => .error .assertion
    | (true, gl) => linkAttributes submesh rest gl

/-- The function `FindVAO`: returns the handle, the mesh (whose submesh may
have a new cache entry) and the state of the graphics API. -/
def FindVAO (mesh : Mesh) (submeshIndex : Nat) (program : Program) (gl : GLState) :
    Except Abort (Nat × Mesh × GLState) :=
  match mesh.submeshes[submeshIndex]? with
  | none => .error .outOfBounds
  | some submesh =>
    match findCachedVao program.handle submesh.vaos with
    | some handle => .ok (handle, mesh, gl)
    | none =>
      let (vaoHandle, gl) := gl.genVertexArray
      let gl := gl.issue (.glBindVertexArray vaoHandle)
      let gl := gl.issue (.glBindBuffer .GL_ARRAY_BUFFER mesh.vertexBufferHandle)
      let gl := gl.issue (.glBindBuffer .GL_ELEMENT_ARRAY_BUFFER mesh.indexBufferHandle)
      match linkAttributes submesh program.vertexInputLayout.attributes gl with
      | .error e => .error e
      | .ok gl =>
        let gl := gl.issue (.glBindVertexArray 0)
        let vao : Vao := { handle := vaoHandle, programHandle := program.handle }
        let submesh := { submesh with vaos := submesh.vaos ++ [vao] }
        .ok (vaoHandle, { mesh with submeshes := mesh.submeshes.set submeshIndex submesh }, gl)

/-- The two commands `FindVAO` issues to bind the submesh attribute `b`. -/
def attributeBinding (submesh : Submesh) (b : VertexBufferAttribute) : List GLCall :=
  [.glVertexAttribPointer b.location b.componentCount .GL_FLOAT false
      submesh.vertexBufferLayout.stride ((b.offset + submesh.vertexOffset) % 2 ^ 32),
   .glEnableVertexAttribArray b.location]

/-- The `glVertexAttribPointer` commands of a command list, in order. -/
def vertexAttribPointers (calls : List GLCall) : List GLCall :=
  calls.filter fun c =>
    match c with
    | .glVertexAttribPointer .. => true
    | _ => false

/-! ## `LoadTexture2D` (`engine.cpp`, lines 118-191) -/

/-- What one call of `stbi_load` yields: the pointer to the decoded pixels
(`0`, that is `NULL`, when the file cannot be loaded) and the values left in
the out-parameters for width, height and channel count. -/
structure StbiResult where
  pixels : Nat
  x : Int
  y : Int
  n : Int
  deriving DecidableEq, Repr

/-- The function `LoadImage`, over the image decoder `stbi_load`.  The product
for `stride` is the exact integer. -/
def LoadImage (stbi_load : String → StbiResult) (filename : String) : Image :=
  let r := stbi_load filename
  let img : Image := { pixels := r.pixels, size := (r.x, r.y), nchannels := r.n, stride := 0 }
  if img.pixels ≠ 0 then
    { img with stride := img.size.1 * img.nchannels }
  else
    img

/-- The `switch` of `CreateTexture2DFromImage`: internal format and data
format for a channel count; other counts keep the initial values. -/
def textureFormats (nchannels : Int) : GLenum × GLenum :=
  if nchannels = 3 then (.GL_RGB8, .GL_RGB)
  else if nchannels = 4 then (.GL_RGBA8, .GL_RGBA)
  else (.GL_RGB8, .GL_RGB)

/-- The function `CreateTexture2DFromImage`. -/
def CreateTexture2DFromImage (image : Image) (gl : GLState) : Nat × GLState :=
  let dataType := GLenum.GL_UNSIGNED_BYTE
  let (internalFormat, dataFormat) := textureFormats image.nchannels
  let (texHandle, gl) := gl.genTexture
  let gl := gl.issue (.glBindTexture .GL_TEXTURE_2D texHandle)
  let gl := gl.issue (.glTexImage2D .GL_TEXTURE_2D 0 internalFormat image.size.1 image.size.2
    0 dataFormat dataType image.pixels)
  let gl := gl.issue (.glTexParameteri .GL_TEXTURE_2D .GL_TEXTURE_MIN_FILTER .GL_LINEAR)
  let gl := gl.issue
    (.glTexParameteri .GL_TEXTURE_2D .GL_TEXTURE_MAG_FILTER .GL_LINEAR_MIPMAP_LINEAR)
  let gl := gl.issue (.glTexParameteri .GL_TEXTURE_2D .GL_TEXTURE_WRAP_R .GL_CLAMP_TO_EDGE)
  let gl := gl.issue (.glTexParameteri .GL_TEXTURE_2D .GL_TEXTURE_WRAP_S .GL_CLAMP_TO_EDGE)
  let gl := gl.issue (.glTexParameteri .GL_TEXTURE_2D .GL_TEXTURE_WRAP_T .GL_CLAMP_TO_EDGE)
  let gl := gl.issue (.glGenerateMipmap .GL_TEXTURE_2D)
  let gl := gl.issue (.glBindTexture .GL_TEXTURE_2D 0)
  (texHandle, gl)

/-- The loop that opens `LoadTexture2D`, from index `texIdx` on: the index of
the first texture whose `filepath` equals the argument. -/
def findTextureIdx (filepath : String) : List Texture → Nat → Option Nat
  | [], _ => none
  | t :: rest, texIdx =>
    if t.filepath = filepath then some texIdx
    else findTextureIdx filepath rest (texIdx + 1)

/-- The function `LoadTexture2D`: returns the `u32` result, the application
state and the state of the graphics API. -/
def LoadTexture2D (stbi_load : String → StbiResult) (app : App) (gl : GLState)
    (filepath : String) : Nat × App × GLState :=
  match findTextureIdx filepath app.textures 0 with
  | some texIdx => (texIdx, app, gl)
  | none =>
    let image := LoadImage stbi_load filepath
    if image.pixels ≠ 0 then
      let (handle, gl) := CreateTexture2DFromImage image gl
      let tex : Texture := { handle := handle, filepath := filepath }
      let texIdx := app.textures.length % 2 ^ 32
      (texIdx, { app with textures := app.textures ++ [tex] }, gl)
    else
      (UINT32_MAX, app, gl)

/-! ## The linear uniform allocator

`MapBuffer`, `AlignHead`, the `Push...` family and `UnmapBuffer` are declared
in `buffer_management.h`, which is not among the sources; `engine.cpp` only
calls them.  They are modelled from section 4.1 of the specification. -/

/-- Modelled from the spec: `beginFrame()`, the `MapBuffer` of the call sites,
whose body is missing.  "Maps the backing buffer for writing and resets
`head = 0`"; `region` is the memory the driver maps. -/
def MapBuffer (buffer : Buffer) (region : Nat → Nat) : Buffer :=
  { buffer with data := some region, head := 0 }

/-- Modelled from the spec: `endFrame()`, the `UnmapBuffer` of the call sites,
whose body is missing.  "`endFrame()` unmaps." -/
def UnmapBuffer (buffer : Buffer) : Buffer :=
  { buffer with data := none }

/-- Modelled from the spec: `alignTo(n)`, the `AlignHead` of the call sites,
whose body is missing.  "Advances `head` to the next multiple of `n` (no-op
if already aligned)"; the spec gives it no failure case. -/
def AlignHead (buffer : Buffer) (alignment : Nat) : Buffer :=
  if buffer.head % alignment = 0 then buffer
  else { buffer with head := (buffer.head / alignment + 1) * alignment }

/-- The region `region` with `bytes` copied to offset `offset`. -/
def writeBytes (region : Nat → Nat) (offset : Nat) (bytes : List Nat) : Nat → Nat :=
  fun i => if offset ≤ i ∧ i < offset + bytes.length then bytes.getD (i - offset) 0 else region i

/-- Modelled from the spec: `push(bytes)`, the operation behind the `PushVec3`,
`PushUInt`, `PushMat4` and `PushFloat` call sites, whose bodies are missing.
"Copies `bytes` into the mapped region at `head`, advances `head` by
`len(bytes)`, and returns the pre-push offset; fails fatally if
`head + len(bytes) > capacity`."  The spec states it for a mapped buffer; on
an unmapped one there is no region to copy into. -/
def Push (buffer : Buffer) (bytes : List Nat) : Except Abort (Nat × Buffer) :=
  if buffer.head + bytes.length > buffer.size then .error .capacity
  else
    .ok (buffer.head,
      { buffer with
        data := buffer.data.map fun region => writeBytes region buffer.head bytes
        head := buffer.head + bytes.length })

/-- Modelled from the spec: `alignTo(n)` read as an allocation request.
Section 4.1 gives the head it asks for, the one `AlignHead` computes, and no
failure case of its own; section 3 makes "any allocation request that would
violate" `head <= capacity` "a fatal capacity error". -/
def alignTo (buffer : Buffer) (n : Nat) : Except Abort Buffer :=
  if (AlignHead buffer n).head > buffer.size then .error .capacity
  else .ok (AlignHead buffer n)

/-! ### Sample data -/

/-- A submesh with position, normal and texture-coordinate attributes, placed
64 bytes into the vertex buffer of its mesh, and an empty VAO cache. -/
def sampleSubmesh : Submesh :=
  { vertexBufferLayout :=
      { attributes := [⟨0, 3, 0⟩, ⟨1, 3, 12⟩, ⟨2, 2, 24⟩, ⟨2, 4, 28⟩], stride := 32 }
    vertices := []
    indices := [0, 1, 2, 0, 2, 3]
    vertexOffset := 64
    indexOffset := 0
    vaos := [] }

def sampleMesh : Mesh :=
  { submeshes := [sampleSubmesh], vertexBufferHandle := 11, indexBufferHandle := 12 }

/-- A program that reads locations 2 and 0, in that order. -/
def sampleProgram : Program :=
  { handle := 5, filepath := "shaders.glsl", programName := "SHOW_GEOMETRY"
    lastWriteTimestamp := 0
    vertexInputLayout := { attributes := [⟨2, 2⟩, ⟨0, 3⟩] } }

/-- A program that also reads location 4, which `sampleSubmesh` does not have. -/
def sampleProgramTangents : Program :=
  { sampleProgram with
    handle := 6
    vertexInputLayout := { attributes := [⟨0, 3⟩, ⟨4, 3⟩] } }

def sampleGL : GLState := { calls := [], vertexArrays := 0, textures := 0 }

/-- The mesh `sampleMesh` once a VAO for `sampleProgram` is cached. -/
def sampleMeshCached : Mesh :=
  { sampleMesh with submeshes := [{ sampleSubmesh with vaos := [⟨1, 5⟩] }] }

/-- The graphics state after the VAO of `sampleSubmesh` for `sampleProgram`
was built from `sampleGL`. -/
def sampleGLBuilt : GLState :=
  { calls :=
      [.glGenVertexArrays 1, .glBindVertexArray 1,
       .glBindBuffer .GL_ARRAY_BUFFER 11, .glBindBuffer .GL_ELEMENT_ARRAY_BUFFER 12,
       .glVertexAttribPointer 2 2 .GL_FLOAT false 32 88, .glEnableVertexAttribArray 2,
       .glVertexAttribPointer 0 3 .GL_FLOAT false 32 64, .glEnableVertexAttribArray 0,
       .glBindVertexArray 0]
    vertexArrays := 1
    textures := 0 }

/-- An image decoder that loads `dice.png` and `toy.png` and nothing else. -/
def sampleStbi : String → StbiResult := fun path =>
  if path = "dice.png" then ⟨4096, 64, 64, 4⟩
  else if path = "toy.png" then ⟨8192, 32, 16, 3⟩
  else ⟨0, 0, 0, 0⟩

/-- A registry that already holds `dice.png`. -/
def sampleApp : App := { textures := [⟨1, "dice.png"⟩] }

/-- The empty registry. -/
def emptyApp : App := { textures := [] }

/-- A graphics state in which one texture name is taken. -/
def sampleGLTex : GLState := { calls := [], vertexArrays := 0, textures := 1 }

/-- A 256-byte buffer, mapped on zeroed memory, with 9 bytes in use. -/
def sampleBufferMapped : Buffer :=
  { handle := 3, type := .GL_UNIFORM_BUFFER, size := 256, head := 9, data := some fun _ => 0 }

/-- A 256-byte buffer, mapped on zeroed memory, whose head is at 32. -/
def sampleBufferAligned : Buffer :=
  { sampleBufferMapped with head := 32 }

/-- A 256-byte buffer, mapped on zeroed memory, with 254 bytes in use. -/
def sampleBufferFull : Buffer :=
  { sampleBufferMapped with head := 254 }

/-! ## Floating point

The arithmetic of `glm` on floats is not computed: its functions are the
fields of a parameter. -/

/-- The functions of `glm` (and the float operations) the engine calls. -/
structure Glm where
  radians : f32 → f32
  perspective : f32 → f32 → f32 → f32 → mat4
  lookAt : vec3 → vec3 → vec3 → mat4
  translate : mat4 → vec3 → mat4
  scale : mat4 → vec3 → mat4
  rotate : mat4 → f32 → vec3 → mat4
  /-- The product of two matrices. -/
  mul : mat4 → mat4 → mat4
  /-- The sum of two vectors. -/
  add : vec3 → vec3 → vec3
  /-- The quotient of two floats. -/
  div : f32 → f32 → f32
  /-- The conversion of an `int` to `float`. -/
  ofInt : Int → f32
  /-- The conversion `glm::mat4(glm::mat3(m))`. -/
  mat3 : mat4 → mat4

/-- The matrix `glm::mat4(1.f)`. -/
def mat4_identity : mat4 :=
  ⟨[0x3f800000, 0, 0, 0, 0, 0x3f800000, 0, 0, 0, 0, 0x3f800000, 0, 0, 0, 0, 0x3f800000]⟩

/-- The method `Camera::GetViewMatrix` (`engine.h`). -/
def Camera.GetViewMatrix (glm : Glm) (camera : Camera) (size : ivec2) : mat4 :=
  let view := glm.lookAt camera.cameraPos (glm.add camera.cameraPos camera.cameraFront)
    camera.cameraUp
  glm.mul
    (glm.perspective (glm.radians camera.fov) (glm.div (glm.ofInt size.x) (glm.ofInt size.y))
      0x3dcccccd 0x42c80000)
    view

/-- The answers of the graphics driver to the queries of `Render`. -/
structure Driver where
  glGetUniformLocation : Nat → String → Int
  /-- The memory `glMapBuffer` maps for a buffer name. -/
  glMapBuffer : Nat → Nat → Nat

/-! ## Typed pushes -/

/-- The four bytes of a 32-bit value, lowest first. -/
def bytesOfU32 (v : Nat) : List Nat :=
  [v % 256, v / 256 % 256, v / 65536 % 256, v / 16777216 % 256]

/-- The twelve bytes of a `vec3`. -/
def bytesOfVec3 (v : vec3) : List Nat :=
  bytesOfU32 v.x ++ bytesOfU32 v.y ++ bytesOfU32 v.z

/-- The sixty-four bytes of a `mat4`. -/
def bytesOfMat4 (m : mat4) : List Nat :=
  (List.range 16).flatMap fun i => bytesOfU32 (m.floats.getD i 0)

/-- Modelled from the spec: the macro `PushVec3`, whose definition is missing:
the `push` of section 4.1 applied to the bytes of the vector.  The offset
`push` returns is dropped, as at every call site. -/
def PushVec3 (buffer : Buffer) (value : vec3) : Except Abort Buffer :=
  (Push buffer (bytesOfVec3 value)).map Prod.snd

/-- Modelled from the spec: the macro `PushUInt`, whose definition is missing:
`push` applied to the four bytes of the value converted to `u32`. -/
def PushUInt (buffer : Buffer) (value : Nat) : Except Abort Buffer :=
  (Push buffer (bytesOfU32 (value % 2 ^ 32))).map Prod.snd

/-- Modelled from the spec: the macro `PushMat4`, whose definition is missing:
`push` applied to the bytes of the matrix. -/
def PushMat4 (buffer : Buffer) (value : mat4) : Except Abort Buffer :=
  (Push buffer (bytesOfMat4 value)).map Prod.snd

/-- Modelled from the spec: the macro `PushFloat`, whose definition is
missing: `push` applied to the four bytes of the float. -/
def PushFloat (buffer : Buffer) (value : f32) : Except Abort Buffer :=
  (Push buffer (bytesOfU32 value)).map Prod.snd

/-! ## `Render` (`engine.cpp`, lines 450-692) and the functions it calls -/

/-- Record one issued command. -/
def World.issue (w : World) (c : GLCall) : World :=
  { w with gl := w.gl.issue c }

/-- The subscript `xs[i]`; outside the bounds the run ends. -/
def lookup {α : Type} (xs : List α) (i : Nat) : Except Abort α :=
  match xs[i]? with
  | some x => .ok x
  | none => .error .outOfBounds

/-- The function `renderQuad`. -/
def renderQuad (w : World) : World :=
  let w :=
    if w.globals.quadVAO = 0 then
      let (quadVAO, gl) := w.gl.genVertexArray
      let (quadVBO, gl) := gl.genBuffer
      let w := { w with gl := gl, globals := { w.globals with quadVAO := quadVAO, quadVBO := quadVBO } }
      let w := w.issue (.glBindVertexArray quadVAO)
      let w := w.issue (.glBindBuffer .GL_ARRAY_BUFFER quadVBO)
      let w := w.issue (.glBufferData .GL_ARRAY_BUFFER 80 .GL_STATIC_DRAW)
      let w := w.issue (.glEnableVertexAttribArray 0)
      let w := w.issue (.glVertexAttribPointer 0 3 .GL_FLOAT false 20 0)
      let w := w.issue (.glEnableVertexAttribArray 1)
      w.issue (.glVertexAttribPointer 1 2 .GL_FLOAT false 20 12)
    else w
  let w := w.issue (.glBindVertexArray w.globals.quadVAO)
  let w := w.issue (.glDrawArrays .GL_TRIANGLE_STRIP 0 4)
  w.issue (.glBindVertexArray 0)

/-- The function `RenderCube`. -/
def RenderCube (w : World) : World :=
  let w :=
    if w.globals.RenderCube_cubeVAO = 0 then
      let (cubeVAO, gl) := w.gl.genVertexArray
      let (cubeVBO, gl) := gl.genBuffer
      let w := { w with
        gl := gl
        globals := { w.globals with RenderCube_cubeVAO := cubeVAO, RenderCube_cubeVBO := cubeVBO } }
      let w := w.issue (.glBindBuffer .GL_ARRAY_BUFFER cubeVBO)
      let w := w.issue (.glBufferData .GL_ARRAY_BUFFER 1152 .GL_STATIC_DRAW)
      let w := w.issue (.glBindVertexArray cubeVAO)
      let w := w.issue (.glEnableVertexAttribArray 0)
      let w := w.issue (.glVertexAttribPointer 0 3 .GL_FLOAT false 32 0)
      let w := w.issue (.glEnableVertexAttribArray 1)
      let w := w.issue (.glVertexAttribPointer 1 3 .GL_FLOAT false 32 12)
      let w := w.issue (.glEnableVertexAttribArray 2)
      let w := w.issue (.glVertexAttribPointer 2 2 .GL_FLOAT false 32 24)
      let w := w.issue (.glBindBuffer .GL_ARRAY_BUFFER 0)
      w.issue (.glBindVertexArray 0)
    else w
  let w := w.issue (.glBindVertexArray w.globals.RenderCube_cubeVAO)
  let w := w.issue (.glDrawArrays .GL_TRIANGLES 0 36)
  w.issue (.glBindVertexArray 0)

/-- The first pair of loops of `RenderSphere`: one vertex per pair `(h, v)`
with `h <= H` and `v <= V`, from which its position, texture coordinate and
normal are computed. -/
def sphereVertices (H V : Nat) : List (Nat × Nat) :=
  (List.range (H + 1)).flatMap fun h => (List.range (V + 1)).map fun v => (h, v)

/-- The indices `RenderSphere` generates for one row `h`. -/
def sphereRowIndices (V h : Nat) (oddRow : Bool) : List Nat :=
  if !oddRow then
    (List.range (V + 1)).flatMap fun v => [h * (V + 1) + v, (h + 1) * (V + 1) + v]
  else
    (List.range (V + 1)).reverse.flatMap fun v => [(h + 1) * (V + 1) + v, h * (V + 1) + v]

/-- The loop of `RenderSphere` over the rows, with its flag `oddRow`. -/
def sphereIndexRows (V : Nat) : List Nat → Bool → List Nat
  | [], _ => []
  | h :: rest, oddRow => sphereRowIndices V h oddRow ++ sphereIndexRows V rest (!oddRow)

/-- The vector `indices` of `RenderSphere`. -/
def sphereIndices (H V : Nat) : List Nat :=
  sphereIndexRows V (List.range H) false

/-- The size of the vector `data` of `RenderSphere`: per vertex three floats
of position, two of texture coordinate and three of normal. -/
def sphereDataSize (H V : Nat) : Nat :=
  let n := (sphereVertices H V).length
  n * (3 + (if n > 0 then 2 else 0) + (if n > 0 then 3 else 0))

/-- The function `RenderSphere`. -/
def RenderSphere (w : World) : World :=
  let w :=
    if w.globals.sphereVAO = 0 then
      let (sphereVAO, gl) := w.gl.genVertexArray
      let (vbo, gl) := gl.genBuffer
      let (ebo, gl) := gl.genBuffer
      let indexCount := (sphereIndices 32 16).length % 2 ^ 32
      let w := { w with
        gl := gl
        globals := { w.globals with sphereVAO := sphereVAO, indexCount := indexCount } }
      let w := w.issue (.glBindVertexArray sphereVAO)
      let w := w.issue (.glBindBuffer .GL_ARRAY_BUFFER vbo)
      let w := w.issue (.glBufferData .GL_ARRAY_BUFFER (sphereDataSize 32 16 * 4) .GL_STATIC_DRAW)
      let w := w.issue (.glBindBuffer .GL_ELEMENT_ARRAY_BUFFER ebo)
      let w := w.issue
        (.glBufferData .GL_ELEMENT_ARRAY_BUFFER ((sphereIndices 32 16).length * 4) .GL_STATIC_DRAW)
      let w := w.issue (.glEnableVertexAttribArray 0)
      let w := w.issue (.glVertexAttribPointer 0 3 .GL_FLOAT false 32 0)
      let w := w.issue (.glEnableVertexAttribArray 1)
      let w := w.issue (.glVertexAttribPointer 1 2 .GL_FLOAT false 32 12)
      let w := w.issue (.glEnableVertexAttribArray 2)
      w.issue (.glVertexAttribPointer 2 3 .GL_FLOAT false 32 20)
    else w
  let w := w.issue (.glBindVertexArray w.globals.sphereVAO)
  w.issue (.glDrawElements .GL_TRIANGLE_STRIP w.globals.indexCount .GL_UNSIGNED_INT 0)

/-- The function `RenderCubeMap`.  The class `Shader` is not among the
sources: a call of one of its methods is recorded as such. -/
def RenderCubeMap (glm : Glm) (w : World) : World :=
  let cShader := w.globals.cShader
  let sShader := w.globals.sShader
  let w := w.issue (.shaderUse cShader)
  let model := mat4_identity
  let view := w.app.camera.GetViewMatrix glm w.app.displaySize
  let projection := glm.perspective (glm.radians 0x42340000) (glm.div 0x44480000 0x44160000)
    0x3dcccccd 0x42c80000
  let w := w.issue (.shaderSetMat4 cShader "model" model)
  let w := w.issue (.shaderSetMat4 cShader "view" view)
  let w := w.issue (.shaderSetMat4 cShader "projection" projection)
  let w := w.issue (.shaderSetVec3 cShader "cameraPos" w.app.camera.cameraPos)
  let w := w.issue (.glBindVertexArray w.globals.cubeVAO)
  let w := w.issue (.glActiveTexture .GL_TEXTURE3)
  let w := w.issue (.glBindTexture .GL_TEXTURE_CUBE_MAP w.app.cubemapTexture)
  let w := w.issue (.glDrawArrays .GL_TRIANGLES 0 36)
  let w := w.issue (.glBindVertexArray 0)
  let w := w.issue (.glDepthFunc .GL_LEQUAL)
  let w := w.issue (.shaderUse sShader)
  let view := glm.mat3 (w.app.camera.GetViewMatrix glm w.app.displaySize)
  let w := w.issue (.shaderSetMat4 sShader "view" view)
  let w := w.issue (.shaderSetMat4 sShader "projection" projection)
  let w := w.issue (.glBindVertexArray w.globals.skyVAO)
  let w := w.issue (.glActiveTexture .GL_TEXTURE3)
  let w := w.issue (.glBindTexture .GL_TEXTURE_CUBE_MAP w.app.cubemapTexture)
  let w := w.issue (.glDrawArrays .GL_TRIANGLES 0 36)
  let w := w.issue (.glBindVertexArray 0)
  w.issue (.glDepthFunc .GL_LESS)

/-- The body of the loop over the submeshes of a mesh, the same in the
DEFERRED and the FORWARD branch up to the location passed to `glUniform1i`
(`app->programUniformTexture` in the one, `app->texturedMeshProgramIdx` in the
other). -/
def drawSubmesh (location : Int) (model : Model) (program : Program) (i : Nat) (w : World) :
    Except Abort World := do
  let mesh ← lookup w.app.meshes model.meshIdx
  let (vao, mesh, gl) ← FindVAO mesh i program w.gl
  let w := { w with app := { w.app with meshes := w.app.meshes.set model.meshIdx mesh }, gl := gl }
  let w := w.issue (.glBindVertexArray vao)
  let submeshMaterialIdx ← lookup model.materialIdx i
  let submeshMaterial ← lookup w.app.materials submeshMaterialIdx
  let w := w.issue (.glActiveTexture .GL_TEXTURE0)
  let texture ← lookup w.app.textures submeshMaterial.albedoTextureIdx
  let w := w.issue (.glBindTexture .GL_TEXTURE_2D texture.handle)
  let w := w.issue (.glUniform1i location 0)
  let submesh ← lookup mesh.submeshes i
  .ok (w.issue
    (.glDrawElements .GL_TRIANGLES submesh.indices.length .GL_UNSIGNED_INT submesh.indexOffset))

/-- The loop over the submeshes of a mesh, for the submesh indices listed. -/
def drawSubmeshes (location : Int) (model : Model) (program : Program) :
    List Nat → World → Except Abort World
  | [], w => .ok w
  | i :: rest, w => do
    let w ← drawSubmesh location model program i w
    drawSubmeshes location model program rest w

/-- The body of the loop over the entities (lines 526-551 in the DEFERRED
branch, lines 652-678 in the FORWARD branch), the same in both up to the
model matrix pushed first (`modelMatrix`) and the location passed to
`glUniform1i` (`location`). -/
def renderEntity (glm : Glm) (modelMatrix : Entity → mat4) (location : App → Int)
    (program : Program) (i : Nat) (w : World) : Except Abort World := do
  let entity ← lookup w.app.entities i
  let model ← lookup w.app.models entity.modelId
  let mesh ← lookup w.app.meshes model.meshIdx
  let cBuffer := AlignHead w.app.cBuffer w.app.uniformBlockAlignmentOffset.toNat
  let localParamsOffset := cBuffer.head
  let cBuffer ← PushMat4 cBuffer (modelMatrix entity)
  let cBuffer ← PushMat4 cBuffer (w.app.camera.GetViewMatrix glm w.app.displaySize)
  let localParamsSize := u32sub cBuffer.head localParamsOffset
  let entity := { entity with
    localParamsOffset := localParamsOffset, localParamsSize := localParamsSize }
  let w := { w with
    app := { w.app with cBuffer := cBuffer, entities := w.app.entities.set i entity } }
  let w := w.issue (.glBindBufferRange .GL_UNIFORM_BUFFER 0 w.app.cBuffer.handle
    w.app.globalParamsOffset w.app.globalParamsSize)
  let w := w.issue (.glBindBufferRange .GL_UNIFORM_BUFFER 1 w.app.cBuffer.handle
    entity.localParamsOffset entity.localParamsSize)
  drawSubmeshes (location w.app) model program (List.range mesh.submeshes.length) w

/-- The loop over the entities, for the entity indices listed. -/
def renderEntities (glm : Glm) (modelMatrix : Entity → mat4) (location : App → Int)
    (program : Program) : List Nat → World → Except Abort World
  | [], w => .ok w
  | i :: rest, w => do
    let w ← renderEntity glm modelMatrix location program i w
    renderEntities glm modelMatrix location program rest w

/-- The matrix the DEFERRED branch pushes first for an entity (line 531). -/
def deferredModelMatrix (entity : Entity) : mat4 :=
  entity.matrix

/-- The location the DEFERRED branch passes to `glUniform1i` (line 547). -/
def deferredLocation (app : App) : Int :=
  toGLint app.programUniformTexture

/-- The matrix the FORWARD branch pushes first for an entity (lines 658-659):
the entity matrix scaled by 2 and rotated by 70 degrees about the x axis. -/
def forwardModelMatrix (glm : Glm) (entity : Entity) : mat4 :=
  let angle : f32 := 0x428c0000
  glm.rotate (glm.scale entity.matrix ⟨0x40000000, 0x40000000, 0x40000000⟩)
    (glm.radians angle) ⟨0x3f800000, 0, 0⟩

/-- The location the FORWARD branch passes to `glUniform1i` (line 674). -/
def forwardLocation (app : App) : Int :=
  toGLint app.texturedMeshProgramIdx

/-- The body of the loop over the lights in the lighting pass of the DEFERRED
branch (lines 586-591); `sizeof(glm::vec4)` is 16. -/
def pushLightDeferred (buffer : Buffer) (light : Light) : Except Abort Buffer := do
  let buffer := AlignHead buffer 16
  let buffer ← PushUInt buffer light.type.toNat
  let buffer ← PushVec3 buffer light.color
  let buffer ← PushVec3 buffer light.direction
  let buffer ← PushVec3 buffer light.position
  PushFloat buffer light.intensity

/-- The loop over the lights in the lighting pass of the DEFERRED branch. -/
def pushLightsDeferred : List Light → Buffer → Except Abort Buffer
  | [], buffer => .ok buffer
  | light :: rest, buffer => do
    let buffer ← pushLightDeferred buffer light
    pushLightsDeferred rest buffer

/-- The body of the loop over the lights in the FORWARD branch (lines
642-647), which ends by assigning `app->globalParamsSize`. -/
def pushLightForward (app : App) (light : Light) : Except Abort App := do
  let buffer := AlignHead app.cBuffer 16
  let buffer ← PushUInt buffer light.type.toNat
  let buffer ← PushVec3 buffer light.color
  let buffer ← PushVec3 buffer light.direction
  .ok { app with
    cBuffer := buffer
    globalParamsSize := u32sub buffer.head app.globalParamsOffset }

/-- The loop over the lights in the FORWARD branch. -/
def pushLightsForward : List Light → App → Except Abort App
  | [], app => .ok app
  | light :: rest, app => do
    let app ← pushLightForward app light
    pushLightsForward rest app

/-- The body of the loop over the lights that draws the gizmos (lines
612-621). -/
def drawGizmo (glm : Glm) (light : Light) (w : World) : World :=
  let mat := glm.translate mat4_identity light.position
  let w := w.issue (.glUniformMatrix4fv (toGLint w.app.drawLightsProgramIdx_uModel) 1 false mat)
  let w := w.issue (.glUniform3fv (toGLint w.app.drawLightsProgramIdx_uLightColor) 1 light.color)
  if light.type.toNat = 0 then RenderCube w else RenderSphere w

/-- The loop over the lights that draws the gizmos. -/
def drawGizmos (glm : Glm) : List Light → World → World
  | [], w => w
  | light :: rest, w => drawGizmos glm rest (drawGizmo glm light w)

/-- The block `if (app->showGizmo)` that ends the DEFERRED branch (lines
605-624). -/
def deferredGizmos (glm : Glm) (w : World) : Except Abort World := do
  if w.app.showGizmo then
    let program ← lookup w.app.programs w.app.drawLightsProgramIdx
    let w := w.issue (.glUseProgram program.handle)
    let w := w.issue (.glUniformMatrix4fv (toGLint w.app.drawLightsProgramIdx_uViewProjection) 1
      false (w.app.camera.GetViewMatrix glm w.app.displaySize))
    .ok (drawGizmos glm w.app.lights w)
  else
    .ok w

/-- The DEFERRED branch from its start to the loop over the entities (lines
494-523): the first global block and the three fixed textures. -/
def deferredGlobals (glm : Glm) (drv : Driver) (program : Program) (w : World) :
    Except Abort World := do
  let w := w.issue (.glUseProgram program.handle)
  let cBuffer := MapBuffer w.app.cBuffer (drv.glMapBuffer w.app.cBuffer.handle)
  let globalParamsOffset := cBuffer.head
  let cBuffer ← PushVec3 cBuffer w.app.camera.cameraPos
  let cBuffer ← PushUInt cBuffer w.app.lights.length
  let w := { w with app := { w.app with
    cBuffer := cBuffer
    globalParamsOffset := globalParamsOffset
    globalParamsSize := u32sub cBuffer.head globalParamsOffset } }
  let w := w.issue (.glActiveTexture .GL_TEXTURE0)
  let texture ← lookup w.app.textures w.app.toyDiffuseTexIdx
  let w := w.issue (.glBindTexture .GL_TEXTURE_2D texture.handle)
  let w := w.issue (.glUniform1i (toGLint w.app.texturedMeshProgramIdx_Deferred) 0)
  let w := w.issue (.glActiveTexture .GL_TEXTURE1)
  let texture ← lookup w.app.textures w.app.toyNormalTexIdx
  let w := w.issue (.glBindTexture .GL_TEXTURE_2D texture.handle)
  let w := w.issue (.glUniform1i (toGLint w.app.texturedMeshProgramIdx_RelieveNormal) 1)
  let w := w.issue (.glActiveTexture .GL_TEXTURE2)
  let texture ← lookup w.app.textures w.app.toyHeightTexIdx
  let w := w.issue (.glBindTexture .GL_TEXTURE_2D texture.handle)
  let w := w.issue (.glUniform1i (toGLint w.app.texturedMeshProgramIdx_RelieveHeight) 2)
  let w := if w.app.showCubeMap then RenderCubeMap glm w else w
  .ok (w.issue (.glUniform1i (drv.glGetUniformLocation program.handle "uShowRelief")
    (if w.app.showRelief then 1 else 0)))

/-- The lighting pass of the DEFERRED branch up to the binding of its global
block (lines 554-595); the buffer is still mapped when it ends. -/
def deferredLighting (w : World) : Except Abort World := do
  let w := w.issue (.glBindFramebuffer .GL_FRAMEBUFFER 0)
  let w := w.issue (.glClear [.GL_COLOR_BUFFER_BIT, .GL_DEPTH_BUFFER_BIT])
  let lightsProgram ← lookup w.app.programs w.app.lightsProgramIdx
  let w := w.issue (.glUseProgram lightsProgram.handle)
  let w := w.issue (.glUniform1i (toGLint w.app.texturedMeshProgramIdx_uPosition) 0)
  let w := w.issue (.glActiveTexture .GL_TEXTURE0)
  let w := w.issue (.glBindTexture .GL_TEXTURE_2D w.app.positionController)
  let w := w.issue (.glUniform1i (toGLint w.app.texturedMeshProgramIdx_uNormals) 1)
  let w := w.issue (.glActiveTexture .GL_TEXTURE1)
  let w := w.issue (.glBindTexture .GL_TEXTURE_2D w.app.normalsController)
  let w := w.issue (.glUniform1i (toGLint w.app.texturedMeshProgramIdx_uAlbedo) 2)
  let w := w.issue (.glActiveTexture .GL_TEXTURE2)
  let w := w.issue (.glBindTexture .GL_TEXTURE_2D w.app.albedoController)
  let cBuffer := AlignHead w.app.cBuffer w.app.uniformBlockAlignmentOffset.toNat
  let globalParamsOffset := cBuffer.head
  let cBuffer ← PushVec3 cBuffer w.app.camera.cameraPos
  let cBuffer ← PushUInt cBuffer w.app.lights.length
  let cBuffer ← pushLightsDeferred w.app.lights cBuffer
  let w := { w with app := { w.app with
    cBuffer := cBuffer
    globalParamsOffset := globalParamsOffset
    globalParamsSize := u32sub cBuffer.head globalParamsOffset } }
  .ok (w.issue (.glBindBufferRange .GL_UNIFORM_BUFFER 0 w.app.cBuffer.handle
    w.app.globalParamsOffset w.app.globalParamsSize))

/-- The DEFERRED branch from `UnmapBuffer` to the depth blit (lines 596-603). -/
def deferredQuadAndBlit (w : World) : World :=
  let w := { w with app := { w.app with cBuffer := UnmapBuffer w.app.cBuffer } }
  let w := renderQuad w
  let w := w.issue (.glBindFramebuffer .GL_READ_FRAMEBUFFER w.app.frameBufferController)
  let w := w.issue (.glBindFramebuffer .GL_DRAW_FRAMEBUFFER 0)
  let w := w.issue (.glBlitFramebuffer 0 0 w.app.displaySize.x w.app.displaySize.y
    0 0 w.app.displaySize.x w.app.displaySize.y [.GL_DEPTH_BUFFER_BIT] .GL_NEAREST)
  w.issue (.glBindFramebuffer .GL_FRAMEBUFFER 0)

/-- The DEFERRED branch of `Render` (lines 491-627). -/
def RenderDeferred (glm : Glm) (drv : Driver) (w : World) : Except Abort World := do
  let texturedMeshProgram ← lookup w.app.programs w.app.texturedMeshProgramIdx
  let w ← deferredGlobals glm drv texturedMeshProgram w
  let w ← renderEntities glm deferredModelMatrix deferredLocation texturedMeshProgram
    (List.range w.app.entities.length) w
  let w ← deferredLighting w
  deferredGizmos glm (deferredQuadAndBlit w)

/-- The DEFERRED branch up to the binding of the global block of the lighting
pass (lines 491-595): the first four statements of `RenderDeferred`.  The
uniform buffer is still mapped in the state it returns. -/
def deferredPasses (glm : Glm) (drv : Driver) (w : World) : Except Abort World := do
  let texturedMeshProgram ← lookup w.app.programs w.app.texturedMeshProgramIdx
  let w ← deferredGlobals glm drv texturedMeshProgram w
  let w ← renderEntities glm deferredModelMatrix deferredLocation texturedMeshProgram
    (List.range w.app.entities.length) w
  deferredLighting w

/-- The FORWARD branch from its start to the loop over the entities (lines
631-648): the global block. -/
def forwardGlobals (drv : Driver) (program : Program) (w : World) : Except Abort World := do
  let w := w.issue (.glUseProgram program.handle)
  let cBuffer := MapBuffer w.app.cBuffer (drv.glMapBuffer w.app.cBuffer.handle)
  let globalParamsOffset := cBuffer.head
  let cBuffer ← PushVec3 cBuffer w.app.camera.cameraPos
  let cBuffer ← PushUInt cBuffer w.app.lights.length
  let app ← pushLightsForward w.app.lights
    { w.app with cBuffer := cBuffer, globalParamsOffset := globalParamsOffset }
  .ok { w with app := app }

/-- The end of the FORWARD branch, from `UnmapBuffer` on (lines 680-684). -/
def forwardBlit (w : World) : World :=
  let w := { w with app := { w.app with cBuffer := UnmapBuffer w.app.cBuffer } }
  let w := w.issue (.glBindBuffer .GL_READ_FRAMEBUFFER w.app.frameBufferController)
  let w := w.issue (.glBindBuffer .GL_DRAW_FRAMEBUFFER 0)
  let w := w.issue (.glBlitFramebuffer 0 0 w.app.displaySize.x w.app.displaySize.y
    0 0 w.app.displaySize.x w.app.displaySize.y [.GL_COLOR_BUFFER_BIT] .GL_LINEAR)
  w.issue (.glBindFramebuffer .GL_READ_FRAMEBUFFER 0)

/-- The FORWARD branch of `Render` (lines 629-686). -/
def RenderForward (glm : Glm) (drv : Driver) (w : World) : Except Abort World := do
  let texturedMeshProgram ← lookup w.app.programs w.app.texturedMeshProgramIdx
  let w ← forwardGlobals drv texturedMeshProgram w
  let w ← renderEntities glm (forwardModelMatrix glm) forwardLocation texturedMeshProgram
    (List.range w.app.entities.length) w
  .ok (forwardBlit w)

/-- The TEXTUREDQUAD branch of `Render` (lines 468-489). -/
def RenderTexturedQuad (w : World) : Except Abort World := do
  let w := w.issue (.glUniform1i (toGLint w.app.programUniformTexture) 0)
  let w := w.issue (.glActiveTexture .GL_TEXTURE0)
  let texture ← lookup w.app.textures w.app.diceTexIdx
  let w := w.issue (.glBindTexture .GL_TEXTURE_2D texture.handle)
  let programTexturedGeometry ← lookup w.app.programs w.app.texturedGeometryProgramIdx
  let w := w.issue (.glUseProgram programTexturedGeometry.handle)
  let w := w.issue (.glBindVertexArray w.app.vao)
  let w := w.issue (.glDrawElements .GL_TRIANGLES 6 .GL_UNSIGNED_SHORT 0)
  let w := w.issue (.glBindVertexArray 0)
  .ok (w.issue (.glUseProgram 0))

/-- The statements of `Render` before its `switch` (lines 452-465). -/
def renderPrologue (w : World) : World :=
  let w := w.issue (.glBindFramebuffer .GL_FRAMEBUFFER w.app.frameBufferController)
  let w := w.issue (.glDrawBuffers
    [.GL_COLOR_ATTACHMENT0, .GL_COLOR_ATTACHMENT1, .GL_COLOR_ATTACHMENT2, .GL_COLOR_ATTACHMENT3])
  let w := w.issue (.glClearColor 0x3e4ccccd 0x3e4ccccd 0x3e4ccccd 0x3f800000)
  let w := w.issue (.glClear [.GL_COLOR_BUFFER_BIT, .GL_DEPTH_BUFFER_BIT])
  let w := w.issue (.glViewport 0 0 w.app.displaySize.x w.app.displaySize.y)
  let w := w.issue (.glEnable .GL_BLEND)
  let w := w.issue (.glBlendFunc .GL_SRC_ALPHA .GL_ONE_MINUS_SRC_ALPHA)
  w.issue (.glEnable .GL_DEPTH_TEST)

/-- The function `Render`. -/
def Render (glm : Glm) (drv : Driver) (w : World) : Except Abort World :=
  let w := renderPrologue w
  match w.app.mode with
  | .TEXTUREDQUAD => RenderTexturedQuad w
  | .DEFERRED => RenderDeferred glm drv w
  | .FORWARD => RenderForward glm drv w

/-! ## Initialisation (`engine.cpp`, lines 25-116, 238-253, 694-862, 972-1137) -/

/-- The value `glCheckFramebufferStatus` returns, a `GLenum`: an unsigned
32-bit number. -/
structure FramebufferStatus where
  value : Nat
  inRange : value < 2 ^ 32
  deriving DecidableEq, Repr

/-- The constant `GL_FRAMEBUFFER_COMPLETE` of the OpenGL headers, `0x8CD5`. -/
def FramebufferStatus.GL_FRAMEBUFFER_COMPLETE : FramebufferStatus := ⟨0x8CD5, by decide⟩

/-- The constant `GL_FRAMEBUFFER_UNDEFINED` of the OpenGL headers, `0x8219`. -/
def FramebufferStatus.GL_FRAMEBUFFER_UNDEFINED : FramebufferStatus := ⟨0x8219, by decide⟩

/-- The constant `GL_FRAMEBUFFER_INCOMPLETE_ATTACHMENT` of the OpenGL headers,
`0x8CD6`. -/
def FramebufferStatus.GL_FRAMEBUFFER_INCOMPLETE_ATTACHMENT : FramebufferStatus :=
  ⟨0x8CD6, by decide⟩

/-- The constant `GL_FRAMEBUFFER_INCOMPLETE_MISSING_ATTACHMENT` of the OpenGL
headers, `0x8CD7`. -/
def FramebufferStatus.GL_FRAMEBUFFER_INCOMPLETE_MISSING_ATTACHMENT : FramebufferStatus :=
  ⟨0x8CD7, by decide⟩

/-- The constant `GL_FRAMEBUFFER_INCOMPLETE_DRAW_BUFFER` of the OpenGL headers,
`0x8CDB`. -/
def FramebufferStatus.GL_FRAMEBUFFER_INCOMPLETE_DRAW_BUFFER : FramebufferStatus :=
  ⟨0x8CDB, by decide⟩

/-- The constant `GL_FRAMEBUFFER_INCOMPLETE_READ_BUFFER` of the OpenGL headers,
`0x8CDC`. -/
def FramebufferStatus.GL_FRAMEBUFFER_INCOMPLETE_READ_BUFFER : FramebufferStatus :=
  ⟨0x8CDC, by decide⟩

/-- The constant `GL_FRAMEBUFFER_UNSUPPORTED` of the OpenGL headers, `0x8CDD`. -/
def FramebufferStatus.GL_FRAMEBUFFER_UNSUPPORTED : FramebufferStatus := ⟨0x8CDD, by decide⟩

/-- The constant `GL_FRAMEBUFFER_INCOMPLETE_MULTISAMPLE` of the OpenGL headers,
`0x8D56`. -/
def FramebufferStatus.GL_FRAMEBUFFER_INCOMPLETE_MULTISAMPLE : FramebufferStatus :=
  ⟨0x8D56, by decide⟩

/-- The constant `GL_FRAMEBUFFER_INCOMPLETE_LAYER_TARGETS` of the OpenGL
headers, `0x8DA8`. -/
def FramebufferStatus.GL_FRAMEBUFFER_INCOMPLETE_LAYER_TARGETS : FramebufferStatus :=
  ⟨0x8DA8, by decide⟩

/-- What `LoadModel` (of `assimp_model_loading.h`, not among the sources) can
change in the application state. -/
structure Assets where
  textures : List Texture
  materials : List Material
  meshes : List Mesh
  models : List Model

/-- The platform and the driver as `Init` sees them: the answers to its
queries and the functions of the headers that are not among the sources. -/
structure Platform where
  driver : Driver
  stbi_load : String → StbiResult
  ReadTextFile : String → String
  GetFileLastWriteTimestamp : String → Nat
  LoadModel : Assets → GLState → String → Nat × Assets × GLState
  /-- The identity of the object `Shader(vertexPath, fragmentPath)` builds. -/
  newShader : String → String → Nat
  /-- The value of `GL_COMPILE_STATUS` for a shader of a type and its source strings. -/
  compileStatus : GLenum → List String → Bool
  shaderInfoLog : GLenum → List String → String
  /-- The value of `GL_LINK_STATUS` for the vertex and fragment source strings. -/
  linkStatus : List String → List String → Bool
  programInfoLog : List String → List String → String
  glVersion : String
  glRenderer : String
  glVendor : String
  glShadingLanguageVersion : String
  glExtensions : List String
  uniformBufferOffsetAlignment : Int
  maxUniformBlockSize : Int
  framebufferStatus : FramebufferStatus

/-- The line `ELOG` writes. -/
def World.elog (w : World) (line : String) : World :=
  { w with log := w.log ++ [line] }

/-- The call `glCreateShader` or `glCreateProgram`: returns the fresh name. -/
def GLState.createObject (gl : GLState) (c : Nat → GLCall) : Nat × GLState :=
  let name := gl.objects + 1
  (name, { gl with objects := name, calls := gl.calls ++ [c name] })

/-- The function `CreateProgramFromSource`. -/
def CreateProgramFromSource (env : Platform) (programSource : String) (shaderName : String)
    (w : World) : Nat × World :=
  let versionString := "#version 430\n"
  let shaderNameDefine := "#define " ++ shaderName ++ "\n"
  let vertexShaderDefine := "#define VERTEX\n"
  let fragmentShaderDefine := "#define FRAGMENT\n"
  let vertexShaderSource := [versionString, shaderNameDefine, vertexShaderDefine, programSource]
  let fragmentShaderSource :=
    [versionString, shaderNameDefine, fragmentShaderDefine, programSource]
  let (vshader, gl) := w.gl.createObject (.glCreateShader .GL_VERTEX_SHADER)
  let w := { w with gl := gl }
  let w := w.issue (.glShaderSource vshader vertexShaderSource)
  let w := w.issue (.glCompileShader vshader)
  let w :=
    if !env.compileStatus .GL_VERTEX_SHADER vertexShaderSource then
      w.elog ("glCompileShader() failed with vertex shader " ++ shaderName ++
        "\nReported message:\n" ++ env.shaderInfoLog .GL_VERTEX_SHADER vertexShaderSource ++ "\n")
    else w
  let (fshader, gl) := w.gl.createObject (.glCreateShader .GL_FRAGMENT_SHADER)
  let w := { w with gl := gl }
  let w := w.issue (.glShaderSource fshader fragmentShaderSource)
  let w := w.issue (.glCompileShader fshader)
  let w :=
    if !env.compileStatus .GL_FRAGMENT_SHADER fragmentShaderSource then
      w.elog ("glCompileShader() failed with fragment shader " ++ shaderName ++
        "\nReported message:\n" ++ env.shaderInfoLog .GL_FRAGMENT_SHADER fragmentShaderSource ++
        "\n")
    else w
  let (programHandle, gl) := w.gl.createObject .glCreateProgram
  let w := { w with gl := gl }
  let w := w.issue (.glAttachShader programHandle vshader)
  let w := w.issue (.glAttachShader programHandle fshader)
  let w := w.issue (.glLinkProgram programHandle)
  let w :=
    if !env.linkStatus vertexShaderSource fragmentShaderSource then
      w.elog ("glLinkProgram() failed with program " ++ shaderName ++ "\nReported message:\n" ++
        env.programInfoLog vertexShaderSource fragmentShaderSource ++ "\n")
    else w
  let w := w.issue (.glUseProgram 0)
  let w := w.issue (.glDetachShader programHandle vshader)
  let w := w.issue (.glDetachShader programHandle fshader)
  let w := w.issue (.glDeleteShader vshader)
  let w := w.issue (.glDeleteShader fshader)
  (programHandle, w)

/-- The array `vertexShaderSource` of `CreateProgramFromSource` (lines 38-43). -/
def vertexShaderSource (programSource shaderName : String) : List String :=
  ["#version 430\n", "#define " ++ shaderName ++ "\n", "#define VERTEX\n", programSource]

/-- The array `fragmentShaderSource` of `CreateProgramFromSource` (lines 50-55). -/
def fragmentShaderSource (programSource shaderName : String) : List String :=
  ["#version 430\n", "#define " ++ shaderName ++ "\n", "#define FRAGMENT\n", programSource]

/-- The function `LoadProgram`. -/
def LoadProgram (env : Platform) (filepath programName : String) (w : World) : Nat × World :=
  let programSource := env.ReadTextFile filepath
  let (handle, w) := CreateProgramFromSource env programSource programName w
  let program : Program :=
    { handle := handle
      filepath := filepath
      programName := programName
      lastWriteTimestamp := env.GetFileLastWriteTimestamp filepath
      vertexInputLayout := { attributes := [] } }
  let w := { w with app := { w.app with programs := w.app.programs ++ [program] } }
  ((w.app.programs.length - 1) % 2 ^ 32, w)

/-- The statements `LoadTexture2D(app, path)` of `InitModes`. -/
def World.loadTexture2D (env : Platform) (w : World) (filepath : String) : Nat × World :=
  let r := LoadTexture2D env.stbi_load w.app w.gl filepath
  (r.1, { w with app := r.2.1, gl := r.2.2 })

/-- The statements `program.vertexInputLayout.attributes.push_back(...)` of
`InitModes`, on the program at index `idx`. -/
def pushAttributes (w : World) (idx : Nat) (attrs : List VertexShaderAttribute) :
    Except Abort World := do
  let program ← lookup w.app.programs idx
  let program := { program with
    vertexInputLayout := { attributes := program.vertexInputLayout.attributes ++ attrs } }
  .ok { w with app := { w.app with programs := w.app.programs.set idx program } }

/-- The loop of `loadCubeMap` over the faces, from face `i` on.  The line it
writes to `std::cout` for a face that does not load is kept in the log. -/
def loadCubeFaces (env : Platform) : List String → Nat → World → World
  | [], _, w => w
  | face :: rest, i, w =>
    let r := env.stbi_load face
    let w :=
      if r.pixels ≠ 0 then
        w.issue (.glTexImage2DFace i 0 .GL_RGB r.x r.y 0 .GL_RGB .GL_UNSIGNED_BYTE r.pixels)
      else
        w.elog ("Cubemap texture failed to load at path: " ++ face)
    loadCubeFaces env rest (i + 1) w

/-- The function `loadCubeMap`. -/
def loadCubeMap (env : Platform) (faces : List String) (w : World) : Nat × World :=
  let (textureID, gl) := w.gl.genTexture
  let w := { w with gl := gl }
  let w := w.issue (.glBindTexture .GL_TEXTURE_CUBE_MAP textureID)
  let w := loadCubeFaces env faces 0 w
  let w := w.issue (.glTexParameteri .GL_TEXTURE_CUBE_MAP .GL_TEXTURE_MAG_FILTER .GL_LINEAR)
  let w := w.issue (.glTexParameteri .GL_TEXTURE_CUBE_MAP .GL_TEXTURE_MIN_FILTER .GL_LINEAR)
  let w := w.issue (.glTexParameteri .GL_TEXTURE_CUBE_MAP .GL_TEXTURE_WRAP_S .GL_CLAMP_TO_EDGE)
  let w := w.issue (.glTexParameteri .GL_TEXTURE_CUBE_MAP .GL_TEXTURE_WRAP_T .GL_CLAMP_TO_EDGE)
  let w := w.issue (.glTexParameteri .GL_TEXTURE_CUBE_MAP .GL_TEXTURE_WRAP_R .GL_CLAMP_TO_EDGE)
  (textureID, w)

/-- The function `InitGPUInfo`. -/
def InitGPUInfo (env : Platform) (w : World) : World :=
  let app := { w.app with
    version := env.glVersion
    renderer := env.glRenderer
    vendor := env.glVendor
    shadingLanguageVersion := env.glShadingLanguageVersion }
  let app := env.glExtensions.foldl (fun app e => { app with extensions := e }) app
  { w with app := app }

/-- Modelled from the spec: `CreateBuffer`, of `buffer_management.h`, whose
body is missing: "a fixed-capacity GPU-visible buffer" of the size asked for,
not mapped, with `head` at 0 and a fresh buffer name. -/
def CreateBuffer (size : Nat) (type usage : GLenum) (gl : GLState) : Buffer × GLState :=
  let (handle, gl) := gl.genBuffer
  let gl := gl.issue (.glBindBuffer type handle)
  let gl := gl.issue (.glBufferData type size usage)
  let gl := gl.issue (.glBindBuffer type 0)
  ({ handle := handle, type := type, size := size, head := 0, data := none }, gl)

/-- The statements of `InitModes` before its `switch` (lines 726-734). -/
def initModesSetup (env : Platform) (w : World) : World :=
  let w := { w with app := { w.app with
    uniformBlockAlignmentOffset := env.uniformBufferOffsetAlignment } }
  let maxBufferSize := env.maxUniformBlockSize
  let (cBuffer, gl) := CreateBuffer (toGLuint maxBufferSize) .GL_UNIFORM_BUFFER .GL_STREAM_DRAW w.gl
  let w := { w with app := { w.app with cBuffer := cBuffer }, gl := gl }
  let (idx, w) := w.loadTexture2D env "Cube/toy_box_normal.png"
  let w := { w with app := { w.app with toyNormalTexIdx := idx } }
  let (idx, w) := w.loadTexture2D env "Cube/toy_box_disp.png"
  let w := { w with app := { w.app with toyHeightTexIdx := idx } }
  let (idx, w) := w.loadTexture2D env "Cube/toy_box_diffuse.png"
  let w := { w with app := { w.app with toyDiffuseTexIdx := idx } }
  { w with app := { w.app with mode := .DEFERRED } }

/-- The program `SHOW_TEXTURED_MESH` of the case `Mode::DEFERRED` of
`InitModes` (lines 741-746). -/
def loadTexturedMeshProgram (env : Platform) (w : World) : Except Abort World := do
  let (idx, w) := LoadProgram env "shaders.glsl" "SHOW_TEXTURED_MESH" w
  let w := { w with app := { w.app with texturedMeshProgramForward := idx } }
  let texturedMeshProgram2 ← lookup w.app.programs w.app.texturedMeshProgramIdx
  let uTexture := env.driver.glGetUniformLocation texturedMeshProgram2.handle "uTexture"
  let w := { w with app := { w.app with texturedMeshProgramForward := toGLuint uTexture } }
  pushAttributes w w.app.texturedMeshProgramIdx [⟨0, 3⟩, ⟨1, 3⟩, ⟨2, 2⟩]

/-- The program `SHOW_GEOMETRY` of the case `Mode::DEFERRED` of `InitModes`
(lines 748-757). -/
def loadGeometryProgram (env : Platform) (w : World) : Except Abort World := do
  let (idx, w) := LoadProgram env "shaders.glsl" "SHOW_GEOMETRY" w
  let w := { w with app := { w.app with texturedMeshProgramIdx := idx } }
  let texturedMeshProgram ← lookup w.app.programs w.app.texturedMeshProgramIdx
  let loc := fun name => toGLuint (env.driver.glGetUniformLocation texturedMeshProgram.handle name)
  let w := { w with app := { w.app with
    texturedMeshProgramIdx_Deferred := loc "uAlbedoTexture"
    texturedMeshProgramIdx_RelieveNormal := loc "uNormalTexture"
    texturedMeshProgramIdx_RelieveHeight := loc "uBumpTexture" } }
  pushAttributes w w.app.texturedMeshProgramIdx
    [⟨0, 3⟩, ⟨1, 3⟩, ⟨2, 2⟩, ⟨3, 3⟩, ⟨4, 3⟩]

/-- The program `SHOW_LIGHT` of the case `Mode::DEFERRED` of `InitModes`
(lines 759-765). -/
def loadLightsProgram (env : Platform) (w : World) : Except Abort World := do
  let (idx, w) := LoadProgram env "shaders.glsl" "SHOW_LIGHT" w
  let w := { w with app := { w.app with lightsProgramIdx := idx } }
  let light ← lookup w.app.programs w.app.lightsProgramIdx
  let loc := fun name => toGLuint (env.driver.glGetUniformLocation light.handle name)
  let w := { w with app := { w.app with
    texturedMeshProgramIdx_uPosition := loc "uPositionTexture"
    texturedMeshProgramIdx_uNormals := loc "uNormalsTexture"
    texturedMeshProgramIdx_uAlbedo := loc "uAlbedoTexture" } }
  pushAttributes w w.app.lightsProgramIdx [⟨0, 3⟩, ⟨1, 2⟩]

/-- The program `DRAW_LIGHT` of the case `Mode::DEFERRED` of `InitModes`
(lines 767-772). -/
def loadDrawLightsProgram (env : Platform) (w : World) : Except Abort World := do
  let (idx, w) := LoadProgram env "shaders.glsl" "DRAW_LIGHT" w
  let w := { w with app := { w.app with drawLightsProgramIdx := idx } }
  let texturedSphereLightProgram ← lookup w.app.programs w.app.drawLightsProgramIdx
  let loc := fun name =>
    toGLuint (env.driver.glGetUniformLocation texturedSphereLightProgram.handle name)
  let w := { w with app := { w.app with
    drawLightsProgramIdx_uLightColor := loc "lightColor"
    drawLightsProgramIdx_uViewProjection := loc "projectionView"
    drawLightsProgramIdx_uModel := loc "model" } }
  pushAttributes w w.app.drawLightsProgramIdx [⟨0, 3⟩]

/-- The case `Mode::DEFERRED` of the `switch` of `InitModes` (lines 739-774). -/
def loadDeferredPrograms (env : Platform) (w : World) : Except Abort World := do
  let w ← loadTexturedMeshProgram env w
  let w ← loadGeometryProgram env w
  let w ← loadLightsProgram env w
  loadDrawLightsProgram env w

/-- The statements of `InitModes` after its `switch` (lines 777-781). -/
def initModesCubeMap (glm : Glm) (env : Platform) (w : World) : World :=
  let (cubemapTexture, w) := loadCubeMap env w.app.cubeFaces w
  let w := { w with app := { w.app with cubemapTexture := cubemapTexture } }
  let w := w.issue (.glUseProgram w.app.cubeProgramIdx)
  let w := w.issue (.glUniform1i (toGLint w.app.cubeProgramIdx) (if w.app.showCubeMap then 1 else 0))
  RenderCubeMap glm w

/-- The function `InitModes`. -/
def InitModes (glm : Glm) (env : Platform) (w : World) : Except Abort World := do
  let w := initModesSetup env w
  let w ←
    match w.app.mode with
    | .DEFERRED => loadDeferredPrograms env w
    | _ => .ok w
  .ok (initModesCubeMap glm env w)

/-- The statements of `InitCubeMap` before its list of faces (lines 1008-1123):
the two shaders and the two vertex arrays. -/
def initCubeMapArrays (env : Platform) (w : World) : World :=
  let cube := env.newShader "Shaders/cubemaps.vs" "Shaders/cubemaps.frs"
  let w := w.issue (.shaderNew "Shaders/cubemaps.vs" "Shaders/cubemaps.frs" cube)
  let sky := env.newShader "Shaders/skybox.vs" "Shaders/skybox.frs"
  let w := w.issue (.shaderNew "Shaders/skybox.vs" "Shaders/skybox.frs" sky)
  let w := { w with globals := { w.globals with cShader := cube, sShader := sky } }
  let (cubeVAO, gl) := w.gl.genVertexArray
  let (cubeVBO, gl) := gl.genBuffer
  let w := { w with gl := gl, globals := { w.globals with cubeVAO := cubeVAO } }
  let w := w.issue (.glBindVertexArray cubeVAO)
  let w := w.issue (.glBindBuffer .GL_ARRAY_BUFFER cubeVBO)
  let w := w.issue (.glBufferData .GL_ARRAY_BUFFER 864 .GL_STATIC_DRAW)
  let w := w.issue (.glEnableVertexAttribArray 0)
  let w := w.issue (.glVertexAttribPointer 0 3 .GL_FLOAT false 24 0)
  let w := w.issue (.glEnableVertexAttribArray 1)
  let w := w.issue (.glVertexAttribPointer 1 3 .GL_FLOAT false 24 12)
  let (skyVAO, gl) := w.gl.genVertexArray
  let (skyVBO, gl) := gl.genBuffer
  let w := { w with gl := gl, globals := { w.globals with skyVAO := skyVAO } }
  let w := w.issue (.glBindVertexArray skyVAO)
  let w := w.issue (.glBindBuffer .GL_ARRAY_BUFFER skyVBO)
  let w := w.issue (.glBufferData .GL_ARRAY_BUFFER 432 .GL_STATIC_DRAW)
  let w := w.issue (.glEnableVertexAttribArray 0)
  w.issue (.glVertexAttribPointer 0 3 .GL_FLOAT false 12 0)

/-- The function `InitCubeMap`. -/
def InitCubeMap (env : Platform) (w : World) : World :=
  let w := initCubeMapArrays env w
  let cubeFaces := ["top.jpg", "bottom.jpg", "left.jpg", "right.jpg", "front.jpg", "back.jpg"]
  let (cubemapTexture, w) := loadCubeMap env cubeFaces w
  let w := { w with app := { w.app with cubemapTexture := cubemapTexture } }
  let w := w.issue (.shaderUse w.globals.cShader)
  let w := w.issue (.shaderSetInt w.globals.cShader "skybox" 0)
  let w := w.issue (.shaderUse w.globals.sShader)
  w.issue (.shaderSetInt w.globals.sShader "skybox" 0)

/-- The statements of `InitBuffers` that allocate one image (for instance
lines 786-794): `glGenTextures` writes the fresh name into a field of `app`,
which `store` sets; internal format, format and type are those of its
`glTexImage2D`; the size is `app->displaySize`. -/
def allocImage (store : App → Nat → App) (internalFormat format type : GLenum) (w : World) :
    World :=
  let (name, gl) := w.gl.genTexture
  let w := { w with app := store w.app name, gl := gl }
  let w := w.issue (.glBindTexture .GL_TEXTURE_2D name)
  let w := w.issue (.glTexImage2D .GL_TEXTURE_2D 0 internalFormat w.app.displaySize.x
    w.app.displaySize.y 0 format type 0)
  let w := w.issue (.glTexParameteri .GL_TEXTURE_2D .GL_TEXTURE_MIN_FILTER .GL_NEAREST)
  let w := w.issue (.glTexParameteri .GL_TEXTURE_2D .GL_TEXTURE_MAG_FILTER .GL_NEAREST)
  let w := w.issue (.glTexParameteri .GL_TEXTURE_2D .GL_TEXTURE_WRAP_R .GL_CLAMP_TO_EDGE)
  let w := w.issue (.glTexParameteri .GL_TEXTURE_2D .GL_TEXTURE_WRAP_S .GL_CLAMP_TO_EDGE)
  let w := w.issue (.glTexParameteri .GL_TEXTURE_2D .GL_TEXTURE_WRAP_T .GL_CLAMP_TO_EDGE)
  w.issue (.glBindTexture .GL_TEXTURE_2D 0)

/-- The line the `switch` of `InitBuffers` (lines 846-857) passes to `ELOG`:
the name of the status for the eight values with a `case`, and for any other
value the `default` line, in which `%i` prints the 32 bits of the status as a
signed number. -/
def framebufferStatusLine (framebufferStatus : FramebufferStatus) : String :=
  if framebufferStatus = .GL_FRAMEBUFFER_UNDEFINED then "GL_FRAMEBUFFER_UNDEFINED"
  else if framebufferStatus = .GL_FRAMEBUFFER_INCOMPLETE_ATTACHMENT then
    "GL_FRAMEBUFFER_INCOMPLETE_ATTACHMENT"
  else if framebufferStatus = .GL_FRAMEBUFFER_INCOMPLETE_MISSING_ATTACHMENT then
    "GL_FRAMEBUFFER_INCOMPLETE_MISSING_ATTACHMENT"
  else if framebufferStatus = .GL_FRAMEBUFFER_INCOMPLETE_DRAW_BUFFER then
    "GL_FRAMEBUFFER_INCOMPLETE_DRAW_BUFFER"
  else if framebufferStatus = .GL_FRAMEBUFFER_INCOMPLETE_READ_BUFFER then
    "GL_FRAMEBUFFER_INCOMPLETE_READ_BUFFER"
  else if framebufferStatus = .GL_FRAMEBUFFER_UNSUPPORTED then "GL_FRAMEBUFFER_UNSUPPORTED"
  else if framebufferStatus = .GL_FRAMEBUFFER_INCOMPLETE_MULTISAMPLE then
    "GL_FRAMEBUFFER_INCOMPLETE_MULTISAMPLE"
  else if framebufferStatus = .GL_FRAMEBUFFER_INCOMPLETE_LAYER_TARGETS then
    "GL_FRAMEBUFFER_INCOMPLETE_LAYER_TARGETS"
  else "Unknown franebuffer status error | " ++ toString (toGLint framebufferStatus.value)

/-- The statements of `InitBuffers` that build the framebuffer and attach the
five images (lines 836-842). -/
def attachImages (w : World) : World :=
  let (name, gl) := w.gl.genFramebuffer
  let w := { w with app := { w.app with frameBufferController := name }, gl := gl }
  let w := w.issue (.glBindFramebuffer .GL_FRAMEBUFFER w.app.frameBufferController)
  let w := w.issue
    (.glFramebufferTexture .GL_FRAMEBUFFER .GL_COLOR_ATTACHMENT0 w.app.colorController 0)
  let w := w.issue
    (.glFramebufferTexture .GL_FRAMEBUFFER .GL_COLOR_ATTACHMENT1 w.app.normalsController 0)
  let w := w.issue
    (.glFramebufferTexture .GL_FRAMEBUFFER .GL_COLOR_ATTACHMENT2 w.app.albedoController 0)
  let w := w.issue
    (.glFramebufferTexture .GL_FRAMEBUFFER .GL_COLOR_ATTACHMENT3 w.app.positionController 0)
  w.issue (.glFramebufferTexture .GL_FRAMEBUFFER .GL_DEPTH_ATTACHMENT w.app.depthController 0)

/-- The completeness check of `InitBuffers` (lines 844-858): a status other
than `GL_FRAMEBUFFER_COMPLETE` is passed to `ELOG`, and the function goes on. -/
def checkFramebuffer (framebufferStatus : FramebufferStatus) (w : World) : World :=
  if framebufferStatus ≠ .GL_FRAMEBUFFER_COMPLETE then
    w.elog (framebufferStatusLine framebufferStatus)
  else w

/-- The function `InitBuffers`; `framebufferStatus` is the value
`glCheckFramebufferStatus` returns. -/
def InitBuffers (framebufferStatus : FramebufferStatus) (w : World) : World :=
  let w := allocImage (fun app name => { app with colorController := name })
    .GL_RGBA8 .GL_RGBA .GL_UNSIGNED_BYTE w
  let w := allocImage (fun app name => { app with normalsController := name })
    .GL_RGBA16F .GL_RGBA .GL_UNSIGNED_BYTE w
  let w := allocImage (fun app name => { app with depthController := name })
    .GL_DEPTH_COMPONENT24 .GL_DEPTH_COMPONENT .GL_FLOAT w
  let w := allocImage (fun app name => { app with albedoController := name })
    .GL_RGBA8 .GL_RGBA .GL_UNSIGNED_BYTE w
  let w := allocImage (fun app name => { app with positionController := name })
    .GL_RGBA16F .GL_RGBA .GL_UNSIGNED_BYTE w
  let w := attachImages w
  let w := checkFramebuffer framebufferStatus w
  let w := w.issue (.glDrawBuffersValues 4
    [w.app.colorController, w.app.normalsController, w.app.albedoController,
     w.app.positionController])
  w.issue (.glBindFramebuffer .GL_FRAMEBUFFER 0)

/-- The seven lights `CreateEntities` adds, in order. -/
def defaultLights : List Light :=
  [⟨.DIRECTIONAL, ⟨0x3f4ccccd, 0x3f4ccccd, 0x3f4ccccd⟩, ⟨0, 0xbf800000, 0x3f800000⟩,
      ⟨0x40800000, 0x40800000, 0⟩, 0x3dcccccd⟩,
   ⟨.POINTT, ⟨0, 0x3f4ccccd, 0x3f666666⟩, ⟨0x3ecccccd, 0xbf800000, 0x40000000⟩,
      ⟨0x40000000, 0x3fcccccd, 0x40000000⟩, 0x3f333333⟩,
   ⟨.POINTT, ⟨0x3f800000, 0x3f666666, 0x3dcccccd⟩, ⟨0x3e99999a, 0xbf800000, 0x3f800000⟩,
      ⟨0xc0000000, 0x3f800000, 0x40000000⟩, 0x3f4ccccd⟩,
   ⟨.POINTT, ⟨0x3f800000, 0x3f051eb8, 0xbe19999a⟩, ⟨0x3f19999a, 0xbf800000, 0x3f800000⟩,
      ⟨0x40cccccd, 0xbd4ccccd, 0xc0200000⟩, 0x3f333333⟩,
   ⟨.POINTT, ⟨0x3f800000, 0x3d23d70a, 0x3f800000⟩, ⟨0x3e4ccccd, 0xbf800000, 0x3f800000⟩,
      ⟨0xc09ccccd, 0x3f5c28f6, 0xc0b33333⟩, 0x3f4ccccd⟩,
   ⟨.POINTT, ⟨0x3f800000, 0xbf000000, 0⟩, ⟨0, 0xbf800000, 0x3f800000⟩,
      ⟨0x40800000, 0x3fe147ae, 0xc0d0f5c3⟩, 0x40000000⟩,
   ⟨.POINTT, ⟨0x3e4ccccd, 0x3f4ccccd, 0x3e4ccccd⟩, ⟨0, 0xbf800000, 0x3f800000⟩,
      ⟨0x3f0ccccd, 0x3c23d70a, 0xc0400000⟩, 0x3f666666⟩]

/-- The function `CreateEntities`. -/
def CreateEntities (env : Platform) (w : World) : World :=
  let assets : Assets :=
    { textures := w.app.textures, materials := w.app.materials, meshes := w.app.meshes
      models := w.app.models }
  let (model, assets, gl) := env.LoadModel assets w.gl "Cube/Plane.obj"
  let app := { w.app with
    textures := assets.textures, materials := assets.materials, meshes := assets.meshes
    models := assets.models, model := model }
  let entity : Entity := { matrix := mat4_identity, modelId := app.model }
  let app := { app with entities := app.entities ++ [entity] }
  let app := { app with lights := app.lights ++ defaultLights }
  { w with app := app, gl := gl }

/-- The first statement of `Init` (line 241), which places the camera. -/
def initCameraPos (w : World) : World :=
  { w with app := { w.app with
    camera := { w.app.camera with cameraPos := ⟨0xbebc6a7f, 0x40cfbe77, 0x410b2f1b⟩ } } }

/-- The function `Init`. -/
def Init (glm : Glm) (env : Platform) (w : World) : Except Abort World := do
  let w := { w with app := { w.app with
    camera := { w.app.camera with cameraPos := ⟨0xbebc6a7f, 0x40cfbe77, 0x410b2f1b⟩ } } }
  let w := InitGPUInfo env w
  let w ← InitModes glm env w
  let w := InitCubeMap env w
  let w := InitBuffers env.framebufferStatus w
  .ok (CreateEntities env w)

/-! ## `Gui` and `Update` (`engine.cpp`, lines 255-448) -/

/-- What the widgets of ImGui (not among the sources) do in one call of `Gui`:
the value each leaves in the variable it is passed, given the value it finds,
and what it returns.  A widget is named by its label; the widgets of the light
inspector are also named by the index passed to `PushID`. -/
structure Widgets where
  InputFloat3 : String → vec3 → vec3
  Checkbox : String → Bool → Bool
  CollapsingHeader : String → Bool
  DragFloat3 : Nat → String → vec3 → vec3
  DragFloat : Nat → String → f32 → f32
  /-- The call `BeginCombo(label, preview)`. -/
  BeginCombo : String → String → Bool
  /-- The call `Selectable(item)` inside the combo `label`. -/
  Selectable : String → String → Bool

/-- The body of the loop of `Gui` over the lights (lines 288-307). -/
def guiLight (ui : Widgets) (i : Nat) (light : Light) : Light :=
  let light :=
    if light.type.toNat = 0 then
      { light with direction := ui.DragFloat3 i "direction" light.direction }
    else
      { light with position := ui.DragFloat3 i "transform" light.position }
  let light := { light with color := ui.DragFloat3 i "color" light.color }
  { light with intensity := ui.DragFloat i "intensity" light.intensity }

/-- The loop of `Gui` over the lights, from index `i` on. -/
def guiLights (ui : Widgets) : Nat → List Light → List Light
  | _, [] => []
  | i, light :: rest => guiLight ui i light :: guiLights ui (i + 1) rest

/-- A combo of `Gui` (lines 316-326 and 350-354): when it is open, each item
that is selected is assigned to the variable, in order. -/
def guiCombo (ui : Widgets) (label : String) (items : List String) (selected : Int) : Int :=
  if ui.BeginCombo label (items.getD selected.toNat "") then
    (List.range items.length).foldl
      (fun s i => if ui.Selectable label (items.getD i "") then (i : Int) else s) selected
  else selected

/-- The function `Gui`.  The calls that only display (`Text`, `Separator`,
`Image`, ...) change nothing of the engine. -/
def Gui (ui : Widgets) (w : World) : World :=
  let app := w.app
  let app := { app with camera := { app.camera with
    cameraPos := ui.InputFloat3 "Transform" app.camera.cameraPos } }
  let app := { app with camera := { app.camera with
    cameraUp := ui.InputFloat3 "Rotation" app.camera.cameraUp } }
  let app := { app with showGizmo := ui.Checkbox "Show Light Gizmo" app.showGizmo }
  let app :=
    if ui.CollapsingHeader "Light Inspector" then
      { app with lights := guiLights ui 0 app.lights }
    else app
  let select := guiCombo ui "Type" ["Deferred", "Forward"] w.globals.Gui_select
  let app :=
    if select = 0 then { app with mode := .DEFERRED }
    else if select = 1 then { app with mode := .FORWARD }
    else app
  let app := { app with showRelief := ui.Checkbox "Show relief" app.showRelief }
  let app := { app with showCubeMap := ui.Checkbox "Skybox" app.showCubeMap }
  let sel := guiCombo ui "Target" ["Albedo", "Normals", "Depth", "Position"] w.globals.Gui_sel
  { w with app := app, globals := { w.globals with Gui_select := select, Gui_sel := sel } }

/-- The values of `ButtonState` (of `platform.h`, not among the sources):
`Update` compares with `BUTTON_PRESS` and `BUTTON_PRESSED`. -/
inductive ButtonState where
  | BUTTON_IDLE
  | BUTTON_PRESS
  | BUTTON_PRESSED
  | BUTTON_RELEASE
  deriving DecidableEq, Repr

/-- The keys `Update` reads. -/
inductive Key where
  | K_W | K_S | K_A | K_D | K_R | K_F | K_P | K_Z
  deriving DecidableEq, Repr

/-- The part of `app->input` that `Update` reads. -/
structure Input where
  keys : Key → ButtonState
  mouseLeft : ButtonState
  mouseDelta : f32 × f32

/-- The floating-point operations `Update` computes with. -/
structure FloatMath where
  mul : f32 → f32 → f32
  add : f32 → f32 → f32
  sub : f32 → f32 → f32
  cos : f32 → f32
  sin : f32 → f32
  gt : f32 → f32 → Bool
  lt : f32 → f32 → Bool
  radians : f32 → f32
  /-- The product of a float and a vector. -/
  scale : f32 → vec3 → vec3
  /-- The product of a vector and a float. -/
  scaleRight : vec3 → f32 → vec3
  vadd : vec3 → vec3 → vec3
  vsub : vec3 → vec3 → vec3
  normalize : vec3 → vec3
  cross : vec3 → vec3 → vec3

/-- The function `Update`: it writes the camera and nothing else. -/
def Update (fm : FloatMath) (input : Input) (w : World) : World :=
  let app := w.app
  let c := app.camera
  let cameraSpeed := fm.mul 0x40200000 app.deltaTime
  let c :=
    if input.keys .K_W = .BUTTON_PRESSED then
      { c with cameraPos := fm.vadd c.cameraPos (fm.scale cameraSpeed c.cameraFront) }
    else c
  let c :=
    if input.keys .K_S = .BUTTON_PRESSED then
      { c with cameraPos := fm.vsub c.cameraPos (fm.scale cameraSpeed c.cameraFront) }
    else c
  let c :=
    if input.keys .K_A = .BUTTON_PRESSED then
      let side := fm.scaleRight (fm.normalize (fm.cross c.cameraFront c.cameraUp)) cameraSpeed
      { c with cameraPos := fm.vsub c.cameraPos side }
    else c
  let c :=
    if input.keys .K_D = .BUTTON_PRESSED then
      let side := fm.scaleRight (fm.normalize (fm.cross c.cameraFront c.cameraUp)) cameraSpeed
      { c with cameraPos := fm.vadd c.cameraPos side }
    else c
  let c :=
    if input.keys .K_R = .BUTTON_PRESSED then
      let up := fm.scaleRight (fm.scaleRight c.cameraUp 0x41a00000) app.deltaTime
      { c with cameraPos := fm.vadd c.cameraPos up }
    else c
  let c :=
    if input.keys .K_F = .BUTTON_PRESSED then
      let up := fm.scaleRight (fm.scaleRight c.cameraUp 0x41a00000) app.deltaTime
      { c with cameraPos := fm.vsub c.cameraPos up }
    else c
  let c :=
    if input.mouseLeft = .BUTTON_PRESSED then
      let c := { c with rotating := true }
      let dyaw := fm.mul (fm.mul input.mouseDelta.1 app.deltaTime) 0x41a00000
      let c := { c with yaw := fm.add c.yaw dyaw }
      let dpitch := fm.mul (fm.mul input.mouseDelta.2 app.deltaTime) 0x41a00000
      let c := { c with pitch := fm.sub c.pitch dpitch }
      let c := if fm.gt c.pitch 0x42b20000 then { c with pitch := 0x42b20000 } else c
      let c := if fm.lt c.pitch 0xc2b20000 then { c with pitch := 0xc2b20000 } else c
      let direction : vec3 :=
        ⟨fm.mul (fm.cos (fm.radians c.yaw)) (fm.cos (fm.radians c.pitch)),
         fm.sin (fm.radians c.pitch),
         fm.mul (fm.sin (fm.radians c.yaw)) (fm.cos (fm.radians c.pitch))⟩
      { c with cameraFront := fm.normalize direction }
    else c
  let c :=
    if input.keys .K_P = .BUTTON_PRESS then
      let c := { c with rotating := true }
      if input.keys .K_Z = .BUTTON_PRESS then
        { c with pitch := fm.sub c.pitch (fm.mul app.deltaTime 0x41a00000) }
      else c
    else { c with rotating := false }
  { w with app := { app with camera := c } }

/-- The states the engine goes through: the one `Init` returns from the
start state `w0`, and those reached from it by calls of `Gui`, `Update` and
`Render` that return, whatever the user and the platform put in. -/
inductive Reachable (glm : Glm) (fm : FloatMath) (env : Platform) (w0 : World) : World → Prop
  | init (w : World) : Init glm env w0 = .ok w → Reachable glm fm env w0 w
  | gui (ui : Widgets) (w : World) : Reachable glm fm env w0 w →
      Reachable glm fm env w0 (Gui ui w)
  | update (input : Input) (w : World) : Reachable glm fm env w0 w →
      Reachable glm fm env w0 (Update fm input w)
  | render (w w1 : World) : Reachable glm fm env w0 w → Render glm env.driver w = .ok w1 →
      Reachable glm fm env w0 w1

/-! ## Reading a frame

The claims on a frame are stated on the commands the frame issues. -/

/-- The commands a call issued: those of `w1` that came after those of `w`. -/
def frameCalls (w w1 : World) : List GLCall :=
  w1.gl.calls.drop w.gl.calls.length

/-- The entity `e` without the offset and size of its local block. -/
def Entity.forgetScratch (e : Entity) : Entity :=
  { e with localParamsOffset := 0, localParamsSize := 0 }

/-- The state `w` without what the calls before left in the fields a frame
recomputes: the head and the mapping of the uniform buffer, the offset and the
size of the global block, the offset and the size of the local block of every
entity; and without the record of the commands issued so far.  Two states
agree on the scene when they are equal up to these. -/
def World.forgetScratch (w : World) : World :=
  { w with
    gl := { w.gl with calls := [] }
    app := { w.app with
      cBuffer := { w.app.cBuffer with head := 0, data := none }
      globalParamsOffset := 0
      globalParamsSize := 0
      entities := w.app.entities.map Entity.forgetScratch } }

/-- The entities with the offset and size of the local block replaced, by
`offsets` and `sizes`, from index `i` on. -/
def reoffset (i : Nat) (offsets sizes : Nat → Nat) (entities : List Entity) : List Entity :=
  entities.mapIdx fun j e =>
    if i ≤ j then { e with localParamsOffset := offsets j, localParamsSize := sizes j } else e

/-- The state `w` after other commands (`calls` before its own) and with other
entities (`f` of its own). -/
def World.recast (calls : List GLCall) (f : List Entity → List Entity) (w : World) : World :=
  { w with
    gl := { w.gl with calls := calls ++ w.gl.calls }
    app := { w.app with entities := f w.app.entities } }

/-- The state `w` after other commands and with other values in the fields a
frame recomputes. -/
def World.rescratch (calls : List GLCall) (head : Nat) (data : Option (Nat → Nat))
    (globalParamsOffset globalParamsSize : Nat) (f : List Entity → List Entity) (w : World) :
    World :=
  { w with
    gl := { w.gl with calls := calls ++ w.gl.calls }
    app := { w.app with
      cBuffer := { w.app.cBuffer with head := head, data := data }
      globalParamsOffset := globalParamsOffset
      globalParamsSize := globalParamsSize
      entities := f w.app.entities } }

/-- The commands that bind a framebuffer (or are passed a framebuffer target),
copy between framebuffers, bind a range of a buffer, draw, or set a matrix or a
vector uniform. -/
def isEvent : GLCall → Bool
  | .glBindFramebuffer .. => true
  | .glBlitFramebuffer .. => true
  | .glBindBufferRange .. => true
  | .glDrawElements .. => true
  | .glDrawArrays .. => true
  | .glUniformMatrix4fv .. => true
  | .glUniform3fv .. => true
  | .glBindBuffer target _ =>
    target == .GL_FRAMEBUFFER || target == .GL_READ_FRAMEBUFFER || target == .GL_DRAW_FRAMEBUFFER
  | _ => false

/-- The events of a command list, in order. -/
def events (calls : List GLCall) : List GLCall :=
  calls.filter isEvent

/-- For each mesh and each of its submeshes, the number of indices and the
offset of the first index. -/
def meshGeometry (meshes : List Mesh) : List (List (Nat × Nat)) :=
  meshes.map fun mesh => mesh.submeshes.map fun submesh =>
    (submesh.indices.length, submesh.indexOffset)

/-- One indexed draw of triangles with 32-bit indices per submesh of the mesh
of the model `modelId`, each with the index count and the index offset of its
submesh. -/
def entityDraws (models : List Model) (geometry : List (List (Nat × Nat))) (modelId : Nat) :
    List GLCall :=
  match models[modelId]? with
  | none => []
  | some model =>
    match geometry[model.meshIdx]? with
    | none => []
    | some submeshes =>
      submeshes.map fun s => .glDrawElements .GL_TRIANGLES s.1 .GL_UNSIGNED_INT s.2

/-- The events of the loop over the entities as a function of the entities it
leaves: for each entity the global block bound at point 0, its local block
bound at point 1, and its draws.  `handle` is the name of the uniform buffer. -/
def entityEvents (handle : Nat) (models : List Model) (geometry : List (List (Nat × Nat)))
    (globalParamsOffset globalParamsSize : Nat) (entities : List Entity) : List GLCall :=
  entities.flatMap fun e =>
    [.glBindBufferRange .GL_UNIFORM_BUFFER 0 handle globalParamsOffset globalParamsSize,
     .glBindBufferRange .GL_UNIFORM_BUFFER 1 handle e.localParamsOffset e.localParamsSize] ++
    entityDraws models geometry e.modelId

/-- The application state `app` with the fields a frame writes replaced: the
uniform buffer, the entities, the meshes and the offset and size of the global
block. -/
def App.withScratch (app : App) (cBuffer : Buffer) (entities : List Entity) (meshes : List Mesh)
    (globalParamsOffset globalParamsSize : Nat) : App :=
  { app with
    cBuffer := cBuffer, entities := entities, meshes := meshes
    globalParamsOffset := globalParamsOffset, globalParamsSize := globalParamsSize }

/-- The state `app1` differs from `app` at most in the fields a frame writes. -/
def App.sameScene (app app1 : App) : Prop :=
  app1 = app.withScratch app1.cBuffer app1.entities app1.meshes app1.globalParamsOffset
    app1.globalParamsSize

/-- The draw that shows the gizmo of a light: the cube of `RenderCube` for a
directional light, the sphere of `RenderSphere`, of `count` indices, for a
point light. -/
def gizmoDraw (count : Nat) (light : Light) : GLCall :=
  match light.type with
  | .DIRECTIONAL => .glDrawArrays .GL_TRIANGLES 0 36
  | .POINTT => .glDrawElements .GL_TRIANGLE_STRIP count .GL_UNSIGNED_INT 0

/-- The events of the gizmo block of the DEFERRED branch: the view-projection
matrix, then for each light its model matrix, its colour and its draw. -/
def gizmoEvents (glm : Glm) (app : App) (count : Nat) : List GLCall :=
  if app.showGizmo then
    .glUniformMatrix4fv (toGLint app.drawLightsProgramIdx_uViewProjection) 1 false
        (app.camera.GetViewMatrix glm app.displaySize) ::
      app.lights.flatMap fun light =>
        [.glUniformMatrix4fv (toGLint app.drawLightsProgramIdx_uModel) 1 false
           (glm.translate mat4_identity light.position),
         .glUniform3fv (toGLint app.drawLightsProgramIdx_uLightColor) 1 light.color,
         gizmoDraw count light]
  else []

/-- The number of indices `RenderSphere` draws with in a frame that starts in
the state `globals`: the count it computes when the sphere is not built yet. -/
def sphereCount (globals : Globals) : Nat :=
  if globals.sphereVAO = 0 then (sphereIndices 32 16).length % 2 ^ 32 else globals.indexCount

/-- The blits of a command list, each with the framebuffers bound for reading
and for drawing when it is issued, starting from the bindings `read` and
`draw`.  A `glBindBuffer` is no framebuffer binding. -/
def blitsWithFramebuffers : Nat → Nat → List GLCall → List (GLCall × Nat × Nat)
  | _, _, [] => []
  | read, draw, c :: rest =>
    match c with
    | .glBindFramebuffer .GL_FRAMEBUFFER name => blitsWithFramebuffers name name rest
    | .glBindFramebuffer .GL_READ_FRAMEBUFFER name => blitsWithFramebuffers name draw rest
    | .glBindFramebuffer .GL_DRAW_FRAMEBUFFER name => blitsWithFramebuffers read name rest
    | .glBlitFramebuffer .. => (c, read, draw) :: blitsWithFramebuffers read draw rest
    | _ => blitsWithFramebuffers read draw rest

/-- The commands that bind a framebuffer or copy between framebuffers. -/
def isFramebufferCall : GLCall → Bool
  | .glBindFramebuffer .. => true
  | .glBlitFramebuffer .. => true
  | _ => false

/-- The draws of the geometry pass: indexed triangles with 32-bit indices. -/
def isGeometryDraw : GLCall → Bool
  | .glDrawElements .GL_TRIANGLES _ .GL_UNSIGNED_INT _ => true
  | _ => false

/-- The images a command list allocates: for each `glTexImage2D` on
`GL_TEXTURE_2D`, the texture bound to that target when it is issued, its
internal format, its width and its height.  `bound` is the texture bound when
the list starts. -/
def imageAllocations : Nat → List GLCall → List (Nat × GLenum × Int × Int)
  | _, [] => []
  | bound, c :: rest =>
    match c with
    | .glBindTexture .GL_TEXTURE_2D name => imageAllocations name rest
    | .glTexImage2D .GL_TEXTURE_2D _ internalFormat width height _ _ _ _ =>
      (bound, internalFormat, width, height) :: imageAllocations bound rest
    | _ => imageAllocations bound rest

/-- The attachments a command list makes with `glFramebufferTexture`: the
attachment point and the texture attached. -/
def framebufferAttachments : List GLCall → List (GLenum × Nat)
  | [] => []
  | .glFramebufferTexture _ attachment texture _ :: rest =>
    (attachment, texture) :: framebufferAttachments rest
  | _ :: rest => framebufferAttachments rest

/-- The buffer `buffer1` is `buffer` after allocations: same name and size,
a head that is not lower, and when `buffer` is mapped, a mapped region that
agrees with that of `buffer` below the head of `buffer`. -/
def Buffer.extendedBy (buffer buffer1 : Buffer) : Prop :=
  buffer1.handle = buffer.handle ∧ buffer1.size = buffer.size ∧ buffer.head ≤ buffer1.head ∧
  ∀ region, buffer.data = some region →
    ∃ region1, buffer1.data = some region1 ∧ ∀ i, i < buffer.head → region1 i = region i

/-- The attachments a command list makes with
`glFramebufferTexture(GL_FRAMEBUFFER, ...)`, each with the framebuffer bound
for drawing when it is issued: framebuffer, attachment point, texture, level.
`bound` is the framebuffer bound when the list starts. -/
def attachmentsWithFramebuffer : Nat → List GLCall → List (Nat × GLenum × Nat × Nat)
  | _, [] => []
  | bound, c :: rest =>
    match c with
    | .glBindFramebuffer .GL_FRAMEBUFFER name => attachmentsWithFramebuffer name rest
    | .glBindFramebuffer .GL_DRAW_FRAMEBUFFER name => attachmentsWithFramebuffer name rest
    | .glFramebufferTexture .GL_FRAMEBUFFER attachment texture level =>
      (bound, attachment, texture, level) :: attachmentsWithFramebuffer bound rest
    | _ => attachmentsWithFramebuffer bound rest

/-- The faces a command list uploads to a cube map: for each `glTexImage2D`
on `GL_TEXTURE_CUBE_MAP_POSITIVE_X + i`, the number `i`, the width, the height
and the pixels. -/
def faceUploads : List GLCall → List (Nat × Int × Int × Nat)
  | [] => []
  | .glTexImage2DFace i _ _ width height _ _ _ pixels :: rest =>
    (i, width, height, pixels) :: faceUploads rest
  | _ :: rest => faceUploads rest

/-- What a call of `loadCubeMap` on the list `faces` is to upload: for each
index `i` whose file loads, face `i` with the image of the file. -/
def facesLoaded (stbi_load : String → StbiResult) (faces : List String) :
    List (Nat × Int × Int × Nat) :=
  (List.range faces.length).filterMap fun i =>
    let r := stbi_load (faces.getD i "")
    if r.pixels ≠ 0 then some (i, r.x, r.y, r.pixels) else none

/-- The least multiple of 16 that is at least `n`. -/
def alignUp16 (n : Nat) : Nat :=
  (n + 15) / 16 * 16

/-- The 44 bytes of the record of a light as the DEFERRED branch is read to
write it: type, colour, direction, position, intensity. -/
def deferredLightRecord (light : Light) : List Nat :=
  bytesOfU32 light.type.toNat ++ bytesOfVec3 light.color ++ bytesOfVec3 light.direction ++
    bytesOfVec3 light.position ++ bytesOfU32 light.intensity

/-- The 28 bytes of the record of a light as the FORWARD branch is read to
write it: type, colour, direction. -/
def forwardLightRecord (light : Light) : List Nat :=
  bytesOfU32 light.type.toNat ++ bytesOfVec3 light.color ++ bytesOfVec3 light.direction

/-- The byte ranges `blocks`, each an offset and a size, lie one after the
other between `first` and `last`: each starts at or after the end of the one
before it (`first` for the first), and the last one ends at or before
`last`. -/
def separated : Nat → List (Nat × Nat) → Nat → Prop
  | first, [], last => first ≤ last
  | first, (offset, size) :: rest, last => first ≤ offset ∧ separated (offset + size) rest last

/-- The ranges are pairwise disjoint: of any two, the one listed first ends at
or before the start of the other. -/
def pairwiseDisjoint (blocks : List (Nat × Nat)) : Prop :=
  blocks.Pairwise fun a b => a.1 + a.2 ≤ b.1

/-- The commands the passes of a frame are read from: those that bind a
framebuffer, choose its draw buffers, clear, copy between framebuffers, or
draw. -/
def isPassCall : GLCall → Bool
  | .glBindFramebuffer .. => true
  | .glDrawBuffers .. => true
  | .glDrawBuffersValues .. => true
  | .glClear .. => true
  | .glBlitFramebuffer .. => true
  | .glDrawElements .. => true
  | .glDrawArrays .. => true
  | _ => false

/-- The commands that decide what a draw samples: the choice of the program,
of the texture unit of a sampler, of the active unit and of the texture bound
to it; and the draws of a triangle strip with `glDrawArrays`. -/
def isSamplingCall : GLCall → Bool
  | .glUseProgram .. => true
  | .glUniform1i .. => true
  | .glActiveTexture .. => true
  | .glBindTexture .. => true
  | .glDrawArrays .GL_TRIANGLE_STRIP _ _ => true
  | _ => false

/-- The commands the geometry pass, the cube map, the quad and the gizmos
issue: vertex arrays, buffers, textures, uniforms, programs and draws; no
framebuffer is bound, cleared, or given draw buffers by one of them. -/
def isSceneCall : GLCall → Bool
  | .glGenVertexArrays .. => true
  | .glBindVertexArray .. => true
  | .glBindBuffer .GL_ARRAY_BUFFER _ => true
  | .glBindBuffer .GL_ELEMENT_ARRAY_BUFFER _ => true
  | .glVertexAttribPointer .. => true
  | .glEnableVertexAttribArray .. => true
  | .glGenBuffers .. => true
  | .glBufferData .. => true
  | .glActiveTexture .. => true
  | .glBindTexture .. => true
  | .glUseProgram .. => true
  | .glUniform1i .. => true
  | .glUniformMatrix4fv .. => true
  | .glUniform3fv .. => true
  | .glBindBufferRange .. => true
  | .glDrawElements .. => true
  | .glDrawArrays .. => true
  | .glDepthFunc .. => true
  | .shaderUse .. => true
  | .shaderSetMat4 .. => true
  | .shaderSetVec3 .. => true
  | _ => false

/-- The command list `calls1` continues `calls` with commands of the scene
only. -/
def continuesWithScene (calls calls1 : List GLCall) : Prop :=
  ∃ seg, calls1 = calls ++ seg ∧ seg.all isSceneCall = true

/-! ## Sequences of allocator operations -/

/-- An operation on the allocator inside a frame. -/
inductive AllocOp where
  | alignTo (n : Nat)
  | push (bytes : List Nat)

/-- One operation of the allocator. -/
def AllocOp.run (buffer : Buffer) : AllocOp → Except Abort Buffer
  | .alignTo n => .ok (AlignHead buffer n)
  | .push bytes => (Push buffer bytes).map Prod.snd

/-- The values of `head` after each operation of a sequence, up to the first
operation that fails. -/
def headTrace : Buffer → List AllocOp → List Nat
  | _, [] => []
  | buffer, op :: rest =>
    match op.run buffer with
    | .ok buffer1 => buffer1.head :: headTrace buffer1 rest
    | .error _ => []

/-- Stand-ins for the functions of `glm`, for evaluating the engine on the
sample scene. -/
def sampleGlm : Glm :=
  { radians := fun a => a
    perspective := fun a b c d => ⟨[a, b, c, d]⟩
    lookAt := fun p c u => ⟨[p.x, p.y, p.z, c.x, c.y, c.z, u.x, u.y, u.z]⟩
    translate := fun m v => ⟨m.floats ++ [v.x, v.y, v.z]⟩
    scale := fun m v => ⟨v.x :: m.floats⟩
    rotate := fun m a _ => ⟨a :: m.floats⟩
    mul := fun a b => ⟨a.floats ++ b.floats⟩
    add := fun a b => ⟨a.x + b.x, a.y + b.y, a.z + b.z⟩
    div := fun a b => a / b
    ofInt := fun i => i.toNat
    mat3 := fun m => ⟨m.floats.take 9⟩ }

/-- A driver that maps zeroed memory and puts every uniform at location 3. -/
def sampleDriver : Driver :=
  { glGetUniformLocation := fun _ _ => 3
    glMapBuffer := fun _ _ => 0 }

/-- A one-submesh quad whose layout has the five locations of the geometry
program. -/
def sceneMesh : Mesh :=
  { submeshes :=
      [{ vertexBufferLayout :=
           { attributes := [⟨0, 3, 0⟩, ⟨1, 3, 12⟩, ⟨2, 2, 24⟩, ⟨3, 3, 32⟩, ⟨4, 3, 44⟩]
             stride := 56 }
         vertices := []
         indices := [0, 1, 2, 0, 2, 3]
         vertexOffset := 0
         indexOffset := 0
         vaos := [] }]
    vertexBufferHandle := 21
    indexBufferHandle := 22 }

/-- The programs `InitModes` loads, with the layouts it gives them. -/
def scenePrograms : List Program :=
  [{ handle := 3, filepath := "shaders.glsl", programName := "SHOW_TEXTURED_MESH"
     lastWriteTimestamp := 0, vertexInputLayout := ⟨[⟨0, 3⟩, ⟨1, 3⟩, ⟨2, 2⟩]⟩ },
   { handle := 6, filepath := "shaders.glsl", programName := "SHOW_GEOMETRY"
     lastWriteTimestamp := 0, vertexInputLayout := ⟨[⟨0, 3⟩, ⟨1, 3⟩, ⟨2, 2⟩, ⟨3, 3⟩, ⟨4, 3⟩]⟩ },
   { handle := 9, filepath := "shaders.glsl", programName := "SHOW_LIGHT"
     lastWriteTimestamp := 0, vertexInputLayout := ⟨[⟨0, 3⟩, ⟨1, 2⟩]⟩ },
   { handle := 12, filepath := "shaders.glsl", programName := "DRAW_LIGHT"
     lastWriteTimestamp := 0, vertexInputLayout := ⟨[⟨0, 3⟩]⟩ }]

/-- The default scene: one entity with a single-submesh mesh and the seven
lights of `CreateEntities`, in DEFERRED mode with the gizmos shown, a uniform
buffer of 65536 bytes and an offset alignment of 256. -/
def sceneApp : App :=
  { displaySize := ⟨800, 600⟩
    textures := [⟨1, "Cube/toy_box_normal.png"⟩, ⟨2, "Cube/toy_box_disp.png"⟩,
      ⟨3, "Cube/toy_box_diffuse.png"⟩, ⟨4, "Cube/plane.png"⟩]
    materials := [{ name := "plane", albedo := ⟨0, 0, 0⟩, emissive := ⟨0, 0, 0⟩, smoothness := 0
                    albedoTextureIdx := 3, emissiveTextureIdx := 0, specularTextureIdx := 0
                    normalsTextureIdx := 0, bumpTextureIdx := 0 }]
    meshes := [sceneMesh]
    models := [{ meshIdx := 0, materialIdx := [0] }]
    programs := scenePrograms
    entities := [{ matrix := mat4_identity, modelId := 0 }]
    lights := defaultLights
    texturedMeshProgramIdx := 1
    lightsProgramIdx := 2
    drawLightsProgramIdx := 3
    toyNormalTexIdx := 0
    toyHeightTexIdx := 1
    toyDiffuseTexIdx := 2
    mode := .DEFERRED
    frameBufferController := 1
    colorController := 5
    normalsController := 6
    depthController := 7
    albedoController := 8
    positionController := 9
    cBuffer := { handle := 1, type := .GL_UNIFORM_BUFFER, size := 65536, head := 0, data := none }
    uniformBlockAlignmentOffset := 256
    showGizmo := true }

def sceneWorld : World :=
  { app := sceneApp, gl := { calls := [], vertexArrays := 2, textures := 9, buffers := 3 } }

/-- The state a call left when it returned, and `w` when it did not. -/
def frameOf (r : Except Abort World) (w : World) : World :=
  match r with
  | .ok w1 => w1
  | .error _ => w

/-- The state one frame leaves of the default scene in DEFERRED mode. -/
def sceneFrame : World :=
  frameOf (Render sampleGlm sampleDriver sceneWorld) sceneWorld

/-- The default scene in FORWARD mode. -/
def sceneWorldForward : World :=
  { sceneWorld with app := { sceneApp with mode := .FORWARD } }

/-- The state one frame leaves of the default scene in FORWARD mode. -/
def sceneForwardFrame : World :=
  frameOf (Render sampleGlm sampleDriver sceneWorldForward) sceneWorldForward

/-- An image decoder that loads every file; the pointer it returns tells the
files of the two cube maps apart. -/
def sampleImages : String → StbiResult := fun path =>
  if path = "front.png" then ⟨101, 64, 64, 3⟩
  else if path = "back.png" then ⟨102, 64, 64, 3⟩
  else if path = "top.png" then ⟨103, 64, 64, 3⟩
  else if path = "bottom.jpg" then ⟨104, 64, 64, 3⟩
  else if path = "left.png" then ⟨105, 64, 64, 3⟩
  else if path = "right.png" then ⟨106, 64, 64, 3⟩
  else if path = "top.jpg" then ⟨201, 64, 64, 3⟩
  else if path = "left.jpg" then ⟨203, 64, 64, 3⟩
  else if path = "right.jpg" then ⟨204, 64, 64, 3⟩
  else if path = "front.jpg" then ⟨205, 64, 64, 3⟩
  else if path = "back.jpg" then ⟨206, 64, 64, 3⟩
  else ⟨4096, 64, 64, 4⟩

/-- A platform whose every compilation and link succeeds or fails as `ok`
says and whose framebuffer check answers `status`; every image file loads, and
`LoadModel` adds one material and one model of the sample mesh. -/
def samplePlatform (status : FramebufferStatus) (ok : Bool) : Platform :=
  { driver := sampleDriver
    stbi_load := sampleImages
    ReadTextFile := fun _ => "void main();"
    GetFileLastWriteTimestamp := fun _ => 0
    LoadModel := fun assets gl _ =>
      (assets.models.length,
       { assets with
         materials := assets.materials ++
           [{ name := "plane", albedo := ⟨0, 0, 0⟩, emissive := ⟨0, 0, 0⟩, smoothness := 0
              albedoTextureIdx := 0, emissiveTextureIdx := 0, specularTextureIdx := 0
              normalsTextureIdx := 0, bumpTextureIdx := 0 }]
         meshes := assets.meshes ++ [sceneMesh]
         models := assets.models ++
           [{ meshIdx := assets.meshes.length, materialIdx := [assets.materials.length] }] },
       gl)
    newShader := fun _ _ => 1
    compileStatus := fun _ _ => ok
    shaderInfoLog := fun _ _ => "0:1: syntax error"
    linkStatus := fun _ _ => ok
    programInfoLog := fun _ _ => "link error"
    glVersion := "4.3"
    glRenderer := "renderer"
    glVendor := "vendor"
    glShadingLanguageVersion := "4.30"
    glExtensions := []
    uniformBufferOffsetAlignment := 256
    maxUniformBlockSize := 65536
    framebufferStatus := status }

/-- The state `Init` starts from: nothing loaded, no command issued. -/
def initWorld : World :=
  { app := { displaySize := ⟨800, 600⟩ }, gl := { calls := [], vertexArrays := 0, textures := 0 } }

/-- The state `InitModes` leaves on the sample platform with an unsupported
framebuffer. -/
def initModesWorld : World :=
  frameOf
    (InitModes sampleGlm (samplePlatform .GL_FRAMEBUFFER_UNSUPPORTED true)
      (InitGPUInfo (samplePlatform .GL_FRAMEBUFFER_UNSUPPORTED true) (initCameraPos initWorld)))
    initWorld

/-- The uniform buffer of the default scene as a frame left it: unmapped,
with `head` at 860. -/
def sampleFrameBuffer : Buffer :=
  { handle := 1, type := .GL_UNIFORM_BUFFER, size := 65536, head := 860, data := none }

/-- A frame of allocator operations: the global block of the FORWARD branch
with one light, then the block of one entity. -/
def sampleOps : List AllocOp :=
  [.push (List.replicate 12 0), .push (List.replicate 4 0), .alignTo 16,
   .push (List.replicate 28 0), .alignTo 256, .push (List.replicate 64 0),
   .push (List.replicate 64 0)]

/-- The geometry program of the default scene. -/
def sceneGeometryProgram : Program :=
  { handle := 6, filepath := "shaders.glsl", programName := "SHOW_GEOMETRY"
    lastWriteTimestamp := 0, vertexInputLayout := ⟨[⟨0, 3⟩, ⟨1, 3⟩, ⟨2, 2⟩, ⟨3, 3⟩, ⟨4, 3⟩]⟩ }

/-- The state of the default scene in FORWARD mode when the global block of
the frame is written. -/
def sceneForwardGlobals : World :=
  frameOf (forwardGlobals sampleDriver sceneGeometryProgram (renderPrologue sceneWorldForward))
    sceneWorldForward

/-- The state of the default scene in DEFERRED mode when the global block of
the lighting pass is written and bound. -/
def sceneLighting : World :=
  frameOf (deferredPasses sampleGlm sampleDriver (renderPrologue sceneWorld)) sceneWorld

/-- A user who opens the combo `Type` and selects the item `choice`, and
touches nothing else. -/
def sampleWidgets (choice : String) : Widgets :=
  { InputFloat3 := fun _ v => v
    Checkbox := fun _ b => b
    CollapsingHeader := fun _ => false
    DragFloat3 := fun _ _ v => v
    DragFloat := fun _ _ x => x
    BeginCombo := fun label _ => label = "Type"
    Selectable := fun label item => label = "Type" && item = choice }

/-- Stand-ins for the floating-point operations of `Update`. -/
def sampleFloatMath : FloatMath :=
  { mul := fun a b => a * b
    add := fun a b => a + b
    sub := fun a b => a - b
    cos := fun a => a
    sin := fun a => a
    gt := fun a b => a > b
    lt := fun a b => a < b
    radians := fun a => a
    scale := fun a v => ⟨a * v.x, a * v.y, a * v.z⟩
    scaleRight := fun v a => ⟨v.x * a, v.y * a, v.z * a⟩
    vadd := fun a b => ⟨a.x + b.x, a.y + b.y, a.z + b.z⟩
    vsub := fun a b => ⟨a.x - b.x, a.y - b.y, a.z - b.z⟩
    normalize := fun v => v
    cross := fun a b => ⟨a.x + b.x, a.y + b.y, a.z + b.z⟩ }

/-- The key `W` held down, nothing else. -/
def sampleInput : Input :=
  { keys := fun k => if k = .K_W then .BUTTON_PRESSED else .BUTTON_IDLE
    mouseLeft := .BUTTON_IDLE
    mouseDelta := (0, 0) }

/-- The state `Init` leaves on the sample platform. -/
def initDone : World :=
  frameOf (Init sampleGlm (samplePlatform .GL_FRAMEBUFFER_COMPLETE true) initWorld) initWorld

/-- The state after `Init`, a `Gui` in which the user selects `Forward`, and
an `Update`. -/
def initForward : World :=
  Update sampleFloatMath sampleInput (Gui (sampleWidgets "Forward") initDone)

/-- The state one frame leaves of `initForward`. -/
def initForwardFrame : World :=
  frameOf (Render sampleGlm sampleDriver initForward) initForward

/-- The state one frame leaves of `initDone`, which is in DEFERRED mode. -/
def initDoneFrame : World :=
  frameOf (Render sampleGlm sampleDriver initDone) initDone

/-- The state after `Init`, a DEFERRED frame, a `Gui` in which the user selects
`Forward`, and an `Update`. -/
def deferredThenForward : World :=
  Update sampleFloatMath sampleInput (Gui (sampleWidgets "Forward") initDoneFrame)

/-- The state one frame leaves of `deferredThenForward`. -/
def deferredThenForwardFrame : World :=
  frameOf (Render sampleGlm sampleDriver deferredThenForward) deferredThenForward

/-! # Theorems -/

/-! ## Lemmas on `FindVAO` -/

theorem findCachedVao_eq_none (p : Nat) (vaos : List Vao)
    (hmiss : ∀ v ∈ vaos, v.programHandle ≠ p) : findCachedVao p vaos = none := by
  induction vaos with
  | nil => rfl
  | cons v rest ih =>
    have hv : v.programHandle ≠ p := hmiss v (List.mem_cons_self _ _)
    simp only [findCachedVao, hv, if_false]
    exact ih fun w hw => hmiss w (List.mem_cons_of_mem _ hw)

theorem linkAttribute_eq (submesh : Submesh) (a : VertexShaderAttribute)
    (attrs : List VertexBufferAttribute) (gl : GLState) :
    linkAttribute submesh a attrs gl =
      match attrs.find? (fun b => decide (b.location = a.location)) with
      | none => (false, gl)
      | some b => (true, { gl with calls := gl.calls ++ attributeBinding submesh b }) := by
  induction attrs with
  | nil => rfl
  | cons b rest ih =>
    by_cases hb : a.location = b.location
    · simp [linkAttribute, hb, List.find?, GLState.issue, attributeBinding]
    · have hb2 : ¬ b.location = a.location := fun h => hb h.symm
      simp [linkAttribute, hb, hb2, List.find?, ih]

theorem linkAttributes_error (submesh : Submesh) (attrs : List VertexShaderAttribute)
    (gl : GLState) (e : Abort) (herr : linkAttributes submesh attrs gl = .error e) :
    e = .assertion := by
  induction attrs generalizing gl with
  | nil => simp [linkAttributes] at herr
  | cons a rest ih =>
    simp only [linkAttributes] at herr
    split at herr
    · simp only [Except.error.injEq] at herr
      exact herr.symm
    · exact ih _ herr

theorem linkAttributes_missing (submesh : Submesh) (attrs : List VertexShaderAttribute)
    (gl : GLState) (a : VertexShaderAttribute) (ha : a ∈ attrs)
    (hno : ∀ b ∈ submesh.vertexBufferLayout.attributes, b.location ≠ a.location) :
    linkAttributes submesh attrs gl = .error .assertion := by
  induction attrs generalizing gl with
  | nil => cases ha
  | cons a1 rest ih =>
    simp only [linkAttributes]
    split
    · rfl
    · rename_i gl1 hlink
      rcases List.mem_cons.1 ha with rfl | hin
      · rw [linkAttribute_eq] at hlink
        have hnone : submesh.vertexBufferLayout.attributes.find?
            (fun b => decide (b.location = a.location)) = none := by
          simp only [List.find?_eq_none, decide_eq_true_eq]
          exact hno
        rw [hnone] at hlink
        simp at hlink
      · exact ih gl1 hin

theorem linkAttributes_ok (submesh : Submesh) (attrs : List VertexShaderAttribute)
    (bs : List VertexBufferAttribute) (gl : GLState)
    (hbs : List.Forall₂ (fun a b => submesh.vertexBufferLayout.attributes.find?
      (fun c => decide (c.location = a.location)) = some b) attrs bs) :
    linkAttributes submesh attrs gl =
      .ok { gl with calls := gl.calls ++ bs.flatMap (attributeBinding submesh) } := by
  induction hbs generalizing gl with
  | nil => simp [linkAttributes]
  | cons hab _ ih =>
    simp only [linkAttributes, linkAttribute_eq, hab, ih]
    simp [List.flatMap_cons, List.append_assoc]

theorem attributeBinding_def (submesh : Submesh) :
    attributeBinding submesh = fun b =>
      [GLCall.glVertexAttribPointer b.location b.componentCount .GL_FLOAT false
          submesh.vertexBufferLayout.stride ((b.offset + submesh.vertexOffset) % 2 ^ 32),
       GLCall.glEnableVertexAttribArray b.location] := rfl

/-- The result of `FindVAO` on a cache miss, when `bs` lists the first submesh
attribute matching each attribute of the program. -/
theorem FindVAO_miss_eq (mesh : Mesh) (i : Nat) (program : Program) (gl : GLState)
    (submesh : Submesh) (bs : List VertexBufferAttribute)
    (hsub : mesh.submeshes[i]? = some submesh)
    (hmiss : ∀ v ∈ submesh.vaos, v.programHandle ≠ program.handle)
    (hbs : List.Forall₂ (fun a b => submesh.vertexBufferLayout.attributes.find?
      (fun c => decide (c.location = a.location)) = some b)
      program.vertexInputLayout.attributes bs) :
    FindVAO mesh i program gl = .ok (gl.vertexArrays + 1,
      { mesh with submeshes := mesh.submeshes.set i { submesh with vaos := submesh.vaos ++
          [{ handle := gl.vertexArrays + 1, programHandle := program.handle }] } },
      { gl with
        vertexArrays := gl.vertexArrays + 1
        calls := gl.calls ++
          ([.glGenVertexArrays (gl.vertexArrays + 1), .glBindVertexArray (gl.vertexArrays + 1),
            .glBindBuffer .GL_ARRAY_BUFFER mesh.vertexBufferHandle,
            .glBindBuffer .GL_ELEMENT_ARRAY_BUFFER mesh.indexBufferHandle] ++
           bs.flatMap (attributeBinding submesh) ++ [.glBindVertexArray 0]) }) := by
  simp only [FindVAO, hsub, findCachedVao_eq_none _ _ hmiss, GLState.genVertexArray,
    GLState.issue, linkAttributes_ok submesh _ bs _ hbs]
  simp [List.append_assoc]

theorem exists_first_matches (sattrs : List VertexBufferAttribute)
    (attrs : List VertexShaderAttribute)
    (hall : ∀ a ∈ attrs, ∃ b ∈ sattrs, b.location = a.location) :
    ∃ bs, List.Forall₂ (fun a b => sattrs.find?
      (fun c => decide (c.location = a.location)) = some b) attrs bs := by
  induction attrs with
  | nil => exact ⟨[], List.Forall₂.nil⟩
  | cons a rest ih =>
    obtain ⟨bs, hbs⟩ := ih fun x hx => hall x (List.mem_cons_of_mem _ hx)
    obtain ⟨b, hb, hloc⟩ := hall a (List.mem_cons_self _ _)
    cases hfind : sattrs.find? (fun c => decide (c.location = a.location)) with
    | none =>
      rw [List.find?_eq_none] at hfind
      exact absurd (by simpa using hloc) (hfind b hb)
    | some b1 => exact ⟨b1 :: bs, List.Forall₂.cons hfind hbs⟩

theorem vertexAttribPointers_flatMap (submesh : Submesh) (bs : List VertexBufferAttribute) :
    vertexAttribPointers (bs.flatMap (attributeBinding submesh)) =
      bs.map fun b => GLCall.glVertexAttribPointer b.location b.componentCount .GL_FLOAT false
        submesh.vertexBufferLayout.stride ((b.offset + submesh.vertexOffset) % 2 ^ 32) := by
  induction bs with
  | nil => rfl
  | cons b rest ih =>
    simp only [vertexAttribPointers] at ih
    simp [vertexAttribPointers, List.flatMap_cons, attributeBinding, List.filter_cons, ih]

theorem findCachedVao_append_new (p h : Nat) (vaos : List Vao)
    (hmiss : findCachedVao p vaos = none) :
    findCachedVao p (vaos ++ [{ handle := h, programHandle := p }]) = some h := by
  induction vaos with
  | nil => simp [findCachedVao]
  | cons v rest ih =>
    simp only [findCachedVao] at hmiss
    split at hmiss
    · cases hmiss
    · rename_i hne
      simp [findCachedVao, hne, ih hmiss]

/-- A second `FindVAO` on the results of a hit or of a build is a hit that
changes nothing. -/
theorem FindVAO_ok_cases (mesh : Mesh) (i : Nat) (program : Program) (gl : GLState)
    (h : Nat) (mesh1 : Mesh) (gl1 : GLState)
    (hok : FindVAO mesh i program gl = .ok (h, mesh1, gl1)) :
    ∃ submesh1, mesh1.submeshes[i]? = some submesh1 ∧
      findCachedVao program.handle submesh1.vaos = some h := by
  unfold FindVAO at hok
  split at hok
  · cases hok
  · rename_i submesh hsub
    split at hok
    · rename_i handle hhit
      simp only [Except.ok.injEq, Prod.mk.injEq] at hok
      obtain ⟨rfl, rfl, rfl⟩ := hok
      exact ⟨submesh, hsub, hhit⟩
    · rename_i hmiss
      simp only at hok
      split at hok
      · cases hok
      · simp only [Except.ok.injEq, Prod.mk.injEq] at hok
        obtain ⟨rfl, rfl, rfl⟩ := hok
        have hlt : i < mesh.submeshes.length := by
          rcases List.getElem?_eq_some.1 hsub with ⟨hlt, _⟩
          exact hlt
        refine ⟨{ submesh with vaos := submesh.vaos ++
          [{ handle := gl.genVertexArray.1, programHandle := program.handle }] }, ?_,
          findCachedVao_append_new _ _ _ hmiss⟩
        simp [List.getElem?_set, hlt]

/-- C1: a second call `FindVAO(mesh, i, program)` made after a first
successful call returns the same VAO handle as the first, issues no command
to the graphics API (so it creates no vertex-array object) and leaves the
mesh, and with it the VAO cache of the submesh, unchanged. -/
theorem FindVAO_second_call_is_hit (mesh : Mesh) (i : Nat) (program : Program) (gl : GLState)
    (h : Nat) (mesh1 : Mesh) (gl1 : GLState)
    (hok : FindVAO mesh i program gl = .ok (h, mesh1, gl1)) :
    FindVAO mesh1 i program gl1 = .ok (h, mesh1, gl1) := by
  obtain ⟨submesh1, hsub, hhit⟩ := FindVAO_ok_cases mesh i program gl h mesh1 gl1 hok
  simp [FindVAO, hsub, hhit]

theorem FindVAO_second_call_is_hit_witness :
    FindVAO sampleMeshCached 0 sampleProgram sampleGLBuilt =
      .ok (1, sampleMeshCached, sampleGLBuilt) :=
  FindVAO_second_call_is_hit sampleMesh 0 sampleProgram sampleGL 1 sampleMeshCached
    sampleGLBuilt rfl

/-- C2: when the cache of the submesh holds no VAO for the program and the
input layout of the program has an attribute whose location no attribute of
the submesh layout has, `FindVAO` ends in the failed assertion and returns no
VAO handle. -/
theorem FindVAO_missing_location_asserts (mesh : Mesh) (i : Nat) (program : Program)
    (gl : GLState) (submesh : Submesh) (a : VertexShaderAttribute)
    (hsub : mesh.submeshes[i]? = some submesh)
    (hmiss : ∀ v ∈ submesh.vaos, v.programHandle ≠ program.handle)
    (ha : a ∈ program.vertexInputLayout.attributes)
    (hno : ∀ b ∈ submesh.vertexBufferLayout.attributes, b.location ≠ a.location) :
    FindVAO mesh i program gl = .error .assertion := by
  simp only [FindVAO, hsub, findCachedVao_eq_none _ _ hmiss]
  rw [linkAttributes_missing submesh _ _ a ha hno]

theorem FindVAO_missing_location_asserts_witness :
    FindVAO sampleMesh 0 sampleProgramTangents sampleGL = .error .assertion :=
  FindVAO_missing_location_asserts sampleMesh 0 sampleProgramTangents sampleGL sampleSubmesh
    ⟨4, 3⟩ rfl (by decide) (by decide) (by decide)

/-- C3: on a cache miss where every location of the input layout of the
program occurs in the layout of the submesh, `FindVAO` returns, and the
commands it issues are: generate and bind the VAO, bind the two buffers of the
mesh, then for each attribute of the program, in layout order, one
`glVertexAttribPointer` followed by its enable, then unbind.  The list `bs`
holds, for each attribute of the program, the first attribute of the submesh
with the same location; its pointer command carries that location, the
component count of the submesh attribute, the stride of the submesh layout and
the offset `attribute offset + vertexOffset` in 32-bit unsigned arithmetic. -/
theorem FindVAO_miss_bindings (mesh : Mesh) (i : Nat) (program : Program)
    (gl : GLState) (submesh : Submesh)
    (hsub : mesh.submeshes[i]? = some submesh)
    (hmiss : ∀ v ∈ submesh.vaos, v.programHandle ≠ program.handle)
    (hall : ∀ a ∈ program.vertexInputLayout.attributes,
      ∃ b ∈ submesh.vertexBufferLayout.attributes, b.location = a.location) :
    ∃ bs h mesh1 gl1,
      FindVAO mesh i program gl = .ok (h, mesh1, gl1) ∧
      List.Forall₂ (fun a b => submesh.vertexBufferLayout.attributes.find?
        (fun c => decide (c.location = a.location)) = some b ∧ b.location = a.location)
        program.vertexInputLayout.attributes bs ∧
      bs.length = program.vertexInputLayout.attributes.length ∧
      gl1.calls = gl.calls ++
        ([.glGenVertexArrays h, .glBindVertexArray h,
          .glBindBuffer .GL_ARRAY_BUFFER mesh.vertexBufferHandle,
          .glBindBuffer .GL_ELEMENT_ARRAY_BUFFER mesh.indexBufferHandle] ++
         bs.flatMap (fun b =>
          [.glVertexAttribPointer b.location b.componentCount .GL_FLOAT false
              submesh.vertexBufferLayout.stride ((b.offset + submesh.vertexOffset) % 2 ^ 32),
           .glEnableVertexAttribArray b.location]) ++
         [.glBindVertexArray 0]) ∧
      vertexAttribPointers (gl1.calls.drop gl.calls.length) =
        bs.map (fun b => GLCall.glVertexAttribPointer b.location b.componentCount .GL_FLOAT
          false submesh.vertexBufferLayout.stride
          ((b.offset + submesh.vertexOffset) % 2 ^ 32)) := by
  obtain ⟨bs, hbs⟩ := exists_first_matches _ _ hall
  have hbs2 : List.Forall₂ (fun a b => submesh.vertexBufferLayout.attributes.find?
      (fun c => decide (c.location = a.location)) = some b ∧ b.location = a.location)
      program.vertexInputLayout.attributes bs := by
    refine hbs.imp ?_
    intro a b hab
    exact ⟨hab, by simpa using List.find?_some hab⟩
  refine ⟨bs, gl.vertexArrays + 1, _, _, FindVAO_miss_eq mesh i program gl submesh bs hsub
    hmiss hbs, hbs2, hbs2.length_eq.symm, ?_, ?_⟩
  · simp [attributeBinding_def, List.append_assoc]
  · simp only [List.drop_left, attributeBinding_def]
    simp only [vertexAttribPointers, List.filter_append]
    have h3 := vertexAttribPointers_flatMap submesh bs
    simp only [vertexAttribPointers, attributeBinding_def] at h3
    rw [h3]
    simp

theorem FindVAO_miss_bindings_witness :
    ∃ bs h mesh1 gl1,
      FindVAO sampleMesh 0 sampleProgram sampleGL = .ok (h, mesh1, gl1) ∧
      List.Forall₂ (fun a b => sampleSubmesh.vertexBufferLayout.attributes.find?
        (fun c => decide (c.location = a.location)) = some b ∧ b.location = a.location)
        sampleProgram.vertexInputLayout.attributes bs ∧
      bs.length = sampleProgram.vertexInputLayout.attributes.length ∧
      gl1.calls = sampleGL.calls ++
        ([.glGenVertexArrays h, .glBindVertexArray h,
          .glBindBuffer .GL_ARRAY_BUFFER sampleMesh.vertexBufferHandle,
          .glBindBuffer .GL_ELEMENT_ARRAY_BUFFER sampleMesh.indexBufferHandle] ++
         bs.flatMap (fun b =>
          [.glVertexAttribPointer b.location b.componentCount .GL_FLOAT false
              sampleSubmesh.vertexBufferLayout.stride
              ((b.offset + sampleSubmesh.vertexOffset) % 2 ^ 32),
           .glEnableVertexAttribArray b.location]) ++
         [.glBindVertexArray 0]) ∧
      vertexAttribPointers (gl1.calls.drop sampleGL.calls.length) =
        bs.map (fun b => GLCall.glVertexAttribPointer b.location b.componentCount .GL_FLOAT
          false sampleSubmesh.vertexBufferLayout.stride
          ((b.offset + sampleSubmesh.vertexOffset) % 2 ^ 32)) :=
  FindVAO_miss_bindings sampleMesh 0 sampleProgram sampleGL sampleSubmesh rfl
    (by decide) (by decide)

/-! ## Lemmas on `LoadTexture2D` -/

theorem findTextureIdx_eq_none (path : String) (ts : List Texture) (k : Nat)
    (hnew : ∀ t ∈ ts, t.filepath ≠ path) : findTextureIdx path ts k = none := by
  induction ts generalizing k with
  | nil => rfl
  | cons t rest ih =>
    have ht : t.filepath ≠ path := hnew t (List.mem_cons_self _ _)
    simp only [findTextureIdx, ht, if_false]
    exact ih (k + 1) fun u hu => hnew u (List.mem_cons_of_mem _ hu)

theorem findTextureIdx_first (path : String) (ts : List Texture) (k : Nat)
    (hheld : ∃ t ∈ ts, t.filepath = path) :
    ∃ idx, findTextureIdx path ts k = some (k + idx) ∧
      (∃ t, ts[idx]? = some t ∧ t.filepath = path) ∧
      ∀ j, j < idx → ∀ u, ts[j]? = some u → u.filepath ≠ path := by
  induction ts generalizing k with
  | nil =>
    obtain ⟨t, ht, _⟩ := hheld
    cases ht
  | cons t rest ih =>
    by_cases ht : t.filepath = path
    · refine ⟨0, by simp [findTextureIdx, ht], ⟨t, by simp, ht⟩, ?_⟩
      intro j hj
      omega
    · have hrest : ∃ u ∈ rest, u.filepath = path := by
        obtain ⟨u, hu, hup⟩ := hheld
        rcases List.mem_cons.1 hu with rfl | hin
        · exact absurd hup ht
        · exact ⟨u, hin, hup⟩
      obtain ⟨idx, hfind, ⟨u, hu, hup⟩, hbefore⟩ := ih (k + 1) hrest
      refine ⟨idx + 1, ?_, ⟨u, by simpa using hu, hup⟩, ?_⟩
      · simp only [findTextureIdx, ht, if_false, hfind]
        congr 1
        omega
      · intro j hj v hv
        cases j with
        | zero =>
          simp only [List.getElem?_cons_zero, Option.some.injEq] at hv
          subst hv
          exact ht
        | succ j =>
          simp only [List.getElem?_cons_succ] at hv
          exact hbefore j (by omega) v hv

theorem findTextureIdx_append_new (path : String) (h : Nat) (ts : List Texture) (k : Nat)
    (hnew : ∀ t ∈ ts, t.filepath ≠ path) :
    findTextureIdx path (ts ++ [{ handle := h, filepath := path }]) k = some (k + ts.length) := by
  induction ts generalizing k with
  | nil => simp [findTextureIdx]
  | cons t rest ih =>
    have ht : t.filepath ≠ path := hnew t (List.mem_cons_self _ _)
    rw [List.cons_append]
    simp only [findTextureIdx, ht, if_false, List.length_cons]
    rw [ih (k + 1) fun u hu => hnew u (List.mem_cons_of_mem _ hu)]
    congr 1
    omega

/-- The result of `LoadTexture2D` for a path that no entry holds and whose
image loads. -/
theorem LoadTexture2D_fresh (stbi_load : String → StbiResult) (app : App) (gl : GLState)
    (path : String) (hnew : ∀ t ∈ app.textures, t.filepath ≠ path)
    (hload : (stbi_load path).pixels ≠ 0) :
    LoadTexture2D stbi_load app gl path =
      (app.textures.length % 2 ^ 32,
       { app with textures := app.textures ++ [{ handle := gl.textures + 1, filepath := path }] },
       (CreateTexture2DFromImage (LoadImage stbi_load path) gl).2) := by
  have hpix : (LoadImage stbi_load path).pixels ≠ 0 := by
    simp [LoadImage, hload]
  simp only [LoadTexture2D, findTextureIdx_eq_none path _ 0 hnew]
  rw [if_pos hpix]
  simp [CreateTexture2DFromImage, GLState.genTexture, GLState.issue]

/-- The result of `LoadTexture2D` for a path that some entry holds. -/
theorem LoadTexture2D_held (stbi_load : String → StbiResult) (app : App) (gl : GLState)
    (path : String) (hheld : ∃ t ∈ app.textures, t.filepath = path) :
    ∃ idx, LoadTexture2D stbi_load app gl path = (idx, app, gl) ∧
      (∃ t, app.textures[idx]? = some t ∧ t.filepath = path) ∧
      ∀ j, j < idx → ∀ u, app.textures[j]? = some u → u.filepath ≠ path := by
  obtain ⟨idx, hfind, hat, hbefore⟩ := findTextureIdx_first path app.textures 0 hheld
  rw [Nat.zero_add] at hfind
  exact ⟨idx, by simp [LoadTexture2D, hfind], hat, hbefore⟩

/-- C4: for a path that no registry entry holds and whose image file cannot
be loaded, `LoadTexture2D` returns `UINT32_MAX` and leaves the registry (and
the graphics state) unchanged. -/
theorem LoadTexture2D_load_failure (stbi_load : String → StbiResult) (app : App)
    (gl : GLState) (path : String)
    (hnew : ∀ t ∈ app.textures, t.filepath ≠ path)
    (hfail : (stbi_load path).pixels = 0) :
    LoadTexture2D stbi_load app gl path = (UINT32_MAX, app, gl) := by
  have hpix : (LoadImage stbi_load path).pixels = 0 := by
    simp [LoadImage, hfail]
  simp [LoadTexture2D, findTextureIdx_eq_none path _ 0 hnew, hpix]

theorem LoadTexture2D_load_failure_witness :
    LoadTexture2D sampleStbi sampleApp sampleGLTex "missing.png" =
      (4294967295, sampleApp, sampleGLTex) :=
  LoadTexture2D_load_failure sampleStbi sampleApp sampleGLTex "missing.png"
    (by decide) (by decide)

/-- C5: `LoadTexture2D` is deduplicated by path.  For a path that a registry
entry holds it returns the index of the first entry with that path and leaves
the registry and the graphics state unchanged.  Hence, for a loadable path
and a registry of fewer than `2^32` entries, a second load right after the
first returns the same index and leaves the registry as the first load left
it; when no entry held the path before, the registry has grown by exactly one
entry in total. -/
theorem LoadTexture2D_dedup (stbi_load : String → StbiResult) (app : App) (gl : GLState)
    (path : String) :
    ((∃ t ∈ app.textures, t.filepath = path) →
      ∃ idx, LoadTexture2D stbi_load app gl path = (idx, app, gl) ∧
        (∃ t, app.textures[idx]? = some t ∧ t.filepath = path) ∧
        ∀ j, j < idx → ∀ u, app.textures[j]? = some u → u.filepath ≠ path) ∧
    ((stbi_load path).pixels ≠ 0 → app.textures.length < 2 ^ 32 →
      (LoadTexture2D stbi_load (LoadTexture2D stbi_load app gl path).2.1
          (LoadTexture2D stbi_load app gl path).2.2 path).1 =
        (LoadTexture2D stbi_load app gl path).1 ∧
      (LoadTexture2D stbi_load (LoadTexture2D stbi_load app gl path).2.1
          (LoadTexture2D stbi_load app gl path).2.2 path).2.1 =
        (LoadTexture2D stbi_load app gl path).2.1 ∧
      ((∀ t ∈ app.textures, t.filepath ≠ path) →
        (LoadTexture2D stbi_load (LoadTexture2D stbi_load app gl path).2.1
          (LoadTexture2D stbi_load app gl path).2.2 path).2.1.textures.length =
          app.textures.length + 1)) := by
  refine ⟨LoadTexture2D_held stbi_load app gl path, ?_⟩
  intro hload hsize
  by_cases hheld : ∃ t ∈ app.textures, t.filepath = path
  · obtain ⟨idx, hres, _, _⟩ := LoadTexture2D_held stbi_load app gl path hheld
    simp only [hres, true_and]
    intro hnew
    obtain ⟨t, ht, htp⟩ := hheld
    exact absurd htp (hnew t ht)
  · have hnew : ∀ t ∈ app.textures, t.filepath ≠ path := by
      intro t ht htp
      exact hheld ⟨t, ht, htp⟩
    have hfresh := LoadTexture2D_fresh stbi_load app gl path hnew hload
    have hsecond : ∀ gl1, LoadTexture2D stbi_load
        { app with textures := app.textures ++ [{ handle := gl.textures + 1, filepath := path }] }
        gl1 path = (app.textures.length,
        { app with textures := app.textures ++ [{ handle := gl.textures + 1, filepath := path }] },
        gl1) := by
      intro gl1
      have := findTextureIdx_append_new path (gl.textures + 1) app.textures 0 hnew
      rw [Nat.zero_add] at this
      simp [LoadTexture2D, this]
    rw [hfresh]
    simp only [hsecond, Nat.mod_eq_of_lt hsize, true_and]
    intro _
    simp

theorem LoadTexture2D_dedup_witness :
    (∃ idx, LoadTexture2D sampleStbi sampleApp sampleGLTex "dice.png" =
        (idx, sampleApp, sampleGLTex) ∧
      (∃ t, sampleApp.textures[idx]? = some t ∧ t.filepath = "dice.png") ∧
      ∀ j, j < idx → ∀ u, sampleApp.textures[j]? = some u → u.filepath ≠ "dice.png") ∧
    ((LoadTexture2D sampleStbi (LoadTexture2D sampleStbi sampleApp sampleGLTex "toy.png").2.1
        (LoadTexture2D sampleStbi sampleApp sampleGLTex "toy.png").2.2 "toy.png").1 =
      (LoadTexture2D sampleStbi sampleApp sampleGLTex "toy.png").1 ∧
     (LoadTexture2D sampleStbi (LoadTexture2D sampleStbi sampleApp sampleGLTex "toy.png").2.1
        (LoadTexture2D sampleStbi sampleApp sampleGLTex "toy.png").2.2 "toy.png").2.1 =
      (LoadTexture2D sampleStbi sampleApp sampleGLTex "toy.png").2.1 ∧
     (LoadTexture2D sampleStbi (LoadTexture2D sampleStbi sampleApp sampleGLTex "toy.png").2.1
        (LoadTexture2D sampleStbi sampleApp sampleGLTex "toy.png").2.2
        "toy.png").2.1.textures.length = sampleApp.textures.length + 1) :=
  ⟨(LoadTexture2D_dedup sampleStbi sampleApp sampleGLTex "dice.png").1
      ⟨⟨1, "dice.png"⟩, by decide, rfl⟩,
    ((LoadTexture2D_dedup sampleStbi sampleApp sampleGLTex "toy.png").2
      (by decide) (by decide)).1,
    ((LoadTexture2D_dedup sampleStbi sampleApp sampleGLTex "toy.png").2
      (by decide) (by decide)).2.1,
    ((LoadTexture2D_dedup sampleStbi sampleApp sampleGLTex "toy.png").2
      (by decide) (by decide)).2.2 (by decide)⟩

/-- C6: for a path that no registry entry holds and whose image loads, in a
registry of fewer than `2^32 - 1` entries, `LoadTexture2D` appends exactly one
entry, carrying the path, returns the index of that entry, which is the
previous size of the registry (0 for the first texture), keeps every earlier
entry at its index, and the returned index differs from `UINT32_MAX`. -/
theorem LoadTexture2D_appends (stbi_load : String → StbiResult) (app : App) (gl : GLState)
    (path : String)
    (hnew : ∀ t ∈ app.textures, t.filepath ≠ path)
    (hload : (stbi_load path).pixels ≠ 0)
    (hsize : app.textures.length < 2 ^ 32 - 1) :
    ∃ handle app1 gl1,
      LoadTexture2D stbi_load app gl path = (app.textures.length, app1, gl1) ∧
      app1.textures = app.textures ++ [{ handle := handle, filepath := path }] ∧
      app1.textures.length = app.textures.length + 1 ∧
      app1.textures[app.textures.length]? = some { handle := handle, filepath := path } ∧
      (∀ j, j < app.textures.length → app1.textures[j]? = app.textures[j]?) ∧
      app.textures.length ≠ UINT32_MAX ∧
      (app.textures = [] → (LoadTexture2D stbi_load app gl path).1 = 0) := by
  have hfresh := LoadTexture2D_fresh stbi_load app gl path hnew hload
  have hmod : app.textures.length % 2 ^ 32 = app.textures.length :=
    Nat.mod_eq_of_lt (by omega)
  rw [hmod] at hfresh
  refine ⟨gl.textures + 1, _, _, hfresh, rfl, by simp, by simp, ?_, ?_, ?_⟩
  · intro j hj
    simp [List.getElem?_append_left hj]
  · simp only [UINT32_MAX]
    omega
  · intro hempty
    rw [hfresh]
    simp [hempty]

theorem LoadTexture2D_appends_witness :
    (∃ handle app1 gl1,
      LoadTexture2D sampleStbi sampleApp sampleGLTex "toy.png" =
        (sampleApp.textures.length, app1, gl1) ∧
      app1.textures = sampleApp.textures ++ [{ handle := handle, filepath := "toy.png" }] ∧
      app1.textures.length = sampleApp.textures.length + 1 ∧
      app1.textures[sampleApp.textures.length]? =
        some { handle := handle, filepath := "toy.png" } ∧
      (∀ j, j < sampleApp.textures.length → app1.textures[j]? = sampleApp.textures[j]?) ∧
      sampleApp.textures.length ≠ UINT32_MAX ∧
      (sampleApp.textures = [] →
        (LoadTexture2D sampleStbi sampleApp sampleGLTex "toy.png").1 = 0)) ∧
    (LoadTexture2D sampleStbi emptyApp sampleGL "dice.png").1 = 0 :=
  ⟨LoadTexture2D_appends sampleStbi sampleApp sampleGLTex "toy.png" (by decide) (by decide)
      (by decide),
    match LoadTexture2D_appends sampleStbi emptyApp sampleGL "dice.png" (by decide) (by decide)
      (by decide) with
    | ⟨_, _, _, _, _, _, _, _, _, hfirst⟩ => hfirst rfl⟩

/-! ## The linear uniform allocator -/

theorem AlignHead_head (buffer : Buffer) (n : Nat) :
    (AlignHead buffer n).head =
      if buffer.head % n = 0 then buffer.head else (buffer.head / n + 1) * n := by
  unfold AlignHead
  split <;> rfl

theorem AlignHead_size (buffer : Buffer) (n : Nat) : (AlignHead buffer n).size = buffer.size := by
  unfold AlignHead
  split <;> rfl

theorem AlignHead_data (buffer : Buffer) (n : Nat) : (AlignHead buffer n).data = buffer.data := by
  unfold AlignHead
  split <;> rfl

theorem AlignHead_dvd (buffer : Buffer) (n : Nat) : n ∣ (AlignHead buffer n).head := by
  rw [AlignHead_head]
  split
  · rename_i h
    exact Nat.dvd_of_mod_eq_zero h
  · exact Dvd.intro_left _ rfl

theorem AlignHead_le (buffer : Buffer) (n : Nat) (hn : 0 < n) :
    buffer.head ≤ (AlignHead buffer n).head := by
  rw [AlignHead_head]
  split
  · exact le_refl _
  · have h1 := Nat.div_add_mod buffer.head n
    have h2 := Nat.mod_lt buffer.head hn
    have h3 : (buffer.head / n + 1) * n = n * (buffer.head / n) + n := by ring
    omega

theorem AlignHead_least (buffer : Buffer) (n m : Nat) (hdvd : n ∣ m)
    (hle : buffer.head ≤ m) : (AlignHead buffer n).head ≤ m := by
  rw [AlignHead_head]
  split
  · exact hle
  · rename_i hmod
    obtain ⟨k, rfl⟩ := hdvd
    have h1 := Nat.div_add_mod buffer.head n
    have hk : buffer.head / n + 1 ≤ k := by
      by_contra hlt
      have hk2 : k ≤ buffer.head / n := by omega
      have h4 : n * k ≤ n * (buffer.head / n) := Nat.mul_le_mul_left n hk2
      omega
    calc (buffer.head / n + 1) * n = n * (buffer.head / n + 1) := Nat.mul_comm _ _
      _ ≤ n * k := Nat.mul_le_mul_left n hk

/-- C7: for every head `h` and every alignment `n > 0`, `AlignHead` leaves in
`head` the least multiple of `n` that is at least `h`, changes no other field
of the buffer, and changes nothing at all when `h` is a multiple of `n`. -/
theorem AlignHead_least_multiple (buffer : Buffer) (n : Nat) (hn : 0 < n) :
    n ∣ (AlignHead buffer n).head ∧
    buffer.head ≤ (AlignHead buffer n).head ∧
    (∀ m, n ∣ m → buffer.head ≤ m → (AlignHead buffer n).head ≤ m) ∧
    (n ∣ buffer.head → (AlignHead buffer n).head = buffer.head) ∧
    AlignHead buffer n = { buffer with head := (AlignHead buffer n).head } := by
  refine ⟨AlignHead_dvd buffer n, AlignHead_le buffer n hn,
    fun m hdvd hle => AlignHead_least buffer n m hdvd hle, ?_, ?_⟩
  · intro hdvd
    rw [AlignHead_head, if_pos (Nat.mod_eq_zero_of_dvd hdvd)]
  · unfold AlignHead
    split <;> rfl

theorem AlignHead_least_multiple_witness :
    (16 ∣ (AlignHead sampleBufferMapped 16).head ∧
     sampleBufferMapped.head ≤ (AlignHead sampleBufferMapped 16).head ∧
     (∀ m, 16 ∣ m → sampleBufferMapped.head ≤ m → (AlignHead sampleBufferMapped 16).head ≤ m) ∧
     (16 ∣ sampleBufferMapped.head →
       (AlignHead sampleBufferMapped 16).head = sampleBufferMapped.head) ∧
     AlignHead sampleBufferMapped 16 =
       { sampleBufferMapped with head := (AlignHead sampleBufferMapped 16).head }) ∧
    (AlignHead sampleBufferMapped 16).head = 16 ∧
    (AlignHead sampleBufferAligned 16).head = sampleBufferAligned.head :=
  ⟨AlignHead_least_multiple sampleBufferMapped 16 (by decide), rfl,
    (AlignHead_least_multiple sampleBufferAligned 16 (by decide)).2.2.2.1 (by decide)⟩

/-- C8: `AlignHead` is idempotent: for every buffer and every alignment
`n > 0`, aligning twice to `n` gives the same buffer, and so the same head, as
aligning once. -/
theorem AlignHead_idempotent (buffer : Buffer) (n : Nat) (hn : 0 < n) :
    AlignHead (AlignHead buffer n) n = AlignHead buffer n ∧
    (AlignHead (AlignHead buffer n) n).head = (AlignHead buffer n).head := by
  have hhead : (AlignHead (AlignHead buffer n) n).head = (AlignHead buffer n).head :=
    le_antisymm
      (AlignHead_least (AlignHead buffer n) n _ (AlignHead_dvd buffer n) (le_refl _))
      (AlignHead_le (AlignHead buffer n) n hn)
  have hrest : AlignHead (AlignHead buffer n) n =
      { AlignHead buffer n with head := (AlignHead (AlignHead buffer n) n).head } := by
    rw [AlignHead.eq_1 (AlignHead buffer n)]
    split <;> rfl
  refine ⟨?_, hhead⟩
  rw [hrest, hhead]

theorem AlignHead_idempotent_witness :
    AlignHead (AlignHead sampleBufferMapped 16) 16 = AlignHead sampleBufferMapped 16 ∧
    (AlignHead (AlignHead sampleBufferMapped 16) 16).head =
      (AlignHead sampleBufferMapped 16).head :=
  AlignHead_idempotent sampleBufferMapped 16 (by decide)

theorem writeBytes_inside (region : Nat → Nat) (offset : Nat) (bytes : List Nat) (k : Nat)
    (hk : k < bytes.length) : writeBytes region offset bytes (offset + k) = bytes.getD k 0 := by
  have h1 : offset ≤ offset + k ∧ offset + k < offset + bytes.length := ⟨by omega, by omega⟩
  simp only [writeBytes, h1, and_self, if_true, Nat.add_sub_cancel_left]

theorem writeBytes_outside (region : Nat → Nat) (offset : Nat) (bytes : List Nat) (i : Nat)
    (hi : i < offset ∨ offset + bytes.length ≤ i) : writeBytes region offset bytes i = region i := by
  have h1 : ¬ (offset ≤ i ∧ i < offset + bytes.length) := by omega
  simp only [writeBytes, h1, if_false]

theorem Push_ok (buffer : Buffer) (bytes : List Nat)
    (hle : buffer.head + bytes.length ≤ buffer.size) :
    Push buffer bytes = .ok (buffer.head,
      { buffer with
        data := buffer.data.map fun region => writeBytes region buffer.head bytes
        head := buffer.head + bytes.length }) := by
  have hng : ¬ buffer.head + bytes.length > buffer.size := by omega
  simp only [Push, hng, if_false]

/-- C9: on a mapped buffer, `Push` returns exactly when
`head + len(bytes) <= size`.  It then returns the old head as the offset,
leaves `head = old head + len(bytes)`, holds the pushed bytes at the offsets
from the old head on and leaves every other byte of the region, and the size,
as they were.  When `head + len(bytes) > size` it ends in the capacity
error. -/
theorem Push_contract (buffer : Buffer) (region : Nat → Nat) (bytes : List Nat)
    (hmapped : buffer.data = some region) :
    ((∃ offset buffer1, Push buffer bytes = .ok (offset, buffer1)) ↔
      buffer.head + bytes.length ≤ buffer.size) ∧
    (buffer.head + bytes.length ≤ buffer.size →
      ∃ buffer1 region1, Push buffer bytes = .ok (buffer.head, buffer1) ∧
        buffer1.head = buffer.head + bytes.length ∧
        buffer1.size = buffer.size ∧
        buffer1.data = some region1 ∧
        (∀ k, k < bytes.length → region1 (buffer.head + k) = bytes.getD k 0) ∧
        (∀ i, i < buffer.head ∨ buffer.head + bytes.length ≤ i → region1 i = region i)) ∧
    (buffer.head + bytes.length > buffer.size → Push buffer bytes = .error .capacity) := by
  refine ⟨⟨?_, ?_⟩, ?_, ?_⟩
  · rintro ⟨offset, buffer1, hok⟩
    by_contra hgt
    have hgt2 : buffer.head + bytes.length > buffer.size := by omega
    simp [Push, hgt2] at hok
  · intro hle
    exact ⟨_, _, Push_ok buffer bytes hle⟩
  · intro hle
    refine ⟨_, writeBytes region buffer.head bytes, Push_ok buffer bytes hle,
      rfl, rfl, by simp [hmapped], ?_, ?_⟩
    · intro k hk
      exact writeBytes_inside region buffer.head bytes k hk
    · intro i hi
      exact writeBytes_outside region buffer.head bytes i hi
  · intro hgt
    simp only [Push, hgt, if_true]

theorem Push_contract_witness :
    ((∃ offset buffer1, Push sampleBufferMapped [1, 2, 3, 4] = .ok (offset, buffer1)) ↔
      sampleBufferMapped.head + [1, 2, 3, 4].length ≤ sampleBufferMapped.size) ∧
    (∃ buffer1 region1, Push sampleBufferMapped [1, 2, 3, 4] =
          .ok (sampleBufferMapped.head, buffer1) ∧
        buffer1.head = sampleBufferMapped.head + [1, 2, 3, 4].length ∧
        buffer1.size = sampleBufferMapped.size ∧
        buffer1.data = some region1 ∧
        (∀ k, k < [1, 2, 3, 4].length →
          region1 (sampleBufferMapped.head + k) = [1, 2, 3, 4].getD k 0) ∧
        (∀ i, i < sampleBufferMapped.head ∨ sampleBufferMapped.head + [1, 2, 3, 4].length ≤ i →
          region1 i = (fun _ => 0) i)) ∧
    Push sampleBufferFull [1, 2, 3, 4] = .error .capacity :=
  ⟨(Push_contract sampleBufferMapped (fun _ => 0) [1, 2, 3, 4] rfl).1,
    (Push_contract sampleBufferMapped (fun _ => 0) [1, 2, 3, 4] rfl).2.1 (by decide),
    (Push_contract sampleBufferFull (fun _ => 0) [1, 2, 3, 4] rfl).2.2 (by decide)⟩

/-! ## Frames: basic lemmas -/

theorem bind_eq_ok {α β : Type} (x : Except Abort α) (f : α → Except Abort β) (b : β) :
    (x >>= f) = .ok b ↔ ∃ a, x = .ok a ∧ f a = .ok b := by
  cases x <;> simp [bind, Except.bind]

theorem lookup_eq_ok {α : Type} (xs : List α) (i : Nat) (x : α) :
    lookup xs i = .ok x ↔ xs[i]? = some x := by
  cases h : xs[i]? <;> simp [lookup, h]

@[simp] theorem World.issue_calls (w : World) (c : GLCall) :
    (w.issue c).gl.calls = w.gl.calls ++ [c] := rfl

@[simp] theorem World.issue_app (w : World) (c : GLCall) : (w.issue c).app = w.app := rfl

@[simp] theorem World.issue_globals (w : World) (c : GLCall) :
    (w.issue c).globals = w.globals := rfl

@[simp] theorem World.issue_log (w : World) (c : GLCall) : (w.issue c).log = w.log := rfl

@[simp] theorem events_nil : events [] = [] := rfl

@[simp] theorem events_append (a b : List GLCall) : events (a ++ b) = events a ++ events b :=
  List.filter_append a b

theorem events_cons (c : GLCall) (cs : List GLCall) :
    events (c :: cs) = if isEvent c then c :: events cs else events cs := by
  simp only [events, List.filter_cons]

theorem frameCalls_append (w w1 : World) (seg : List GLCall)
    (h : w1.gl.calls = w.gl.calls ++ seg) : frameCalls w w1 = seg := by
  simp [frameCalls, h]

theorem events_attributeBindings (submesh : Submesh) (bs : List VertexBufferAttribute) :
    events (bs.flatMap (attributeBinding submesh)) = [] := by
  induction bs with
  | nil => rfl
  | cons b rest ih =>
    simp only [List.flatMap_cons, events_append, ih]
    rfl

theorem linkAttribute_calls (submesh : Submesh) (a : VertexShaderAttribute)
    (attrs : List VertexBufferAttribute) (gl : GLState) :
    ∃ seg, (linkAttribute submesh a attrs gl).2.calls = gl.calls ++ seg ∧ events seg = [] := by
  rw [linkAttribute_eq]
  split
  · exact ⟨[], by simp, rfl⟩
  · rename_i b _
    exact ⟨attributeBinding submesh b, rfl, rfl⟩

theorem linkAttributes_calls (submesh : Submesh) (attrs : List VertexShaderAttribute)
    (gl gl1 : GLState) (hok : linkAttributes submesh attrs gl = .ok gl1) :
    ∃ seg, gl1.calls = gl.calls ++ seg ∧ events seg = [] := by
  induction attrs generalizing gl with
  | nil =>
    simp only [linkAttributes, Except.ok.injEq] at hok
    subst hok
    exact ⟨[], by simp, rfl⟩
  | cons a rest ih =>
    simp only [linkAttributes] at hok
    split at hok
    · cases hok
    · rename_i gl2 hlink
      obtain ⟨seg1, h1, e1⟩ := linkAttribute_calls submesh a submesh.vertexBufferLayout.attributes gl
      rw [hlink] at h1
      obtain ⟨seg2, h2, e2⟩ := ih gl2 hok
      exact ⟨seg1 ++ seg2, by rw [h2, h1, List.append_assoc], by simp [e1, e2]⟩

/-- What a call of `FindVAO` that returns changes: it issues no event, and it
leaves the mesh as it is up to the VAO cache of the submesh. -/
theorem FindVAO_effect (mesh : Mesh) (i : Nat) (program : Program) (gl : GLState)
    (h : Nat) (mesh1 : Mesh) (gl1 : GLState)
    (hok : FindVAO mesh i program gl = .ok (h, mesh1, gl1)) :
    (∃ seg, gl1.calls = gl.calls ++ seg ∧ events seg = []) ∧
    (mesh1.submeshes.map fun s => (s.indices.length, s.indexOffset)) =
      (mesh.submeshes.map fun s => (s.indices.length, s.indexOffset)) := by
  unfold FindVAO at hok
  split at hok
  · cases hok
  · rename_i submesh hsub
    split at hok
    · simp only [Except.ok.injEq, Prod.mk.injEq] at hok
      obtain ⟨_, rfl, rfl⟩ := hok
      exact ⟨⟨[], by simp, rfl⟩, rfl⟩
    · simp only at hok
      split at hok
      · cases hok
      · rename_i gl2 hlink
        simp only [Except.ok.injEq, Prod.mk.injEq] at hok
        obtain ⟨_, rfl, rfl⟩ := hok
        obtain ⟨seg, hseg, hev⟩ := linkAttributes_calls submesh _ _ gl2 hlink
        refine ⟨⟨[.glGenVertexArrays (gl.vertexArrays + 1),
          .glBindVertexArray (gl.vertexArrays + 1),
          .glBindBuffer .GL_ARRAY_BUFFER mesh.vertexBufferHandle,
          .glBindBuffer .GL_ELEMENT_ARRAY_BUFFER mesh.indexBufferHandle] ++ seg ++
          [.glBindVertexArray 0], ?_, ?_⟩, ?_⟩
        · simp [GLState.issue, hseg, GLState.genVertexArray]
        · simp only [events_append, hev]
          rfl
        · apply List.ext_getElem?
          intro j
          simp only [List.getElem?_map, List.getElem?_set]
          by_cases hj : i = j
          · subst hj
            have hlt : i < mesh.submeshes.length := (List.getElem?_eq_some.1 hsub).1
            simp [hlt, hsub]
          · simp [hj]



theorem bytesOfU32_length (v : Nat) : (bytesOfU32 v).length = 4 := rfl

theorem bytesOfVec3_length (v : vec3) : (bytesOfVec3 v).length = 12 := rfl

theorem bytesOfMat4_length (m : mat4) : (bytesOfMat4 m).length = 64 := by
  simp [bytesOfMat4, List.range, List.range.loop, bytesOfU32]

/-- What a `push` that returns does to the buffer. -/
theorem Push_map_ok (buffer buffer1 : Buffer) (bytes : List Nat)
    (hok : (Push buffer bytes).map Prod.snd = .ok buffer1) :
    buffer.head + bytes.length ≤ buffer.size ∧
    buffer1 = { buffer with
      data := buffer.data.map fun region => writeBytes region buffer.head bytes
      head := buffer.head + bytes.length } := by
  unfold Push at hok
  split at hok
  · cases hok
  · rename_i hng
    simp only [Except.map, Except.ok.injEq] at hok
    exact ⟨by omega, hok.symm⟩

theorem meshGeometry_set (meshes : List Mesh) (k : Nat) (mesh mesh1 : Mesh)
    (hmesh : meshes[k]? = some mesh)
    (hgeo : (mesh1.submeshes.map fun s => (s.indices.length, s.indexOffset)) =
      (mesh.submeshes.map fun s => (s.indices.length, s.indexOffset))) :
    meshGeometry (meshes.set k mesh1) = meshGeometry meshes := by
  apply List.ext_getElem?
  intro j
  simp only [meshGeometry, List.getElem?_map, List.getElem?_set]
  by_cases hj : k = j
  · subst hj
    have hlt : k < meshes.length := (List.getElem?_eq_some.1 hmesh).1
    simp [hlt, hmesh, hgeo]
  · simp [hj]

theorem drawSubmesh_effect (location : Int) (model : Model) (program : Program) (i : Nat)
    (w w1 : World) (hok : drawSubmesh location model program i w = .ok w1) :
    (∃ seg subs s, w1.gl.calls = w.gl.calls ++ seg ∧
      (meshGeometry w.app.meshes)[model.meshIdx]? = some subs ∧ subs[i]? = some s ∧
      events seg = [.glDrawElements .GL_TRIANGLES s.1 .GL_UNSIGNED_INT s.2]) ∧
    w1.app = { w.app with meshes := w1.app.meshes } ∧
    meshGeometry w1.app.meshes = meshGeometry w.app.meshes ∧
    w1.globals = w.globals ∧ w1.log = w.log := by
  simp only [drawSubmesh, bind_eq_ok, lookup_eq_ok] at hok
  obtain ⟨mesh, hmesh, ⟨vao, mesh1, gl1⟩, hfind, matIdx, hmat, material, hmaterial,
    texture, htex, submesh, hsubmesh, hw⟩ := hok
  simp only [Except.ok.injEq] at hw
  subst hw
  obtain ⟨⟨seg, hseg, hev⟩, hgeo⟩ := FindVAO_effect mesh i program w.gl vao mesh1 gl1 hfind
  have hsub : (mesh.submeshes.map fun s => (s.indices.length, s.indexOffset))[i]? =
      some (submesh.indices.length, submesh.indexOffset) := by
    rw [← hgeo]
    simp [hsubmesh]
  refine ⟨⟨seg ++ [.glBindVertexArray vao, .glActiveTexture .GL_TEXTURE0,
      .glBindTexture .GL_TEXTURE_2D texture.handle, .glUniform1i location 0,
      .glDrawElements .GL_TRIANGLES submesh.indices.length .GL_UNSIGNED_INT submesh.indexOffset],
    _, _, ?_, ?_, hsub, ?_⟩, rfl, ?_, rfl, rfl⟩
  · simp [World.issue, GLState.issue, hseg]
  · simp [meshGeometry, hmesh]
  · simp only [events_append, hev]
    rfl
  · simp only [World.issue_app]
    exact meshGeometry_set w.app.meshes model.meshIdx mesh mesh1 hmesh hgeo

theorem drawSubmeshes_effect (location : Int) (model : Model) (program : Program) (m : Nat) :
    ∀ (k : Nat) (w w1 : World) (subs : List (Nat × Nat)),
    (meshGeometry w.app.meshes)[model.meshIdx]? = some subs →
    drawSubmeshes location model program (List.range' k m) w = .ok w1 →
    (∃ seg, w1.gl.calls = w.gl.calls ++ seg ∧
      events seg = ((subs.drop k).take m).map fun s =>
        GLCall.glDrawElements .GL_TRIANGLES s.1 .GL_UNSIGNED_INT s.2) ∧
    w1.app = { w.app with meshes := w1.app.meshes } ∧
    meshGeometry w1.app.meshes = meshGeometry w.app.meshes ∧
    w1.globals = w.globals ∧ w1.log = w.log := by
  induction m with
  | zero =>
    intro k w w1 subs _ hok
    simp only [List.range'_zero, drawSubmeshes, Except.ok.injEq] at hok
    subst hok
    exact ⟨⟨[], by simp, by simp⟩, rfl, rfl, rfl, rfl⟩
  | succ m ih =>
    intro k w w1 subs hsubs hok
    simp only [List.range'_succ, drawSubmeshes, bind_eq_ok] at hok
    obtain ⟨w2, hstep, hrest⟩ := hok
    obtain ⟨⟨seg1, subs1, s, hc1, hsubs1, hs, he1⟩, happ1, hgeo1, hglob1, hlog1⟩ :=
      drawSubmesh_effect location model program k w w2 hstep
    rw [hsubs] at hsubs1
    cases hsubs1
    have hsubs2 : (meshGeometry w2.app.meshes)[model.meshIdx]? = some subs := by
      rw [hgeo1]
      exact hsubs
    obtain ⟨⟨seg2, hc2, he2⟩, happ2, hgeo2, hglob2, hlog2⟩ := ih (k + 1) w2 w1 subs hsubs2 hrest
    have hk : k < subs.length := (List.getElem?_eq_some.1 hs).1
    have hsk : subs[k] = s := (List.getElem?_eq_some.1 hs).2
    refine ⟨⟨seg1 ++ seg2, by rw [hc2, hc1, List.append_assoc], ?_⟩, ?_, ?_, ?_, ?_⟩
    · rw [events_append, he1, he2, List.drop_eq_getElem_cons hk, List.take_succ_cons, hsk]
      rfl
    · rw [happ2, happ1]
    · rw [hgeo2, hgeo1]
    · rw [hglob2, hglob1]
    · rw [hlog2, hlog1]

theorem AlignHead_handle (buffer : Buffer) (n : Nat) :
    (AlignHead buffer n).handle = buffer.handle := by
  unfold AlignHead
  split <;> rfl

theorem u32sub_add (a k : Nat) (hk : k < 2 ^ 32) : u32sub (a + k) a = k := by
  unfold u32sub
  have h1 := Nat.div_add_mod a (2 ^ 32)
  have h2 := Nat.mod_lt a (show 0 < 2 ^ 32 by norm_num)
  have h3 : a + k + 2 ^ 32 - a % 2 ^ 32 = k + 2 ^ 32 * (a / 2 ^ 32 + 1) := by
    have : 2 ^ 32 * (a / 2 ^ 32 + 1) = 2 ^ 32 * (a / 2 ^ 32) + 2 ^ 32 := by ring
    omega
  rw [h3, Nat.add_mul_mod_self_left, Nat.mod_eq_of_lt hk]

/-- What a typed push that returns does to the buffer. -/
theorem PushMat4_ok (buffer buffer1 : Buffer) (m : mat4) (hok : PushMat4 buffer m = .ok buffer1) :
    buffer1.head = buffer.head + 64 ∧ buffer1.handle = buffer.handle ∧
    buffer1.size = buffer.size ∧ (buffer.data.isSome → buffer1.data.isSome) := by
  obtain ⟨_, rfl⟩ := Push_map_ok buffer buffer1 (bytesOfMat4 m) hok
  refine ⟨by simp [bytesOfMat4_length], rfl, rfl, ?_⟩
  intro h
  simpa using h



theorem App.sameScene_refl (app : App) : app.sameScene app := rfl

theorem App.sameScene_trans {a b c : App} (h1 : a.sameScene b) (h2 : b.sameScene c) :
    a.sameScene c := by
  have h3 := congrArg (fun x => x.withScratch c.cBuffer c.entities c.meshes
    c.globalParamsOffset c.globalParamsSize) h1
  exact h2.trans h3

theorem renderEntity_effect (glm : Glm) (modelMatrix : Entity → mat4) (location : App → Int)
    (program : Program) (i : Nat) (w w1 : World)
    (hok : renderEntity glm modelMatrix location program i w = .ok w1) :
    ∃ e, w.app.entities[i]? = some e ∧
      w1.app.entities = w.app.entities.set i { e with
        localParamsOffset :=
          (AlignHead w.app.cBuffer w.app.uniformBlockAlignmentOffset.toNat).head
        localParamsSize := 128 } ∧
      (∃ seg, w1.gl.calls = w.gl.calls ++ seg ∧
        events seg =
          [.glBindBufferRange .GL_UNIFORM_BUFFER 0 w.app.cBuffer.handle
              w.app.globalParamsOffset w.app.globalParamsSize,
           .glBindBufferRange .GL_UNIFORM_BUFFER 1 w.app.cBuffer.handle
              (AlignHead w.app.cBuffer w.app.uniformBlockAlignmentOffset.toNat).head 128] ++
          entityDraws w.app.models (meshGeometry w.app.meshes) e.modelId) ∧
      w.app.sameScene w1.app ∧
      w1.app.globalParamsOffset = w.app.globalParamsOffset ∧
      w1.app.globalParamsSize = w.app.globalParamsSize ∧
      meshGeometry w1.app.meshes = meshGeometry w.app.meshes ∧
      w1.app.cBuffer.handle = w.app.cBuffer.handle ∧
      w1.app.cBuffer.size = w.app.cBuffer.size ∧
      (w.app.cBuffer.data.isSome → w1.app.cBuffer.data.isSome) ∧
      w1.globals = w.globals ∧ w1.log = w.log := by
  simp only [renderEntity, bind_eq_ok, lookup_eq_ok] at hok
  obtain ⟨e, he, model, hmodel, mesh, hmesh, b1, hb1, b2, hb2, hloop⟩ := hok
  obtain ⟨hh1, hd1, hs1, hm1⟩ := PushMat4_ok _ _ _ hb1
  obtain ⟨hh2, hd2, hs2, hm2⟩ := PushMat4_ok _ _ _ hb2
  have hsize : u32sub b2.head
      (AlignHead w.app.cBuffer w.app.uniformBlockAlignmentOffset.toNat).head = 128 := by
    rw [hh2, hh1, Nat.add_assoc]
    exact u32sub_add _ 128 (by norm_num)
  rw [hsize] at hloop
  have hsubs : (meshGeometry w.app.meshes)[model.meshIdx]? =
      some (mesh.submeshes.map fun s => (s.indices.length, s.indexOffset)) := by
    simp [meshGeometry, hmesh]
  rw [List.range_eq_range'] at hloop
  obtain ⟨⟨seg, hc, hev⟩, happ, hgeo, hglob, hlog⟩ :=
    drawSubmeshes_effect _ model program _ 0 _ w1 _ (by exact hsubs) hloop
  refine ⟨e, he, ?_, ⟨.glBindBufferRange .GL_UNIFORM_BUFFER 0 b2.handle
      w.app.globalParamsOffset w.app.globalParamsSize ::
    .glBindBufferRange .GL_UNIFORM_BUFFER 1 b2.handle
      (AlignHead w.app.cBuffer w.app.uniformBlockAlignmentOffset.toNat).head 128 :: seg,
    ?_, ?_⟩, ?_, ?_, ?_, ?_, ?_, ?_, ?_, ?_, ?_⟩
  · exact (congrArg App.entities happ).trans rfl
  · rw [hc]
    simp [World.issue, GLState.issue]
  · simp only [events_cons, isEvent, if_true, hev, List.drop_zero, List.cons_append,
      List.nil_append, hd2, hd1, AlignHead_handle]
    simp [entityDraws, hmodel, hsubs]
  · have hcb : w1.app.cBuffer = b2 := (congrArg App.cBuffer happ).trans rfl
    have hent := (congrArg App.entities happ).trans rfl
    have hoff : w1.app.globalParamsOffset = w.app.globalParamsOffset :=
      (congrArg App.globalParamsOffset happ).trans rfl
    have hsz : w1.app.globalParamsSize = w.app.globalParamsSize :=
      (congrArg App.globalParamsSize happ).trans rfl
    unfold App.sameScene App.withScratch
    rw [hcb, hent, hoff, hsz]
    exact happ
  · exact (congrArg App.globalParamsOffset happ).trans rfl
  · exact (congrArg App.globalParamsSize happ).trans rfl
  · exact hgeo.trans rfl
  · exact (congrArg (fun a => a.cBuffer.handle) happ).trans
      (hd2.trans (hd1.trans (AlignHead_handle _ _)))
  · exact (congrArg (fun a => a.cBuffer.size) happ).trans
      (hs2.trans (hs1.trans (AlignHead_size _ _)))
  · intro h
    have h2 : b2.data.isSome := hm2 (hm1 (by rw [AlignHead_data]; exact h))
    exact (congrArg (fun a => a.cBuffer.data.isSome) happ).trans h2
  · exact hglob.trans rfl
  · exact hlog.trans rfl

theorem entityEvents_cons (handle : Nat) (models : List Model) (geometry : List (List (Nat × Nat)))
    (off size : Nat) (e : Entity) (rest : List Entity) :
    entityEvents handle models geometry off size (e :: rest) =
      [.glBindBufferRange .GL_UNIFORM_BUFFER 0 handle off size,
       .glBindBufferRange .GL_UNIFORM_BUFFER 1 handle e.localParamsOffset e.localParamsSize] ++
      entityDraws models geometry e.modelId ++
      entityEvents handle models geometry off size rest := by
  simp [entityEvents, List.flatMap_cons]

/-- What the loop over the entities with indices `k, ..., k + m - 1` does when
it returns. -/
theorem renderEntities_effect (glm : Glm) (modelMatrix : Entity → mat4) (location : App → Int)
    (program : Program) (m : Nat) :
    ∀ (k : Nat) (w w1 : World),
    renderEntities glm modelMatrix location program (List.range' k m) w = .ok w1 →
    (∀ j, j < k → w1.app.entities[j]? = w.app.entities[j]?) ∧
    (∃ seg, w1.gl.calls = w.gl.calls ++ seg ∧
      events seg = entityEvents w.app.cBuffer.handle w.app.models (meshGeometry w.app.meshes)
        w.app.globalParamsOffset w.app.globalParamsSize ((w1.app.entities.drop k).take m)) ∧
    (∀ e ∈ (w1.app.entities.drop k).take m,
      w.app.uniformBlockAlignmentOffset.toNat ∣ e.localParamsOffset ∧ e.localParamsSize = 128) ∧
    w1.app.entities.length = w.app.entities.length ∧
    w.app.sameScene w1.app ∧
    w1.app.globalParamsOffset = w.app.globalParamsOffset ∧
    w1.app.globalParamsSize = w.app.globalParamsSize ∧
    meshGeometry w1.app.meshes = meshGeometry w.app.meshes ∧
    w1.app.cBuffer.handle = w.app.cBuffer.handle ∧
    w1.app.cBuffer.size = w.app.cBuffer.size ∧
    (w.app.cBuffer.data.isSome → w1.app.cBuffer.data.isSome) ∧
    w1.globals = w.globals ∧ w1.log = w.log := by
  induction m with
  | zero =>
    intro k w w1 hok
    simp only [List.range'_zero, renderEntities, Except.ok.injEq] at hok
    subst hok
    exact ⟨fun _ _ => rfl, ⟨[], by simp, by simp [entityEvents]⟩, by simp, rfl,
      App.sameScene_refl _, rfl, rfl, rfl, rfl, rfl, id, rfl, rfl⟩
  | succ m ih =>
    intro k w w1 hok
    simp only [List.range'_succ, renderEntities, bind_eq_ok] at hok
    obtain ⟨w2, hstep, hrest⟩ := hok
    obtain ⟨e, he, hent2, ⟨seg1, hc1, he1⟩, hsc1, hoff1, hsz1, hgeo1, hh1, hs1, hd1, hg1, hl1⟩ :=
      renderEntity_effect glm modelMatrix location program k w w2 hstep
    obtain ⟨hpre, ⟨seg2, hc2, he2⟩, hal, hlen, hsc2, hoff2, hsz2, hgeo2, hh2, hs2, hd2, hg2, hl2⟩ :=
      ih (k + 1) w2 w1 hrest
    have hk : k < w.app.entities.length := (List.getElem?_eq_some.1 he).1
    have hmodels : w2.app.models = w.app.models := (congrArg App.models hsc1).trans rfl
    have halign : w2.app.uniformBlockAlignmentOffset = w.app.uniformBlockAlignmentOffset :=
      (congrArg App.uniformBlockAlignmentOffset hsc1).trans rfl
    have hlen2 : w2.app.entities.length = w.app.entities.length := by
      rw [hent2, List.length_set]
    have hk1 : w1.app.entities[k]? = some { e with
        localParamsOffset :=
          (AlignHead w.app.cBuffer w.app.uniformBlockAlignmentOffset.toNat).head
        localParamsSize := 128 } := by
      rw [hpre k (Nat.lt_succ_self k), hent2]
      simp [hk]
    have hklt : k < w1.app.entities.length := (List.getElem?_eq_some.1 hk1).1
    have hdrop : (w1.app.entities.drop k).take (m + 1) =
        { e with
          localParamsOffset :=
            (AlignHead w.app.cBuffer w.app.uniformBlockAlignmentOffset.toNat).head
          localParamsSize := 128 } :: (w1.app.entities.drop (k + 1)).take m := by
      rw [List.drop_eq_getElem_cons hklt, List.take_succ_cons,
        (List.getElem?_eq_some.1 hk1).2]
    refine ⟨?_, ⟨seg1 ++ seg2, by rw [hc2, hc1, List.append_assoc], ?_⟩, ?_, ?_, ?_, ?_, ?_, ?_,
      ?_, ?_, ?_, ?_, ?_⟩
    · intro j hj
      rw [hpre j (by omega), hent2]
      simp [show k ≠ j by omega]
    · rw [events_append, he1, he2, hdrop, entityEvents_cons, hh1, hmodels, hgeo1, hoff1, hsz1]
    · intro e1 he1mem
      rw [hdrop] at he1mem
      rcases List.mem_cons.1 he1mem with rfl | hmem
      · exact ⟨AlignHead_dvd _ _, rfl⟩
      · have := hal e1 hmem
        rw [halign] at this
        exact this
    · rw [hlen, hlen2]
    · exact App.sameScene_trans hsc1 hsc2
    · rw [hoff2, hoff1]
    · rw [hsz2, hsz1]
    · rw [hgeo2, hgeo1]
    · rw [hh2, hh1]
    · rw [hs2, hs1]
    · exact fun h => hd2 (hd1 h)
    · rw [hg2, hg1]
    · rw [hl2, hl1]


theorem Buffer.extendedBy_refl (b : Buffer) : b.extendedBy b :=
  ⟨rfl, rfl, le_refl _, fun region h => ⟨region, h, fun _ _ => rfl⟩⟩

theorem Buffer.extendedBy_trans {a b c : Buffer} (h1 : a.extendedBy b) (h2 : b.extendedBy c) :
    a.extendedBy c := by
  obtain ⟨hh1, hs1, hl1, hr1⟩ := h1
  obtain ⟨hh2, hs2, hl2, hr2⟩ := h2
  refine ⟨hh2.trans hh1, hs2.trans hs1, le_trans hl1 hl2, ?_⟩
  intro region hreg
  obtain ⟨region1, hreg1, hagree1⟩ := hr1 region hreg
  obtain ⟨region2, hreg2, hagree2⟩ := hr2 region1 hreg1
  exact ⟨region2, hreg2, fun i hi => (hagree2 i (by omega)).trans (hagree1 i hi)⟩

theorem AlignHead_extendedBy (b : Buffer) (n : Nat) (hn : 0 < n) :
    b.extendedBy (AlignHead b n) :=
  ⟨AlignHead_handle b n, AlignHead_size b n, AlignHead_le b n hn,
    fun region h => ⟨region, by rw [AlignHead_data]; exact h, fun _ _ => rfl⟩⟩

/-- A `push` that returns extends the buffer by the bytes pushed. -/
theorem Push_map_extendedBy (b b1 : Buffer) (bytes : List Nat)
    (hok : (Push b bytes).map Prod.snd = .ok b1) :
    b.extendedBy b1 ∧ b1.head = b.head + bytes.length ∧
    ∀ region1, b1.data = some region1 →
      ∀ k, k < bytes.length → region1 (b.head + k) = bytes.getD k 0 := by
  obtain ⟨_, rfl⟩ := Push_map_ok b b1 bytes hok
  refine ⟨⟨rfl, rfl, Nat.le_add_right _ _, ?_⟩, rfl, ?_⟩
  · intro region hreg
    refine ⟨writeBytes region b.head bytes, by simp [hreg], ?_⟩
    intro i hi
    exact writeBytes_outside region b.head bytes i (Or.inl hi)
  · intro region1 hreg1 k hk
    cases hdata : b.data with
    | none => simp [hdata] at hreg1
    | some region =>
      simp only [hdata, Option.map_some', Option.some.injEq] at hreg1
      subst hreg1
      exact writeBytes_inside region b.head bytes k hk

theorem pushLightDeferred_extendedBy (b b1 : Buffer) (light : Light)
    (hok : pushLightDeferred b light = .ok b1) : b.extendedBy b1 := by
  simp only [pushLightDeferred, bind_eq_ok] at hok
  obtain ⟨b2, h2, b3, h3, b4, h4, b5, h5, h6⟩ := hok
  exact Buffer.extendedBy_trans (AlignHead_extendedBy b 16 (by norm_num))
    (Buffer.extendedBy_trans (Push_map_extendedBy _ _ _ h2).1
      (Buffer.extendedBy_trans (Push_map_extendedBy _ _ _ h3).1
        (Buffer.extendedBy_trans (Push_map_extendedBy _ _ _ h4).1
          (Buffer.extendedBy_trans (Push_map_extendedBy _ _ _ h5).1
            (Push_map_extendedBy _ _ _ h6).1))))

theorem pushLightsDeferred_extendedBy (lights : List Light) :
    ∀ (b b1 : Buffer), pushLightsDeferred lights b = .ok b1 → b.extendedBy b1 := by
  induction lights with
  | nil =>
    intro b b1 hok
    simp only [pushLightsDeferred, Except.ok.injEq] at hok
    subst hok
    exact Buffer.extendedBy_refl _
  | cons light rest ih =>
    intro b b1 hok
    simp only [pushLightsDeferred, bind_eq_ok] at hok
    obtain ⟨b2, h2, hrest⟩ := hok
    exact Buffer.extendedBy_trans (pushLightDeferred_extendedBy b b2 light h2) (ih b2 b1 hrest)


@[simp] theorem RenderCubeMap_app (glm : Glm) (w : World) : (RenderCubeMap glm w).app = w.app := by
  simp only [RenderCubeMap, World.issue_app]

@[simp] theorem RenderCubeMap_globals (glm : Glm) (w : World) :
    (RenderCubeMap glm w).globals = w.globals := by
  simp only [RenderCubeMap, World.issue_globals]

@[simp] theorem RenderCubeMap_log (glm : Glm) (w : World) : (RenderCubeMap glm w).log = w.log := by
  simp only [RenderCubeMap, World.issue_log]

theorem RenderCubeMap_calls (glm : Glm) (w : World) :
    (RenderCubeMap glm w).gl.calls = w.gl.calls ++ frameCalls w (RenderCubeMap glm w) := by
  simp only [frameCalls, RenderCubeMap, World.issue_calls, World.issue_app, World.issue_globals,
    List.append_assoc, List.drop_left]

theorem RenderCubeMap_events (glm : Glm) (w : World) :
    events (frameCalls w (RenderCubeMap glm w)) =
      [.glDrawArrays .GL_TRIANGLES 0 36, .glDrawArrays .GL_TRIANGLES 0 36] := by
  simp only [frameCalls, RenderCubeMap, World.issue_calls, World.issue_app, World.issue_globals,
    List.append_assoc, List.drop_left]
  rfl

@[simp] theorem ite_RenderCubeMap_app (glm : Glm) (c : Prop) [Decidable c] (w : World) :
    (if c then RenderCubeMap glm w else w).app = w.app := by
  split <;> simp

@[simp] theorem ite_RenderCubeMap_globals (glm : Glm) (c : Prop) [Decidable c] (w : World) :
    (if c then RenderCubeMap glm w else w).globals = w.globals := by
  split <;> simp

@[simp] theorem ite_RenderCubeMap_log (glm : Glm) (c : Prop) [Decidable c] (w : World) :
    (if c then RenderCubeMap glm w else w).log = w.log := by
  split <;> simp

theorem ite_RenderCubeMap_calls (glm : Glm) (c : Prop) [Decidable c] (w : World) :
    (if c then RenderCubeMap glm w else w).gl.calls =
      w.gl.calls ++ (if c then frameCalls w (RenderCubeMap glm w) else []) := by
  split
  · exact RenderCubeMap_calls glm w
  · simp

/-- What the DEFERRED branch does up to its loop over the entities, when it
returns: the buffer is mapped and the first global block is its first sixteen
bytes. -/
theorem deferredGlobals_effect (glm : Glm) (drv : Driver) (program : Program) (w w1 : World)
    (hok : deferredGlobals glm drv program w = .ok w1) :
    (∃ seg, w1.gl.calls = w.gl.calls ++ seg ∧
      events seg = if w.app.showCubeMap then
        [.glDrawArrays .GL_TRIANGLES 0 36, .glDrawArrays .GL_TRIANGLES 0 36] else []) ∧
    w.app.sameScene w1.app ∧
    w1.app.entities = w.app.entities ∧ w1.app.meshes = w.app.meshes ∧
    w1.app.globalParamsOffset = 0 ∧ w1.app.globalParamsSize = 16 ∧
    w1.app.cBuffer.handle = w.app.cBuffer.handle ∧
    w1.app.cBuffer.size = w.app.cBuffer.size ∧
    w1.app.cBuffer.data.isSome ∧
    w1.globals = w.globals ∧ w1.log = w.log := by
  simp only [deferredGlobals, bind_eq_ok, lookup_eq_ok] at hok
  obtain ⟨b1, hb1, b2, hb2, t1, ht1, t2, ht2, t3, ht3, hw⟩ := hok
  simp only [Except.ok.injEq] at hw
  obtain ⟨he1, hh1, _⟩ := Push_map_extendedBy _ _ _ hb1
  obtain ⟨he2, hh2, _⟩ := Push_map_extendedBy _ _ _ hb2
  have hhead : b2.head = 16 := by
    rw [hh2, hh1]
    rfl
  have hsize : u32sub b2.head (MapBuffer w.app.cBuffer (drv.glMapBuffer w.app.cBuffer.handle)).head
      = 16 := by
    rw [hhead]
    exact u32sub_add 0 16 (by norm_num)
  have hext := Buffer.extendedBy_trans he1 he2
  obtain ⟨region, hreg, _⟩ := hext.2.2.2 (drv.glMapBuffer w.app.cBuffer.handle) rfl
  have hcalls : ∃ seg, w1.gl.calls = w.gl.calls ++ seg ∧
      events seg = if w.app.showCubeMap then
        [.glDrawArrays .GL_TRIANGLES 0 36, .glDrawArrays .GL_TRIANGLES 0 36] else [] := by
    subst hw
    simp only [World.issue_calls, ite_RenderCubeMap_calls, World.issue_app, List.append_assoc]
    refine ⟨_, rfl, ?_⟩
    by_cases hcm : w.app.showCubeMap = true
    · simp [events_cons, isEvent, hcm, RenderCubeMap_events]
    · simp [events_cons, isEvent, hcm]
  have happ : w1.app = w.app.withScratch b2 w.app.entities w.app.meshes 0 16 := by
    subst hw
    simp only [World.issue_app, ite_RenderCubeMap_app, hsize]
    rfl
  refine ⟨hcalls, ?_, ?_, ?_, ?_, ?_, ?_, ?_, ?_, ?_, ?_⟩
  · unfold App.sameScene
    rw [happ]
    rfl
  · rw [happ]; rfl
  · rw [happ]; rfl
  · rw [happ]; rfl
  · rw [happ]; rfl
  · rw [happ]; exact hext.1
  · rw [happ]; exact hext.2.1
  · rw [happ]
    show b2.data.isSome = true
    rw [hreg]
    rfl
  · subst hw
    simp only [World.issue_globals, ite_RenderCubeMap_globals]
  · subst hw
    simp only [World.issue_log, ite_RenderCubeMap_log]

/-- What the lighting pass of the DEFERRED branch does up to the binding of its
global block, when it returns: the block starts at the aligned head and opens
with the bytes of the camera position and of the light count. -/
theorem deferredLighting_effect (w w1 : World) (hok : deferredLighting w = .ok w1) :
    (∃ seg, w1.gl.calls = w.gl.calls ++ seg ∧
      events seg = [.glBindFramebuffer .GL_FRAMEBUFFER 0,
        .glBindBufferRange .GL_UNIFORM_BUFFER 0 w.app.cBuffer.handle
          w1.app.globalParamsOffset w1.app.globalParamsSize]) ∧
    w.app.sameScene w1.app ∧
    w1.app.entities = w.app.entities ∧ w1.app.meshes = w.app.meshes ∧
    w1.app.cBuffer.handle = w.app.cBuffer.handle ∧
    w1.app.globalParamsOffset =
      (AlignHead w.app.cBuffer w.app.uniformBlockAlignmentOffset.toNat).head ∧
    (∀ region0, w.app.cBuffer.data = some region0 →
      ∃ region, w1.app.cBuffer.data = some region ∧
        (∀ k, k < 12 → region (w1.app.globalParamsOffset + k) =
          (bytesOfVec3 w.app.camera.cameraPos).getD k 0) ∧
        (∀ k, k < 4 → region (w1.app.globalParamsOffset + 12 + k) =
          (bytesOfU32 (w.app.lights.length % 2 ^ 32)).getD k 0)) ∧
    w1.globals = w.globals ∧ w1.log = w.log := by
  simp only [deferredLighting, bind_eq_ok, lookup_eq_ok, World.issue_app] at hok
  obtain ⟨lightsProgram, hprog, b1, hb1, b2, hb2, b3, hb3, hw⟩ := hok
  simp only [Except.ok.injEq] at hw
  obtain ⟨he1, hh1, hbytes1⟩ := Push_map_extendedBy _ _ _ hb1
  obtain ⟨he2, hh2, hbytes2⟩ := Push_map_extendedBy _ _ _ hb2
  have he3 := pushLightsDeferred_extendedBy _ _ _ hb3
  have happ : w1.app = w.app.withScratch b3 w.app.entities w.app.meshes
      (AlignHead w.app.cBuffer w.app.uniformBlockAlignmentOffset.toNat).head
      (u32sub b3.head (AlignHead w.app.cBuffer w.app.uniformBlockAlignmentOffset.toNat).head) := by
    subst hw
    simp only [World.issue_app]
    rfl
  have hcalls : ∃ seg, w1.gl.calls = w.gl.calls ++ seg ∧
      events seg = [.glBindFramebuffer .GL_FRAMEBUFFER 0,
        .glBindBufferRange .GL_UNIFORM_BUFFER 0 w.app.cBuffer.handle
          w1.app.globalParamsOffset w1.app.globalParamsSize] := by
    rw [happ]
    subst hw
    simp only [World.issue_calls, World.issue_app, List.append_assoc]
    refine ⟨_, rfl, ?_⟩
    simp only [events_cons, isEvent, List.cons_append, List.nil_append, events_nil]
    simp [App.withScratch, he3.1, he2.1, he1.1, AlignHead_handle]
  refine ⟨hcalls, ?_, ?_, ?_, ?_, ?_, ?_, ?_, ?_⟩
  · unfold App.sameScene
    rw [happ]
    rfl
  · rw [happ]; rfl
  · rw [happ]; rfl
  · rw [happ]
    exact he3.1.trans (he2.1.trans (he1.1.trans (AlignHead_handle _ _)))
  · rw [happ]; rfl
  · intro region0 hreg0
    have hreg0a : (AlignHead w.app.cBuffer w.app.uniformBlockAlignmentOffset.toNat).data =
        some region0 := by rw [AlignHead_data]; exact hreg0
    obtain ⟨region1, hreg1, _⟩ := he1.2.2.2 region0 hreg0a
    obtain ⟨region2, hreg2, hagree2⟩ := he2.2.2.2 region1 hreg1
    obtain ⟨region3, hreg3, hagree3⟩ := he3.2.2.2 region2 hreg2
    refine ⟨region3, by rw [happ]; exact hreg3, ?_, ?_⟩
    · intro k hk
      rw [happ]
      show region3 ((AlignHead w.app.cBuffer w.app.uniformBlockAlignmentOffset.toNat).head + k) = _
      have hlen : (bytesOfVec3 w.app.camera.cameraPos).length = 12 := rfl
      rw [hagree3 _ (by rw [hh2, hh1, hlen]; omega), hagree2 _ (by rw [hh1, hlen]; omega)]
      exact hbytes1 region1 hreg1 k (by rw [hlen]; exact hk)
    · intro k hk
      rw [happ]
      show region3 ((AlignHead w.app.cBuffer w.app.uniformBlockAlignmentOffset.toNat).head
        + 12 + k) = _
      have hlen : (bytesOfVec3 w.app.camera.cameraPos).length = 12 := rfl
      have hlen2 : (bytesOfU32 (w.app.lights.length % 2 ^ 32)).length = 4 := rfl
      rw [hagree3 _ (by rw [hh2, hh1, hlen, hlen2]; omega)]
      have := hbytes2 region2 hreg2 k (by rw [hlen2]; exact hk)
      rw [hh1, hlen] at this
      exact this
  · subst hw
    simp only [World.issue_globals]
  · subst hw
    simp only [World.issue_log]


@[simp] theorem renderQuad_app (w : World) : (renderQuad w).app = w.app := by
  unfold renderQuad
  split <;> rfl

@[simp] theorem renderQuad_log (w : World) : (renderQuad w).log = w.log := by
  unfold renderQuad
  split <;> rfl

theorem renderQuad_sphere (w : World) :
    (renderQuad w).globals.sphereVAO = w.globals.sphereVAO ∧
    (renderQuad w).globals.indexCount = w.globals.indexCount := by
  unfold renderQuad
  split <;> exact ⟨rfl, rfl⟩

theorem renderQuad_calls (w : World) :
    ∃ seg, (renderQuad w).gl.calls = w.gl.calls ++ seg ∧
      events seg = [.glDrawArrays .GL_TRIANGLE_STRIP 0 4] := by
  unfold renderQuad
  split
  · simp only [World.issue_calls, World.issue_globals, GLState.genVertexArray,
      GLState.genBuffer, List.append_assoc]
    exact ⟨_, rfl, rfl⟩
  · simp only [World.issue_calls, World.issue_globals, List.append_assoc]
    exact ⟨_, rfl, rfl⟩

@[simp] theorem RenderCube_app (w : World) : (RenderCube w).app = w.app := by
  unfold RenderCube
  split <;> simp only [World.issue_app]

@[simp] theorem RenderCube_log (w : World) : (RenderCube w).log = w.log := by
  unfold RenderCube
  split <;> simp only [World.issue_log]

theorem RenderCube_sphere (w : World) :
    (RenderCube w).globals.sphereVAO = w.globals.sphereVAO ∧
    (RenderCube w).globals.indexCount = w.globals.indexCount := by
  unfold RenderCube
  split <;> exact ⟨rfl, rfl⟩

theorem RenderCube_calls (w : World) :
    ∃ seg, (RenderCube w).gl.calls = w.gl.calls ++ seg ∧
      events seg = [.glDrawArrays .GL_TRIANGLES 0 36] := by
  unfold RenderCube
  split
  · simp only [World.issue_calls, World.issue_globals, GLState.genVertexArray,
      GLState.genBuffer, List.append_assoc]
    exact ⟨_, rfl, rfl⟩
  · simp only [World.issue_calls, World.issue_globals, List.append_assoc]
    exact ⟨_, rfl, rfl⟩

@[simp] theorem RenderSphere_app (w : World) : (RenderSphere w).app = w.app := by
  unfold RenderSphere
  split <;> simp only [World.issue_app]

@[simp] theorem RenderSphere_log (w : World) : (RenderSphere w).log = w.log := by
  unfold RenderSphere
  split <;> simp only [World.issue_log]

theorem RenderSphere_sphereCount (w : World) :
    sphereCount (RenderSphere w).globals = sphereCount w.globals := by
  unfold RenderSphere
  split
  · rename_i h
    simp only [World.issue_globals, sphereCount, GLState.genVertexArray, h, if_true]
    rw [if_neg (Nat.succ_ne_zero _)]
  · rfl

theorem RenderSphere_calls (w : World) :
    ∃ seg, (RenderSphere w).gl.calls = w.gl.calls ++ seg ∧
      events seg = [.glDrawElements .GL_TRIANGLE_STRIP (sphereCount w.globals)
        .GL_UNSIGNED_INT 0] := by
  unfold RenderSphere
  split
  · rename_i h
    simp only [World.issue_calls, World.issue_globals, GLState.genVertexArray,
      GLState.genBuffer, List.append_assoc, sphereCount, h, if_true]
    exact ⟨_, rfl, rfl⟩
  · rename_i h
    simp only [World.issue_calls, World.issue_globals, List.append_assoc, sphereCount, h,
      if_false]
    exact ⟨_, rfl, rfl⟩

theorem sphereCount_congr (g g1 : Globals) (h1 : g1.sphereVAO = g.sphereVAO)
    (h2 : g1.indexCount = g.indexCount) : sphereCount g1 = sphereCount g := by
  simp only [sphereCount, h1, h2]

/-- What drawing the gizmo of one light does. -/
theorem drawGizmo_effect (glm : Glm) (light : Light) (w : World) :
    (∃ seg, (drawGizmo glm light w).gl.calls = w.gl.calls ++ seg ∧
      events seg =
        [.glUniformMatrix4fv (toGLint w.app.drawLightsProgramIdx_uModel) 1 false
           (glm.translate mat4_identity light.position),
         .glUniform3fv (toGLint w.app.drawLightsProgramIdx_uLightColor) 1 light.color,
         gizmoDraw (sphereCount w.globals) light]) ∧
    (drawGizmo glm light w).app = w.app ∧ (drawGizmo glm light w).log = w.log ∧
    sphereCount (drawGizmo glm light w).globals = sphereCount w.globals := by
  unfold drawGizmo
  cases ht : light.type
  · simp only [LightType.toNat, if_true, World.issue_app, RenderCube_app, RenderCube_log,
      World.issue_log, true_and, and_true]
    obtain ⟨seg, hc, he⟩ := RenderCube_calls
      ((w.issue (.glUniformMatrix4fv (toGLint w.app.drawLightsProgramIdx_uModel) 1 false
        (glm.translate mat4_identity light.position))).issue
        (.glUniform3fv (toGLint w.app.drawLightsProgramIdx_uLightColor) 1 light.color))
    obtain ⟨hs1, hs2⟩ := RenderCube_sphere
      ((w.issue (.glUniformMatrix4fv (toGLint w.app.drawLightsProgramIdx_uModel) 1 false
        (glm.translate mat4_identity light.position))).issue
        (.glUniform3fv (toGLint w.app.drawLightsProgramIdx_uLightColor) 1 light.color))
    refine ⟨?_, sphereCount_congr _ _ hs1 hs2⟩
    rw [hc]
    simp only [World.issue_calls, List.append_assoc]
    refine ⟨_, rfl, ?_⟩
    simp only [List.singleton_append, events_cons, isEvent, if_true, he, gizmoDraw, ht]
  · simp only [LightType.toNat, if_false, World.issue_app, RenderSphere_app, RenderSphere_log,
      World.issue_log, true_and, and_true, one_ne_zero]
    obtain ⟨seg, hc, he⟩ := RenderSphere_calls
      ((w.issue (.glUniformMatrix4fv (toGLint w.app.drawLightsProgramIdx_uModel) 1 false
        (glm.translate mat4_identity light.position))).issue
        (.glUniform3fv (toGLint w.app.drawLightsProgramIdx_uLightColor) 1 light.color))
    refine ⟨?_, RenderSphere_sphereCount _⟩
    rw [hc]
    simp only [World.issue_calls, List.append_assoc]
    refine ⟨_, rfl, ?_⟩
    simp only [List.singleton_append, events_cons, isEvent, if_true, he, gizmoDraw, ht]
    rfl


/-- What the loop over the lights that draws the gizmos does. -/
theorem drawGizmos_effect (glm : Glm) (lights : List Light) :
    ∀ w : World,
    (∃ seg, (drawGizmos glm lights w).gl.calls = w.gl.calls ++ seg ∧
      events seg = lights.flatMap fun light =>
        [.glUniformMatrix4fv (toGLint w.app.drawLightsProgramIdx_uModel) 1 false
           (glm.translate mat4_identity light.position),
         .glUniform3fv (toGLint w.app.drawLightsProgramIdx_uLightColor) 1 light.color,
         gizmoDraw (sphereCount w.globals) light]) ∧
    (drawGizmos glm lights w).app = w.app ∧ (drawGizmos glm lights w).log = w.log ∧
    sphereCount (drawGizmos glm lights w).globals = sphereCount w.globals := by
  induction lights with
  | nil => intro w; exact ⟨⟨[], by simp [drawGizmos], rfl⟩, rfl, rfl, rfl⟩
  | cons light rest ih =>
    intro w
    obtain ⟨⟨seg1, hc1, he1⟩, ha1, hl1, hs1⟩ := drawGizmo_effect glm light w
    obtain ⟨⟨seg2, hc2, he2⟩, ha2, hl2, hs2⟩ := ih (drawGizmo glm light w)
    simp only [drawGizmos]
    refine ⟨⟨seg1 ++ seg2, ?_, ?_⟩, ha2.trans ha1, hl2.trans hl1, hs2.trans hs1⟩
    · rw [hc2, hc1, List.append_assoc]
    · rw [events_append, he1, he2, ha1, hs1]
      rfl

/-- What the gizmo block of the DEFERRED branch does. -/
theorem deferredGizmos_effect (glm : Glm) (w w1 : World) (hok : deferredGizmos glm w = .ok w1) :
    (∃ seg, w1.gl.calls = w.gl.calls ++ seg ∧
      events seg = gizmoEvents glm w.app (sphereCount w.globals)) ∧
    w1.app = w.app ∧ w1.log = w.log := by
  unfold deferredGizmos at hok
  by_cases hg : w.app.showGizmo = true
  · simp only [hg, if_true, bind_eq_ok, lookup_eq_ok] at hok
    obtain ⟨program, -, hw⟩ := hok
    have hw1 := (Except.ok.inj hw).symm
    obtain ⟨⟨seg, hc, he⟩, ha, hl, -⟩ := drawGizmos_effect glm w.app.lights
      ((w.issue (.glUseProgram program.handle)).issue
        (.glUniformMatrix4fv (toGLint w.app.drawLightsProgramIdx_uViewProjection) 1 false
          (w.app.camera.GetViewMatrix glm w.app.displaySize)))
    simp only [World.issue_app] at hw1
    subst hw1
    refine ⟨?_, ha, hl⟩
    rw [hc]
    simp only [World.issue_calls, List.append_assoc]
    refine ⟨_, rfl, ?_⟩
    simp only [List.singleton_append, events_cons, isEvent, if_true, he, gizmoEvents, hg,
      World.issue_app, World.issue_globals]
    rfl
  · simp only [hg, if_false] at hok
    have hw1 := (Except.ok.inj hok).symm
    subst hw1
    refine ⟨⟨[], by simp, ?_⟩, rfl, rfl⟩
    simp only [gizmoEvents, hg, if_false]
    rfl

/-- What the DEFERRED branch does from `UnmapBuffer` to the depth blit. -/
theorem deferredQuadAndBlit_effect (w : World) :
    (∃ seg, (deferredQuadAndBlit w).gl.calls = w.gl.calls ++ seg ∧
      events seg =
        [.glDrawArrays .GL_TRIANGLE_STRIP 0 4,
         .glBindFramebuffer .GL_READ_FRAMEBUFFER w.app.frameBufferController,
         .glBindFramebuffer .GL_DRAW_FRAMEBUFFER 0,
         .glBlitFramebuffer 0 0 w.app.displaySize.x w.app.displaySize.y
           0 0 w.app.displaySize.x w.app.displaySize.y [.GL_DEPTH_BUFFER_BIT] .GL_NEAREST,
         .glBindFramebuffer .GL_FRAMEBUFFER 0]) ∧
    (deferredQuadAndBlit w).app = w.app.withScratch (UnmapBuffer w.app.cBuffer) w.app.entities
      w.app.meshes w.app.globalParamsOffset w.app.globalParamsSize ∧
    (deferredQuadAndBlit w).log = w.log ∧
    sphereCount (deferredQuadAndBlit w).globals = sphereCount w.globals := by
  unfold deferredQuadAndBlit
  obtain ⟨seg, hc, he⟩ := renderQuad_calls
    { w with app := { w.app with cBuffer := UnmapBuffer w.app.cBuffer } }
  obtain ⟨hs1, hs2⟩ := renderQuad_sphere
    { w with app := { w.app with cBuffer := UnmapBuffer w.app.cBuffer } }
  simp only [World.issue_app, World.issue_log, World.issue_globals, World.issue_calls,
    renderQuad_app, renderQuad_log, List.append_assoc]
  refine ⟨?_, rfl, trivial, sphereCount_congr _ _ hs1 hs2⟩
  rw [hc]
  simp only [List.append_assoc]
  refine ⟨_, rfl, ?_⟩
  rw [events_append, he]
  rfl

@[simp] theorem renderPrologue_app (w : World) : (renderPrologue w).app = w.app := rfl

@[simp] theorem renderPrologue_globals (w : World) : (renderPrologue w).globals = w.globals := rfl

@[simp] theorem renderPrologue_log (w : World) : (renderPrologue w).log = w.log := rfl

theorem renderPrologue_calls (w : World) :
    ∃ seg, (renderPrologue w).gl.calls = w.gl.calls ++ seg ∧
      events seg = [.glBindFramebuffer .GL_FRAMEBUFFER w.app.frameBufferController] := by
  simp only [renderPrologue, World.issue_calls, World.issue_app, List.append_assoc]
  exact ⟨_, rfl, rfl⟩


theorem App.sameScene_withScratch (app : App) (cBuffer : Buffer) (entities : List Entity)
    (meshes : List Mesh) (off size : Nat) :
    app.sameScene (app.withScratch cBuffer entities meshes off size) := rfl

theorem App.sameScene_models {a b : App} (h : a.sameScene b) : b.models = a.models :=
  (congrArg App.models h).trans rfl

theorem App.sameScene_lights {a b : App} (h : a.sameScene b) : b.lights = a.lights :=
  (congrArg App.lights h).trans rfl

theorem App.sameScene_camera {a b : App} (h : a.sameScene b) : b.camera = a.camera :=
  (congrArg App.camera h).trans rfl

theorem App.sameScene_displaySize {a b : App} (h : a.sameScene b) :
    b.displaySize = a.displaySize :=
  (congrArg App.displaySize h).trans rfl

theorem App.sameScene_frameBufferController {a b : App} (h : a.sameScene b) :
    b.frameBufferController = a.frameBufferController :=
  (congrArg App.frameBufferController h).trans rfl

theorem App.sameScene_alignment {a b : App} (h : a.sameScene b) :
    b.uniformBlockAlignmentOffset = a.uniformBlockAlignmentOffset :=
  (congrArg App.uniformBlockAlignmentOffset h).trans rfl

theorem gizmoEvents_sameScene (glm : Glm) {a b : App} (h : a.sameScene b) (count : Nat) :
    gizmoEvents glm b count = gizmoEvents glm a count :=
  (congrArg (fun x => gizmoEvents glm x count) h).trans rfl

/-- The events of a DEFERRED branch that returns, and what it leaves. -/
theorem RenderDeferred_effect (glm : Glm) (drv : Driver) (w w1 : World)
    (hok : RenderDeferred glm drv w = .ok w1) :
    ∃ w2, deferredGizmos glm (deferredQuadAndBlit w2) = .ok w1 ∧
      (∃ seg, w1.gl.calls = w.gl.calls ++ seg ∧
        events seg =
          (if w.app.showCubeMap then
            [.glDrawArrays .GL_TRIANGLES 0 36, .glDrawArrays .GL_TRIANGLES 0 36] else []) ++
          entityEvents w.app.cBuffer.handle w.app.models (meshGeometry w.app.meshes) 0 16
            w1.app.entities ++
          [.glBindFramebuffer .GL_FRAMEBUFFER 0,
           .glBindBufferRange .GL_UNIFORM_BUFFER 0 w.app.cBuffer.handle
             w1.app.globalParamsOffset w1.app.globalParamsSize] ++
          [.glDrawArrays .GL_TRIANGLE_STRIP 0 4,
           .glBindFramebuffer .GL_READ_FRAMEBUFFER w.app.frameBufferController,
           .glBindFramebuffer .GL_DRAW_FRAMEBUFFER 0,
           .glBlitFramebuffer 0 0 w.app.displaySize.x w.app.displaySize.y
             0 0 w.app.displaySize.x w.app.displaySize.y [.GL_DEPTH_BUFFER_BIT] .GL_NEAREST,
           .glBindFramebuffer .GL_FRAMEBUFFER 0] ++
          gizmoEvents glm w.app (sphereCount w.globals)) ∧
      w.app.sameScene w1.app ∧
      (∀ e ∈ w1.app.entities,
        w.app.uniformBlockAlignmentOffset.toNat ∣ e.localParamsOffset ∧ e.localParamsSize = 128) ∧
      w1.app.entities.length = w.app.entities.length ∧
      w2.app.globalParamsOffset = w1.app.globalParamsOffset ∧
      (∃ region, w2.app.cBuffer.data = some region ∧
        (∀ k, k < 12 → region (w1.app.globalParamsOffset + k) =
          (bytesOfVec3 w.app.camera.cameraPos).getD k 0) ∧
        (∀ k, k < 4 → region (w1.app.globalParamsOffset + 12 + k) =
          (bytesOfU32 (w.app.lights.length % 2 ^ 32)).getD k 0)) ∧
      w1.log = w.log := by
  simp only [RenderDeferred, bind_eq_ok, lookup_eq_ok] at hok
  obtain ⟨program, -, wa, hglob, wb, hent, wc, hlight, hgiz⟩ := hok
  obtain ⟨⟨sega, hca, hea⟩, hsa, henta, hmesha, hoffa, hsza, hha, -, hda, hga, hla⟩ :=
    deferredGlobals_effect glm drv program w wa hglob
  rw [List.range_eq_range'] at hent
  obtain ⟨-, ⟨segb, hcb, heb⟩, halb, hlenb, hsb, -, -, -, hhb, -, hdb, hgb, hlb⟩ :=
    renderEntities_effect glm deferredModelMatrix deferredLocation program _ 0 wa wb hent
  obtain ⟨⟨segc, hcc, hec⟩, hsc, hentc, -, hhc, -, hregc, hgc, hlc⟩ :=
    deferredLighting_effect wb wc hlight
  obtain ⟨⟨segd, hcd, hed⟩, happd, hld, hcountd⟩ := deferredQuadAndBlit_effect wc
  obtain ⟨⟨sege, hce, hee⟩, happe, hle⟩ := deferredGizmos_effect glm _ w1 hgiz
  have hsd : wc.app.sameScene (deferredQuadAndBlit wc).app := by
    rw [happd]
    exact App.sameScene_withScratch _ _ _ _ _ _
  have hscene_c : w.app.sameScene wc.app :=
    App.sameScene_trans (App.sameScene_trans hsa hsb) hsc
  have hscene_d : w.app.sameScene (deferredQuadAndBlit wc).app := App.sameScene_trans hscene_c hsd
  have hent1 : w1.app.entities = wb.app.entities := by
    rw [happe, happd, ← hentc]
    rfl
  have hoff1 : w1.app.globalParamsOffset = wc.app.globalParamsOffset := by
    rw [happe, happd]
    rfl
  have hsz1 : w1.app.globalParamsSize = wc.app.globalParamsSize := by
    rw [happe, happd]
    rfl
  have htake : (wb.app.entities.drop 0).take wa.app.entities.length = wb.app.entities := by
    rw [List.drop_zero, ← hlenb, List.take_length]
  rw [htake] at heb halb
  obtain ⟨region0, hregion0⟩ := Option.isSome_iff_exists.1 (hdb hda)
  obtain ⟨region, hregion, hcam, hcount⟩ := hregc region0 hregion0
  refine ⟨wc, hgiz, ⟨sega ++ segb ++ segc ++ segd ++ sege, ?_, ?_⟩, ?_, ?_, ?_, hoff1.symm,
    ⟨region, hregion, ?_, ?_⟩, ?_⟩
  · rw [hce, hcd, hcc, hcb, hca]
    simp only [List.append_assoc]
  · simp only [events_append, hea, heb, hec, hed, hee]
    rw [hha, App.sameScene_models hsa, hmesha, hoffa, hsza, hent1, hhb, hha, hoff1, hsz1,
      App.sameScene_frameBufferController hscene_c, App.sameScene_displaySize hscene_c,
      gizmoEvents_sameScene glm hscene_d, hcountd, hgc, hgb, hga]
  · rw [happe] 
    exact hscene_d
  · intro e he
    rw [hent1] at he
    have := halb e he
    rw [App.sameScene_alignment hsa] at this
    exact this
  · rw [hent1, hlenb, henta]
  · intro k hk
    rw [hoff1, hcam k hk, App.sameScene_camera (App.sameScene_trans hsa hsb)]
  · intro k hk
    rw [hoff1, hcount k hk, App.sameScene_lights (App.sameScene_trans hsa hsb)]
  · rw [hle, hld, hlc, hlb, hla]


/-- What the body of the loop over the lights of the FORWARD branch changes. -/
theorem pushLightForward_effect (app app1 : App) (light : Light)
    (hok : pushLightForward app light = .ok app1) :
    app.sameScene app1 ∧ app1.entities = app.entities ∧ app1.meshes = app.meshes ∧
    app1.globalParamsOffset = app.globalParamsOffset ∧
    app1.cBuffer.handle = app.cBuffer.handle ∧
    (app.cBuffer.data.isSome → app1.cBuffer.data.isSome) := by
  simp only [pushLightForward, bind_eq_ok, PushUInt, PushVec3] at hok
  obtain ⟨b1, hb1, b2, hb2, b3, hb3, happ⟩ := hok
  simp only [Except.ok.injEq] at happ
  obtain ⟨-, h1⟩ := Push_map_ok _ _ _ hb1
  obtain ⟨-, h2⟩ := Push_map_ok _ _ _ hb2
  obtain ⟨-, h3⟩ := Push_map_ok _ _ _ hb3
  have hhandle : b3.handle = app.cBuffer.handle := by
    rw [h3, h2, h1]
    exact AlignHead_handle _ _
  have hdata : app.cBuffer.data.isSome → b3.data.isSome := by
    intro h
    rw [h3, h2, h1]
    simp only [Option.isSome_map', AlignHead_data]
    exact h
  subst happ
  exact ⟨rfl, rfl, rfl, rfl, hhandle, hdata⟩

/-- What the loop over the lights of the FORWARD branch changes: with no light
it changes nothing, `globalParamsSize` included. -/
theorem pushLightsForward_effect (lights : List Light) :
    ∀ app app1 : App, pushLightsForward lights app = .ok app1 →
    app.sameScene app1 ∧ app1.entities = app.entities ∧ app1.meshes = app.meshes ∧
    app1.globalParamsOffset = app.globalParamsOffset ∧
    app1.cBuffer.handle = app.cBuffer.handle ∧
    (app.cBuffer.data.isSome → app1.cBuffer.data.isSome) ∧
    (lights = [] → app1.globalParamsSize = app.globalParamsSize) := by
  induction lights with
  | nil =>
    intro app app1 hok
    simp only [pushLightsForward, Except.ok.injEq] at hok
    subst hok
    exact ⟨App.sameScene_refl _, rfl, rfl, rfl, rfl, id, fun _ => rfl⟩
  | cons light rest ih =>
    intro app app1 hok
    simp only [pushLightsForward, bind_eq_ok] at hok
    obtain ⟨app2, hstep, hrest⟩ := hok
    obtain ⟨hs1, he1, hm1, ho1, hh1, hd1⟩ := pushLightForward_effect app app2 light hstep
    obtain ⟨hs2, he2, hm2, ho2, hh2, hd2, -⟩ := ih app2 app1 hrest
    exact ⟨App.sameScene_trans hs1 hs2, he2.trans he1, hm2.trans hm1, ho2.trans ho1,
      hh2.trans hh1, fun h => hd2 (hd1 h), fun h => absurd h (List.cons_ne_nil _ _)⟩

/-- What the FORWARD branch does up to the loop over the entities, when it
returns: the global block starts at offset 0, and with no light
`globalParamsSize` keeps the value it had. -/
theorem forwardGlobals_effect (drv : Driver) (program : Program) (w w1 : World)
    (hok : forwardGlobals drv program w = .ok w1) :
    (∃ seg, w1.gl.calls = w.gl.calls ++ seg ∧ events seg = []) ∧
    w.app.sameScene w1.app ∧
    w1.app.entities = w.app.entities ∧ w1.app.meshes = w.app.meshes ∧
    w1.app.globalParamsOffset = 0 ∧
    w1.app.cBuffer.handle = w.app.cBuffer.handle ∧
    (w.app.lights = [] → w1.app.globalParamsSize = w.app.globalParamsSize) ∧
    w1.globals = w.globals ∧ w1.log = w.log := by
  simp only [forwardGlobals, bind_eq_ok, World.issue_app] at hok
  obtain ⟨b1, hb1, b2, hb2, app1, happ, hw⟩ := hok
  simp only [Except.ok.injEq] at hw
  obtain ⟨he1, -, -⟩ := Push_map_extendedBy _ _ _ hb1
  obtain ⟨he2, -, -⟩ := Push_map_extendedBy _ _ _ hb2
  have hext := Buffer.extendedBy_trans he1 he2
  obtain ⟨hs, hent, hmesh, hoff, hh, -, hsz⟩ := pushLightsForward_effect _ _ _ happ
  have hs0 : w.app.sameScene
      { w.app with
        cBuffer := b2
        globalParamsOffset :=
          (MapBuffer w.app.cBuffer (drv.glMapBuffer w.app.cBuffer.handle)).head } := rfl
  subst hw
  refine ⟨⟨_, rfl, rfl⟩, App.sameScene_trans hs0 hs, hent, hmesh, hoff, ?_, hsz, rfl, rfl⟩
  rw [hh]
  exact hext.1

/-- What the end of the FORWARD branch does: its two `glBindBuffer` are passed
framebuffer targets. -/
theorem forwardBlit_effect (w : World) :
    (∃ seg, (forwardBlit w).gl.calls = w.gl.calls ++ seg ∧
      events seg =
        [.glBindBuffer .GL_READ_FRAMEBUFFER w.app.frameBufferController,
         .glBindBuffer .GL_DRAW_FRAMEBUFFER 0,
         .glBlitFramebuffer 0 0 w.app.displaySize.x w.app.displaySize.y
           0 0 w.app.displaySize.x w.app.displaySize.y [.GL_COLOR_BUFFER_BIT] .GL_LINEAR,
         .glBindFramebuffer .GL_READ_FRAMEBUFFER 0]) ∧
    (forwardBlit w).app = w.app.withScratch (UnmapBuffer w.app.cBuffer) w.app.entities
      w.app.meshes w.app.globalParamsOffset w.app.globalParamsSize ∧
    (forwardBlit w).log = w.log ∧ (forwardBlit w).globals = w.globals := by
  simp only [forwardBlit, World.issue_calls, World.issue_app, World.issue_log,
    World.issue_globals, List.append_assoc]
  exact ⟨⟨_, rfl, rfl⟩, rfl, trivial, trivial⟩

/-- The events of a FORWARD branch that returns, and what it leaves. -/
theorem RenderForward_effect (glm : Glm) (drv : Driver) (w w1 : World)
    (hok : RenderForward glm drv w = .ok w1) :
    (∃ seg, w1.gl.calls = w.gl.calls ++ seg ∧
      events seg =
        entityEvents w.app.cBuffer.handle w.app.models (meshGeometry w.app.meshes) 0
          w1.app.globalParamsSize w1.app.entities ++
        [.glBindBuffer .GL_READ_FRAMEBUFFER w.app.frameBufferController,
         .glBindBuffer .GL_DRAW_FRAMEBUFFER 0,
         .glBlitFramebuffer 0 0 w.app.displaySize.x w.app.displaySize.y
           0 0 w.app.displaySize.x w.app.displaySize.y [.GL_COLOR_BUFFER_BIT] .GL_LINEAR,
         .glBindFramebuffer .GL_READ_FRAMEBUFFER 0]) ∧
    w.app.sameScene w1.app ∧
    (∀ e ∈ w1.app.entities,
      w.app.uniformBlockAlignmentOffset.toNat ∣ e.localParamsOffset ∧ e.localParamsSize = 128) ∧
    w1.app.entities.length = w.app.entities.length ∧
    w1.app.globalParamsOffset = 0 ∧
    (w.app.lights = [] → w1.app.globalParamsSize = w.app.globalParamsSize) ∧
    w1.log = w.log := by
  simp only [RenderForward, bind_eq_ok, lookup_eq_ok] at hok
  obtain ⟨program, -, wa, hglob, wb, hent, hw⟩ := hok
  simp only [Except.ok.injEq] at hw
  obtain ⟨⟨sega, hca, hea⟩, hsa, henta, hmesha, hoffa, hha, hsza, hga, hla⟩ :=
    forwardGlobals_effect drv program w wa hglob
  rw [List.range_eq_range'] at hent
  obtain ⟨-, ⟨segb, hcb, heb⟩, halb, hlenb, hsb, hoffb, hszb, -, hhb, -, -, hgb, hlb⟩ :=
    renderEntities_effect glm (forwardModelMatrix glm) forwardLocation program _ 0 wa wb hent
  obtain ⟨⟨segc, hcc, hec⟩, happc, hlc, hgc⟩ := forwardBlit_effect wb
  have hsc : wb.app.sameScene (forwardBlit wb).app := by
    rw [happc]
    exact App.sameScene_withScratch _ _ _ _ _ _
  have hscene_b : w.app.sameScene wb.app := App.sameScene_trans hsa hsb
  have htake : (wb.app.entities.drop 0).take wa.app.entities.length = wb.app.entities := by
    rw [List.drop_zero, ← hlenb, List.take_length]
  rw [htake] at heb halb
  subst hw
  have hent1 : (forwardBlit wb).app.entities = wb.app.entities := by
    rw [happc]
    rfl
  have hoff1 : (forwardBlit wb).app.globalParamsOffset = wb.app.globalParamsOffset := by
    rw [happc]
    rfl
  have hsz1 : (forwardBlit wb).app.globalParamsSize = wb.app.globalParamsSize := by
    rw [happc]
    rfl
  refine ⟨⟨sega ++ segb ++ segc, ?_, ?_⟩, App.sameScene_trans hscene_b hsc, ?_, ?_, ?_, ?_, ?_⟩
  · rw [hcc, hcb, hca]
    simp only [List.append_assoc]
  · simp only [events_append, hea, heb, hec, List.nil_append]
    rw [hha, App.sameScene_models hsa, hmesha, hoffa, hent1, hsz1, hszb,
      App.sameScene_frameBufferController hscene_b, App.sameScene_displaySize hscene_b]
  · intro e he
    rw [hent1] at he
    have := halb e he
    rw [App.sameScene_alignment hsa] at this
    exact this
  · rw [hent1, hlenb, henta]
  · rw [hoff1, hoffb, hoffa]
  · intro h
    rw [hsz1, hszb, hsza h]
  · rw [hlc, hlb, hla]


/-- A body of the loop over the entities that returns found the model and the
mesh of its entity. -/
theorem renderEntity_lookups (glm : Glm) (modelMatrix : Entity → mat4) (location : App → Int)
    (program : Program) (i : Nat) (w w1 : World)
    (hok : renderEntity glm modelMatrix location program i w = .ok w1) :
    ∃ e model subs, w.app.entities[i]? = some e ∧ w.app.models[e.modelId]? = some model ∧
      (meshGeometry w.app.meshes)[model.meshIdx]? = some subs := by
  simp only [renderEntity, bind_eq_ok, lookup_eq_ok] at hok
  obtain ⟨e, he, model, hmodel, mesh, hmesh, -⟩ := hok
  refine ⟨e, model, mesh.submeshes.map fun submesh =>
    (submesh.indices.length, submesh.indexOffset), he, hmodel, ?_⟩
  simp [meshGeometry, hmesh]

/-- The loop over the entities leaves the model of every entity as it was. -/
theorem renderEntities_modelId (glm : Glm) (modelMatrix : Entity → mat4) (location : App → Int)
    (program : Program) (is : List Nat) :
    ∀ w w1 : World, renderEntities glm modelMatrix location program is w = .ok w1 →
    w1.app.entities.map Entity.modelId = w.app.entities.map Entity.modelId ∧
    w1.app.models = w.app.models ∧
    meshGeometry w1.app.meshes = meshGeometry w.app.meshes := by
  induction is with
  | nil =>
    intro w w1 hok
    simp only [renderEntities, Except.ok.injEq] at hok
    subst hok
    exact ⟨rfl, rfl, rfl⟩
  | cons i rest ih =>
    intro w w1 hok
    simp only [renderEntities, bind_eq_ok] at hok
    obtain ⟨w2, hstep, hrest⟩ := hok
    obtain ⟨e, he, hent2, -, hsc, -, -, hgeo, -⟩ :=
      renderEntity_effect glm modelMatrix location program i w w2 hstep
    obtain ⟨h1, h2, h3⟩ := ih w2 w1 hrest
    refine ⟨?_, h2.trans (App.sameScene_models hsc), h3.trans hgeo⟩
    rw [h1, hent2, List.map_set]
    apply List.ext_getElem?
    intro j
    by_cases hj : i = j
    · subst hj
      have hi : i < w.app.entities.length := (List.getElem?_eq_some.1 he).1
      have hei : w.app.entities[i] = e := (List.getElem?_eq_some.1 he).2
      simp [hi, hei]
    · simp [List.getElem?_set_ne hj]

/-- A loop over the entities that returns found the model and the mesh of
every entity it went through. -/
theorem renderEntities_lookups (glm : Glm) (modelMatrix : Entity → mat4) (location : App → Int)
    (program : Program) (is : List Nat) :
    ∀ w w1 : World, renderEntities glm modelMatrix location program is w = .ok w1 →
    ∀ i ∈ is, ∃ id model subs, (w.app.entities.map Entity.modelId)[i]? = some id ∧
      w.app.models[id]? = some model ∧
      (meshGeometry w.app.meshes)[model.meshIdx]? = some subs := by
  induction is with
  | nil => intro w w1 _ i hi; simp at hi
  | cons i0 rest ih =>
    intro w w1 hok i hi
    simp only [renderEntities, bind_eq_ok] at hok
    obtain ⟨w2, hstep, hrest⟩ := hok
    rcases List.mem_cons.1 hi with rfl | hmem
    · obtain ⟨e, model, subs, he, hm, hs⟩ :=
        renderEntity_lookups glm modelMatrix location program i w w2 hstep
      exact ⟨e.modelId, model, subs, by simp [he], hm, hs⟩
    · obtain ⟨id, model, subs, hid, hm, hs⟩ := ih w2 w1 hrest i hmem
      obtain ⟨h1, h2, h3⟩ := renderEntities_modelId glm modelMatrix location program [i0] w w2
        (by simp only [renderEntities, bind_eq_ok]; exact ⟨w2, hstep, rfl⟩)
      exact ⟨id, model, subs, by rw [← h1]; exact hid, by rw [← h2]; exact hm,
        by rw [← h3]; exact hs⟩

/-- After a loop over all the entities that returns, the draws of every entity
are one per submesh of the mesh of its model. -/
theorem renderEntities_draws (glm : Glm) (modelMatrix : Entity → mat4) (location : App → Int)
    (program : Program) (w w1 : World)
    (hok : renderEntities glm modelMatrix location program (List.range w.app.entities.length) w
      = .ok w1) :
    ∀ e ∈ w1.app.entities, ∃ model mesh, w.app.models[e.modelId]? = some model ∧
      w.app.meshes[model.meshIdx]? = some mesh ∧
      entityDraws w.app.models (meshGeometry w.app.meshes) e.modelId =
        mesh.submeshes.map fun s =>
          .glDrawElements .GL_TRIANGLES s.indices.length .GL_UNSIGNED_INT s.indexOffset := by
  intro e he
  obtain ⟨j, hj, hje⟩ := List.getElem_of_mem he
  obtain ⟨h1, -, -⟩ := renderEntities_modelId glm modelMatrix location program _ w w1 hok
  have hlen : w1.app.entities.length = w.app.entities.length := by
    have := congrArg List.length h1
    simpa using this
  obtain ⟨id, model, subs, hid, hm, hs⟩ :=
    renderEntities_lookups glm modelMatrix location program _ w w1 hok j
      (List.mem_range.2 (hlen ▸ hj))
  have hid1 : id = e.modelId := by
    rw [← h1] at hid
    simp only [List.getElem?_map, List.getElem?_eq_getElem hj, Option.map_some',
      Option.some.injEq] at hid
    rw [← hid, hje]
  subst hid1
  simp only [meshGeometry, List.getElem?_map, Option.map_eq_some'] at hs
  obtain ⟨mesh, hmesh, hsubs⟩ := hs
  refine ⟨model, mesh, hm, hmesh, ?_⟩
  simp [entityDraws, hm, meshGeometry, hmesh]


theorem Render_deferred (glm : Glm) (drv : Driver) (w : World) (hmode : w.app.mode = .DEFERRED) :
    Render glm drv w = RenderDeferred glm drv (renderPrologue w) := by
  simp only [Render, renderPrologue_app, hmode]

theorem Render_forward (glm : Glm) (drv : Driver) (w : World) (hmode : w.app.mode = .FORWARD) :
    Render glm drv w = RenderForward glm drv (renderPrologue w) := by
  simp only [Render, renderPrologue_app, hmode]

/-- In a DEFERRED branch that returns, the draws of every entity are one per
submesh of the mesh of its model. -/
theorem RenderDeferred_draws (glm : Glm) (drv : Driver) (w w1 : World)
    (hok : RenderDeferred glm drv w = .ok w1) :
    ∀ e ∈ w1.app.entities, ∃ model mesh, w.app.models[e.modelId]? = some model ∧
      w.app.meshes[model.meshIdx]? = some mesh ∧
      entityDraws w.app.models (meshGeometry w.app.meshes) e.modelId =
        mesh.submeshes.map fun s =>
          .glDrawElements .GL_TRIANGLES s.indices.length .GL_UNSIGNED_INT s.indexOffset := by
  simp only [RenderDeferred, bind_eq_ok, lookup_eq_ok] at hok
  obtain ⟨program, -, wa, hglob, wb, hent, wc, hlight, hgiz⟩ := hok
  obtain ⟨-, hsa, -, hmesha, -⟩ := deferredGlobals_effect glm drv program w wa hglob
  obtain ⟨-, -, hentc, -⟩ := deferredLighting_effect wb wc hlight
  obtain ⟨-, happd, -⟩ := deferredQuadAndBlit_effect wc
  obtain ⟨-, happe, -⟩ := deferredGizmos_effect glm _ w1 hgiz
  have hent1 : w1.app.entities = wb.app.entities := by
    rw [happe, happd, ← hentc]
    rfl
  have := renderEntities_draws glm deferredModelMatrix deferredLocation program wa wb hent
  rw [App.sameScene_models hsa, hmesha, ← hent1] at this
  exact this

/-- The events of a DEFERRED frame that returns, and what it leaves; `w2` is
the state in which the uniform buffer is unmapped. -/
theorem Render_deferred_effect (glm : Glm) (drv : Driver) (w w1 : World)
    (hmode : w.app.mode = .DEFERRED) (hok : Render glm drv w = .ok w1) :
    ∃ w2, deferredGizmos glm (deferredQuadAndBlit w2) = .ok w1 ∧
      events (frameCalls w w1) =
        [.glBindFramebuffer .GL_FRAMEBUFFER w.app.frameBufferController] ++
        (if w.app.showCubeMap then
          [.glDrawArrays .GL_TRIANGLES 0 36, .glDrawArrays .GL_TRIANGLES 0 36] else []) ++
        entityEvents w.app.cBuffer.handle w.app.models (meshGeometry w.app.meshes) 0 16
          w1.app.entities ++
        [.glBindFramebuffer .GL_FRAMEBUFFER 0,
         .glBindBufferRange .GL_UNIFORM_BUFFER 0 w.app.cBuffer.handle
           w1.app.globalParamsOffset w1.app.globalParamsSize] ++
        [.glDrawArrays .GL_TRIANGLE_STRIP 0 4,
         .glBindFramebuffer .GL_READ_FRAMEBUFFER w.app.frameBufferController,
         .glBindFramebuffer .GL_DRAW_FRAMEBUFFER 0,
         .glBlitFramebuffer 0 0 w.app.displaySize.x w.app.displaySize.y
           0 0 w.app.displaySize.x w.app.displaySize.y [.GL_DEPTH_BUFFER_BIT] .GL_NEAREST,
         .glBindFramebuffer .GL_FRAMEBUFFER 0] ++
        gizmoEvents glm w.app (sphereCount w.globals) ∧
      w.app.sameScene w1.app ∧
      (∀ e ∈ w1.app.entities,
        w.app.uniformBlockAlignmentOffset.toNat ∣ e.localParamsOffset ∧ e.localParamsSize = 128) ∧
      w1.app.entities.length = w.app.entities.length ∧
      w2.app.globalParamsOffset = w1.app.globalParamsOffset ∧
      (∃ region, w2.app.cBuffer.data = some region ∧
        (∀ k, k < 12 → region (w1.app.globalParamsOffset + k) =
          (bytesOfVec3 w.app.camera.cameraPos).getD k 0) ∧
        (∀ k, k < 4 → region (w1.app.globalParamsOffset + 12 + k) =
          (bytesOfU32 (w.app.lights.length % 2 ^ 32)).getD k 0)) ∧
      w1.log = w.log := by
  rw [Render_deferred glm drv w hmode] at hok
  obtain ⟨w2, hgiz, ⟨seg, hc, he⟩, hrest⟩ := RenderDeferred_effect glm drv _ w1 hok
  obtain ⟨seg0, hc0, he0⟩ := renderPrologue_calls w
  simp only [renderPrologue_app, renderPrologue_globals, renderPrologue_log] at he hrest
  refine ⟨w2, hgiz, ?_, hrest⟩
  rw [frameCalls_append w w1 (seg0 ++ seg) (by rw [hc, hc0, List.append_assoc]), events_append,
    he0, he]
  simp only [List.append_assoc]

/-- The events of a FORWARD frame that returns, and what it leaves. -/
theorem Render_forward_effect (glm : Glm) (drv : Driver) (w w1 : World)
    (hmode : w.app.mode = .FORWARD) (hok : Render glm drv w = .ok w1) :
    events (frameCalls w w1) =
      [.glBindFramebuffer .GL_FRAMEBUFFER w.app.frameBufferController] ++
      entityEvents w.app.cBuffer.handle w.app.models (meshGeometry w.app.meshes) 0
        w1.app.globalParamsSize w1.app.entities ++
      [.glBindBuffer .GL_READ_FRAMEBUFFER w.app.frameBufferController,
       .glBindBuffer .GL_DRAW_FRAMEBUFFER 0,
       .glBlitFramebuffer 0 0 w.app.displaySize.x w.app.displaySize.y
         0 0 w.app.displaySize.x w.app.displaySize.y [.GL_COLOR_BUFFER_BIT] .GL_LINEAR,
       .glBindFramebuffer .GL_READ_FRAMEBUFFER 0] ∧
    w.app.sameScene w1.app ∧
    (∀ e ∈ w1.app.entities,
      w.app.uniformBlockAlignmentOffset.toNat ∣ e.localParamsOffset ∧ e.localParamsSize = 128) ∧
    w1.app.entities.length = w.app.entities.length ∧
    w1.app.globalParamsOffset = 0 ∧
    (w.app.lights = [] → w1.app.globalParamsSize = w.app.globalParamsSize) ∧
    w1.log = w.log := by
  rw [Render_forward glm drv w hmode] at hok
  obtain ⟨⟨seg, hc, he⟩, hrest⟩ := RenderForward_effect glm drv _ w1 hok
  obtain ⟨seg0, hc0, he0⟩ := renderPrologue_calls w
  simp only [renderPrologue_app, renderPrologue_globals, renderPrologue_log] at he hrest
  refine ⟨?_, hrest⟩
  rw [frameCalls_append w w1 (seg0 ++ seg) (by rw [hc, hc0, List.append_assoc]), events_append,
    he0, he]
  simp only [List.append_assoc]


theorem blitsWithFramebuffers_filter (calls : List GLCall) :
    ∀ read draw, blitsWithFramebuffers read draw calls =
      blitsWithFramebuffers read draw (calls.filter isFramebufferCall) := by
  induction calls with
  | nil => intro read draw; rfl
  | cons c rest ih =>
    intro read draw
    cases c with
    | glBindFramebuffer target name =>
      cases target <;> simp only [List.filter_cons, isFramebufferCall, if_true,
        blitsWithFramebuffers] <;> exact ih _ _
    | glBlitFramebuffer =>
      simp only [List.filter_cons, isFramebufferCall, if_true, blitsWithFramebuffers, ih]
    | _ =>
      simp only [List.filter_cons, isFramebufferCall, blitsWithFramebuffers]
      exact ih _ _

theorem mem_entityDraws (models : List Model) (geometry : List (List (Nat × Nat))) (id : Nat)
    (c : GLCall) (hc : c ∈ entityDraws models geometry id) :
    ∃ n o, c = .glDrawElements .GL_TRIANGLES n .GL_UNSIGNED_INT o := by
  unfold entityDraws at hc
  split at hc
  · simp at hc
  · split at hc
    · simp at hc
    · obtain ⟨s, -, rfl⟩ := List.mem_map.1 hc
      exact ⟨_, _, rfl⟩

theorem mem_entityEvents (handle : Nat) (models : List Model) (geometry : List (List (Nat × Nat)))
    (off size : Nat) (entities : List Entity) (c : GLCall)
    (hc : c ∈ entityEvents handle models geometry off size entities) :
    (∃ i o s, c = .glBindBufferRange .GL_UNIFORM_BUFFER i handle o s) ∨
    ∃ n o, c = .glDrawElements .GL_TRIANGLES n .GL_UNSIGNED_INT o := by
  unfold entityEvents at hc
  obtain ⟨e, -, he⟩ := List.mem_flatMap.1 hc
  rcases List.mem_append.1 he with h | h
  · simp only [List.mem_cons, List.mem_singleton, List.not_mem_nil, or_false] at h
    rcases h with rfl | rfl
    · exact .inl ⟨_, _, _, rfl⟩
    · exact .inl ⟨_, _, _, rfl⟩
  · exact .inr (mem_entityDraws _ _ _ _ h)

theorem mem_gizmoEvents (glm : Glm) (app : App) (count : Nat) (c : GLCall)
    (hc : c ∈ gizmoEvents glm app count) :
    (∃ l m, c = .glUniformMatrix4fv l 1 false m) ∨ (∃ l v, c = .glUniform3fv l 1 v) ∨
    c = .glDrawArrays .GL_TRIANGLES 0 36 ∨
    c = .glDrawElements .GL_TRIANGLE_STRIP count .GL_UNSIGNED_INT 0 := by
  unfold gizmoEvents at hc
  split at hc
  · rcases List.mem_cons.1 hc with rfl | h
    · exact .inl ⟨_, _, rfl⟩
    · obtain ⟨light, -, hl⟩ := List.mem_flatMap.1 h
      simp only [List.mem_cons, List.mem_singleton, List.not_mem_nil, or_false] at hl
      rcases hl with rfl | rfl | rfl
      · exact .inl ⟨_, _, rfl⟩
      · exact .inr (.inl ⟨_, _, rfl⟩)
      · unfold gizmoDraw
        cases light.type
        · exact .inr (.inr (.inl rfl))
        · exact .inr (.inr (.inr rfl))
  · simp at hc

theorem filter_isFramebufferCall_entityEvents (handle : Nat) (models : List Model)
    (geometry : List (List (Nat × Nat))) (off size : Nat) (entities : List Entity) :
    (entityEvents handle models geometry off size entities).filter isFramebufferCall = [] := by
  rw [List.filter_eq_nil_iff]
  intro c hc
  rcases mem_entityEvents _ _ _ _ _ _ c hc with ⟨_, _, _, rfl⟩ | ⟨_, _, rfl⟩ <;>
    simp [isFramebufferCall]

theorem filter_isFramebufferCall_gizmoEvents (glm : Glm) (app : App) (count : Nat) :
    (gizmoEvents glm app count).filter isFramebufferCall = [] := by
  rw [List.filter_eq_nil_iff]
  intro c hc
  rcases mem_gizmoEvents _ _ _ c hc with ⟨_, _, rfl⟩ | ⟨_, _, rfl⟩ | rfl | rfl <;>
    simp [isFramebufferCall]

theorem isEvent_of_isFramebufferCall (c : GLCall) (h : isFramebufferCall c = true) :
    isEvent c = true := by
  cases c <;> simp_all [isFramebufferCall, isEvent]

theorem blitsWithFramebuffers_events (calls : List GLCall) (read draw : Nat) :
    blitsWithFramebuffers read draw calls = blitsWithFramebuffers read draw (events calls) := by
  rw [blitsWithFramebuffers_filter calls, blitsWithFramebuffers_filter (events calls), events,
    List.filter_filter]
  congr 1
  apply List.filter_congr
  intro c _
  by_cases h : isFramebufferCall c = true
  · simp [h, isEvent_of_isFramebufferCall c h]
  · simp [h]

/-- The blit of a FORWARD frame is issued while the framebuffer the frame
bound first, `frameBufferController`, is bound for reading and for drawing. -/
theorem Render_forward_blits (glm : Glm) (drv : Driver) (w w1 : World) (read draw : Nat)
    (hmode : w.app.mode = .FORWARD) (hok : Render glm drv w = .ok w1) :
    blitsWithFramebuffers read draw (frameCalls w w1) =
      [(.glBlitFramebuffer 0 0 w.app.displaySize.x w.app.displaySize.y
          0 0 w.app.displaySize.x w.app.displaySize.y [.GL_COLOR_BUFFER_BIT] .GL_LINEAR,
        w.app.frameBufferController, w.app.frameBufferController)] := by
  obtain ⟨he, -⟩ := Render_forward_effect glm drv w w1 hmode hok
  rw [blitsWithFramebuffers_events, he, blitsWithFramebuffers_filter]
  simp only [List.filter_append, filter_isFramebufferCall_entityEvents, List.append_nil,
    List.nil_append]
  rfl

/-- The blit of a DEFERRED frame is issued while `frameBufferController` is
bound for reading and the default framebuffer for drawing. -/
theorem Render_deferred_blits (glm : Glm) (drv : Driver) (w w1 : World) (read draw : Nat)
    (hmode : w.app.mode = .DEFERRED) (hok : Render glm drv w = .ok w1) :
    blitsWithFramebuffers read draw (frameCalls w w1) =
      [(.glBlitFramebuffer 0 0 w.app.displaySize.x w.app.displaySize.y
          0 0 w.app.displaySize.x w.app.displaySize.y [.GL_DEPTH_BUFFER_BIT] .GL_NEAREST,
        w.app.frameBufferController, 0)] := by
  obtain ⟨w2, -, he, -⟩ := Render_deferred_effect glm drv w w1 hmode hok
  rw [blitsWithFramebuffers_events, he, blitsWithFramebuffers_filter]
  simp only [List.filter_append, filter_isFramebufferCall_entityEvents,
    filter_isFramebufferCall_gizmoEvents, List.append_nil, List.nil_append]
  by_cases hcm : w.app.showCubeMap = true
  · simp only [hcm, if_true]
    rfl
  · simp only [hcm, if_false]
    rfl


/-! ## Claims on the allocator inside a frame and on initialisation -/

theorem headTrace_chain (ops : List AllocOp) :
    ∀ buffer : Buffer, (∀ n, AllocOp.alignTo n ∈ ops → 0 < n) →
      List.Chain (· ≤ ·) buffer.head (headTrace buffer ops) := by
  induction ops with
  | nil => intro buffer _; exact List.Chain.nil
  | cons op rest ih =>
    intro buffer hpos
    have hrest : ∀ n, AllocOp.alignTo n ∈ rest → 0 < n :=
      fun n hn => hpos n (List.mem_cons_of_mem _ hn)
    cases op with
    | alignTo n =>
      simp only [headTrace, AllocOp.run]
      exact List.Chain.cons (AlignHead_le buffer n (hpos n (List.mem_cons_self _ _)))
        (ih _ hrest)
    | push bytes =>
      simp only [headTrace, AllocOp.run]
      cases hp : (Push buffer bytes).map Prod.snd with
      | error e => exact List.Chain.nil
      | ok buffer1 =>
        obtain ⟨-, hb⟩ := Push_map_ok buffer buffer1 bytes hp
        refine List.Chain.cons ?_ (ih _ hrest)
        rw [hb]
        exact Nat.le_add_right _ _

/-- C11: `MapBuffer`, which opens the mapped session of a frame, leaves `head`
at exactly 0 whatever the buffer held before; and along every sequence of
`AlignHead` (to positive alignments) and `Push` operations, from any buffer and
so in particular from the one `MapBuffer` returns, each value of `head` is at
least the one before it. -/
theorem head_monotone_within_frame (buffer : Buffer) (region : Nat → Nat) (ops : List AllocOp)
    (hpos : ∀ n, AllocOp.alignTo n ∈ ops → 0 < n) :
    (MapBuffer buffer region).head = 0 ∧
    List.Chain (· ≤ ·) 0 (headTrace (MapBuffer buffer region) ops) ∧
    List.Chain (· ≤ ·) buffer.head (headTrace buffer ops) :=
  ⟨rfl, headTrace_chain ops (MapBuffer buffer region) hpos, headTrace_chain ops buffer hpos⟩

theorem sampleOps_positive : ∀ n, AllocOp.alignTo n ∈ sampleOps → 0 < n := by
  intro n hn
  simp only [sampleOps, List.mem_cons, AllocOp.alignTo.injEq, List.mem_singleton,
    reduceCtorEq, false_or, or_false, List.not_mem_nil] at hn
  omega

theorem head_monotone_within_frame_witness :
    headTrace (MapBuffer sampleFrameBuffer fun _ => 0) sampleOps =
      [12, 16, 16, 44, 256, 320, 384] ∧
    headTrace sampleFrameBuffer sampleOps = [872, 876, 880, 908, 1024, 1088, 1152] ∧
    (MapBuffer sampleFrameBuffer fun _ => 0).head = 0 ∧
    List.Chain (· ≤ ·) 0 (headTrace (MapBuffer sampleFrameBuffer fun _ => 0) sampleOps) ∧
    List.Chain (· ≤ ·) sampleFrameBuffer.head (headTrace sampleFrameBuffer sampleOps) :=
  ⟨by decide, by decide,
    head_monotone_within_frame sampleFrameBuffer (fun _ => 0) sampleOps sampleOps_positive⟩


@[simp] theorem World.elog_calls (w : World) (line : String) :
    (w.elog line).gl.calls = w.gl.calls := rfl

@[simp] theorem World.elog_app (w : World) (line : String) : (w.elog line).app = w.app := rfl

@[simp] theorem World.elog_log (w : World) (line : String) :
    (w.elog line).log = w.log ++ [line] := rfl

theorem Init_eq (glm : Glm) (env : Platform) (w : World) :
    Init glm env w =
      (InitModes glm env (InitGPUInfo env (initCameraPos w))).map fun w1 =>
        CreateEntities env (InitBuffers env.framebufferStatus (InitCubeMap env w1)) := by
  show (InitModes glm env (InitGPUInfo env (initCameraPos w)) >>= _) = _
  cases InitModes glm env (InitGPUInfo env (initCameraPos w)) <;> rfl

@[simp] theorem allocImage_log (store : App → Nat → App) (a b c : GLenum) (w : World) :
    (allocImage store a b c w).log = w.log := rfl

@[simp] theorem allocImage_app (store : App → Nat → App) (a b c : GLenum) (w : World) :
    (allocImage store a b c w).app = store w.app (w.gl.textures + 1) := rfl

@[simp] theorem allocImage_textures (store : App → Nat → App) (a b c : GLenum) (w : World) :
    (allocImage store a b c w).gl.textures = w.gl.textures + 1 := rfl

@[simp] theorem allocImage_framebuffers (store : App → Nat → App) (a b c : GLenum) (w : World) :
    (allocImage store a b c w).gl.framebuffers = w.gl.framebuffers := rfl

theorem allocImage_calls (store : App → Nat → App) (a b c : GLenum) (w : World) :
    (allocImage store a b c w).gl.calls = w.gl.calls ++
      [.glGenTextures (w.gl.textures + 1),
       .glBindTexture .GL_TEXTURE_2D (w.gl.textures + 1),
       .glTexImage2D .GL_TEXTURE_2D 0 a (store w.app (w.gl.textures + 1)).displaySize.x
         (store w.app (w.gl.textures + 1)).displaySize.y 0 b c 0,
       .glTexParameteri .GL_TEXTURE_2D .GL_TEXTURE_MIN_FILTER .GL_NEAREST,
       .glTexParameteri .GL_TEXTURE_2D .GL_TEXTURE_MAG_FILTER .GL_NEAREST,
       .glTexParameteri .GL_TEXTURE_2D .GL_TEXTURE_WRAP_R .GL_CLAMP_TO_EDGE,
       .glTexParameteri .GL_TEXTURE_2D .GL_TEXTURE_WRAP_S .GL_CLAMP_TO_EDGE,
       .glTexParameteri .GL_TEXTURE_2D .GL_TEXTURE_WRAP_T .GL_CLAMP_TO_EDGE,
       .glBindTexture .GL_TEXTURE_2D 0] := by
  simp only [allocImage, GLState.genTexture, World.issue_calls, World.issue_app,
    List.append_assoc, List.singleton_append]
  rfl

@[simp] theorem attachImages_log (w : World) : (attachImages w).log = w.log := rfl

@[simp] theorem attachImages_app (w : World) :
    (attachImages w).app = { w.app with frameBufferController := w.gl.framebuffers + 1 } := rfl

theorem attachImages_calls (w : World) :
    (attachImages w).gl.calls = w.gl.calls ++
      [.glGenFramebuffers (w.gl.framebuffers + 1),
       .glBindFramebuffer .GL_FRAMEBUFFER (w.gl.framebuffers + 1),
       .glFramebufferTexture .GL_FRAMEBUFFER .GL_COLOR_ATTACHMENT0 w.app.colorController 0,
       .glFramebufferTexture .GL_FRAMEBUFFER .GL_COLOR_ATTACHMENT1 w.app.normalsController 0,
       .glFramebufferTexture .GL_FRAMEBUFFER .GL_COLOR_ATTACHMENT2 w.app.albedoController 0,
       .glFramebufferTexture .GL_FRAMEBUFFER .GL_COLOR_ATTACHMENT3 w.app.positionController 0,
       .glFramebufferTexture .GL_FRAMEBUFFER .GL_DEPTH_ATTACHMENT w.app.depthController 0] := by
  simp only [attachImages, GLState.genFramebuffer, World.issue_calls, World.issue_app,
    List.append_assoc, List.singleton_append]
  rfl

@[simp] theorem checkFramebuffer_app (status : FramebufferStatus) (w : World) :
    (checkFramebuffer status w).app = w.app := by
  unfold checkFramebuffer
  split <;> rfl

@[simp] theorem checkFramebuffer_calls (status : FramebufferStatus) (w : World) :
    (checkFramebuffer status w).gl.calls = w.gl.calls := by
  unfold checkFramebuffer
  split <;> rfl

theorem checkFramebuffer_log (status : FramebufferStatus) (w : World) :
    (checkFramebuffer status w).log =
      w.log ++ if status ≠ .GL_FRAMEBUFFER_COMPLETE then [framebufferStatusLine status] else [] := by
  unfold checkFramebuffer
  split <;> simp

theorem InitBuffers_log (status : FramebufferStatus) (w : World) :
    (InitBuffers status w).log =
      w.log ++ if status ≠ .GL_FRAMEBUFFER_COMPLETE then [framebufferStatusLine status] else [] := by
  simp only [InitBuffers, World.issue_log, checkFramebuffer_log, attachImages_log, allocImage_log]

theorem InitBuffers_fields (status : FramebufferStatus) (w : World) :
    (InitBuffers status w).app.colorController = w.gl.textures + 1 ∧
    (InitBuffers status w).app.normalsController = w.gl.textures + 2 ∧
    (InitBuffers status w).app.depthController = w.gl.textures + 3 ∧
    (InitBuffers status w).app.albedoController = w.gl.textures + 4 ∧
    (InitBuffers status w).app.positionController = w.gl.textures + 5 ∧
    (InitBuffers status w).app.frameBufferController = w.gl.framebuffers + 1 ∧
    (InitBuffers status w).app.displaySize = w.app.displaySize ∧
    (InitBuffers status w).app.lights = w.app.lights ∧
    (InitBuffers status w).app.entities = w.app.entities := by
  simp only [InitBuffers, World.issue_app, checkFramebuffer_app, attachImages_app, allocImage_app,
    allocImage_textures, allocImage_framebuffers, and_self]


/-- C14: whatever the display size and the framebuffer status, `InitBuffers`
allocates exactly five images, for the colour, normals, depth, albedo and
position fields in this order, each with width `displaySize.x` and height
`displaySize.y`, and these five images are what it attaches to the
framebuffer: all the attachments have the same resolution. -/
theorem InitBuffers_images_share_displaySize (status : FramebufferStatus) (w : World)
    (bound : Nat) :
    imageAllocations bound (frameCalls w (InitBuffers status w)) =
      [((InitBuffers status w).app.colorController, .GL_RGBA8,
          w.app.displaySize.x, w.app.displaySize.y),
       ((InitBuffers status w).app.normalsController, .GL_RGBA16F,
          w.app.displaySize.x, w.app.displaySize.y),
       ((InitBuffers status w).app.depthController, .GL_DEPTH_COMPONENT24,
          w.app.displaySize.x, w.app.displaySize.y),
       ((InitBuffers status w).app.albedoController, .GL_RGBA8,
          w.app.displaySize.x, w.app.displaySize.y),
       ((InitBuffers status w).app.positionController, .GL_RGBA16F,
          w.app.displaySize.x, w.app.displaySize.y)] ∧
    framebufferAttachments (frameCalls w (InitBuffers status w)) =
      [(.GL_COLOR_ATTACHMENT0, (InitBuffers status w).app.colorController),
       (.GL_COLOR_ATTACHMENT1, (InitBuffers status w).app.normalsController),
       (.GL_COLOR_ATTACHMENT2, (InitBuffers status w).app.albedoController),
       (.GL_COLOR_ATTACHMENT3, (InitBuffers status w).app.positionController),
       (.GL_DEPTH_ATTACHMENT, (InitBuffers status w).app.depthController)] ∧
    (InitBuffers status w).app.displaySize = w.app.displaySize := by
  obtain ⟨h1, h2, h3, h4, h5, -, h7, -, -⟩ := InitBuffers_fields status w
  rw [h1, h2, h3, h4, h5, h7]
  simp only [frameCalls, InitBuffers, World.issue_calls, World.issue_app, checkFramebuffer_app,
    checkFramebuffer_calls, attachImages_app, attachImages_calls, allocImage_app,
    allocImage_textures, allocImage_framebuffers, allocImage_calls, List.append_assoc,
    List.drop_left, List.cons_append, List.nil_append, imageAllocations, framebufferAttachments,
    and_self]

theorem CreateEntities_lights (env : Platform) (w : World) :
    (CreateEntities env w).app.lights = w.app.lights ++ defaultLights ∧
    (CreateEntities env w).app.entities.length = w.app.entities.length + 1 ∧
    (CreateEntities env w).log = w.log := by
  simp only [CreateEntities, List.length_append, List.length_singleton, and_self]

theorem initModesWorld_ok :
    InitModes sampleGlm (samplePlatform .GL_FRAMEBUFFER_UNSUPPORTED true)
      (InitGPUInfo (samplePlatform .GL_FRAMEBUFFER_UNSUPPORTED true) (initCameraPos initWorld))
      = .ok initModesWorld := rfl

set_option maxRecDepth 100000 in
/-- C12, as stated, fails: on a platform whose framebuffer check answers
`GL_FRAMEBUFFER_UNSUPPORTED`, `Init` returns; `InitBuffers` has written the
reason to the log, and `CreateEntities` has run, so the state holds the entity
and the seven lights of the default scene. -/
theorem Init_returns_with_incomplete_framebuffer :
    ∃ w1, Init sampleGlm (samplePlatform .GL_FRAMEBUFFER_UNSUPPORTED true) initWorld = .ok w1 ∧
      w1.log = ["GL_FRAMEBUFFER_UNSUPPORTED"] ∧ w1.app.entities.length = 1 ∧
      w1.app.lights = defaultLights :=
  ⟨frameOf (Init sampleGlm (samplePlatform .GL_FRAMEBUFFER_UNSUPPORTED true) initWorld) initWorld,
    rfl, by decide, by decide, rfl⟩

theorem CreateProgramFromSource_fst (env : Platform) (programSource shaderName : String)
    (w : World) :
    (CreateProgramFromSource env programSource shaderName w).1 = w.gl.objects + 3 := by
  simp only [CreateProgramFromSource, GLState.createObject]
  split_ifs <;> rfl

theorem CreateProgramFromSource_log (env : Platform) (programSource shaderName : String)
    (w : World) :
    (CreateProgramFromSource env programSource shaderName w).2.log = w.log ++
      (if env.compileStatus .GL_VERTEX_SHADER (vertexShaderSource programSource shaderName)
        then []
        else ["glCompileShader() failed with vertex shader " ++ shaderName ++
          "\nReported message:\n" ++
          env.shaderInfoLog .GL_VERTEX_SHADER (vertexShaderSource programSource shaderName) ++
          "\n"]) ++
      (if env.compileStatus .GL_FRAGMENT_SHADER (fragmentShaderSource programSource shaderName)
        then []
        else ["glCompileShader() failed with fragment shader " ++ shaderName ++
          "\nReported message:\n" ++
          env.shaderInfoLog .GL_FRAGMENT_SHADER (fragmentShaderSource programSource shaderName) ++
          "\n"]) ++
      (if env.linkStatus (vertexShaderSource programSource shaderName)
          (fragmentShaderSource programSource shaderName)
        then []
        else ["glLinkProgram() failed with program " ++ shaderName ++ "\nReported message:\n" ++
          env.programInfoLog (vertexShaderSource programSource shaderName)
            (fragmentShaderSource programSource shaderName) ++ "\n"]) := by
  simp only [CreateProgramFromSource, GLState.createObject, vertexShaderSource,
    fragmentShaderSource]
  split_ifs <;> simp_all [World.issue_log, World.elog_log]

theorem CreateProgramFromSource_calls (env : Platform) (programSource shaderName : String)
    (w : World) :
    .glCreateProgram (w.gl.objects + 3) ∈
      (CreateProgramFromSource env programSource shaderName w).2.gl.calls := by
  simp only [CreateProgramFromSource, GLState.createObject]
  split_ifs <;> simp [World.issue, GLState.issue, World.elog]

theorem CreateProgramFromSource_app (env : Platform) (programSource shaderName : String)
    (w : World) : (CreateProgramFromSource env programSource shaderName w).2.app = w.app := by
  simp only [CreateProgramFromSource, GLState.createObject, World.issue_app, World.elog_app,
    apply_ite World.app, ite_self]

theorem LoadProgram_programs (env : Platform) (filepath programName : String) (w : World) :
    (LoadProgram env filepath programName w).2.app.programs = w.app.programs ++
      [{ handle := (CreateProgramFromSource env (env.ReadTextFile filepath) programName w).1
         filepath := filepath
         programName := programName
         lastWriteTimestamp := env.GetFileLastWriteTimestamp filepath
         vertexInputLayout := { attributes := [] } }] := by
  simp only [LoadProgram, CreateProgramFromSource_app]

set_option maxRecDepth 100000 in
/-- C13, as stated, fails: on a platform on which both compilations and the
link fail, `CreateProgramFromSource` writes the three messages to the log and
returns 3, the name `glCreateProgram` gave, not 0; the program `LoadProgram`
stores has handle 3. -/
theorem CreateProgramFromSource_failure_returns_name :
    (CreateProgramFromSource (samplePlatform .GL_FRAMEBUFFER_COMPLETE false) "void main();"
      "SHOW_GEOMETRY" initWorld).1 = 3 ∧
    (CreateProgramFromSource (samplePlatform .GL_FRAMEBUFFER_COMPLETE false) "void main();"
      "SHOW_GEOMETRY" initWorld).2.log =
      ["glCompileShader() failed with vertex shader SHOW_GEOMETRY\nReported message:\n" ++
         "0:1: syntax error\n",
       "glCompileShader() failed with fragment shader SHOW_GEOMETRY\nReported message:\n" ++
         "0:1: syntax error\n",
       "glLinkProgram() failed with program SHOW_GEOMETRY\nReported message:\nlink error\n"] ∧
    (LoadProgram (samplePlatform .GL_FRAMEBUFFER_COMPLETE false) "shaders.glsl" "SHOW_GEOMETRY"
      initWorld).2.app.programs.map Program.handle = [3] :=
  ⟨by decide, by decide, by decide⟩

/-- C13, amended: whatever the compilations and the link report,
`CreateProgramFromSource` returns the name `glCreateProgram` gave it, the third
name of the shader and program name space it takes, never 0; each stage that
reports failure adds its message to the log, and nothing else marks the
failure.  `LoadProgram` stores a program with that handle. -/
theorem CreateProgramFromSource_returns_created_name (env : Platform)
    (filepath programSource shaderName : String) (w : World) :
    (CreateProgramFromSource env programSource shaderName w).1 = w.gl.objects + 3 ∧
    (CreateProgramFromSource env programSource shaderName w).1 ≠ 0 ∧
    .glCreateProgram (w.gl.objects + 3) ∈
      (CreateProgramFromSource env programSource shaderName w).2.gl.calls ∧
    (CreateProgramFromSource env programSource shaderName w).2.log = w.log ++
      (if env.compileStatus .GL_VERTEX_SHADER (vertexShaderSource programSource shaderName)
        then []
        else ["glCompileShader() failed with vertex shader " ++ shaderName ++
          "\nReported message:\n" ++
          env.shaderInfoLog .GL_VERTEX_SHADER (vertexShaderSource programSource shaderName) ++
          "\n"]) ++
      (if env.compileStatus .GL_FRAGMENT_SHADER (fragmentShaderSource programSource shaderName)
        then []
        else ["glCompileShader() failed with fragment shader " ++ shaderName ++
          "\nReported message:\n" ++
          env.shaderInfoLog .GL_FRAGMENT_SHADER (fragmentShaderSource programSource shaderName) ++
          "\n"]) ++
      (if env.linkStatus (vertexShaderSource programSource shaderName)
          (fragmentShaderSource programSource shaderName)
        then []
        else ["glLinkProgram() failed with program " ++ shaderName ++ "\nReported message:\n" ++
          env.programInfoLog (vertexShaderSource programSource shaderName)
            (fragmentShaderSource programSource shaderName) ++ "\n"]) ∧
    (LoadProgram env filepath shaderName w).2.app.programs = w.app.programs ++
      [{ handle := w.gl.objects + 3
         filepath := filepath
         programName := shaderName
         lastWriteTimestamp := env.GetFileLastWriteTimestamp filepath
         vertexInputLayout := { attributes := [] } }] := by
  refine ⟨CreateProgramFromSource_fst env programSource shaderName w, ?_,
    CreateProgramFromSource_calls env programSource shaderName w,
    CreateProgramFromSource_log env programSource shaderName w, ?_⟩
  · rw [CreateProgramFromSource_fst]
    exact Nat.succ_ne_zero _
  · rw [LoadProgram_programs env filepath shaderName w, CreateProgramFromSource_fst]


/-! ## Claims on a frame -/

theorem sceneFrame_ok : Render sampleGlm sampleDriver sceneWorld = .ok sceneFrame := rfl

theorem sceneForwardFrame_ok :
    Render sampleGlm sampleDriver sceneWorldForward = .ok sceneForwardFrame := rfl

theorem defaultLights_length (env : Platform) (w : World) (h : w.app.lights = []) :
    (CreateEntities env w).app.lights = defaultLights ∧
    (CreateEntities env w).app.lights.length = 7 := by
  have := (CreateEntities_lights env w).1
  rw [h, List.nil_append] at this
  rw [this]
  exact ⟨rfl, rfl⟩

/-- A DEFERRED branch that returns leaves the model of every entity as it
was. -/
theorem RenderDeferred_modelId (glm : Glm) (drv : Driver) (w w1 : World)
    (hok : RenderDeferred glm drv w = .ok w1) :
    w1.app.entities.map Entity.modelId = w.app.entities.map Entity.modelId := by
  simp only [RenderDeferred, bind_eq_ok, lookup_eq_ok] at hok
  obtain ⟨program, -, wa, hglob, wb, hent, wc, hlight, hgiz⟩ := hok
  obtain ⟨-, -, henta, -⟩ := deferredGlobals_effect glm drv program w wa hglob
  obtain ⟨-, -, hentc, -⟩ := deferredLighting_effect wb wc hlight
  obtain ⟨-, happd, -⟩ := deferredQuadAndBlit_effect wc
  obtain ⟨-, happe, -⟩ := deferredGizmos_effect glm _ w1 hgiz
  have hent1 : w1.app.entities = wb.app.entities := by
    rw [happe, happd, ← hentc]
    rfl
  rw [hent1, (renderEntities_modelId glm deferredModelMatrix deferredLocation program _ wa wb
    hent).1, henta]

theorem filter_isGeometryDraw_gizmoEvents (glm : Glm) (app : App) (count : Nat) :
    (gizmoEvents glm app count).filter isGeometryDraw = [] := by
  rw [List.filter_eq_nil_iff]
  intro c hc
  rcases mem_gizmoEvents _ _ _ c hc with ⟨_, _, rfl⟩ | ⟨_, _, rfl⟩ | rfl | rfl <;>
    simp [isGeometryDraw]

/-- C17: the events of a DEFERRED frame that returns open with the binding of
the framebuffer (and the two draws of the cube map when it is shown), followed
by the geometry pass: for each entity, in order, the global block of the frame
(offset 0, 16 bytes) bound at binding point 0, the local block of the entity
bound at binding point 1, and one `glDrawElements(GL_TRIANGLES, n,
GL_UNSIGNED_INT, indexOffset)` per submesh of the mesh of its model, with the
index count and the index offset of the submesh.  No other command of the frame
is such a draw, and the entities keep their number and their models. -/
theorem Deferred_geometry_pass (glm : Glm) (drv : Driver) (w w1 : World)
    (hmode : w.app.mode = .DEFERRED) (hok : Render glm drv w = .ok w1) :
    (∃ post, events (frameCalls w w1) =
      .glBindFramebuffer .GL_FRAMEBUFFER w.app.frameBufferController ::
        (if w.app.showCubeMap then
          [.glDrawArrays .GL_TRIANGLES 0 36, .glDrawArrays .GL_TRIANGLES 0 36] else []) ++
      (w1.app.entities.flatMap fun e =>
        [.glBindBufferRange .GL_UNIFORM_BUFFER 0 w.app.cBuffer.handle 0 16,
         .glBindBufferRange .GL_UNIFORM_BUFFER 1 w.app.cBuffer.handle
           e.localParamsOffset e.localParamsSize] ++
        entityDraws w.app.models (meshGeometry w.app.meshes) e.modelId) ++ post ∧
      post.filter isGeometryDraw = []) ∧
    w1.app.entities.map Entity.modelId = w.app.entities.map Entity.modelId ∧
    ∀ e ∈ w1.app.entities, ∃ model mesh, w.app.models[e.modelId]? = some model ∧
      w.app.meshes[model.meshIdx]? = some mesh ∧
      entityDraws w.app.models (meshGeometry w.app.meshes) e.modelId =
        mesh.submeshes.map fun s =>
          .glDrawElements .GL_TRIANGLES s.indices.length .GL_UNSIGNED_INT s.indexOffset := by
  obtain ⟨w2, -, he, -⟩ := Render_deferred_effect glm drv w w1 hmode hok
  have hok2 := hok
  rw [Render_deferred glm drv w hmode] at hok2
  have hdraws := RenderDeferred_draws glm drv _ w1 hok2
  have hids := RenderDeferred_modelId glm drv _ w1 hok2
  simp only [renderPrologue_app] at hdraws hids
  refine ⟨⟨[.glBindFramebuffer .GL_FRAMEBUFFER 0,
       .glBindBufferRange .GL_UNIFORM_BUFFER 0 w.app.cBuffer.handle
         w1.app.globalParamsOffset w1.app.globalParamsSize] ++
      [.glDrawArrays .GL_TRIANGLE_STRIP 0 4,
       .glBindFramebuffer .GL_READ_FRAMEBUFFER w.app.frameBufferController,
       .glBindFramebuffer .GL_DRAW_FRAMEBUFFER 0,
       .glBlitFramebuffer 0 0 w.app.displaySize.x w.app.displaySize.y
         0 0 w.app.displaySize.x w.app.displaySize.y [.GL_DEPTH_BUFFER_BIT] .GL_NEAREST,
       .glBindFramebuffer .GL_FRAMEBUFFER 0] ++
      gizmoEvents glm w.app (sphereCount w.globals), ?_, ?_⟩, hids, hdraws⟩
  · rw [he]
    simp only [entityEvents, List.append_assoc, List.cons_append, List.nil_append]
  · simp only [List.filter_append, filter_isGeometryDraw_gizmoEvents, List.append_nil]
    rfl

set_option maxRecDepth 100000 in
theorem Deferred_geometry_pass_witness :
    (frameCalls sceneWorld sceneFrame).filter isGeometryDraw =
      [.glDrawElements .GL_TRIANGLES 6 .GL_UNSIGNED_INT 0] ∧
    sceneFrame.app.entities.map (fun e => (e.localParamsOffset, e.localParamsSize)) =
      [(256, 128)] ∧
    ∃ post, events (frameCalls sceneWorld sceneFrame) =
      .glBindFramebuffer .GL_FRAMEBUFFER sceneWorld.app.frameBufferController ::
        (if sceneWorld.app.showCubeMap then
          [.glDrawArrays .GL_TRIANGLES 0 36, .glDrawArrays .GL_TRIANGLES 0 36] else []) ++
      (sceneFrame.app.entities.flatMap fun e =>
        [.glBindBufferRange .GL_UNIFORM_BUFFER 0 sceneWorld.app.cBuffer.handle 0 16,
         .glBindBufferRange .GL_UNIFORM_BUFFER 1 sceneWorld.app.cBuffer.handle
           e.localParamsOffset e.localParamsSize] ++
        entityDraws sceneWorld.app.models (meshGeometry sceneWorld.app.meshes) e.modelId) ++
      post ∧
      post.filter isGeometryDraw = [] :=
  ⟨rfl, rfl,
    (Deferred_geometry_pass sampleGlm sampleDriver sceneWorld sceneFrame rfl sceneFrame_ok).1⟩


/-- C18: the blit that ends a FORWARD frame copies the colour buffer, but the
two calls before it are `glBindBuffer` with framebuffer targets, which bind no
framebuffer: the blit is issued while `frameBufferController`, bound by the
first statement of `Render`, is the framebuffer read and the framebuffer drawn
to, not the default framebuffer.  The blit of a DEFERRED frame copies the depth
buffer from `frameBufferController` to the default framebuffer 0. -/
theorem final_blit_framebuffers (glm : Glm) (drv : Driver) (w w1 : World) (read draw : Nat)
    (hok : Render glm drv w = .ok w1) :
    (w.app.mode = .FORWARD →
      blitsWithFramebuffers read draw (frameCalls w w1) =
        [(.glBlitFramebuffer 0 0 w.app.displaySize.x w.app.displaySize.y
            0 0 w.app.displaySize.x w.app.displaySize.y [.GL_COLOR_BUFFER_BIT] .GL_LINEAR,
          w.app.frameBufferController, w.app.frameBufferController)]) ∧
    (w.app.mode = .DEFERRED →
      blitsWithFramebuffers read draw (frameCalls w w1) =
        [(.glBlitFramebuffer 0 0 w.app.displaySize.x w.app.displaySize.y
            0 0 w.app.displaySize.x w.app.displaySize.y [.GL_DEPTH_BUFFER_BIT] .GL_NEAREST,
          w.app.frameBufferController, 0)]) :=
  ⟨fun hmode => Render_forward_blits glm drv w w1 read draw hmode hok,
    fun hmode => Render_deferred_blits glm drv w w1 read draw hmode hok⟩

theorem final_blit_framebuffers_witness :
    sceneWorldForward.app.frameBufferController = 1 ∧
    blitsWithFramebuffers 0 0 (frameCalls sceneWorldForward sceneForwardFrame) =
      [(.glBlitFramebuffer 0 0 800 600 0 0 800 600 [.GL_COLOR_BUFFER_BIT] .GL_LINEAR, 1, 1)] ∧
    blitsWithFramebuffers 0 0 (frameCalls sceneWorld sceneFrame) =
      [(.glBlitFramebuffer 0 0 800 600 0 0 800 600 [.GL_DEPTH_BUFFER_BIT] .GL_NEAREST, 1, 0)] :=
  ⟨rfl,
    (final_blit_framebuffers sampleGlm sampleDriver sceneWorldForward sceneForwardFrame 0 0
      sceneForwardFrame_ok).1 rfl,
    (final_blit_framebuffers sampleGlm sampleDriver sceneWorld sceneFrame 0 0
      sceneFrame_ok).2 rfl⟩

theorem mem_entityEvents_local (handle : Nat) (models : List Model)
    (geometry : List (List (Nat × Nat))) (off size : Nat) (entities : List Entity) (e : Entity)
    (he : e ∈ entities) :
    .glBindBufferRange .GL_UNIFORM_BUFFER 1 handle e.localParamsOffset e.localParamsSize ∈
      entityEvents handle models geometry off size entities := by
  unfold entityEvents
  exact List.mem_flatMap.2 ⟨e, he, by simp⟩

/-- C20: in a DEFERRED and in a FORWARD frame that returns, with a positive
`uniformBlockAlignmentOffset`, every entity is left with a `localParamsOffset`
that is a multiple of the alignment and a `localParamsSize` of 128, the
number of bytes of two matrices of 64 bytes each, and the frame binds exactly
that range at binding point 1. -/
theorem entity_local_block_aligned (glm : Glm) (drv : Driver) (w w1 : World)
    (hmode : w.app.mode = .DEFERRED ∨ w.app.mode = .FORWARD)
    (halign : 0 < w.app.uniformBlockAlignmentOffset) (hok : Render glm drv w = .ok w1) :
    w1.app.entities.length = w.app.entities.length ∧
    ∀ e ∈ w1.app.entities,
      w.app.uniformBlockAlignmentOffset ∣ (e.localParamsOffset : Int) ∧
      e.localParamsSize = 128 ∧
      (∀ m1 m2 : mat4, e.localParamsSize = (bytesOfMat4 m1).length + (bytesOfMat4 m2).length) ∧
      .glBindBufferRange .GL_UNIFORM_BUFFER 1 w.app.cBuffer.handle
        e.localParamsOffset e.localParamsSize ∈ events (frameCalls w w1) := by
  have hcast : ((w.app.uniformBlockAlignmentOffset.toNat : Nat) : Int) =
      w.app.uniformBlockAlignmentOffset := Int.toNat_of_nonneg (le_of_lt halign)
  have key : w1.app.entities.length = w.app.entities.length ∧
      (∀ e ∈ w1.app.entities,
        w.app.uniformBlockAlignmentOffset.toNat ∣ e.localParamsOffset ∧
        e.localParamsSize = 128) ∧
      ∀ e ∈ w1.app.entities, .glBindBufferRange .GL_UNIFORM_BUFFER 1 w.app.cBuffer.handle
        e.localParamsOffset e.localParamsSize ∈ events (frameCalls w w1) := by
    rcases hmode with hmode | hmode
    · obtain ⟨w2, -, he, -, hal, hlen, -⟩ := Render_deferred_effect glm drv w w1 hmode hok
      refine ⟨hlen, hal, fun e hmem => ?_⟩
      rw [he]
      simp only [List.mem_append]
      exact .inl (.inl (.inl (.inr (mem_entityEvents_local _ _ _ _ _ _ e hmem))))
    · obtain ⟨he, -, hal, hlen, -⟩ := Render_forward_effect glm drv w w1 hmode hok
      refine ⟨hlen, hal, fun e hmem => ?_⟩
      rw [he]
      simp only [List.mem_append]
      exact .inl (.inr (mem_entityEvents_local _ _ _ _ _ _ e hmem))
  obtain ⟨hlen, hal, hbind⟩ := key
  refine ⟨hlen, fun e hmem => ⟨?_, (hal e hmem).2, ?_, hbind e hmem⟩⟩
  · rw [← hcast]
    exact Int.natCast_dvd_natCast.2 (hal e hmem).1
  · intro m1 m2
    rw [(hal e hmem).2, bytesOfMat4_length, bytesOfMat4_length]

set_option maxRecDepth 100000 in
theorem entity_local_block_aligned_witness :
    sceneWorld.app.uniformBlockAlignmentOffset = 256 ∧
    sceneFrame.app.entities.map (fun e => (e.localParamsOffset, e.localParamsSize)) =
      [(256, 128)] ∧
    sceneForwardFrame.app.entities.map (fun e => (e.localParamsOffset, e.localParamsSize)) =
      [(256, 128)] ∧
    (∀ e ∈ sceneFrame.app.entities,
      sceneWorld.app.uniformBlockAlignmentOffset ∣ (e.localParamsOffset : Int) ∧
      e.localParamsSize = 128 ∧
      (∀ m1 m2 : mat4, e.localParamsSize = (bytesOfMat4 m1).length + (bytesOfMat4 m2).length) ∧
      .glBindBufferRange .GL_UNIFORM_BUFFER 1 sceneWorld.app.cBuffer.handle
        e.localParamsOffset e.localParamsSize ∈ events (frameCalls sceneWorld sceneFrame)) ∧
    (∀ e ∈ sceneForwardFrame.app.entities,
      sceneWorldForward.app.uniformBlockAlignmentOffset ∣ (e.localParamsOffset : Int) ∧
      e.localParamsSize = 128 ∧
      (∀ m1 m2 : mat4, e.localParamsSize = (bytesOfMat4 m1).length + (bytesOfMat4 m2).length) ∧
      .glBindBufferRange .GL_UNIFORM_BUFFER 1 sceneWorldForward.app.cBuffer.handle
        e.localParamsOffset e.localParamsSize ∈
          events (frameCalls sceneWorldForward sceneForwardFrame)) :=
  ⟨rfl, rfl, rfl,
    (entity_local_block_aligned sampleGlm sampleDriver sceneWorld sceneFrame (.inl rfl)
      (by decide) sceneFrame_ok).2,
    (entity_local_block_aligned sampleGlm sampleDriver sceneWorldForward sceneForwardFrame
      (.inr rfl) (by decide) sceneForwardFrame_ok).2⟩


/-! ## Claims on the sphere mesh, the framebuffer and the cube maps -/

theorem length_flatMap_const {α β : Type} (f : α → List β) (n : Nat)
    (hf : ∀ x, (f x).length = n) (l : List α) : (l.flatMap f).length = l.length * n := by
  induction l with
  | nil => simp
  | cons x rest ih =>
    simp only [List.flatMap_cons, List.length_append, hf, ih, List.length_cons]
    ring

theorem sphereVertices_length (H V : Nat) : (sphereVertices H V).length = (H + 1) * (V + 1) := by
  rw [sphereVertices, length_flatMap_const _ (V + 1) (fun h => by simp), List.length_range]

theorem sphereRowIndices_length (V h : Nat) (oddRow : Bool) :
    (sphereRowIndices V h oddRow).length = 2 * (V + 1) := by
  cases oddRow
  · simp only [sphereRowIndices, Bool.not_false, if_true]
    rw [length_flatMap_const (fun v => [h * (V + 1) + v, (h + 1) * (V + 1) + v]) 2
      (fun v => rfl), List.length_range, Nat.mul_comm]
  · simp only [sphereRowIndices, Bool.not_true, Bool.false_eq_true, if_false]
    rw [length_flatMap_const (fun v => [(h + 1) * (V + 1) + v, h * (V + 1) + v]) 2
      (fun v => rfl), List.length_reverse, List.length_range, Nat.mul_comm]

theorem sphereRowIndices_lt (V h : Nat) (oddRow : Bool) (i : Nat)
    (hi : i ∈ sphereRowIndices V h oddRow) : i < (h + 2) * (V + 1) := by
  cases oddRow <;>
    simp only [sphereRowIndices, Bool.not_false, Bool.not_true, if_true, if_false,
      Bool.false_eq_true, List.mem_flatMap, List.mem_range, List.mem_reverse, List.mem_cons,
      List.mem_singleton, List.not_mem_nil, or_false] at hi <;>
    obtain ⟨v, hv, rfl | rfl⟩ := hi <;> nlinarith

theorem sphereIndexRows_length (V : Nat) (rows : List Nat) :
    ∀ oddRow, (sphereIndexRows V rows oddRow).length = 2 * rows.length * (V + 1) := by
  induction rows with
  | nil => intro _; simp [sphereIndexRows]
  | cons h rest ih =>
    intro oddRow
    simp only [sphereIndexRows, List.length_append, sphereRowIndices_length, ih, List.length_cons]
    ring

theorem sphereIndexRows_lt (V H : Nat) (rows : List Nat) (hrows : ∀ h ∈ rows, h < H) :
    ∀ oddRow, ∀ i ∈ sphereIndexRows V rows oddRow, i < (H + 1) * (V + 1) := by
  induction rows with
  | nil => intro _ i hi; simp [sphereIndexRows] at hi
  | cons h rest ih =>
    intro oddRow i hi
    simp only [sphereIndexRows, List.mem_append] at hi
    rcases hi with hi | hi
    · have h1 := sphereRowIndices_lt V h oddRow i hi
      have h2 : h < H := hrows h (List.mem_cons_self _ _)
      have h3 : (h + 2) * (V + 1) ≤ (H + 1) * (V + 1) := Nat.mul_le_mul_right _ (by omega)
      omega
    · exact ih (fun h' hh => hrows h' (List.mem_cons_of_mem _ hh)) _ i hi

theorem sphere_sizes :
    (sphereVertices 32 16).length = 561 ∧ sphereDataSize 32 16 = 4488 ∧
    (sphereIndices 32 16).length = 1088 := by
  have h1 : (sphereVertices 32 16).length = 561 := sphereVertices_length 32 16
  refine ⟨h1, ?_, ?_⟩
  · simp only [sphereDataSize, h1]
    rfl
  · rw [sphereIndices, sphereIndexRows_length, List.length_range]

/-- C28: the sphere `RenderSphere` builds is index-safe.  For every `H` and
`V` the two loops generate `(H+1)*(V+1)` vertices and `2*H*(V+1)` indices, each
index below the number of vertices; with `H = 32` and `V = 16` as in the source
that is 561 vertices, of 8 floats each (4488 floats in `data`), and 1088
indices, all below 561.  The first call of `RenderSphere` uploads these 4488
floats and 1088 indices and draws with 1088 indices. -/
theorem sphere_indices_in_range :
    (∀ H V, (sphereVertices H V).length = (H + 1) * (V + 1) ∧
      (sphereIndices H V).length = 2 * H * (V + 1) ∧
      ∀ i ∈ sphereIndices H V, i < (sphereVertices H V).length) ∧
    (sphereVertices 32 16).length = 561 ∧
    sphereDataSize 32 16 = 561 * 8 ∧
    (sphereIndices 32 16).length = 1088 ∧
    (∀ i ∈ sphereIndices 32 16, i < 561) ∧
    ∀ w : World, w.globals.sphereVAO = 0 →
      (RenderSphere w).globals.indexCount = 1088 ∧
      .glBufferData .GL_ARRAY_BUFFER (4488 * 4) .GL_STATIC_DRAW ∈ frameCalls w (RenderSphere w) ∧
      .glBufferData .GL_ELEMENT_ARRAY_BUFFER (1088 * 4) .GL_STATIC_DRAW ∈
        frameCalls w (RenderSphere w) ∧
      .glDrawElements .GL_TRIANGLE_STRIP 1088 .GL_UNSIGNED_INT 0 ∈
        frameCalls w (RenderSphere w) := by
  have key : ∀ H V, (sphereVertices H V).length = (H + 1) * (V + 1) ∧
      (sphereIndices H V).length = 2 * H * (V + 1) ∧
      ∀ i ∈ sphereIndices H V, i < (sphereVertices H V).length := by
    intro H V
    refine ⟨sphereVertices_length H V, ?_, ?_⟩
    · rw [sphereIndices, sphereIndexRows_length, List.length_range]
    · rw [sphereVertices_length]
      exact sphereIndexRows_lt V H _ (fun h hh => List.mem_range.1 hh) false
  obtain ⟨h1, h2, h3⟩ := sphere_sizes
  refine ⟨key, h1, h2, h3, fun i hi => ?_, fun w hw => ?_⟩
  · have := (key 32 16).2.2 i hi
    rw [h1] at this
    exact this
  · simp only [RenderSphere, hw, if_true, frameCalls, World.issue_calls, World.issue_globals,
      GLState.genVertexArray, GLState.genBuffer, List.append_assoc, List.drop_left, h2, h3]
    simp

/-- C24: whatever the framebuffer status, `InitBuffers` makes exactly five
attachments, all while the framebuffer it generated is bound: the colour image
at `GL_COLOR_ATTACHMENT0`, the normals image at `GL_COLOR_ATTACHMENT1`, the
albedo image at `GL_COLOR_ATTACHMENT2`, the position image at
`GL_COLOR_ATTACHMENT3` and the depth image at `GL_DEPTH_ATTACHMENT`, each at
level 0.  The colour and albedo images are allocated as `GL_RGBA8`, the normals
and position images as `GL_RGBA16F`, the depth image as
`GL_DEPTH_COMPONENT24`; the five images are distinct textures, so each is
attached once. -/
theorem InitBuffers_attachment_slots (status : FramebufferStatus) (w : World) (bound : Nat) :
    attachmentsWithFramebuffer bound (frameCalls w (InitBuffers status w)) =
      [((InitBuffers status w).app.frameBufferController, .GL_COLOR_ATTACHMENT0,
          (InitBuffers status w).app.colorController, 0),
       ((InitBuffers status w).app.frameBufferController, .GL_COLOR_ATTACHMENT1,
          (InitBuffers status w).app.normalsController, 0),
       ((InitBuffers status w).app.frameBufferController, .GL_COLOR_ATTACHMENT2,
          (InitBuffers status w).app.albedoController, 0),
       ((InitBuffers status w).app.frameBufferController, .GL_COLOR_ATTACHMENT3,
          (InitBuffers status w).app.positionController, 0),
       ((InitBuffers status w).app.frameBufferController, .GL_DEPTH_ATTACHMENT,
          (InitBuffers status w).app.depthController, 0)] ∧
    (imageAllocations bound (frameCalls w (InitBuffers status w))).map (fun a => (a.1, a.2.1)) =
      [((InitBuffers status w).app.colorController, .GL_RGBA8),
       ((InitBuffers status w).app.normalsController, .GL_RGBA16F),
       ((InitBuffers status w).app.depthController, .GL_DEPTH_COMPONENT24),
       ((InitBuffers status w).app.albedoController, .GL_RGBA8),
       ((InitBuffers status w).app.positionController, .GL_RGBA16F)] ∧
    [(InitBuffers status w).app.colorController, (InitBuffers status w).app.normalsController,
      (InitBuffers status w).app.albedoController, (InitBuffers status w).app.positionController,
      (InitBuffers status w).app.depthController].Nodup ∧
    (InitBuffers status w).app.frameBufferController ≠ 0 := by
  obtain ⟨h1, h2, h3, h4, h5, h6, -, -, -⟩ := InitBuffers_fields status w
  rw [h1, h2, h3, h4, h5, h6]
  refine ⟨?_, ?_, ?_, Nat.succ_ne_zero _⟩
  · simp only [frameCalls, InitBuffers, World.issue_calls, World.issue_app, checkFramebuffer_app,
      checkFramebuffer_calls, attachImages_app, attachImages_calls, allocImage_app,
      allocImage_textures, allocImage_framebuffers, allocImage_calls, List.append_assoc,
      List.drop_left, List.cons_append, List.nil_append, attachmentsWithFramebuffer]
  · simp only [frameCalls, InitBuffers, World.issue_calls, World.issue_app, checkFramebuffer_app,
      checkFramebuffer_calls, attachImages_app, attachImages_calls, allocImage_app,
      allocImage_textures, allocImage_framebuffers, allocImage_calls, List.append_assoc,
      List.drop_left, List.cons_append, List.nil_append, imageAllocations, List.map_cons,
      List.map_nil]
  · simp


/-! ## Claims on the light records -/

theorem writeBytes_append (region : Nat → Nat) (offset : Nat) (x y : List Nat) :
    writeBytes (writeBytes region offset x) (offset + x.length) y =
      writeBytes region offset (x ++ y) := by
  funext i
  simp only [writeBytes, List.length_append]
  by_cases h1 : offset + x.length ≤ i ∧ i < offset + x.length + y.length
  · rw [if_pos h1, if_pos (by omega)]
    rw [List.getD_append_right _ _ _ _ (by omega)]
    congr 1
    omega
  · rw [if_neg h1]
    by_cases h2 : offset ≤ i ∧ i < offset + x.length
    · rw [if_pos h2, if_pos (by omega), List.getD_append _ _ _ _ (by omega)]
    · rw [if_neg h2, if_neg (by omega)]

theorem Push_map_eq (b : Buffer) (bytes : List Nat) :
    (Push b bytes).map Prod.snd =
      if b.head + bytes.length > b.size then .error .capacity
      else .ok { b with
        data := b.data.map fun region => writeBytes region b.head bytes
        head := b.head + bytes.length } := by
  unfold Push
  split <;> rfl

/-- Two pushes in a row are one push of the two byte strings joined. -/
theorem Push_append (b : Buffer) (x y : List Nat) :
    ((Push b x).map Prod.snd >>= fun b1 => (Push b1 y).map Prod.snd) =
      (Push b (x ++ y)).map Prod.snd := by
  rw [Push_map_eq b x, Push_map_eq b (x ++ y)]
  by_cases h1 : b.head + x.length > b.size
  · rw [if_pos h1, if_pos (by rw [List.length_append]; omega)]
    rfl
  · rw [if_neg h1]
    show (Push _ y).map Prod.snd = _
    rw [Push_map_eq]
    simp only [List.length_append]
    by_cases h2 : b.head + (x.length + y.length) > b.size
    · rw [if_pos h2, if_pos (by omega)]
    · rw [if_neg h2, if_neg (by omega)]
      congr 1
      cases hd : b.data with
      | none => simp [Nat.add_assoc]
      | some region => simp [Nat.add_assoc, writeBytes_append]

theorem AlignHead_16 (b : Buffer) : (AlignHead b 16).head = alignUp16 b.head := by
  unfold AlignHead alignUp16
  split
  · omega
  · simp only
    omega

theorem alignUp16_dvd (n : Nat) : 16 ∣ alignUp16 n := Dvd.intro_left _ rfl

theorem alignUp16_le (n : Nat) : n ≤ alignUp16 n := by
  unfold alignUp16
  omega

theorem alignUp16_add (a k : Nat) (hk : k ≤ 16) (hk0 : 0 < k) (ha : 16 ∣ a) :
    alignUp16 (a + (32 + k)) = a + 48 ∧ alignUp16 (a + (16 + k)) = a + 32 := by
  obtain ⟨c, rfl⟩ := ha
  unfold alignUp16
  omega

theorem deferredLightRecord_length (light : Light) : (deferredLightRecord light).length = 44 := rfl

theorem forwardLightRecord_length (light : Light) : (forwardLightRecord light).length = 28 := rfl

theorem bytesOfU32_mod (v : Nat) : bytesOfU32 (v % 2 ^ 32) = bytesOfU32 v := by
  simp only [bytesOfU32, List.cons.injEq, and_true]
  refine ⟨?_, ?_, ?_, ?_⟩ <;> omega

/-- The body of the light loop of the DEFERRED branch is the alignment to 16
followed by one push of the 44 bytes of the record. -/
theorem pushLightDeferred_eq (b : Buffer) (light : Light) :
    pushLightDeferred b light = (Push (AlignHead b 16) (deferredLightRecord light)).map Prod.snd := by
  simp only [pushLightDeferred, PushUInt, PushVec3, PushFloat, bind_pure_comp, Push_append,
    deferredLightRecord, List.append_assoc, bytesOfU32_mod]

/-- What the alignment to 16 followed by one push leaves when it returns on a
mapped buffer: the bytes at the aligned head, the region before it as it
was. -/
theorem alignedPush_effect (b b1 : Buffer) (bytes : List Nat) (region : Nat → Nat)
    (hok : (Push (AlignHead b 16) bytes).map Prod.snd = .ok b1) (hdata : b.data = some region) :
    b1.head = alignUp16 b.head + bytes.length ∧ b1.head ≤ b1.size ∧
    b1.handle = b.handle ∧ b1.size = b.size ∧
    ∃ region1, b1.data = some region1 ∧ (∀ j, j < b.head → region1 j = region j) ∧
      ∀ k, k < bytes.length → region1 (alignUp16 b.head + k) = bytes.getD k 0 := by
  obtain ⟨⟨hh, hs, hle, hext⟩, hhead, hbytes⟩ := Push_map_extendedBy _ _ _ hok
  obtain ⟨hcap, -⟩ := Push_map_ok _ _ _ hok
  rw [AlignHead_16] at hhead hbytes
  rw [AlignHead_size] at hs hcap
  rw [AlignHead_handle] at hh
  obtain ⟨region1, hr1, hagree⟩ := hext region (by rw [AlignHead_data]; exact hdata)
  rw [AlignHead_16] at hagree hcap
  refine ⟨hhead, by rw [hhead, hs]; exact hcap, hh, hs, region1, hr1, fun j hj => ?_,
    hbytes region1 hr1⟩
  exact hagree j (lt_of_lt_of_le hj (alignUp16_le _))

/-- The records the light loop of the DEFERRED branch leaves in a mapped
buffer: one every 48 bytes from the first multiple of 16 at or after the
head. -/
theorem pushLightsDeferred_records (lights : List Light) :
    ∀ (b b1 : Buffer) (region : Nat → Nat), pushLightsDeferred lights b = .ok b1 →
      b.data = some region →
      b.head ≤ b1.head ∧
      (lights ≠ [] → b1.head = alignUp16 b.head + 48 * (lights.length - 1) + 44) ∧
      ∃ region1, b1.data = some region1 ∧ (∀ j, j < b.head → region1 j = region j) ∧
        ∀ i (hi : i < lights.length) k, k < 44 →
          region1 (alignUp16 b.head + 48 * i + k) = (deferredLightRecord lights[i]).getD k 0 := by
  induction lights with
  | nil =>
    intro b b1 region hok hdata
    simp only [pushLightsDeferred, Except.ok.injEq] at hok
    subst hok
    exact ⟨le_refl _, fun h => absurd rfl h, region, hdata, fun _ _ => rfl,
      fun i hi => absurd hi (Nat.not_lt_zero _)⟩
  | cons light rest ih =>
    intro b b1 region hok hdata
    simp only [pushLightsDeferred, bind_eq_ok] at hok
    obtain ⟨b2, hstep, hrest⟩ := hok
    rw [pushLightDeferred_eq] at hstep
    obtain ⟨hhead2, -, -, -, region2, hr2, hagree2, hbytes2⟩ :=
      alignedPush_effect b b2 _ region hstep hdata
    rw [deferredLightRecord_length] at hhead2 hbytes2
    obtain ⟨hle, hlast, region1, hr1, hagree1, hrec⟩ := ih b2 b1 region2 hrest hr2
    have hnext : alignUp16 b2.head = alignUp16 b.head + 48 := by
      rw [hhead2]
      exact (alignUp16_add (alignUp16 b.head) 12 (by norm_num) (by norm_num)
        (alignUp16_dvd _)).1
    have hb2 : b.head ≤ b2.head := by
      rw [hhead2]
      exact le_trans (alignUp16_le _) (Nat.le_add_right _ _)
    refine ⟨le_trans hb2 hle, fun _ => ?_, region1, hr1, fun j hj => ?_, fun i hi k hk => ?_⟩
    · by_cases hr : rest = []
      · subst hr
        simp only [pushLightsDeferred, Except.ok.injEq] at hrest
        subst hrest
        simp [hhead2]
      · rw [hlast hr, hnext]
        have : 0 < rest.length := List.length_pos.2 hr
        simp only [List.length_cons]
        omega
    · rw [hagree1 j (lt_of_lt_of_le hj hb2)]
      exact hagree2 j hj
    · cases i with
      | zero =>
        simp only [Nat.mul_zero, Nat.add_zero, List.getElem_cons_zero]
        rw [hagree1 _ (by rw [hhead2]; omega)]
        exact hbytes2 k hk
      | succ i =>
        simp only [List.getElem_cons_succ]
        have := hrec i (by simpa using hi) k hk
        rw [hnext] at this
        rw [← this]
        congr 1
        ring

/-- The body of the light loop of the FORWARD branch is the alignment to 16
followed by one push of the 28 bytes of the record, and the assignment of
`globalParamsSize`. -/
theorem pushLightForward_eq (app : App) (light : Light) :
    pushLightForward app light =
      ((Push (AlignHead app.cBuffer 16) (forwardLightRecord light)).map Prod.snd).map
        fun buffer => { app with
          cBuffer := buffer
          globalParamsSize := u32sub buffer.head app.globalParamsOffset } := by
  have h : (Push (AlignHead app.cBuffer 16) (forwardLightRecord light)).map Prod.snd =
      (PushUInt (AlignHead app.cBuffer 16) light.type.toNat >>= fun b1 =>
        PushVec3 b1 light.color >>= fun b2 => PushVec3 b2 light.direction) := by
    simp only [PushUInt, PushVec3, Push_append, forwardLightRecord, List.append_assoc,
      bytesOfU32_mod]
  rw [h]
  simp only [pushLightForward]
  cases PushUInt (AlignHead app.cBuffer 16) light.type.toNat with
  | error e => rfl
  | ok b1 =>
    show (PushVec3 b1 light.color >>= _) = Except.map _ (PushVec3 b1 light.color >>= _)
    cases PushVec3 b1 light.color with
    | error e => rfl
    | ok b2 =>
      show (PushVec3 b2 light.direction >>= _) = Except.map _ (PushVec3 b2 light.direction)
      cases PushVec3 b2 light.direction <;> rfl

theorem map_eq_ok {α β : Type} (x : Except Abort α) (f : α → β) (b : β) :
    x.map f = .ok b ↔ ∃ a, x = .ok a ∧ f a = b := by
  cases x <;> simp [Except.map]

/-- The records the light loop of the FORWARD branch leaves in a mapped
buffer: one every 32 bytes from the first multiple of 16 at or after the
head. -/
theorem pushLightsForward_records (lights : List Light) :
    ∀ (app app1 : App) (region : Nat → Nat), pushLightsForward lights app = .ok app1 →
      app.cBuffer.data = some region →
      app.cBuffer.head ≤ app1.cBuffer.head ∧
      (lights ≠ [] →
        app1.cBuffer.head = alignUp16 app.cBuffer.head + 32 * (lights.length - 1) + 28 ∧
        app1.cBuffer.head ≤ app1.cBuffer.size ∧
        app1.globalParamsSize = u32sub app1.cBuffer.head app.globalParamsOffset) ∧
      (lights = [] → app1 = app) ∧
      app1.cBuffer.size = app.cBuffer.size ∧
      ∃ region1, app1.cBuffer.data = some region1 ∧
        (∀ j, j < app.cBuffer.head → region1 j = region j) ∧
        ∀ i (hi : i < lights.length) k, k < 28 →
          region1 (alignUp16 app.cBuffer.head + 32 * i + k) =
            (forwardLightRecord lights[i]).getD k 0 := by
  induction lights with
  | nil =>
    intro app app1 region hok hdata
    simp only [pushLightsForward, Except.ok.injEq] at hok
    subst hok
    exact ⟨le_refl _, fun h => absurd rfl h, fun _ => rfl, rfl, region, hdata, fun _ _ => rfl,
      fun i hi => absurd hi (Nat.not_lt_zero _)⟩
  | cons light rest ih =>
    intro app app1 region hok hdata
    simp only [pushLightsForward, bind_eq_ok] at hok
    obtain ⟨app2, hstep, hrest⟩ := hok
    rw [pushLightForward_eq, map_eq_ok] at hstep
    obtain ⟨b2, hpush, happ2⟩ := hstep
    obtain ⟨hhead2, hcap2, -, hsize2, region2, hr2, hagree2, hbytes2⟩ :=
      alignedPush_effect app.cBuffer b2 _ region hpush hdata
    rw [forwardLightRecord_length] at hhead2 hbytes2
    have hc2 : app2.cBuffer = b2 := by rw [← happ2]
    have ho2 : app2.globalParamsOffset = app.globalParamsOffset := by rw [← happ2]
    have hs2 : app2.globalParamsSize = u32sub b2.head app.globalParamsOffset := by rw [← happ2]
    obtain ⟨hle, hlast, hnil, hsize1, region1, hr1, hagree1, hrec⟩ :=
      ih app2 app1 region2 hrest (by rw [hc2]; exact hr2)
    rw [hc2] at hle hlast hagree1 hrec hsize1
    rw [ho2] at hlast
    have hnext : alignUp16 b2.head = alignUp16 app.cBuffer.head + 32 := by
      rw [hhead2]
      exact (alignUp16_add (alignUp16 app.cBuffer.head) 12 (by norm_num) (by norm_num)
        (alignUp16_dvd _)).2
    have hb2 : app.cBuffer.head ≤ b2.head := by
      rw [hhead2]
      exact le_trans (alignUp16_le _) (Nat.le_add_right _ _)
    refine ⟨le_trans hb2 hle, fun _ => ?_, fun h => absurd h (List.cons_ne_nil _ _),
      hsize1.trans hsize2, region1, hr1, fun j hj => ?_, fun i hi k hk => ?_⟩
    · by_cases hr : rest = []
      · subst hr
        have := hnil rfl
        subst this
        rw [hc2, hs2]
        exact ⟨by simp [hhead2], hcap2, rfl⟩
      · obtain ⟨h1, h2, h3⟩ := hlast hr
        refine ⟨?_, h2, h3⟩
        rw [h1, hnext]
        have : 0 < rest.length := List.length_pos.2 hr
        simp only [List.length_cons]
        omega
    · rw [hagree1 j (lt_of_lt_of_le hj hb2)]
      exact hagree2 j hj
    · cases i with
      | zero =>
        simp only [Nat.mul_zero, Nat.add_zero, List.getElem_cons_zero]
        rw [hagree1 _ (by rw [hhead2]; omega)]
        exact hbytes2 k hk
      | succ i =>
        simp only [List.getElem_cons_succ]
        have := hrec i (by simpa using hi) k hk
        rw [hnext] at this
        rw [← this]
        congr 1
        ring

theorem deferredLightRecord_fields (light : Light) :
    (∀ k, k < 4 → (deferredLightRecord light).getD k 0 =
      (bytesOfU32 light.type.toNat).getD k 0) ∧
    (∀ k, k < 12 → (deferredLightRecord light).getD (4 + k) 0 =
      (bytesOfVec3 light.color).getD k 0) ∧
    (∀ k, k < 12 → (deferredLightRecord light).getD (16 + k) 0 =
      (bytesOfVec3 light.direction).getD k 0) ∧
    (∀ k, k < 12 → (deferredLightRecord light).getD (28 + k) 0 =
      (bytesOfVec3 light.position).getD k 0) ∧
    (∀ k, k < 4 → (deferredLightRecord light).getD (40 + k) 0 =
      (bytesOfU32 light.intensity).getD k 0) := by
  refine ⟨?_, ?_, ?_, ?_, ?_⟩ <;> intro k hk <;> interval_cases k <;> rfl

theorem forwardLightRecord_fields (light : Light) :
    (∀ k, k < 4 → (forwardLightRecord light).getD k 0 =
      (bytesOfU32 light.type.toNat).getD k 0) ∧
    (∀ k, k < 12 → (forwardLightRecord light).getD (4 + k) 0 =
      (bytesOfVec3 light.color).getD k 0) ∧
    (∀ k, k < 12 → (forwardLightRecord light).getD (16 + k) 0 =
      (bytesOfVec3 light.direction).getD k 0) := by
  refine ⟨?_, ?_, ?_⟩ <;> intro k hk <;> interval_cases k <;> rfl

/-- The light records the lighting pass of the DEFERRED branch leaves in the
mapped buffer, and where its head ends. -/
theorem deferredLighting_lights (w w1 : World) (region0 : Nat → Nat)
    (hok : deferredLighting w = .ok w1) (hdata : w.app.cBuffer.data = some region0) :
    w1.app.globalParamsOffset + 16 ≤ w1.app.cBuffer.head ∧
    w1.app.cBuffer.head ≤ w1.app.cBuffer.size ∧
    w1.app.cBuffer.size = w.app.cBuffer.size ∧
    w1.app.globalParamsSize = u32sub w1.app.cBuffer.head w1.app.globalParamsOffset ∧
    (w.app.lights ≠ [] → w1.app.cBuffer.head =
      alignUp16 (w1.app.globalParamsOffset + 16) + 48 * (w.app.lights.length - 1) + 44) ∧
    (w.app.lights = [] → w1.app.cBuffer.head = w1.app.globalParamsOffset + 16) ∧
    ∃ region, w1.app.cBuffer.data = some region ∧
      ∀ i (hi : i < w.app.lights.length) k, k < 44 →
        region (alignUp16 (w1.app.globalParamsOffset + 16) + 48 * i + k) =
          (deferredLightRecord w.app.lights[i]).getD k 0 := by
  simp only [deferredLighting, bind_eq_ok, lookup_eq_ok, World.issue_app] at hok
  obtain ⟨lightsProgram, hprog, b1, hb1, b2, hb2, b3, hb3, hw⟩ := hok
  simp only [Except.ok.injEq] at hw
  obtain ⟨he1, hh1, -⟩ := Push_map_extendedBy _ _ _ hb1
  obtain ⟨he2, hh2, -⟩ := Push_map_extendedBy _ _ _ hb2
  obtain ⟨hcap2, -⟩ := Push_map_ok _ _ _ hb2
  have he3 := pushLightsDeferred_extendedBy _ _ _ hb3
  have hreg0a : (AlignHead w.app.cBuffer w.app.uniformBlockAlignmentOffset.toNat).data =
      some region0 := by rw [AlignHead_data]; exact hdata
  obtain ⟨region1, hreg1, hag1⟩ := he1.2.2.2 region0 hreg0a
  obtain ⟨region2, hreg2, hag2⟩ := he2.2.2.2 region1 hreg1
  obtain ⟨hle3, hlast3, region3, hreg3, hag3, hrec⟩ :=
    pushLightsDeferred_records _ b2 b3 region2 hb3 hreg2
  have happ : w1.app = w.app.withScratch b3 w.app.entities w.app.meshes
      (AlignHead w.app.cBuffer w.app.uniformBlockAlignmentOffset.toNat).head
      (u32sub b3.head (AlignHead w.app.cBuffer w.app.uniformBlockAlignmentOffset.toNat).head) := by
    subst hw
    simp only [World.issue_app]
    rfl
  have hb2head : b2.head =
      (AlignHead w.app.cBuffer w.app.uniformBlockAlignmentOffset.toNat).head + 16 := by
    rw [hh2, hh1]
    rfl
  have hsize : b3.size = w.app.cBuffer.size := by
    rw [he3.2.1, he2.2.1, he1.2.1, AlignHead_size]
  have hcap3 : b3.head ≤ b3.size := by
    by_cases hl : w.app.lights = []
    · rw [hl] at hb3
      simp only [pushLightsDeferred, Except.ok.injEq] at hb3
      subst hb3
      rw [he2.2.1, hh2]
      exact hcap2
    · obtain ⟨l, rest, hl2⟩ := List.exists_cons_of_ne_nil hl
      rw [hl2] at hb3
      clear hrec hlast3
      have : ∀ (ls : List Light) (b b' : Buffer), ls ≠ [] → pushLightsDeferred ls b = .ok b' →
          b'.head ≤ b'.size := by
        intro ls
        induction ls with
        | nil => intro _ _ h; exact absurd rfl h
        | cons l rest ih =>
          intro b b' _ hok
          simp only [pushLightsDeferred, bind_eq_ok] at hok
          obtain ⟨bm, hstep, hrest⟩ := hok
          by_cases hr : rest = []
          · subst hr
            simp only [pushLightsDeferred, Except.ok.injEq] at hrest
            subst hrest
            rw [pushLightDeferred_eq] at hstep
            obtain ⟨hc, hb⟩ := Push_map_ok _ _ _ hstep
            rw [hb]
            exact hc
          · exact ih bm b' hr hrest
      exact this _ b2 b3 (List.cons_ne_nil _ _) hb3
  rw [happ]
  refine ⟨?_, hcap3, hsize, rfl, fun hl => ?_, fun hl => ?_, region3, hreg3, fun i hi k hk => ?_⟩
  · show (AlignHead w.app.cBuffer w.app.uniformBlockAlignmentOffset.toNat).head + 16 ≤ b3.head
    rw [← hb2head]
    exact hle3
  · have := hlast3 hl
    rw [hb2head] at this
    exact this
  · rw [hl] at hb3
    simp only [pushLightsDeferred, Except.ok.injEq] at hb3
    subst hb3
    exact hb2head
  · have := hrec i hi k hk
    rw [hb2head] at this
    exact this

/-- The light records a DEFERRED branch that returns has written when its
lighting pass ends. -/
theorem RenderDeferred_lights (glm : Glm) (drv : Driver) (w w1 : World)
    (hok : RenderDeferred glm drv w = .ok w1) :
    ∃ w2 region, deferredGizmos glm (deferredQuadAndBlit w2) = .ok w1 ∧
      w2.app.cBuffer.data = some region ∧
      w2.app.globalParamsOffset = w1.app.globalParamsOffset ∧
      w2.app.cBuffer.head = w1.app.cBuffer.head ∧
      w1.app.cBuffer.head ≤ w1.app.cBuffer.size ∧
      ∀ i (hi : i < w.app.lights.length),
        16 ∣ alignUp16 (w1.app.globalParamsOffset + 16) + 48 * i ∧
        w1.app.globalParamsOffset + 16 ≤ alignUp16 (w1.app.globalParamsOffset + 16) + 48 * i ∧
        alignUp16 (w1.app.globalParamsOffset + 16) + 48 * i + 44 ≤ w1.app.cBuffer.head ∧
        ∀ k, k < 44 →
          region (alignUp16 (w1.app.globalParamsOffset + 16) + 48 * i + k) =
            (deferredLightRecord w.app.lights[i]).getD k 0 := by
  simp only [RenderDeferred, bind_eq_ok, lookup_eq_ok] at hok
  obtain ⟨program, -, wa, hglob, wb, hent, wc, hlight, hgiz⟩ := hok
  obtain ⟨-, hsa, -, -, -, -, -, -, hda, -, -⟩ :=
    deferredGlobals_effect glm drv program w wa hglob
  rw [List.range_eq_range'] at hent
  obtain ⟨-, -, -, -, hsb, -, -, -, -, -, hdb, -, -⟩ :=
    renderEntities_effect glm deferredModelMatrix deferredLocation program _ 0 wa wb hent
  obtain ⟨⟨segd, hcd, hed⟩, happd, hld, hcountd⟩ := deferredQuadAndBlit_effect wc
  obtain ⟨⟨sege, hce, hee⟩, happe, hle⟩ := deferredGizmos_effect glm _ w1 hgiz
  obtain ⟨region0, hregion0⟩ := Option.isSome_iff_exists.1 (hdb hda)
  obtain ⟨hoff, hcap, hsize, hgs, hlast, -, region, hregion, hrec⟩ :=
    deferredLighting_lights wb wc region0 hlight hregion0
  have hoff1 : w1.app.globalParamsOffset = wc.app.globalParamsOffset := by
    rw [happe, happd]
    rfl
  have hhead1 : w1.app.cBuffer.head = wc.app.cBuffer.head := by
    rw [happe, happd]
    rfl
  have hsize1 : w1.app.cBuffer.size = wc.app.cBuffer.size := by
    rw [happe, happd]
    rfl
  have hlights : wb.app.lights = w.app.lights :=
    App.sameScene_lights (App.sameScene_trans hsa hsb)
  rw [hlights] at hlast
  refine ⟨wc, region, hgiz, hregion, hoff1.symm, hhead1.symm, ?_, fun i hi => ⟨?_, ?_, ?_, ?_⟩⟩
  · rw [hhead1, hsize1]
    exact hcap
  · exact Dvd.dvd.add (alignUp16_dvd _) (Dvd.dvd.mul_right (by decide) i)
  · have := alignUp16_le (w1.app.globalParamsOffset + 16)
    omega
  · have hne : w.app.lights ≠ [] := by
      intro h
      rw [h] at hi
      exact absurd hi (Nat.not_lt_zero _)
    rw [hhead1, hlast hne, hoff1]
    omega
  · intro k hk
    have := hrec i (by rw [hlights]; exact hi) k hk
    rw [hoff1]
    simp only [hlights] at this
    exact this

theorem alignUp16_16 : alignUp16 16 = 16 := rfl

/-- The global block the FORWARD branch has written when its loop over the
lights ends. -/
theorem forwardGlobals_block (drv : Driver) (program : Program) (w w1 : World)
    (hok : forwardGlobals drv program w = .ok w1) :
    w1.app.globalParamsOffset = 0 ∧
    (w.app.lights = [] → w1.app.cBuffer.head = 16) ∧
    (w.app.lights ≠ [] →
      w1.app.cBuffer.head = 16 + 32 * (w.app.lights.length - 1) + 28 ∧
      w1.app.cBuffer.head ≤ w1.app.cBuffer.size ∧
      w1.app.globalParamsSize = u32sub w1.app.cBuffer.head 0) ∧
    ∃ region, w1.app.cBuffer.data = some region ∧
      (∀ k, k < 12 → region k = (bytesOfVec3 w.app.camera.cameraPos).getD k 0) ∧
      (∀ k, k < 4 → region (12 + k) = (bytesOfU32 (w.app.lights.length % 2 ^ 32)).getD k 0) ∧
      ∀ i (hi : i < w.app.lights.length) k, k < 28 →
        region (16 + 32 * i + k) = (forwardLightRecord w.app.lights[i]).getD k 0 := by
  simp only [forwardGlobals, bind_eq_ok, World.issue_app] at hok
  obtain ⟨b1, hb1, b2, hb2, app1, happ, hw⟩ := hok
  simp only [Except.ok.injEq] at hw
  have hb1x : (Push (MapBuffer w.app.cBuffer (drv.glMapBuffer w.app.cBuffer.handle))
      (bytesOfVec3 w.app.camera.cameraPos)).map Prod.snd = .ok b1 := hb1
  have hb2x : (Push b1 (bytesOfU32 (w.app.lights.length % 2 ^ 32))).map Prod.snd = .ok b2 := hb2
  obtain ⟨he1, hh1, hw1⟩ := Push_map_extendedBy _ _ _ hb1x
  obtain ⟨he2, hh2, hw2⟩ := Push_map_extendedBy _ _ _ hb2x
  have hhead1 : b1.head = 12 := by
    rw [hh1]
    rfl
  have hhead2 : b2.head = 16 := by
    rw [hh2, hhead1]
    rfl
  obtain ⟨region1, hreg1, -⟩ := he1.2.2.2 _ rfl
  obtain ⟨region2, hreg2, hag2⟩ := he2.2.2.2 _ hreg1
  obtain ⟨-, hlast, hnil, -, region3, hreg3, hag3, hrec⟩ :=
    pushLightsForward_records w.app.lights _ app1 region2 happ hreg2
  simp only [hhead2, alignUp16_16] at hlast hag3 hrec
  subst hw
  refine ⟨(forwardGlobals_effect drv program w _ (by
      simp only [forwardGlobals, bind_eq_ok, World.issue_app]
      exact ⟨b1, hb1, b2, hb2, app1, happ, rfl⟩)).2.2.2.2.1,
    fun hl => ?_, fun hl => ?_, region3, hreg3, fun k hk => ?_, fun k hk => ?_, hrec⟩
  · show app1.cBuffer.head = 16
    rw [hnil hl]
    exact hhead2
  · obtain ⟨h1, h2, h3⟩ := hlast hl
    exact ⟨h1, h2, h3⟩
  · show region3 k = _
    rw [hag3 k (by omega), hag2 k (by omega)]
    have := hw1 region1 hreg1 k hk
    simpa [MapBuffer] using this
  · show region3 (12 + k) = _
    rw [hag3 (12 + k) (by omega)]
    have := hw2 region2 hreg2 k hk
    rw [hhead1] at this
    exact this

theorem u32sub_zero (a : Nat) : u32sub a 0 = a % 2 ^ 32 := by
  unfold u32sub
  simp

/-- The state of a FORWARD branch that returns when its global block is
written, and what the rest of the branch keeps of it. -/
theorem RenderForward_globals (glm : Glm) (drv : Driver) (w w1 : World)
    (hok : RenderForward glm drv w = .ok w1) :
    ∃ program w2 w3, forwardGlobals drv program w = .ok w2 ∧
      renderEntities glm (forwardModelMatrix glm) forwardLocation program
        (List.range' 0 w2.app.entities.length) w2 = .ok w3 ∧
      w1 = forwardBlit w3 ∧
      w1.app.globalParamsOffset = w2.app.globalParamsOffset ∧
      w1.app.globalParamsSize = w2.app.globalParamsSize ∧
      w1.app.entities = w3.app.entities ∧
      w1.app.cBuffer.head = w3.app.cBuffer.head ∧
      w2.app.uniformBlockAlignmentOffset = w.app.uniformBlockAlignmentOffset ∧
      w2.app.lights = w.app.lights ∧
      w2.app.cBuffer.size = w3.app.cBuffer.size := by
  simp only [RenderForward, bind_eq_ok, lookup_eq_ok] at hok
  obtain ⟨program, -, wa, hglob, wb, hent, hw⟩ := hok
  simp only [Except.ok.injEq] at hw
  rw [List.range_eq_range'] at hent
  obtain ⟨-, hsa, -, -, -, -, -, -, -⟩ := forwardGlobals_effect drv program w wa hglob
  obtain ⟨-, -, -, -, -, hoffb, hszb, -, -, hsizeb, -, -, -⟩ :=
    renderEntities_effect glm (forwardModelMatrix glm) forwardLocation program _ 0 wa wb hent
  obtain ⟨-, happ, -, -⟩ := forwardBlit_effect wb
  subst hw
  refine ⟨program, wa, wb, hglob, hent, rfl, ?_, ?_, ?_, ?_, App.sameScene_alignment hsa,
    App.sameScene_lights hsa, hsizeb.symm⟩
  · rw [happ, ← hoffb]
    rfl
  · rw [happ, ← hszb]
    rfl
  · rw [happ]
    rfl
  · rw [happ]
    rfl

/-- C22 (amended): in a FORWARD frame that returns, the global block written
from offset 0 holds, when the loop over the lights ends (state `w2`), the
twelve bytes of the camera position, the four bytes of the number of lights
and one record per light.  The head is aligned to 16 before every record, so
the record of light `i` starts at `16 + 32 * i`; it holds the four bytes of the
type, then the twelve bytes of the colour and of the direction, 28 bytes in
all, and neither the position nor the intensity.  With at least one light the
block ends at `16 + 32 * (n - 1) + 28` and `globalParamsSize` is that number
modulo `2 ^ 32`; with none the head is 16. -/
theorem Forward_global_block (glm : Glm) (drv : Driver) (w w1 : World)
    (hmode : w.app.mode = .FORWARD) (hok : Render glm drv w = .ok w1) :
    ∃ program w2 region, forwardGlobals drv program (renderPrologue w) = .ok w2 ∧
      w2.app.cBuffer.data = some region ∧
      w1.app.globalParamsOffset = 0 ∧
      (w.app.lights = [] → w2.app.cBuffer.head = 16) ∧
      (w.app.lights ≠ [] →
        w2.app.cBuffer.head = 16 + 32 * (w.app.lights.length - 1) + 28 ∧
        w1.app.globalParamsSize = w2.app.cBuffer.head % 2 ^ 32) ∧
      (∀ k, k < 12 → region k = (bytesOfVec3 w.app.camera.cameraPos).getD k 0) ∧
      (∀ k, k < 4 → region (12 + k) = (bytesOfU32 (w.app.lights.length % 2 ^ 32)).getD k 0) ∧
      ∀ i (hi : i < w.app.lights.length),
        16 ∣ 16 + 32 * i ∧
        (∀ k, k < 4 → region (16 + 32 * i + k) =
          (bytesOfU32 w.app.lights[i].type.toNat).getD k 0) ∧
        (∀ k, k < 12 → region (16 + 32 * i + 4 + k) =
          (bytesOfVec3 w.app.lights[i].color).getD k 0) ∧
        (∀ k, k < 12 → region (16 + 32 * i + 16 + k) =
          (bytesOfVec3 w.app.lights[i].direction).getD k 0) := by
  rw [Render_forward glm drv w hmode] at hok
  obtain ⟨program, w2, w3, hglob, -, -, hoff, hsz, -, -, -, -, -⟩ :=
    RenderForward_globals glm drv _ w1 hok
  obtain ⟨hoff2, hnil, hlast, region, hregion, hcam, hcount, hrec⟩ :=
    forwardGlobals_block drv program _ w2 hglob
  simp only [renderPrologue_app] at hnil hlast hcam hcount hrec
  refine ⟨program, w2, region, hglob, hregion, hoff.trans hoff2, hnil, fun hl => ?_, hcam, hcount,
    fun i hi => ?_⟩
  · obtain ⟨h1, -, h3⟩ := hlast hl
    exact ⟨h1, by rw [hsz, h3, u32sub_zero]⟩
  · obtain ⟨htype, hcolor, hdir⟩ := forwardLightRecord_fields w.app.lights[i]
    refine ⟨Dvd.dvd.add (by decide) (Dvd.dvd.mul_right (by decide) i), fun k hk => ?_,
      fun k hk => ?_, fun k hk => ?_⟩
    · rw [hrec i hi k (by omega), htype k hk]
    · rw [Nat.add_assoc, hrec i hi (4 + k) (by omega), hcolor k hk]
    · rw [Nat.add_assoc, hrec i hi (16 + k) (by omega), hdir k hk]

theorem Forward_global_block_witness :
    sceneWorldForward.app.lights.length = 7 ∧
    ∃ program w2 region,
      forwardGlobals sampleDriver program (renderPrologue sceneWorldForward) = .ok w2 ∧
      w2.app.cBuffer.data = some region ∧
      sceneForwardFrame.app.globalParamsOffset = 0 ∧
      (sceneWorldForward.app.lights = [] → w2.app.cBuffer.head = 16) ∧
      (sceneWorldForward.app.lights ≠ [] →
        w2.app.cBuffer.head = 16 + 32 * (sceneWorldForward.app.lights.length - 1) + 28 ∧
        sceneForwardFrame.app.globalParamsSize = w2.app.cBuffer.head % 2 ^ 32) ∧
      (∀ k, k < 12 → region k = (bytesOfVec3 sceneWorldForward.app.camera.cameraPos).getD k 0) ∧
      (∀ k, k < 4 → region (12 + k) =
        (bytesOfU32 (sceneWorldForward.app.lights.length % 2 ^ 32)).getD k 0) ∧
      ∀ i (hi : i < sceneWorldForward.app.lights.length),
        16 ∣ 16 + 32 * i ∧
        (∀ k, k < 4 → region (16 + 32 * i + k) =
          (bytesOfU32 sceneWorldForward.app.lights[i].type.toNat).getD k 0) ∧
        (∀ k, k < 12 → region (16 + 32 * i + 4 + k) =
          (bytesOfVec3 sceneWorldForward.app.lights[i].color).getD k 0) ∧
        (∀ k, k < 12 → region (16 + 32 * i + 16 + k) =
          (bytesOfVec3 sceneWorldForward.app.lights[i].direction).getD k 0) :=
  ⟨rfl, Forward_global_block sampleGlm sampleDriver sceneWorldForward sceneForwardFrame rfl
    sceneForwardFrame_ok⟩

/-- C22 (counterexample): the FORWARD frame of the default scene, with seven
lights.  The global block ends at 236, not at `16 + 7 * 24 = 184`; its bytes
16 to 19 are the type of the first light (0, directional), not the start of
its colour, which follows at 20; the record of the second light starts at 48,
four bytes after the end of the first record at 44, with its type (1,
point). -/
theorem Forward_global_block_types_and_padding :
    sceneWorldForward.app.mode = .FORWARD ∧
    sceneWorldForward.app.lights.length = 7 ∧
    (sceneWorldForward.app.lights.map fun light => light.type.toNat) = [0, 1, 1, 1, 1, 1, 1] ∧
    sceneForwardGlobals.app.cBuffer.head = 236 ∧
    sceneForwardFrame.app.globalParamsSize = 236 ∧
    236 ≠ 16 + 7 * 24 ∧
    (sceneWorldForward.app.lights.head?.map fun light => bytesOfVec3 light.color) =
      some [205, 204, 76, 63, 205, 204, 76, 63, 205, 204, 76, 63] ∧
    (sceneForwardGlobals.app.cBuffer.data.map fun region =>
      (List.range 36).map fun k => region (16 + k)) =
      some [0, 0, 0, 0, 205, 204, 76, 63, 205, 204, 76, 63, 205, 204, 76, 63,
        0, 0, 0, 0, 0, 0, 128, 191, 0, 0, 128, 63, 0, 0, 0, 0, 1, 0, 0, 0] := by
  refine ⟨rfl, rfl, rfl, ?_, ?_, by decide, rfl, ?_⟩
  · decide
  · decide
  · decide


/-! ## Claims on the cube maps and on the mode -/

theorem LoadTexture2D_settings (stbi_load : String → StbiResult) (app : App) (gl : GLState)
    (filepath : String) :
    (LoadTexture2D stbi_load app gl filepath).2.1.mode = app.mode ∧
    (LoadTexture2D stbi_load app gl filepath).2.1.cubeFaces = app.cubeFaces := by
  unfold LoadTexture2D
  cases findTextureIdx filepath app.textures 0 with
  | some texIdx => exact ⟨rfl, rfl⟩
  | none =>
    simp only []
    split_ifs
    · exact ⟨rfl, rfl⟩
    · exact ⟨rfl, rfl⟩

theorem initModesSetup_mode (env : Platform) (w : World) :
    (initModesSetup env w).app.mode = .DEFERRED := rfl

theorem initModesSetup_cubeFaces (env : Platform) (w : World) :
    (initModesSetup env w).app.cubeFaces = w.app.cubeFaces := by
  simp only [initModesSetup, World.loadTexture2D, LoadTexture2D_settings]

theorem LoadProgram_settings (env : Platform) (filepath programName : String) (w : World) :
    (LoadProgram env filepath programName w).2.app.mode = w.app.mode ∧
    (LoadProgram env filepath programName w).2.app.cubeFaces = w.app.cubeFaces := by
  simp only [LoadProgram, CreateProgramFromSource_app, and_self]

theorem pushAttributes_settings (w w1 : World) (idx : Nat) (attrs : List VertexShaderAttribute)
    (hok : pushAttributes w idx attrs = .ok w1) :
    w1.app.mode = w.app.mode ∧ w1.app.cubeFaces = w.app.cubeFaces := by
  simp only [pushAttributes, bind_eq_ok, lookup_eq_ok, Except.ok.injEq] at hok
  obtain ⟨program, -, rfl⟩ := hok
  exact ⟨rfl, rfl⟩

theorem loadTexturedMeshProgram_settings (env : Platform) (w w1 : World)
    (hok : loadTexturedMeshProgram env w = .ok w1) :
    w1.app.mode = w.app.mode ∧ w1.app.cubeFaces = w.app.cubeFaces := by
  simp only [loadTexturedMeshProgram, bind_eq_ok, lookup_eq_ok] at hok
  obtain ⟨program, -, hpush⟩ := hok
  obtain ⟨h1, h2⟩ := pushAttributes_settings _ _ _ _ hpush
  rw [h1, h2]
  exact LoadProgram_settings env _ _ w

theorem loadGeometryProgram_settings (env : Platform) (w w1 : World)
    (hok : loadGeometryProgram env w = .ok w1) :
    w1.app.mode = w.app.mode ∧ w1.app.cubeFaces = w.app.cubeFaces := by
  simp only [loadGeometryProgram, bind_eq_ok, lookup_eq_ok] at hok
  obtain ⟨program, -, hpush⟩ := hok
  obtain ⟨h1, h2⟩ := pushAttributes_settings _ _ _ _ hpush
  rw [h1, h2]
  exact LoadProgram_settings env _ _ w

theorem loadLightsProgram_settings (env : Platform) (w w1 : World)
    (hok : loadLightsProgram env w = .ok w1) :
    w1.app.mode = w.app.mode ∧ w1.app.cubeFaces = w.app.cubeFaces := by
  simp only [loadLightsProgram, bind_eq_ok, lookup_eq_ok] at hok
  obtain ⟨program, -, hpush⟩ := hok
  obtain ⟨h1, h2⟩ := pushAttributes_settings _ _ _ _ hpush
  rw [h1, h2]
  exact LoadProgram_settings env _ _ w

theorem loadDrawLightsProgram_settings (env : Platform) (w w1 : World)
    (hok : loadDrawLightsProgram env w = .ok w1) :
    w1.app.mode = w.app.mode ∧ w1.app.cubeFaces = w.app.cubeFaces := by
  simp only [loadDrawLightsProgram, bind_eq_ok, lookup_eq_ok] at hok
  obtain ⟨program, -, hpush⟩ := hok
  obtain ⟨h1, h2⟩ := pushAttributes_settings _ _ _ _ hpush
  rw [h1, h2]
  exact LoadProgram_settings env _ _ w

theorem loadDeferredPrograms_settings (env : Platform) (w w1 : World)
    (hok : loadDeferredPrograms env w = .ok w1) :
    w1.app.mode = w.app.mode ∧ w1.app.cubeFaces = w.app.cubeFaces := by
  simp only [loadDeferredPrograms, bind_eq_ok] at hok
  obtain ⟨wa, ha, wb, hb, wc, hc, hd⟩ := hok
  obtain ⟨a1, a2⟩ := loadTexturedMeshProgram_settings env _ _ ha
  obtain ⟨b1, b2⟩ := loadGeometryProgram_settings env _ _ hb
  obtain ⟨c1, c2⟩ := loadLightsProgram_settings env _ _ hc
  obtain ⟨d1, d2⟩ := loadDrawLightsProgram_settings env _ _ hd
  exact ⟨d1.trans (c1.trans (b1.trans a1)), d2.trans (c2.trans (b2.trans a2))⟩

theorem faceUploads_append (a b : List GLCall) :
    faceUploads (a ++ b) = faceUploads a ++ faceUploads b := by
  induction a with
  | nil => rfl
  | cons c rest ih => cases c <;> simp [faceUploads, ih]

theorem facesLoaded_nil (stbi_load : String → StbiResult) : facesLoaded stbi_load [] = [] := rfl

theorem facesLoaded_cons (stbi_load : String → StbiResult) (face : String) (rest : List String) :
    facesLoaded stbi_load (face :: rest) =
      (if (stbi_load face).pixels ≠ 0 then
        [(0, (stbi_load face).x, (stbi_load face).y, (stbi_load face).pixels)] else []) ++
      (facesLoaded stbi_load rest).map fun u => (u.1 + 1, u.2) := by
  simp only [facesLoaded, List.length_cons, List.range_succ_eq_map, List.filterMap_cons,
    List.filterMap_map, List.map_filterMap]
  have h0 : (face :: rest).getD 0 "" = face := rfl
  rw [h0]
  have hrest : List.filterMap ((fun i =>
        if (stbi_load ((face :: rest).getD i "")).pixels ≠ 0 then
          some (i, (stbi_load ((face :: rest).getD i "")).x,
            (stbi_load ((face :: rest).getD i "")).y,
            (stbi_load ((face :: rest).getD i "")).pixels)
        else none) ∘ Nat.succ) (List.range rest.length) =
      List.filterMap (fun x => Option.map (fun u => (u.1 + 1, u.2))
        (if (stbi_load (rest.getD x "")).pixels ≠ 0 then
          some (x, (stbi_load (rest.getD x "")).x, (stbi_load (rest.getD x "")).y,
            (stbi_load (rest.getD x "")).pixels)
        else none)) (List.range rest.length) := by
    congr 1
    funext i
    simp only [Function.comp, List.getD_cons_succ]
    split <;> rfl
  rw [hrest]
  by_cases hp : (stbi_load face).pixels ≠ 0
  · rw [if_pos hp, if_pos hp]
    rfl
  · rw [if_neg hp, if_neg hp]
    rfl

/-- What the loop of `loadCubeMap` does from face `i` on. -/
theorem loadCubeFaces_effect (env : Platform) (faces : List String) :
    ∀ (i : Nat) (w : World),
      (loadCubeFaces env faces i w).app = w.app ∧
      ∃ seg, (loadCubeFaces env faces i w).gl.calls = w.gl.calls ++ seg ∧
        faceUploads seg = (facesLoaded env.stbi_load faces).map fun u => (u.1 + i, u.2) := by
  induction faces with
  | nil => intro i w; exact ⟨rfl, [], by simp [loadCubeFaces], rfl⟩
  | cons face rest ih =>
    intro i w
    simp only [loadCubeFaces]
    by_cases hp : (env.stbi_load face).pixels ≠ 0
    · obtain ⟨happ, seg, hc, hu⟩ := ih (i + 1) (w.issue (.glTexImage2DFace i 0 .GL_RGB
        (env.stbi_load face).x (env.stbi_load face).y 0 .GL_RGB .GL_UNSIGNED_BYTE
        (env.stbi_load face).pixels))
      rw [if_pos hp]
      refine ⟨happ.trans rfl, .glTexImage2DFace i 0 .GL_RGB
        (env.stbi_load face).x (env.stbi_load face).y 0 .GL_RGB .GL_UNSIGNED_BYTE
        (env.stbi_load face).pixels :: seg, ?_, ?_⟩
      · rw [hc, World.issue_calls, List.append_assoc]
        rfl
      · rw [facesLoaded_cons, if_pos hp]
        simp only [faceUploads, hu, List.map_append, List.map_map, List.map_cons, List.map_nil,
          List.singleton_append, Nat.zero_add, List.cons.injEq, true_and]
        apply List.map_congr_left
        intro u _
        simp only [Function.comp, Nat.add_assoc, Nat.add_comm 1 i]
    · obtain ⟨happ, seg, hc, hu⟩ := ih (i + 1)
        (w.elog ("Cubemap texture failed to load at path: " ++ face))
      rw [if_neg hp]
      refine ⟨happ.trans rfl, seg, ?_, ?_⟩
      · rw [hc, World.elog_calls]
      · rw [facesLoaded_cons, if_neg hp, hu]
        simp only [List.nil_append, List.map_map]
        apply List.map_congr_left
        intro u _
        simp only [Function.comp, Nat.add_assoc, Nat.add_comm 1 i]

/-- What `loadCubeMap` does: it leaves the application state as it was and
uploads face `i` for every path `i` of its list whose file loads. -/
theorem loadCubeMap_effect (env : Platform) (faces : List String) (w : World) :
    (loadCubeMap env faces w).2.app = w.app ∧
    ∃ seg, (loadCubeMap env faces w).2.gl.calls = w.gl.calls ++ seg ∧
      faceUploads seg = facesLoaded env.stbi_load faces := by
  obtain ⟨happ, seg, hc, hu⟩ := loadCubeFaces_effect env faces 0
    (({ w with gl := w.gl.genTexture.2 } : World).issue
      (.glBindTexture .GL_TEXTURE_CUBE_MAP w.gl.genTexture.1))
  refine ⟨?_, [.glGenTextures (w.gl.textures + 1),
    .glBindTexture .GL_TEXTURE_CUBE_MAP w.gl.genTexture.1] ++ seg ++
    [.glTexParameteri .GL_TEXTURE_CUBE_MAP .GL_TEXTURE_MAG_FILTER .GL_LINEAR,
     .glTexParameteri .GL_TEXTURE_CUBE_MAP .GL_TEXTURE_MIN_FILTER .GL_LINEAR,
     .glTexParameteri .GL_TEXTURE_CUBE_MAP .GL_TEXTURE_WRAP_S .GL_CLAMP_TO_EDGE,
     .glTexParameteri .GL_TEXTURE_CUBE_MAP .GL_TEXTURE_WRAP_T .GL_CLAMP_TO_EDGE,
     .glTexParameteri .GL_TEXTURE_CUBE_MAP .GL_TEXTURE_WRAP_R .GL_CLAMP_TO_EDGE], ?_, ?_⟩
  · simp only [loadCubeMap, World.issue_app]
    exact happ.trans rfl
  · simp only [loadCubeMap, World.issue_calls, hc, List.append_assoc, List.cons_append,
      List.nil_append]
    simp only [GLState.genTexture, List.append_assoc, List.cons_append, List.nil_append]
  · rw [faceUploads_append, faceUploads_append, hu]
    simp [faceUploads]

theorem initCubeMapArrays_effect (env : Platform) (w : World) :
    (initCubeMapArrays env w).app = w.app ∧
    ∃ seg, (initCubeMapArrays env w).gl.calls = w.gl.calls ++ seg ∧ faceUploads seg = [] := by
  refine ⟨?_, ?_⟩
  · simp only [initCubeMapArrays, World.issue_app]
  · simp only [initCubeMapArrays, World.issue_calls, GLState.genVertexArray, GLState.genBuffer,
      List.append_assoc]
    exact ⟨_, rfl, rfl⟩

theorem InitCubeMap_effect (env : Platform) (w : World) :
    (InitCubeMap env w).app.mode = w.app.mode ∧
    ∃ seg, (InitCubeMap env w).gl.calls = w.gl.calls ++ seg ∧
      faceUploads seg = facesLoaded env.stbi_load
        ["top.jpg", "bottom.jpg", "left.jpg", "right.jpg", "front.jpg", "back.jpg"] := by
  obtain ⟨happ0, seg0, hc0, hu0⟩ := initCubeMapArrays_effect env w
  obtain ⟨happ, seg, hc, hu⟩ := loadCubeMap_effect env
    ["top.jpg", "bottom.jpg", "left.jpg", "right.jpg", "front.jpg", "back.jpg"]
    (initCubeMapArrays env w)
  refine ⟨?_, ?_⟩
  · simp only [InitCubeMap, World.issue_app]
    exact (congrArg App.mode happ).trans (congrArg App.mode happ0)
  · simp only [InitCubeMap, World.issue_calls, World.issue_globals, hc, hc0, List.append_assoc]
    refine ⟨_, rfl, ?_⟩
    simp only [faceUploads_append, hu0, hu, List.nil_append]
    simp [faceUploads]

theorem faceUploads_RenderCubeMap (glm : Glm) (w : World) :
    faceUploads (frameCalls w (RenderCubeMap glm w)) = [] := by
  simp only [frameCalls, RenderCubeMap, World.issue_calls, World.issue_app, World.issue_globals,
    List.append_assoc, List.drop_left]
  rfl

theorem initModesCubeMap_effect (glm : Glm) (env : Platform) (w : World) :
    (initModesCubeMap glm env w).app.mode = w.app.mode ∧
    ∃ seg, (initModesCubeMap glm env w).gl.calls = w.gl.calls ++ seg ∧
      faceUploads seg = facesLoaded env.stbi_load w.app.cubeFaces := by
  obtain ⟨happ, seg, hc, hu⟩ := loadCubeMap_effect env w.app.cubeFaces w
  refine ⟨?_, ?_⟩
  · simp only [initModesCubeMap, RenderCubeMap_app, World.issue_app]
    exact (congrArg App.mode happ)
  · simp only [initModesCubeMap]
    rw [RenderCubeMap_calls]
    simp only [World.issue_calls, hc, List.append_assoc]
    refine ⟨_, rfl, ?_⟩
    simp only [faceUploads_append, hu, faceUploads_RenderCubeMap]
    exact List.append_nil _

/-- What `InitModes` leaves when it returns: the mode is DEFERRED, and the
cube map it loads is that of the list `cubeFaces` it was passed. -/
theorem InitModes_effect (glm : Glm) (env : Platform) (w w1 : World)
    (hok : InitModes glm env w = .ok w1) :
    w1.app.mode = .DEFERRED ∧
    ∃ w2, w1 = initModesCubeMap glm env w2 ∧ w2.app.cubeFaces = w.app.cubeFaces ∧
      faceUploads (frameCalls w2 w1) = facesLoaded env.stbi_load w.app.cubeFaces := by
  simp only [InitModes, initModesSetup_mode, bind_eq_ok, Except.ok.injEq] at hok
  obtain ⟨w2, hprog, rfl⟩ := hok
  obtain ⟨hmode, hfaces⟩ := loadDeferredPrograms_settings env _ _ hprog
  obtain ⟨hm, seg, hc, hu⟩ := initModesCubeMap_effect glm env w2
  refine ⟨?_, w2, rfl, ?_, ?_⟩
  · rw [hm, hmode]
    exact initModesSetup_mode env w
  · rw [hfaces]
    exact initModesSetup_cubeFaces env w
  · rw [frameCalls_append _ _ seg hc, hu, hfaces, initModesSetup_cubeFaces]

theorem InitBuffers_mode (status : FramebufferStatus) (w : World) :
    (InitBuffers status w).app.mode = w.app.mode := by
  simp only [InitBuffers, World.issue_app, checkFramebuffer_app, attachImages_app, allocImage_app]

theorem CreateEntities_mode (env : Platform) (w : World) :
    (CreateEntities env w).app.mode = w.app.mode := rfl

theorem InitGPUInfo_settings (env : Platform) (w : World) :
    (InitGPUInfo env w).app.mode = w.app.mode ∧
    (InitGPUInfo env w).app.cubeFaces = w.app.cubeFaces := by
  have : ∀ (es : List String) (app : App),
      (es.foldl (fun app e => { app with extensions := e }) app).mode = app.mode ∧
      (es.foldl (fun app e => { app with extensions := e }) app).cubeFaces = app.cubeFaces := by
    intro es
    induction es with
    | nil => intro app; exact ⟨rfl, rfl⟩
    | cons e rest ih =>
      intro app
      simp only [List.foldl_cons]
      exact ⟨(ih _).1.trans rfl, (ih _).2.trans rfl⟩
  simp only [InitGPUInfo]
  exact ⟨(this _ _).1.trans rfl, (this _ _).2.trans rfl⟩

/-- `Init`, when it returns, leaves the mode DEFERRED. -/
theorem Init_mode (glm : Glm) (env : Platform) (w w1 : World) (hok : Init glm env w = .ok w1) :
    w1.app.mode = .DEFERRED := by
  rw [Init_eq] at hok
  cases hmodes : InitModes glm env (InitGPUInfo env (initCameraPos w)) with
  | error e => rw [hmodes] at hok; cases hok
  | ok wm =>
    rw [hmodes] at hok
    have hw1 := (Except.ok.inj hok).symm
    subst hw1
    rw [CreateEntities_mode, InitBuffers_mode, (InitCubeMap_effect env wm).1]
    exact (InitModes_effect glm env _ wm hmodes).1

theorem Gui_mode (ui : Widgets) (w : World) :
    (Gui ui w).app.mode = .DEFERRED ∨ (Gui ui w).app.mode = .FORWARD ∨
      (Gui ui w).app.mode = w.app.mode := by
  simp only [Gui]
  by_cases h0 : guiCombo ui "Type" ["Deferred", "Forward"] w.globals.Gui_select = 0
  · simp only [h0, if_true]
    exact Or.inl trivial
  · by_cases h1 : guiCombo ui "Type" ["Deferred", "Forward"] w.globals.Gui_select = 1
    · simp only [h1, if_true, show ¬ ((1 : Int) = 0) by decide, if_false]
      exact Or.inr (Or.inl trivial)
    · simp only [h0, h1, if_false]
      split_ifs <;> exact Or.inr (Or.inr rfl)

theorem Update_mode (fm : FloatMath) (input : Input) (w : World) :
    (Update fm input w).app.mode = w.app.mode := rfl

theorem RenderTexturedQuad_mode (w w1 : World) (hok : RenderTexturedQuad w = .ok w1) :
    w1.app.mode = w.app.mode := by
  simp only [RenderTexturedQuad, bind_eq_ok, lookup_eq_ok, World.issue_app,
    Except.ok.injEq] at hok
  obtain ⟨texture, -, program, -, rfl⟩ := hok
  simp only [World.issue_app]

/-- `Render` never writes the mode. -/
theorem Render_mode (glm : Glm) (drv : Driver) (w w1 : World)
    (hok : Render glm drv w = .ok w1) : w1.app.mode = w.app.mode := by
  cases hmode : w.app.mode with
  | TEXTUREDQUAD =>
    simp only [Render, renderPrologue_app, hmode] at hok
    rw [RenderTexturedQuad_mode _ _ hok, renderPrologue_app, hmode]
  | DEFERRED =>
    obtain ⟨w2, -, -, hs, -⟩ := Render_deferred_effect glm drv w w1 hmode hok
    rw [← hmode]
    exact (congrArg App.mode hs).trans rfl
  | FORWARD =>
    obtain ⟨-, hs, -⟩ := Render_forward_effect glm drv w w1 hmode hok
    rw [← hmode]
    exact (congrArg App.mode hs).trans rfl

theorem mem_facesLoaded (stbi_load : String → StbiResult) (faces : List String)
    (u : Nat × Int × Int × Nat) :
    u ∈ facesLoaded stbi_load faces ↔
      u.1 < faces.length ∧ (stbi_load (faces.getD u.1 "")).pixels ≠ 0 ∧
      u.2 = ((stbi_load (faces.getD u.1 "")).x, (stbi_load (faces.getD u.1 "")).y,
        (stbi_load (faces.getD u.1 "")).pixels) := by
  simp only [facesLoaded, List.mem_filterMap, List.mem_range]
  constructor
  · rintro ⟨i, hi, h⟩
    split at h
    · cases h
      exact ⟨hi, by assumption, rfl⟩
    · cases h
  · rintro ⟨hi, hp, h2⟩
    refine ⟨u.1, hi, ?_⟩
    rw [if_pos hp, ← h2]

/-- C25 (amended): `loadCubeMap` uploads, in the order of its list, the image
of path `i` to the face target `GL_TEXTURE_CUBE_MAP_POSITIVE_X + i` for every
index `i` whose file loads, and nothing for an index whose file does not load:
the faces after it keep their targets.  `InitCubeMap`, the last load of `Init`,
passes the six paths top, bottom, left, right, front, back in this order.  The
load of `InitModes` passes the list `app->cubeFaces` as `InitModes` found it,
which by default is front.png, back.png, top.png, bottom.jpg, left.png,
right.png. -/
theorem loadCubeMap_faces (glm : Glm) (env : Platform) :
    (∀ faces w, faceUploads (frameCalls w (loadCubeMap env faces w).2) =
      facesLoaded env.stbi_load faces) ∧
    (∀ faces u, u ∈ facesLoaded env.stbi_load faces ↔
      u.1 < faces.length ∧ (env.stbi_load (faces.getD u.1 "")).pixels ≠ 0 ∧
      u.2 = ((env.stbi_load (faces.getD u.1 "")).x, (env.stbi_load (faces.getD u.1 "")).y,
        (env.stbi_load (faces.getD u.1 "")).pixels)) ∧
    (∀ w, faceUploads (frameCalls w (InitCubeMap env w)) = facesLoaded env.stbi_load
      ["top.jpg", "bottom.jpg", "left.jpg", "right.jpg", "front.jpg", "back.jpg"]) ∧
    (∀ w w1, InitModes glm env w = .ok w1 →
      ∃ w2, w1 = initModesCubeMap glm env w2 ∧
        faceUploads (frameCalls w2 w1) = facesLoaded env.stbi_load w.app.cubeFaces) ∧
    initWorld.app.cubeFaces =
      ["front.png", "back.png", "top.png", "bottom.jpg", "left.png", "right.png"] := by
  refine ⟨fun faces w => ?_, mem_facesLoaded env.stbi_load, fun w => ?_, fun w w1 hok => ?_, rfl⟩
  · obtain ⟨-, seg, hc, hu⟩ := loadCubeMap_effect env faces w
    rw [frameCalls_append _ _ seg hc, hu]
  · obtain ⟨-, seg, hc, hu⟩ := InitCubeMap_effect env w
    rw [frameCalls_append _ _ seg hc, hu]
  · obtain ⟨-, w2, h1, -, h3⟩ := InitModes_effect glm env w w1 hok
    exact ⟨w2, h1, h3⟩

theorem loadCubeMap_faces_witness :
    InitModes sampleGlm (samplePlatform .GL_FRAMEBUFFER_UNSUPPORTED true)
      (InitGPUInfo (samplePlatform .GL_FRAMEBUFFER_UNSUPPORTED true) (initCameraPos initWorld))
      = .ok initModesWorld ∧
    ((∀ faces w, faceUploads (frameCalls w
        (loadCubeMap (samplePlatform .GL_FRAMEBUFFER_UNSUPPORTED true) faces w).2) =
      facesLoaded (samplePlatform .GL_FRAMEBUFFER_UNSUPPORTED true).stbi_load faces) ∧
    (∀ faces u, u ∈ facesLoaded (samplePlatform .GL_FRAMEBUFFER_UNSUPPORTED true).stbi_load faces ↔
      u.1 < faces.length ∧
      ((samplePlatform .GL_FRAMEBUFFER_UNSUPPORTED true).stbi_load (faces.getD u.1 "")).pixels ≠ 0 ∧
      u.2 = (((samplePlatform .GL_FRAMEBUFFER_UNSUPPORTED true).stbi_load (faces.getD u.1 "")).x,
        ((samplePlatform .GL_FRAMEBUFFER_UNSUPPORTED true).stbi_load (faces.getD u.1 "")).y,
        ((samplePlatform .GL_FRAMEBUFFER_UNSUPPORTED true).stbi_load (faces.getD u.1 "")).pixels)) ∧
    (∀ w, faceUploads (frameCalls w
        (InitCubeMap (samplePlatform .GL_FRAMEBUFFER_UNSUPPORTED true) w)) =
      facesLoaded (samplePlatform .GL_FRAMEBUFFER_UNSUPPORTED true).stbi_load
        ["top.jpg", "bottom.jpg", "left.jpg", "right.jpg", "front.jpg", "back.jpg"]) ∧
    (∀ w w1, InitModes sampleGlm (samplePlatform .GL_FRAMEBUFFER_UNSUPPORTED true) w = .ok w1 →
      ∃ w2, w1 = initModesCubeMap sampleGlm (samplePlatform .GL_FRAMEBUFFER_UNSUPPORTED true) w2 ∧
        faceUploads (frameCalls w2 w1) =
          facesLoaded (samplePlatform .GL_FRAMEBUFFER_UNSUPPORTED true).stbi_load
            w.app.cubeFaces) ∧
    initWorld.app.cubeFaces =
      ["front.png", "back.png", "top.png", "bottom.jpg", "left.png", "right.png"]) :=
  ⟨rfl, loadCubeMap_faces sampleGlm (samplePlatform .GL_FRAMEBUFFER_UNSUPPORTED true)⟩

set_option maxRecDepth 100000 in
/-- C25 (counterexample): on the sample platform, on which every file loads and
the pixels tell the file, the load of `InitModes` from the initial state
uploads front.png, back.png, top.png, bottom.jpg, left.png, right.png to the
faces 0 to 5: the order of `app->cubeFaces`, not top, bottom, left, right,
front, back. -/
theorem InitModes_loads_cubeFaces_order :
    InitModes sampleGlm (samplePlatform .GL_FRAMEBUFFER_UNSUPPORTED true)
      (InitGPUInfo (samplePlatform .GL_FRAMEBUFFER_UNSUPPORTED true) (initCameraPos initWorld))
      = .ok initModesWorld ∧
    (["front.png", "back.png", "top.png", "bottom.jpg", "left.png", "right.png"].map fun path =>
      (sampleImages path).pixels) = [101, 102, 103, 104, 105, 106] ∧
    (["top.jpg", "bottom.jpg", "left.jpg", "right.jpg", "front.jpg", "back.jpg"].map fun path =>
      (sampleImages path).pixels) = [201, 104, 203, 204, 205, 206] ∧
    faceUploads (frameCalls initWorld initModesWorld) =
      [(0, 64, 64, 101), (1, 64, 64, 102), (2, 64, 64, 103), (3, 64, 64, 104), (4, 64, 64, 105),
       (5, 64, 64, 106)] ∧
    faceUploads (frameCalls initWorld initModesWorld) ≠
      facesLoaded sampleImages
        ["top.jpg", "bottom.jpg", "left.jpg", "right.jpg", "front.jpg", "back.jpg"] := by
  refine ⟨rfl, by decide, by decide, ?_, ?_⟩
  · decide
  · decide

theorem initDone_ok :
    Init sampleGlm (samplePlatform .GL_FRAMEBUFFER_COMPLETE true) initWorld = .ok initDone := rfl

theorem initForwardFrame_ok :
    Render sampleGlm sampleDriver initForward = .ok initForwardFrame := rfl

/-- C26: in every state reachable from a state `Init` returns by calls of
`Gui`, `Update` and `Render`, the mode is DEFERRED or FORWARD, so `Render` runs
its DEFERRED or its FORWARD branch and never the branch TEXTUREDQUAD.  `Init`
leaves DEFERRED; `Gui` leaves DEFERRED, FORWARD or the mode it found; `Update`
and `Render` leave the mode they found. -/
theorem mode_never_TEXTUREDQUAD (glm : Glm) (fm : FloatMath) (env : Platform) (w0 w : World)
    (h : Reachable glm fm env w0 w) :
    (w.app.mode = .DEFERRED ∨ w.app.mode = .FORWARD) ∧
    w.app.mode ≠ .TEXTUREDQUAD ∧
    (Render glm env.driver w = RenderDeferred glm env.driver (renderPrologue w) ∨
      Render glm env.driver w = RenderForward glm env.driver (renderPrologue w)) ∧
    (∀ w1, Init glm env w0 = .ok w1 → w1.app.mode = .DEFERRED) ∧
    (∀ ui w1, (Gui ui w1).app.mode = .DEFERRED ∨ (Gui ui w1).app.mode = .FORWARD ∨
      (Gui ui w1).app.mode = w1.app.mode) ∧
    (∀ input w1, (Update fm input w1).app.mode = w1.app.mode) ∧
    (∀ w1 w2, Render glm env.driver w1 = .ok w2 → w2.app.mode = w1.app.mode) := by
  have hinv : w.app.mode = .DEFERRED ∨ w.app.mode = .FORWARD := by
    induction h with
    | init w hok => exact Or.inl (Init_mode glm env w0 w hok)
    | gui ui w _ ih =>
      rcases Gui_mode ui w with h1 | h1 | h1
      · exact Or.inl h1
      · exact Or.inr h1
      · rw [h1]
        exact ih
    | update input w _ ih =>
      rw [Update_mode]
      exact ih
    | render w w1 _ hok ih =>
      rw [Render_mode glm env.driver w w1 hok]
      exact ih
  refine ⟨hinv, ?_, ?_, fun w1 hok => Init_mode glm env w0 w1 hok, Gui_mode,
    Update_mode fm, Render_mode glm env.driver⟩
  · rcases hinv with h1 | h1 <;> rw [h1] <;> decide
  · rcases hinv with h1 | h1
    · exact Or.inl (Render_deferred glm env.driver w h1)
    · exact Or.inr (Render_forward glm env.driver w h1)

theorem mode_never_TEXTUREDQUAD_witness :
    Init sampleGlm (samplePlatform .GL_FRAMEBUFFER_COMPLETE true) initWorld = .ok initDone ∧
    initForward = Update sampleFloatMath sampleInput (Gui (sampleWidgets "Forward") initDone) ∧
    Render sampleGlm sampleDriver initForward = .ok initForwardFrame ∧
    initForwardFrame.app.mode = .FORWARD ∧
    ((initForwardFrame.app.mode = .DEFERRED ∨ initForwardFrame.app.mode = .FORWARD) ∧
    initForwardFrame.app.mode ≠ .TEXTUREDQUAD ∧
    (Render sampleGlm (samplePlatform .GL_FRAMEBUFFER_COMPLETE true).driver initForwardFrame =
        RenderDeferred sampleGlm (samplePlatform .GL_FRAMEBUFFER_COMPLETE true).driver
          (renderPrologue initForwardFrame) ∨
      Render sampleGlm (samplePlatform .GL_FRAMEBUFFER_COMPLETE true).driver initForwardFrame =
        RenderForward sampleGlm (samplePlatform .GL_FRAMEBUFFER_COMPLETE true).driver
          (renderPrologue initForwardFrame)) ∧
    (∀ w1, Init sampleGlm (samplePlatform .GL_FRAMEBUFFER_COMPLETE true) initWorld = .ok w1 →
      w1.app.mode = .DEFERRED) ∧
    (∀ ui w1, (Gui ui w1).app.mode = .DEFERRED ∨ (Gui ui w1).app.mode = .FORWARD ∨
      (Gui ui w1).app.mode = w1.app.mode) ∧
    (∀ input w1, (Update sampleFloatMath input w1).app.mode = w1.app.mode) ∧
    (∀ w1 w2, Render sampleGlm (samplePlatform .GL_FRAMEBUFFER_COMPLETE true).driver w1 = .ok w2 →
      w2.app.mode = w1.app.mode)) :=
  ⟨initDone_ok, rfl, initForwardFrame_ok, rfl,
    mode_never_TEXTUREDQUAD sampleGlm sampleFloatMath (samplePlatform .GL_FRAMEBUFFER_COMPLETE true)
      initWorld initForwardFrame
      (.render initForward initForwardFrame
        (.update sampleInput _ (.gui (sampleWidgets "Forward") _ (.init initDone initDone_ok)))
        initForwardFrame_ok)⟩


/-! ## Claims on the byte ranges of a frame -/

theorem separated_le : ∀ (blocks : List (Nat × Nat)) (first last : Nat),
    separated first blocks last → first ≤ last
  | [], _, _, h => h
  | _ :: rest, _, _, h =>
    le_trans h.1 (le_trans (Nat.le_add_right _ _) (separated_le rest _ _ h.2))

theorem separated_mono : ∀ (blocks : List (Nat × Nat)) (first first1 last last1 : Nat),
    first1 ≤ first → last ≤ last1 → separated first blocks last → separated first1 blocks last1
  | [], _, _, _, _, h1, h2, h => le_trans h1 (le_trans h h2)
  | _ :: rest, _, _, _, _, h1, h2, h =>
    ⟨le_trans h1 h.1, separated_mono rest _ _ _ _ (le_refl _) h2 h.2⟩

theorem separated_append : ∀ (xs ys : List (Nat × Nat)) (first mid last : Nat),
    separated first xs mid → separated mid ys last → separated first (xs ++ ys) last
  | [], ys, _, _, _, h1, h2 => separated_mono ys _ _ _ _ h1 (le_refl _) h2
  | _ :: rest, ys, _, _, _, h1, h2 =>
    ⟨h1.1, separated_append rest ys _ _ _ h1.2 h2⟩

/-- Ranges that lie one after the other are pairwise disjoint, and each lies
between the two ends. -/
theorem separated_spec : ∀ (blocks : List (Nat × Nat)) (first last : Nat),
    separated first blocks last →
    pairwiseDisjoint blocks ∧ ∀ b ∈ blocks, first ≤ b.1 ∧ b.1 + b.2 ≤ last
  | [], _, _, _ => ⟨List.Pairwise.nil, fun _ h => absurd h (List.not_mem_nil _)⟩
  | (offset, size) :: rest, first, last, h => by
    obtain ⟨hp, hb⟩ := separated_spec rest (offset + size) last h.2
    refine ⟨List.Pairwise.cons (fun b hbm => (hb b hbm).1) hp, fun b hbm => ?_⟩
    rcases List.mem_cons.1 hbm with rfl | hmem
    · exact ⟨h.1, separated_le rest _ _ h.2⟩
    · exact ⟨le_trans h.1 (le_trans (Nat.le_add_right _ _) (hb b hmem).1), (hb b hmem).2⟩

/-- The head after the block of one entity is pushed. -/
theorem renderEntity_head (glm : Glm) (modelMatrix : Entity → mat4) (location : App → Int)
    (program : Program) (i : Nat) (w w1 : World)
    (hok : renderEntity glm modelMatrix location program i w = .ok w1) :
    w1.app.cBuffer.head =
      (AlignHead w.app.cBuffer w.app.uniformBlockAlignmentOffset.toNat).head + 128 := by
  simp only [renderEntity, bind_eq_ok, lookup_eq_ok] at hok
  obtain ⟨e, he, model, hmodel, mesh, hmesh, b1, hb1, b2, hb2, hloop⟩ := hok
  obtain ⟨hh1, -, -, -⟩ := PushMat4_ok _ _ _ hb1
  obtain ⟨hh2, -, -, -⟩ := PushMat4_ok _ _ _ hb2
  have hsubs : (meshGeometry w.app.meshes)[model.meshIdx]? =
      some (mesh.submeshes.map fun s => (s.indices.length, s.indexOffset)) := by
    simp [meshGeometry, hmesh]
  rw [List.range_eq_range'] at hloop
  obtain ⟨-, happ, -, -, -⟩ :=
    drawSubmeshes_effect _ model program _ 0 _ w1 _ (by exact hsubs) hloop
  have hcb : w1.app.cBuffer = b2 := (congrArg App.cBuffer happ).trans rfl
  rw [hcb, hh2, hh1]

/-- The blocks of the entities `k, ..., k + m - 1` lie one after the other
between the head the loop starts with and the head it ends with. -/
theorem renderEntities_blocks (glm : Glm) (modelMatrix : Entity → mat4) (location : App → Int)
    (program : Program) (m : Nat) :
    ∀ (k : Nat) (w w1 : World),
    renderEntities glm modelMatrix location program (List.range' k m) w = .ok w1 →
    0 < w.app.uniformBlockAlignmentOffset.toNat →
    separated w.app.cBuffer.head
      (((w1.app.entities.drop k).take m).map fun e => (e.localParamsOffset, e.localParamsSize))
      w1.app.cBuffer.head := by
  induction m with
  | zero =>
    intro k w w1 hok _
    simp only [List.range'_zero, renderEntities, Except.ok.injEq] at hok
    subst hok
    simp [separated]
  | succ m ih =>
    intro k w w1 hok halign
    simp only [List.range'_succ, renderEntities, bind_eq_ok] at hok
    obtain ⟨w2, hstep, hrest⟩ := hok
    have hhead := renderEntity_head glm modelMatrix location program k w w2 hstep
    obtain ⟨e, he, hent2, -, hsc1, -⟩ :=
      renderEntity_effect glm modelMatrix location program k w w2 hstep
    obtain ⟨hpre, -⟩ := renderEntities_effect glm modelMatrix location program m (k + 1) w2 w1 hrest
    have halign2 : w2.app.uniformBlockAlignmentOffset = w.app.uniformBlockAlignmentOffset :=
      (congrArg App.uniformBlockAlignmentOffset hsc1).trans rfl
    have hsep := ih (k + 1) w2 w1 hrest (by rw [halign2]; exact halign)
    have hk : k < w.app.entities.length := (List.getElem?_eq_some.1 he).1
    have hk1 : w1.app.entities[k]? = some { e with
        localParamsOffset :=
          (AlignHead w.app.cBuffer w.app.uniformBlockAlignmentOffset.toNat).head
        localParamsSize := 128 } := by
      rw [hpre k (Nat.lt_succ_self k), hent2]
      simp [hk]
    have hklt : k < w1.app.entities.length := (List.getElem?_eq_some.1 hk1).1
    have hdrop : (w1.app.entities.drop k).take (m + 1) =
        { e with
          localParamsOffset :=
            (AlignHead w.app.cBuffer w.app.uniformBlockAlignmentOffset.toNat).head
          localParamsSize := 128 } :: (w1.app.entities.drop (k + 1)).take m := by
      rw [List.drop_eq_getElem_cons hklt, List.take_succ_cons,
        (List.getElem?_eq_some.1 hk1).2]
    rw [hdrop, List.map_cons]
    refine ⟨AlignHead_le _ _ halign, ?_⟩
    rw [hhead] at hsep
    exact hsep

theorem u32sub_exact (a b : Nat) (hb : b ≤ a) (ha : a < 2 ^ 32) : u32sub a b = a - b := by
  unfold u32sub
  have h1 : b % 2 ^ 32 = b := Nat.mod_eq_of_lt (lt_of_le_of_lt hb ha)
  rw [h1, show a + 2 ^ 32 - b = (a - b) + 2 ^ 32 by omega, Nat.add_mod_right]
  exact Nat.mod_eq_of_lt (lt_of_le_of_lt (Nat.sub_le _ _) ha)

theorem deferredGlobals_head (glm : Glm) (drv : Driver) (program : Program) (w w1 : World)
    (hok : deferredGlobals glm drv program w = .ok w1) : w1.app.cBuffer.head = 16 := by
  simp only [deferredGlobals, bind_eq_ok, lookup_eq_ok] at hok
  obtain ⟨b1, hb1, b2, hb2, t1, ht1, t2, ht2, t3, ht3, hw⟩ := hok
  simp only [Except.ok.injEq] at hw
  obtain ⟨-, hh1, -⟩ := Push_map_extendedBy _ _ _ hb1
  obtain ⟨-, hh2, -⟩ := Push_map_extendedBy _ _ _ hb2
  have hhead : b2.head = 16 := by
    rw [hh2, hh1]
    rfl
  subst hw
  simp only [World.issue_app, ite_RenderCubeMap_app]
  exact hhead

/-- The byte ranges a DEFERRED branch that returns has bound lie one after the
other: the first global block, the blocks of the entities, the global block of
the lighting pass. -/
theorem RenderDeferred_blocks (glm : Glm) (drv : Driver) (w w1 : World)
    (hok : RenderDeferred glm drv w = .ok w1)
    (halign : 0 < w.app.uniformBlockAlignmentOffset.toNat)
    (hsize : w.app.cBuffer.size < 2 ^ 32) :
    separated 0
      ((0, 16) :: (w1.app.entities.map fun e => (e.localParamsOffset, e.localParamsSize)) ++
        [(w1.app.globalParamsOffset, w1.app.globalParamsSize)])
      w1.app.cBuffer.head := by
  simp only [RenderDeferred, bind_eq_ok, lookup_eq_ok] at hok
  obtain ⟨program, -, wa, hglob, wb, hent, wc, hlight, hgiz⟩ := hok
  obtain ⟨-, hsa, -, -, -, -, -, hsizea, hda, -, -⟩ :=
    deferredGlobals_effect glm drv program w wa hglob
  have hheada := deferredGlobals_head glm drv program w wa hglob
  rw [List.range_eq_range'] at hent
  obtain ⟨-, -, -, hlenb, hsb, -, -, -, -, hsizeb, hdb, -, -⟩ :=
    renderEntities_effect glm deferredModelMatrix deferredLocation program _ 0 wa wb hent
  have haligna : wa.app.uniformBlockAlignmentOffset = w.app.uniformBlockAlignmentOffset :=
    App.sameScene_alignment hsa
  have halignb : wb.app.uniformBlockAlignmentOffset = w.app.uniformBlockAlignmentOffset :=
    App.sameScene_alignment (App.sameScene_trans hsa hsb)
  have hblocks := renderEntities_blocks glm deferredModelMatrix deferredLocation program _ 0 wa wb
    hent (by rw [haligna]; exact halign)
  have htake : (wb.app.entities.drop 0).take wa.app.entities.length = wb.app.entities := by
    rw [List.drop_zero, ← hlenb, List.take_length]
  rw [htake, hheada] at hblocks
  obtain ⟨-, -, hentc, -, -, hoffc, -⟩ := deferredLighting_effect wb wc hlight
  obtain ⟨region0, hregion0⟩ := Option.isSome_iff_exists.1 (hdb hda)
  obtain ⟨hoff, hcap, hsizec, hgs, -⟩ := deferredLighting_lights wb wc region0 hlight hregion0
  obtain ⟨-, happd, -, -⟩ := deferredQuadAndBlit_effect wc
  obtain ⟨-, happe, -⟩ := deferredGizmos_effect glm _ w1 hgiz
  have hent1 : w1.app.entities = wb.app.entities := by
    rw [happe, happd, ← hentc]
    rfl
  have hoff1 : w1.app.globalParamsOffset = wc.app.globalParamsOffset := by
    rw [happe, happd]
    rfl
  have hsz1 : w1.app.globalParamsSize = wc.app.globalParamsSize := by
    rw [happe, happd]
    rfl
  have hhead1 : w1.app.cBuffer.head = wc.app.cBuffer.head := by
    rw [happe, happd]
    rfl
  have hlt : wc.app.cBuffer.head < 2 ^ 32 := by
    have : wc.app.cBuffer.size = w.app.cBuffer.size := by rw [hsizec, hsizeb, hsizea]
    omega
  have hgoff : wb.app.cBuffer.head ≤ wc.app.globalParamsOffset := by
    rw [hoffc]
    exact AlignHead_le _ _ (by rw [halignb]; exact halign)
  have hexact : wc.app.globalParamsSize = wc.app.cBuffer.head - wc.app.globalParamsOffset := by
    rw [hgs]
    exact u32sub_exact _ _ (by omega) hlt
  rw [hent1, hoff1, hsz1, hhead1]
  refine ⟨le_refl _, ?_⟩
  refine separated_append _ _ _ wb.app.cBuffer.head _ hblocks ⟨hgoff, ?_⟩
  show wc.app.globalParamsOffset + wc.app.globalParamsSize ≤ wc.app.cBuffer.head
  omega

theorem forwardGlobals_size (drv : Driver) (program : Program) (w w1 : World)
    (hok : forwardGlobals drv program w = .ok w1) :
    w1.app.cBuffer.size = w.app.cBuffer.size := by
  simp only [forwardGlobals, bind_eq_ok, World.issue_app] at hok
  obtain ⟨b1, hb1, b2, hb2, app1, happ, hw⟩ := hok
  simp only [Except.ok.injEq] at hw
  have hb1x : (Push (MapBuffer w.app.cBuffer (drv.glMapBuffer w.app.cBuffer.handle))
      (bytesOfVec3 w.app.camera.cameraPos)).map Prod.snd = .ok b1 := hb1
  have hb2x : (Push b1 (bytesOfU32 (w.app.lights.length % 2 ^ 32))).map Prod.snd = .ok b2 := hb2
  obtain ⟨he1, -, -⟩ := Push_map_extendedBy _ _ _ hb1x
  obtain ⟨he2, -, -⟩ := Push_map_extendedBy _ _ _ hb2x
  obtain ⟨region1, hreg1, -⟩ := he1.2.2.2 _ rfl
  obtain ⟨region2, hreg2, -⟩ := he2.2.2.2 _ hreg1
  obtain ⟨-, -, -, hsz, -⟩ := pushLightsForward_records w.app.lights _ app1 region2 happ hreg2
  subst hw
  show app1.cBuffer.size = _
  rw [hsz]
  show b2.size = _
  rw [he2.2.1, he1.2.1]
  rfl

/-- The byte ranges a FORWARD branch that returns has bound: with at least one
light the global block and the blocks of the entities lie one after the other;
with none the global block bound is the one an earlier frame left, and the
blocks of the entities lie one after the other from 16 on. -/
theorem RenderForward_blocks (glm : Glm) (drv : Driver) (w w1 : World)
    (hok : RenderForward glm drv w = .ok w1)
    (halign : 0 < w.app.uniformBlockAlignmentOffset.toNat)
    (hsize : w.app.cBuffer.size < 2 ^ 32) :
    (w.app.lights ≠ [] →
      separated 0
        ((0, w1.app.globalParamsSize) ::
          w1.app.entities.map fun e => (e.localParamsOffset, e.localParamsSize))
        w1.app.cBuffer.head) ∧
    (w.app.lights = [] →
      w1.app.globalParamsOffset = 0 ∧ w1.app.globalParamsSize = w.app.globalParamsSize ∧
      separated 16 (w1.app.entities.map fun e => (e.localParamsOffset, e.localParamsSize))
        w1.app.cBuffer.head) := by
  obtain ⟨program, w2, w3, hglob, hent, -, hoff, hsz, hent1, hhead1, halign2, hlights2, -⟩ :=
    RenderForward_globals glm drv w w1 hok
  obtain ⟨hoff2, hnil, hlast, -⟩ := forwardGlobals_block drv program w w2 hglob
  have hsize2 := forwardGlobals_size drv program w w2 hglob
  obtain ⟨-, -, -, hlen3, -⟩ :=
    renderEntities_effect glm (forwardModelMatrix glm) forwardLocation program _ 0 w2 w3 hent
  have hblocks := renderEntities_blocks glm (forwardModelMatrix glm) forwardLocation program _ 0
    w2 w3 hent (by rw [halign2]; exact halign)
  have htake : (w3.app.entities.drop 0).take w2.app.entities.length = w3.app.entities := by
    rw [List.drop_zero, ← hlen3, List.take_length]
  rw [htake] at hblocks
  rw [hent1, hhead1, hsz, hoff]
  refine ⟨fun hl => ?_, fun hl => ⟨hoff2, ?_, ?_⟩⟩
  · obtain ⟨-, hcap, hgs⟩ := hlast hl
    rw [hgs, u32sub_exact _ _ (Nat.zero_le _) (by omega)]
    exact ⟨le_refl _, by simpa using hblocks⟩
  · exact (forwardGlobals_effect drv program w w2 hglob).2.2.2.2.2.2.1 hl
  · rw [hnil hl] at hblocks
    exact hblocks

/-! ## Claims on the order of the passes of a frame -/

theorem continuesWithScene_refl (calls : List GLCall) : continuesWithScene calls calls :=
  ⟨[], by simp, rfl⟩

theorem continuesWithScene_trans {a b c : List GLCall} (h1 : continuesWithScene a b)
    (h2 : continuesWithScene b c) : continuesWithScene a c := by
  obtain ⟨s1, rfl, hs1⟩ := h1
  obtain ⟨s2, rfl, hs2⟩ := h2
  exact ⟨s1 ++ s2, by rw [List.append_assoc], by rw [List.all_append, hs1, hs2]; rfl⟩

theorem continuesWithScene_append (calls seg : List GLCall) (h : seg.all isSceneCall = true) :
    continuesWithScene calls (calls ++ seg) :=
  ⟨seg, rfl, h⟩

theorem linkAttribute_scene (submesh : Submesh) (a : VertexShaderAttribute)
    (attrs : List VertexBufferAttribute) (gl : GLState) :
    continuesWithScene gl.calls (linkAttribute submesh a attrs gl).2.calls := by
  rw [linkAttribute_eq]
  split
  · exact continuesWithScene_refl _
  · rename_i b _
    exact ⟨attributeBinding submesh b, rfl, rfl⟩

theorem linkAttributes_scene (submesh : Submesh) (attrs : List VertexShaderAttribute)
    (gl gl1 : GLState) (hok : linkAttributes submesh attrs gl = .ok gl1) :
    continuesWithScene gl.calls gl1.calls := by
  induction attrs generalizing gl with
  | nil =>
    simp only [linkAttributes, Except.ok.injEq] at hok
    subst hok
    exact continuesWithScene_refl _
  | cons a rest ih =>
    simp only [linkAttributes] at hok
    split at hok
    · cases hok
    · rename_i gl2 hlink
      have h1 := linkAttribute_scene submesh a submesh.vertexBufferLayout.attributes gl
      rw [hlink] at h1
      exact continuesWithScene_trans h1 (ih gl2 hok)

theorem FindVAO_scene (mesh : Mesh) (i : Nat) (program : Program) (gl : GLState)
    (h : Nat) (mesh1 : Mesh) (gl1 : GLState)
    (hok : FindVAO mesh i program gl = .ok (h, mesh1, gl1)) :
    continuesWithScene gl.calls gl1.calls := by
  unfold FindVAO at hok
  split at hok
  · cases hok
  · rename_i submesh hsub
    split at hok
    · simp only [Except.ok.injEq, Prod.mk.injEq] at hok
      obtain ⟨_, rfl, rfl⟩ := hok
      exact continuesWithScene_refl _
    · simp only at hok
      split at hok
      · cases hok
      · rename_i gl2 hlink
        simp only [Except.ok.injEq, Prod.mk.injEq] at hok
        obtain ⟨_, rfl, rfl⟩ := hok
        obtain ⟨seg, hseg, hall⟩ := linkAttributes_scene submesh _ _ gl2 hlink
        refine ⟨[.glGenVertexArrays (gl.vertexArrays + 1),
          .glBindVertexArray (gl.vertexArrays + 1),
          .glBindBuffer .GL_ARRAY_BUFFER mesh.vertexBufferHandle,
          .glBindBuffer .GL_ELEMENT_ARRAY_BUFFER mesh.indexBufferHandle] ++ seg ++
          [.glBindVertexArray 0], ?_, ?_⟩
        · simp [GLState.issue, hseg, GLState.genVertexArray]
        · rw [List.all_append, List.all_append, hall]
          rfl

theorem drawSubmesh_scene (location : Int) (model : Model) (program : Program) (i : Nat)
    (w w1 : World) (hok : drawSubmesh location model program i w = .ok w1) :
    continuesWithScene w.gl.calls w1.gl.calls := by
  simp only [drawSubmesh, bind_eq_ok, lookup_eq_ok] at hok
  obtain ⟨mesh, hmesh, ⟨vao, mesh1, gl1⟩, hfind, matIdx, hmat, material, hmaterial,
    texture, htex, submesh, hsubmesh, hw⟩ := hok
  simp only [Except.ok.injEq] at hw
  subst hw
  obtain ⟨seg, hseg, hall⟩ := FindVAO_scene mesh i program w.gl vao mesh1 gl1 hfind
  refine ⟨seg ++ [.glBindVertexArray vao, .glActiveTexture .GL_TEXTURE0,
      .glBindTexture .GL_TEXTURE_2D texture.handle, .glUniform1i location 0,
      .glDrawElements .GL_TRIANGLES submesh.indices.length .GL_UNSIGNED_INT submesh.indexOffset],
    ?_, ?_⟩
  · simp [World.issue, GLState.issue, hseg]
  · rw [List.all_append, hall]
    rfl

theorem drawSubmeshes_scene (location : Int) (model : Model) (program : Program)
    (indices : List Nat) :
    ∀ (w w1 : World), drawSubmeshes location model program indices w = .ok w1 →
      continuesWithScene w.gl.calls w1.gl.calls := by
  induction indices with
  | nil =>
    intro w w1 hok
    simp only [drawSubmeshes, Except.ok.injEq] at hok
    subst hok
    exact continuesWithScene_refl _
  | cons i rest ih =>
    intro w w1 hok
    simp only [drawSubmeshes, bind_eq_ok] at hok
    obtain ⟨w2, hstep, hrest⟩ := hok
    exact continuesWithScene_trans (drawSubmesh_scene _ _ _ _ _ _ hstep) (ih _ _ hrest)

theorem renderEntity_scene (glm : Glm) (modelMatrix : Entity → mat4) (location : App → Int)
    (program : Program) (i : Nat) (w w1 : World)
    (hok : renderEntity glm modelMatrix location program i w = .ok w1) :
    continuesWithScene w.gl.calls w1.gl.calls := by
  simp only [renderEntity, bind_eq_ok, lookup_eq_ok] at hok
  obtain ⟨e, he, model, hmodel, mesh, hmesh, b1, hb1, b2, hb2, hloop⟩ := hok
  have h := drawSubmeshes_scene _ _ _ _ _ _ hloop
  simp only [World.issue_calls] at h
  refine continuesWithScene_trans ?_ h
  rw [List.append_assoc]
  exact continuesWithScene_append _ _ rfl

theorem renderEntities_scene (glm : Glm) (modelMatrix : Entity → mat4) (location : App → Int)
    (program : Program) (indices : List Nat) :
    ∀ (w w1 : World), renderEntities glm modelMatrix location program indices w = .ok w1 →
      continuesWithScene w.gl.calls w1.gl.calls := by
  induction indices with
  | nil =>
    intro w w1 hok
    simp only [renderEntities, Except.ok.injEq] at hok
    subst hok
    exact continuesWithScene_refl _
  | cons i rest ih =>
    intro w w1 hok
    simp only [renderEntities, bind_eq_ok] at hok
    obtain ⟨w2, hstep, hrest⟩ := hok
    exact continuesWithScene_trans (renderEntity_scene _ _ _ _ _ _ _ hstep) (ih _ _ hrest)

theorem RenderCubeMap_scene (glm : Glm) (w : World) :
    continuesWithScene w.gl.calls (RenderCubeMap glm w).gl.calls := by
  simp only [RenderCubeMap, World.issue_calls, World.issue_app, World.issue_globals,
    List.append_assoc]
  exact continuesWithScene_append _ _ rfl

theorem frameCalls_RenderCubeMap_scene (glm : Glm) (w : World) :
    (frameCalls w (RenderCubeMap glm w)).all isSceneCall = true := by
  obtain ⟨seg, hc, hall⟩ := RenderCubeMap_scene glm w
  rw [frameCalls_append _ _ seg hc]
  exact hall

theorem deferredGlobals_scene (glm : Glm) (drv : Driver) (program : Program) (w w1 : World)
    (hok : deferredGlobals glm drv program w = .ok w1) :
    continuesWithScene w.gl.calls w1.gl.calls := by
  simp only [deferredGlobals, bind_eq_ok, lookup_eq_ok] at hok
  obtain ⟨b1, hb1, b2, hb2, t1, ht1, t2, ht2, t3, ht3, hw⟩ := hok
  simp only [Except.ok.injEq] at hw
  subst hw
  simp only [World.issue_calls, ite_RenderCubeMap_calls, World.issue_app, List.append_assoc]
  refine ⟨_, rfl, ?_⟩
  by_cases hcm : w.app.showCubeMap = true
  · simp only [hcm, if_true, List.all_append, frameCalls_RenderCubeMap_scene]
    rfl
  · simp only [hcm, if_false]
    rfl

theorem renderQuad_scene (w : World) :
    ∃ seg, (renderQuad w).gl.calls = w.gl.calls ++ seg ∧ seg.all isSceneCall = true ∧
      seg.filter isSamplingCall = [.glDrawArrays .GL_TRIANGLE_STRIP 0 4] := by
  unfold renderQuad
  split
  · simp only [World.issue_calls, World.issue_globals, GLState.genVertexArray,
      GLState.genBuffer, List.append_assoc]
    exact ⟨_, rfl, rfl, rfl⟩
  · simp only [World.issue_calls, World.issue_globals, List.append_assoc]
    exact ⟨_, rfl, rfl, rfl⟩

theorem RenderCube_scene (w : World) :
    continuesWithScene w.gl.calls (RenderCube w).gl.calls := by
  unfold RenderCube
  split
  · simp only [World.issue_calls, World.issue_globals, GLState.genVertexArray,
      GLState.genBuffer, List.append_assoc]
    exact ⟨_, rfl, rfl⟩
  · simp only [World.issue_calls, World.issue_globals, List.append_assoc]
    exact ⟨_, rfl, rfl⟩

theorem RenderSphere_scene (w : World) :
    continuesWithScene w.gl.calls (RenderSphere w).gl.calls := by
  unfold RenderSphere
  split
  · simp only [World.issue_calls, World.issue_globals, GLState.genVertexArray,
      GLState.genBuffer, List.append_assoc]
    exact ⟨_, rfl, rfl⟩
  · simp only [World.issue_calls, World.issue_globals, List.append_assoc]
    exact ⟨_, rfl, rfl⟩

theorem drawGizmo_scene (glm : Glm) (light : Light) (w : World) :
    continuesWithScene w.gl.calls (drawGizmo glm light w).gl.calls := by
  unfold drawGizmo
  have h0 : continuesWithScene w.gl.calls
      ((w.issue (.glUniformMatrix4fv (toGLint w.app.drawLightsProgramIdx_uModel) 1 false
        (glm.translate mat4_identity light.position))).issue
        (.glUniform3fv (toGLint w.app.drawLightsProgramIdx_uLightColor) 1 light.color)).gl.calls := by
    simp only [World.issue_calls, List.append_assoc]
    exact continuesWithScene_append _ _ rfl
  split
  · exact continuesWithScene_trans h0 (RenderCube_scene _)
  · exact continuesWithScene_trans h0 (RenderSphere_scene _)

theorem drawGizmos_scene (glm : Glm) (lights : List Light) :
    ∀ w : World, continuesWithScene w.gl.calls (drawGizmos glm lights w).gl.calls := by
  induction lights with
  | nil => intro w; exact continuesWithScene_refl _
  | cons light rest ih =>
    intro w
    exact continuesWithScene_trans (drawGizmo_scene glm light w) (ih _)

theorem deferredGizmos_scene (glm : Glm) (w w1 : World) (hok : deferredGizmos glm w = .ok w1) :
    continuesWithScene w.gl.calls w1.gl.calls := by
  unfold deferredGizmos at hok
  by_cases hg : w.app.showGizmo = true
  · simp only [hg, if_true, bind_eq_ok, lookup_eq_ok] at hok
    obtain ⟨program, -, hw⟩ := hok
    have hw1 := (Except.ok.inj hw).symm
    subst hw1
    refine continuesWithScene_trans ?_ (drawGizmos_scene glm _ _)
    simp only [World.issue_calls, List.append_assoc]
    exact continuesWithScene_append _ _ rfl
  · simp only [hg, if_false] at hok
    have hw1 := (Except.ok.inj hok).symm
    subst hw1
    exact continuesWithScene_refl _

theorem isEvent_of_scene_pass (c : GLCall) (hs : isSceneCall c = true)
    (hp : isPassCall c = true) : isEvent c = true := by
  cases c <;> simp_all [isSceneCall, isPassCall, isEvent]

/-- Among commands of the scene, the commands of a pass are events. -/
theorem filter_isPassCall_scene (seg : List GLCall) (h : seg.all isSceneCall = true) :
    seg.filter isPassCall = (events seg).filter isPassCall := by
  rw [events, List.filter_filter]
  apply List.filter_congr
  intro c hc
  have hs : isSceneCall c = true := List.all_eq_true.1 h c hc
  cases hp : isPassCall c
  · rfl
  · rw [isEvent_of_scene_pass c hs hp]
    rfl

theorem filter_isPassCall_entityDraws (models : List Model) (geometry : List (List (Nat × Nat)))
    (modelId : Nat) :
    (entityDraws models geometry modelId).filter isPassCall = entityDraws models geometry modelId := by
  rw [List.filter_eq_self]
  intro c hc
  obtain ⟨_, _, rfl⟩ := mem_entityDraws _ _ _ c hc
  rfl

theorem filter_isPassCall_entityEvents (handle : Nat) (models : List Model)
    (geometry : List (List (Nat × Nat))) (off size : Nat) (entities : List Entity) :
    (entityEvents handle models geometry off size entities).filter isPassCall =
      entities.flatMap fun e => entityDraws models geometry e.modelId := by
  induction entities with
  | nil => rfl
  | cons e rest ih =>
    rw [entityEvents_cons, List.filter_append, List.filter_append, ih,
      filter_isPassCall_entityDraws, List.flatMap_cons]
    rfl

theorem isPassCall_gizmoDraw (count : Nat) (light : Light) :
    isPassCall (gizmoDraw count light) = true := by
  unfold gizmoDraw
  cases light.type <;> rfl

theorem filter_isPassCall_gizmoEvents (glm : Glm) (app : App) (count : Nat) :
    (gizmoEvents glm app count).filter isPassCall =
      if app.showGizmo then app.lights.map (gizmoDraw count) else [] := by
  unfold gizmoEvents
  split
  · rw [List.filter_cons_of_neg (by simp [isPassCall])]
    induction app.lights with
    | nil => rfl
    | cons light rest ih =>
      rw [List.flatMap_cons, List.filter_append, ih, List.map_cons,
        List.filter_cons_of_neg (by simp [isPassCall]),
        List.filter_cons_of_neg (by simp [isPassCall]),
        List.filter_cons_of_pos (isPassCall_gizmoDraw _ _)]
      rfl
  · rfl

theorem renderPrologue_exact (w : World) :
    (renderPrologue w).gl.calls = w.gl.calls ++
      [.glBindFramebuffer .GL_FRAMEBUFFER w.app.frameBufferController,
       .glDrawBuffers [.GL_COLOR_ATTACHMENT0, .GL_COLOR_ATTACHMENT1, .GL_COLOR_ATTACHMENT2,
         .GL_COLOR_ATTACHMENT3],
       .glClearColor 0x3e4ccccd 0x3e4ccccd 0x3e4ccccd 0x3f800000,
       .glClear [.GL_COLOR_BUFFER_BIT, .GL_DEPTH_BUFFER_BIT],
       .glViewport 0 0 w.app.displaySize.x w.app.displaySize.y,
       .glEnable .GL_BLEND,
       .glBlendFunc .GL_SRC_ALPHA .GL_ONE_MINUS_SRC_ALPHA,
       .glEnable .GL_DEPTH_TEST] := by
  simp only [renderPrologue, World.issue_calls, World.issue_app, List.append_assoc]
  rfl

/-- The commands of the lighting pass of the DEFERRED branch, up to the binding
of its global block. -/
theorem deferredLighting_exact (w w1 : World) (hok : deferredLighting w = .ok w1) :
    ∃ lightsProgram, w.app.programs[w.app.lightsProgramIdx]? = some lightsProgram ∧
      w1.gl.calls = w.gl.calls ++
        [.glBindFramebuffer .GL_FRAMEBUFFER 0,
         .glClear [.GL_COLOR_BUFFER_BIT, .GL_DEPTH_BUFFER_BIT],
         .glUseProgram lightsProgram.handle,
         .glUniform1i (toGLint w.app.texturedMeshProgramIdx_uPosition) 0,
         .glActiveTexture .GL_TEXTURE0,
         .glBindTexture .GL_TEXTURE_2D w.app.positionController,
         .glUniform1i (toGLint w.app.texturedMeshProgramIdx_uNormals) 1,
         .glActiveTexture .GL_TEXTURE1,
         .glBindTexture .GL_TEXTURE_2D w.app.normalsController,
         .glUniform1i (toGLint w.app.texturedMeshProgramIdx_uAlbedo) 2,
         .glActiveTexture .GL_TEXTURE2,
         .glBindTexture .GL_TEXTURE_2D w.app.albedoController,
         .glBindBufferRange .GL_UNIFORM_BUFFER 0 w.app.cBuffer.handle
           w1.app.globalParamsOffset w1.app.globalParamsSize] := by
  obtain ⟨-, -, -, -, hh, -⟩ := deferredLighting_effect w w1 hok
  simp only [deferredLighting, bind_eq_ok, lookup_eq_ok, World.issue_app] at hok
  obtain ⟨lightsProgram, hprog, b1, hb1, b2, hb2, b3, hb3, hw⟩ := hok
  simp only [Except.ok.injEq] at hw
  refine ⟨lightsProgram, hprog, ?_⟩
  rw [← hh]
  subst hw
  simp only [World.issue_calls, World.issue_app, List.append_assoc]
  rfl

theorem deferredQuadAndBlit_exact (w : World) :
    ∃ quad, (deferredQuadAndBlit w).gl.calls = w.gl.calls ++ (quad ++
        [.glBindFramebuffer .GL_READ_FRAMEBUFFER w.app.frameBufferController,
         .glBindFramebuffer .GL_DRAW_FRAMEBUFFER 0,
         .glBlitFramebuffer 0 0 w.app.displaySize.x w.app.displaySize.y
           0 0 w.app.displaySize.x w.app.displaySize.y [.GL_DEPTH_BUFFER_BIT] .GL_NEAREST,
         .glBindFramebuffer .GL_FRAMEBUFFER 0]) ∧
      quad.all isSceneCall = true ∧
      quad.filter isSamplingCall = [.glDrawArrays .GL_TRIANGLE_STRIP 0 4] ∧
      events quad = [.glDrawArrays .GL_TRIANGLE_STRIP 0 4] := by
  obtain ⟨quad, hc, hall, hsamp⟩ := renderQuad_scene
    { w with app := { w.app with cBuffer := UnmapBuffer w.app.cBuffer } }
  obtain ⟨quad1, hc1, hev⟩ := renderQuad_calls
    { w with app := { w.app with cBuffer := UnmapBuffer w.app.cBuffer } }
  have hq : quad1 = quad := List.append_cancel_left (hc1.symm.trans hc)
  subst hq
  refine ⟨quad1, ?_, hall, hsamp, hev⟩
  simp only [deferredQuadAndBlit, World.issue_calls, World.issue_app, renderQuad_app, hc,
    List.append_assoc]
  rfl

/-- The commands of a DEFERRED branch that returns, part by part: the geometry
pass, the lighting pass up to its quad, the quad, the depth blit, the
gizmos. -/
theorem RenderDeferred_parts (glm : Glm) (drv : Driver) (w w1 : World)
    (hok : RenderDeferred glm drv w = .ok w1) :
    ∃ lightsProgram geometry quad gizmos,
      w.app.programs[w.app.lightsProgramIdx]? = some lightsProgram ∧
      w1.gl.calls = w.gl.calls ++ (geometry ++
        ([.glBindFramebuffer .GL_FRAMEBUFFER 0,
          .glClear [.GL_COLOR_BUFFER_BIT, .GL_DEPTH_BUFFER_BIT],
          .glUseProgram lightsProgram.handle,
          .glUniform1i (toGLint w.app.texturedMeshProgramIdx_uPosition) 0,
          .glActiveTexture .GL_TEXTURE0,
          .glBindTexture .GL_TEXTURE_2D w.app.positionController,
          .glUniform1i (toGLint w.app.texturedMeshProgramIdx_uNormals) 1,
          .glActiveTexture .GL_TEXTURE1,
          .glBindTexture .GL_TEXTURE_2D w.app.normalsController,
          .glUniform1i (toGLint w.app.texturedMeshProgramIdx_uAlbedo) 2,
          .glActiveTexture .GL_TEXTURE2,
          .glBindTexture .GL_TEXTURE_2D w.app.albedoController,
          .glBindBufferRange .GL_UNIFORM_BUFFER 0 w.app.cBuffer.handle
            w1.app.globalParamsOffset w1.app.globalParamsSize] ++
        (quad ++
        ([.glBindFramebuffer .GL_READ_FRAMEBUFFER w.app.frameBufferController,
          .glBindFramebuffer .GL_DRAW_FRAMEBUFFER 0,
          .glBlitFramebuffer 0 0 w.app.displaySize.x w.app.displaySize.y
            0 0 w.app.displaySize.x w.app.displaySize.y [.GL_DEPTH_BUFFER_BIT] .GL_NEAREST,
          .glBindFramebuffer .GL_FRAMEBUFFER 0] ++ gizmos)))) ∧
      geometry.all isSceneCall = true ∧ quad.all isSceneCall = true ∧
      gizmos.all isSceneCall = true ∧
      events geometry =
        (if w.app.showCubeMap then
          [.glDrawArrays .GL_TRIANGLES 0 36, .glDrawArrays .GL_TRIANGLES 0 36] else []) ++
        entityEvents w.app.cBuffer.handle w.app.models (meshGeometry w.app.meshes) 0 16
          w1.app.entities ∧
      quad.filter isSamplingCall = [.glDrawArrays .GL_TRIANGLE_STRIP 0 4] ∧
      events quad = [.glDrawArrays .GL_TRIANGLE_STRIP 0 4] ∧
      events gizmos = gizmoEvents glm w.app (sphereCount w.globals) := by
  simp only [RenderDeferred, bind_eq_ok, lookup_eq_ok] at hok
  obtain ⟨program, -, wa, hglob, wb, hent, wc, hlight, hgiz⟩ := hok
  obtain ⟨⟨sega, hca, hea⟩, hsa, henta, hmesha, hoffa, hsza, hha, -, hda, hga, hla⟩ :=
    deferredGlobals_effect glm drv program w wa hglob
  obtain ⟨sega1, hca1, halla⟩ := deferredGlobals_scene glm drv program w wa hglob
  obtain ⟨segb1, hcb1, hallb⟩ :=
    renderEntities_scene glm deferredModelMatrix deferredLocation program _ wa wb hent
  rw [List.range_eq_range'] at hent
  obtain ⟨-, ⟨segb, hcb, heb⟩, halb, hlenb, hsb, -, -, -, hhb, -, hdb, hgb, hlb⟩ :=
    renderEntities_effect glm deferredModelMatrix deferredLocation program _ 0 wa wb hent
  obtain ⟨-, hsc, hentc, -, hhc, -, -, hgc, hlc⟩ := deferredLighting_effect wb wc hlight
  obtain ⟨lightsProgram, hprog, hcc⟩ := deferredLighting_exact wb wc hlight
  obtain ⟨quad, hcd, hqall, hqsamp, hqev⟩ := deferredQuadAndBlit_exact wc
  obtain ⟨-, happd, -, hcountd⟩ := deferredQuadAndBlit_effect wc
  obtain ⟨⟨sege, hce, hee⟩, happe, hle⟩ := deferredGizmos_effect glm _ w1 hgiz
  obtain ⟨sege1, hce1, halle⟩ := deferredGizmos_scene glm _ w1 hgiz
  have hqa : sega1 = sega := List.append_cancel_left (hca1.symm.trans hca)
  have hqb : segb1 = segb := List.append_cancel_left (hcb1.symm.trans hcb)
  have hqe : sege1 = sege := List.append_cancel_left (hce1.symm.trans hce)
  subst hqa hqb hqe
  have hsab : w.app.sameScene wb.app := App.sameScene_trans hsa hsb
  have hscene_c : w.app.sameScene wc.app := App.sameScene_trans hsab hsc
  have hsd : wc.app.sameScene (deferredQuadAndBlit wc).app := by
    rw [happd]
    exact App.sameScene_withScratch _ _ _ _ _ _
  have hscene_d : w.app.sameScene (deferredQuadAndBlit wc).app := App.sameScene_trans hscene_c hsd
  have hent1 : w1.app.entities = wb.app.entities := by
    rw [happe, happd, ← hentc]
    rfl
  have hoff1 : w1.app.globalParamsOffset = wc.app.globalParamsOffset := by
    rw [happe, happd]
    rfl
  have hsz1 : w1.app.globalParamsSize = wc.app.globalParamsSize := by
    rw [happe, happd]
    rfl
  have htake : (wb.app.entities.drop 0).take wa.app.entities.length = wb.app.entities := by
    rw [List.drop_zero, ← hlenb, List.take_length]
  rw [htake] at heb
  have hp1 : wb.app.programs = w.app.programs := (congrArg App.programs hsab).trans rfl
  have hp2 : wb.app.lightsProgramIdx = w.app.lightsProgramIdx :=
    (congrArg App.lightsProgramIdx hsab).trans rfl
  have hp3 : wb.app.texturedMeshProgramIdx_uPosition = w.app.texturedMeshProgramIdx_uPosition :=
    (congrArg App.texturedMeshProgramIdx_uPosition hsab).trans rfl
  have hp4 : wb.app.texturedMeshProgramIdx_uNormals = w.app.texturedMeshProgramIdx_uNormals :=
    (congrArg App.texturedMeshProgramIdx_uNormals hsab).trans rfl
  have hp5 : wb.app.texturedMeshProgramIdx_uAlbedo = w.app.texturedMeshProgramIdx_uAlbedo :=
    (congrArg App.texturedMeshProgramIdx_uAlbedo hsab).trans rfl
  have hp6 : wb.app.positionController = w.app.positionController :=
    (congrArg App.positionController hsab).trans rfl
  have hp7 : wb.app.normalsController = w.app.normalsController :=
    (congrArg App.normalsController hsab).trans rfl
  have hp8 : wb.app.albedoController = w.app.albedoController :=
    (congrArg App.albedoController hsab).trans rfl
  refine ⟨lightsProgram, sega1 ++ segb1, quad, sege1, ?_, ?_, ?_, hqall, halle, ?_, hqsamp, hqev,
    ?_⟩
  · rw [← hp1, ← hp2]
    exact hprog
  · rw [hce, hcd, hcc, hcb, hca, hp3, hp4, hp5, hp6, hp7, hp8, hhb, hha, hoff1, hsz1,
      App.sameScene_frameBufferController hscene_c, App.sameScene_displaySize hscene_c]
    simp only [List.append_assoc]
  · rw [List.all_append, halla, hallb]
    rfl
  · rw [events_append, hea, heb, hha, App.sameScene_models hsa, hmesha, hoffa, hsza, hent1]
  · rw [hee, gizmoEvents_sameScene glm hscene_d, hcountd, hgc, hgb, hga]

theorem isDraw_of_scene_pass (c : GLCall) (hs : isSceneCall c = true)
    (hp : isPassCall c = true) :
    (∃ mode count type indices, c = .glDrawElements mode count type indices) ∨
    ∃ mode first count, c = .glDrawArrays mode first count := by
  cases c <;> simp_all [isSceneCall, isPassCall]

/-- C23: the commands of a DEFERRED frame that returns are, in order: the
prologue, which binds the framebuffer of the G-buffer, gives it the four colour
attachments as draw buffers and clears it; the geometry pass; the lighting
pass, which binds the default framebuffer, clears it, chooses the lights
program and binds the position, normals and albedo images to the texture units
0, 1 and 2; the full-screen quad; the blit of the depth buffer from the
framebuffer of the G-buffer to the default one; the gizmos.  The geometry pass,
the quad and the gizmos are commands of the scene only: none of them binds a
framebuffer, chooses draw buffers, clears or blits, and the only commands of a
pass among them are draws.  The draws of the geometry pass are those of the
cube map, when shown, and one per submesh of every entity; the quad part holds
one draw, the strip of four vertices, and no command that changes a program, a
sampler or a texture binding; the draws of the gizmos are one per light. -/
theorem Deferred_pass_order (glm : Glm) (drv : Driver) (w w1 : World)
    (hmode : w.app.mode = .DEFERRED) (hok : Render glm drv w = .ok w1) :
    ∃ lightsProgram geometry quad gizmos,
      w.app.programs[w.app.lightsProgramIdx]? = some lightsProgram ∧
      frameCalls w w1 =
        [.glBindFramebuffer .GL_FRAMEBUFFER w.app.frameBufferController,
         .glDrawBuffers [.GL_COLOR_ATTACHMENT0, .GL_COLOR_ATTACHMENT1, .GL_COLOR_ATTACHMENT2,
           .GL_COLOR_ATTACHMENT3],
         .glClearColor 0x3e4ccccd 0x3e4ccccd 0x3e4ccccd 0x3f800000,
         .glClear [.GL_COLOR_BUFFER_BIT, .GL_DEPTH_BUFFER_BIT],
         .glViewport 0 0 w.app.displaySize.x w.app.displaySize.y,
         .glEnable .GL_BLEND,
         .glBlendFunc .GL_SRC_ALPHA .GL_ONE_MINUS_SRC_ALPHA,
         .glEnable .GL_DEPTH_TEST] ++ (geometry ++
        ([.glBindFramebuffer .GL_FRAMEBUFFER 0,
          .glClear [.GL_COLOR_BUFFER_BIT, .GL_DEPTH_BUFFER_BIT],
          .glUseProgram lightsProgram.handle,
          .glUniform1i (toGLint w.app.texturedMeshProgramIdx_uPosition) 0,
          .glActiveTexture .GL_TEXTURE0,
          .glBindTexture .GL_TEXTURE_2D w.app.positionController,
          .glUniform1i (toGLint w.app.texturedMeshProgramIdx_uNormals) 1,
          .glActiveTexture .GL_TEXTURE1,
          .glBindTexture .GL_TEXTURE_2D w.app.normalsController,
          .glUniform1i (toGLint w.app.texturedMeshProgramIdx_uAlbedo) 2,
          .glActiveTexture .GL_TEXTURE2,
          .glBindTexture .GL_TEXTURE_2D w.app.albedoController,
          .glBindBufferRange .GL_UNIFORM_BUFFER 0 w.app.cBuffer.handle
            w1.app.globalParamsOffset w1.app.globalParamsSize] ++
        (quad ++
        ([.glBindFramebuffer .GL_READ_FRAMEBUFFER w.app.frameBufferController,
          .glBindFramebuffer .GL_DRAW_FRAMEBUFFER 0,
          .glBlitFramebuffer 0 0 w.app.displaySize.x w.app.displaySize.y
            0 0 w.app.displaySize.x w.app.displaySize.y [.GL_DEPTH_BUFFER_BIT] .GL_NEAREST,
          .glBindFramebuffer .GL_FRAMEBUFFER 0] ++ gizmos)))) ∧
      geometry.all isSceneCall = true ∧ quad.all isSceneCall = true ∧
      gizmos.all isSceneCall = true ∧
      (∀ c, isSceneCall c = true → isPassCall c = true →
        (∃ mode count type indices, c = .glDrawElements mode count type indices) ∨
        ∃ mode first count, c = .glDrawArrays mode first count) ∧
      geometry.filter isPassCall =
        (if w.app.showCubeMap then
          [.glDrawArrays .GL_TRIANGLES 0 36, .glDrawArrays .GL_TRIANGLES 0 36] else []) ++
        (w1.app.entities.flatMap fun e =>
          entityDraws w.app.models (meshGeometry w.app.meshes) e.modelId) ∧
      quad.filter isPassCall = [.glDrawArrays .GL_TRIANGLE_STRIP 0 4] ∧
      quad.filter isSamplingCall = [.glDrawArrays .GL_TRIANGLE_STRIP 0 4] ∧
      gizmos.filter isPassCall =
        (if w.app.showGizmo then w.app.lights.map (gizmoDraw (sphereCount w.globals)) else []) ∧
      (frameCalls w w1).filter isPassCall =
        [.glBindFramebuffer .GL_FRAMEBUFFER w.app.frameBufferController,
         .glDrawBuffers [.GL_COLOR_ATTACHMENT0, .GL_COLOR_ATTACHMENT1, .GL_COLOR_ATTACHMENT2,
           .GL_COLOR_ATTACHMENT3],
         .glClear [.GL_COLOR_BUFFER_BIT, .GL_DEPTH_BUFFER_BIT]] ++
        ((if w.app.showCubeMap then
          [.glDrawArrays .GL_TRIANGLES 0 36, .glDrawArrays .GL_TRIANGLES 0 36] else []) ++
        (w1.app.entities.flatMap fun e =>
          entityDraws w.app.models (meshGeometry w.app.meshes) e.modelId)) ++
        [.glBindFramebuffer .GL_FRAMEBUFFER 0,
         .glClear [.GL_COLOR_BUFFER_BIT, .GL_DEPTH_BUFFER_BIT],
         .glDrawArrays .GL_TRIANGLE_STRIP 0 4,
         .glBindFramebuffer .GL_READ_FRAMEBUFFER w.app.frameBufferController,
         .glBindFramebuffer .GL_DRAW_FRAMEBUFFER 0,
         .glBlitFramebuffer 0 0 w.app.displaySize.x w.app.displaySize.y
           0 0 w.app.displaySize.x w.app.displaySize.y [.GL_DEPTH_BUFFER_BIT] .GL_NEAREST,
         .glBindFramebuffer .GL_FRAMEBUFFER 0] ++
        (if w.app.showGizmo then w.app.lights.map (gizmoDraw (sphereCount w.globals)) else []) := by
  rw [Render_deferred glm drv w hmode] at hok
  obtain ⟨lightsProgram, geometry, quad, gizmos, hprog, hcalls, hgall, hqall, hzall, hgev, hqsamp,
    hqev, hzev⟩ := RenderDeferred_parts glm drv _ w1 hok
  simp only [renderPrologue_app, renderPrologue_globals] at hprog hcalls hgev hzev
  rw [renderPrologue_exact, List.append_assoc] at hcalls
  have hframe := frameCalls_append w w1 _ hcalls
  have hgpass : geometry.filter isPassCall =
      (if w.app.showCubeMap then
        [.glDrawArrays .GL_TRIANGLES 0 36, .glDrawArrays .GL_TRIANGLES 0 36] else []) ++
      (w1.app.entities.flatMap fun e =>
        entityDraws w.app.models (meshGeometry w.app.meshes) e.modelId) := by
    rw [filter_isPassCall_scene geometry hgall, hgev, List.filter_append,
      filter_isPassCall_entityEvents]
    congr 1
    split <;> rfl
  have hqpass : quad.filter isPassCall = [.glDrawArrays .GL_TRIANGLE_STRIP 0 4] := by
    rw [filter_isPassCall_scene quad hqall, hqev]
    rfl
  have hzpass : gizmos.filter isPassCall =
      (if w.app.showGizmo then w.app.lights.map (gizmoDraw (sphereCount w.globals)) else []) := by
    rw [filter_isPassCall_scene gizmos hzall, hzev, filter_isPassCall_gizmoEvents]
  refine ⟨lightsProgram, geometry, quad, gizmos, hprog, hframe, hgall, hqall, hzall,
    isDraw_of_scene_pass, hgpass, hqpass, hqsamp, hzpass, ?_⟩
  rw [hframe]
  simp only [List.filter_append, hgpass, hqpass, hzpass, List.filter_cons, List.filter_nil,
    isPassCall, if_true, Bool.false_eq_true, if_false, List.append_assoc, List.cons_append,
    List.nil_append]

set_option maxRecDepth 100000 in
theorem Deferred_pass_order_witness :
    (frameCalls sceneWorld sceneFrame).filter isPassCall =
      [.glBindFramebuffer .GL_FRAMEBUFFER 1,
       .glDrawBuffers [.GL_COLOR_ATTACHMENT0, .GL_COLOR_ATTACHMENT1, .GL_COLOR_ATTACHMENT2,
         .GL_COLOR_ATTACHMENT3],
       .glClear [.GL_COLOR_BUFFER_BIT, .GL_DEPTH_BUFFER_BIT],
       .glDrawElements .GL_TRIANGLES 6 .GL_UNSIGNED_INT 0,
       .glBindFramebuffer .GL_FRAMEBUFFER 0,
       .glClear [.GL_COLOR_BUFFER_BIT, .GL_DEPTH_BUFFER_BIT],
       .glDrawArrays .GL_TRIANGLE_STRIP 0 4,
       .glBindFramebuffer .GL_READ_FRAMEBUFFER 1,
       .glBindFramebuffer .GL_DRAW_FRAMEBUFFER 0,
       .glBlitFramebuffer 0 0 800 600 0 0 800 600 [.GL_DEPTH_BUFFER_BIT] .GL_NEAREST,
       .glBindFramebuffer .GL_FRAMEBUFFER 0,
       .glDrawArrays .GL_TRIANGLES 0 36,
       .glDrawElements .GL_TRIANGLE_STRIP 1088 .GL_UNSIGNED_INT 0,
       .glDrawElements .GL_TRIANGLE_STRIP 1088 .GL_UNSIGNED_INT 0,
       .glDrawElements .GL_TRIANGLE_STRIP 1088 .GL_UNSIGNED_INT 0,
       .glDrawElements .GL_TRIANGLE_STRIP 1088 .GL_UNSIGNED_INT 0,
       .glDrawElements .GL_TRIANGLE_STRIP 1088 .GL_UNSIGNED_INT 0,
       .glDrawElements .GL_TRIANGLE_STRIP 1088 .GL_UNSIGNED_INT 0] ∧
    ∃ lightsProgram geometry quad gizmos,
      sceneWorld.app.programs[sceneWorld.app.lightsProgramIdx]? = some lightsProgram ∧
      frameCalls sceneWorld sceneFrame =
        [.glBindFramebuffer .GL_FRAMEBUFFER sceneWorld.app.frameBufferController,
         .glDrawBuffers [.GL_COLOR_ATTACHMENT0, .GL_COLOR_ATTACHMENT1, .GL_COLOR_ATTACHMENT2,
           .GL_COLOR_ATTACHMENT3],
         .glClearColor 0x3e4ccccd 0x3e4ccccd 0x3e4ccccd 0x3f800000,
         .glClear [.GL_COLOR_BUFFER_BIT, .GL_DEPTH_BUFFER_BIT],
         .glViewport 0 0 sceneWorld.app.displaySize.x sceneWorld.app.displaySize.y,
         .glEnable .GL_BLEND,
         .glBlendFunc .GL_SRC_ALPHA .GL_ONE_MINUS_SRC_ALPHA,
         .glEnable .GL_DEPTH_TEST] ++ (geometry ++
        ([.glBindFramebuffer .GL_FRAMEBUFFER 0,
          .glClear [.GL_COLOR_BUFFER_BIT, .GL_DEPTH_BUFFER_BIT],
          .glUseProgram lightsProgram.handle,
          .glUniform1i (toGLint sceneWorld.app.texturedMeshProgramIdx_uPosition) 0,
          .glActiveTexture .GL_TEXTURE0,
          .glBindTexture .GL_TEXTURE_2D sceneWorld.app.positionController,
          .glUniform1i (toGLint sceneWorld.app.texturedMeshProgramIdx_uNormals) 1,
          .glActiveTexture .GL_TEXTURE1,
          .glBindTexture .GL_TEXTURE_2D sceneWorld.app.normalsController,
          .glUniform1i (toGLint sceneWorld.app.texturedMeshProgramIdx_uAlbedo) 2,
          .glActiveTexture .GL_TEXTURE2,
          .glBindTexture .GL_TEXTURE_2D sceneWorld.app.albedoController,
          .glBindBufferRange .GL_UNIFORM_BUFFER 0 sceneWorld.app.cBuffer.handle
            sceneFrame.app.globalParamsOffset sceneFrame.app.globalParamsSize] ++
        (quad ++
        ([.glBindFramebuffer .GL_READ_FRAMEBUFFER sceneWorld.app.frameBufferController,
          .glBindFramebuffer .GL_DRAW_FRAMEBUFFER 0,
          .glBlitFramebuffer 0 0 sceneWorld.app.displaySize.x sceneWorld.app.displaySize.y
            0 0 sceneWorld.app.displaySize.x sceneWorld.app.displaySize.y [.GL_DEPTH_BUFFER_BIT] .GL_NEAREST,
          .glBindFramebuffer .GL_FRAMEBUFFER 0] ++ gizmos)))) ∧
      geometry.all isSceneCall = true ∧ quad.all isSceneCall = true ∧
      gizmos.all isSceneCall = true ∧
      (∀ c, isSceneCall c = true → isPassCall c = true →
        (∃ mode count type indices, c = .glDrawElements mode count type indices) ∨
        ∃ mode first count, c = .glDrawArrays mode first count) ∧
      geometry.filter isPassCall =
        (if sceneWorld.app.showCubeMap then
          [.glDrawArrays .GL_TRIANGLES 0 36, .glDrawArrays .GL_TRIANGLES 0 36] else []) ++
        (sceneFrame.app.entities.flatMap fun e =>
          entityDraws sceneWorld.app.models (meshGeometry sceneWorld.app.meshes) e.modelId) ∧
      quad.filter isPassCall = [.glDrawArrays .GL_TRIANGLE_STRIP 0 4] ∧
      quad.filter isSamplingCall = [.glDrawArrays .GL_TRIANGLE_STRIP 0 4] ∧
      gizmos.filter isPassCall =
        (if sceneWorld.app.showGizmo then sceneWorld.app.lights.map (gizmoDraw (sphereCount sceneWorld.globals)) else []) ∧
      (frameCalls sceneWorld sceneFrame).filter isPassCall =
        [.glBindFramebuffer .GL_FRAMEBUFFER sceneWorld.app.frameBufferController,
         .glDrawBuffers [.GL_COLOR_ATTACHMENT0, .GL_COLOR_ATTACHMENT1, .GL_COLOR_ATTACHMENT2,
           .GL_COLOR_ATTACHMENT3],
         .glClear [.GL_COLOR_BUFFER_BIT, .GL_DEPTH_BUFFER_BIT]] ++
        ((if sceneWorld.app.showCubeMap then
          [.glDrawArrays .GL_TRIANGLES 0 36, .glDrawArrays .GL_TRIANGLES 0 36] else []) ++
        (sceneFrame.app.entities.flatMap fun e =>
          entityDraws sceneWorld.app.models (meshGeometry sceneWorld.app.meshes) e.modelId)) ++
        [.glBindFramebuffer .GL_FRAMEBUFFER 0,
         .glClear [.GL_COLOR_BUFFER_BIT, .GL_DEPTH_BUFFER_BIT],
         .glDrawArrays .GL_TRIANGLE_STRIP 0 4,
         .glBindFramebuffer .GL_READ_FRAMEBUFFER sceneWorld.app.frameBufferController,
         .glBindFramebuffer .GL_DRAW_FRAMEBUFFER 0,
         .glBlitFramebuffer 0 0 sceneWorld.app.displaySize.x sceneWorld.app.displaySize.y
           0 0 sceneWorld.app.displaySize.x sceneWorld.app.displaySize.y [.GL_DEPTH_BUFFER_BIT] .GL_NEAREST,
         .glBindFramebuffer .GL_FRAMEBUFFER 0] ++
        (if sceneWorld.app.showGizmo then sceneWorld.app.lights.map (gizmoDraw (sphereCount sceneWorld.globals)) else []) :=
  ⟨rfl, Deferred_pass_order sampleGlm sampleDriver sceneWorld sceneFrame rfl sceneFrame_ok⟩


/-- The last two commands of `InitBuffers`, whatever the framebuffer status:
`glDrawBuffers` with the four colour images and the binding of framebuffer 0. -/
theorem InitBuffers_tail (status : FramebufferStatus) (w : World) :
    ∃ pre, frameCalls w (InitBuffers status w) = pre ++
      [.glDrawBuffersValues 4
         [(InitBuffers status w).app.colorController, (InitBuffers status w).app.normalsController,
          (InitBuffers status w).app.albedoController,
          (InitBuffers status w).app.positionController],
       .glBindFramebuffer .GL_FRAMEBUFFER 0] := by
  refine ⟨(frameCalls w (InitBuffers status w)).take 52, ?_⟩
  simp only [frameCalls, InitBuffers, World.issue_calls, World.issue_app, checkFramebuffer_app,
    checkFramebuffer_calls, attachImages_app, attachImages_calls, allocImage_app,
    allocImage_textures, allocImage_framebuffers, allocImage_calls, List.append_assoc,
    List.drop_left, List.cons_append, List.nil_append]
  rfl

theorem framebufferStatusLine_other (status : FramebufferStatus)
    (h0 : status ≠ .GL_FRAMEBUFFER_UNDEFINED)
    (h1 : status ≠ .GL_FRAMEBUFFER_INCOMPLETE_ATTACHMENT)
    (h2 : status ≠ .GL_FRAMEBUFFER_INCOMPLETE_MISSING_ATTACHMENT)
    (h3 : status ≠ .GL_FRAMEBUFFER_INCOMPLETE_DRAW_BUFFER)
    (h4 : status ≠ .GL_FRAMEBUFFER_INCOMPLETE_READ_BUFFER)
    (h5 : status ≠ .GL_FRAMEBUFFER_UNSUPPORTED)
    (h6 : status ≠ .GL_FRAMEBUFFER_INCOMPLETE_MULTISAMPLE)
    (h7 : status ≠ .GL_FRAMEBUFFER_INCOMPLETE_LAYER_TARGETS) :
    framebufferStatusLine status =
      "Unknown franebuffer status error | " ++ toString (toGLint status.value) := by
  unfold framebufferStatusLine
  rw [if_neg h0, if_neg h1, if_neg h2, if_neg h3, if_neg h4, if_neg h5, if_neg h6, if_neg h7]

/-- The DEFERRED branch is `deferredPasses` followed by `UnmapBuffer`, the
quad, the depth blit and the gizmos. -/
theorem RenderDeferred_passes (glm : Glm) (drv : Driver) (w w1 : World)
    (hok : RenderDeferred glm drv w = .ok w1) :
    ∃ w2, deferredPasses glm drv w = .ok w2 ∧
      deferredGizmos glm (deferredQuadAndBlit w2) = .ok w1 := by
  simp only [RenderDeferred, bind_eq_ok, lookup_eq_ok] at hok
  obtain ⟨program, hp, wa, hglob, wb, hent, wc, hlight, hgiz⟩ := hok
  refine ⟨wc, ?_, hgiz⟩
  simp only [deferredPasses, bind_eq_ok, lookup_eq_ok]
  exact ⟨program, hp, wa, hglob, wb, hent, hlight⟩

/-- What `UnmapBuffer`, the quad, the depth blit and the gizmos keep of the
state `deferredPasses` returned. -/
theorem deferredGizmos_keeps (glm : Glm) (w2 w1 : World)
    (hgiz : deferredGizmos glm (deferredQuadAndBlit w2) = .ok w1) :
    w1.app.globalParamsOffset = w2.app.globalParamsOffset ∧
    w1.app.globalParamsSize = w2.app.globalParamsSize ∧
    w1.app.cBuffer.head = w2.app.cBuffer.head ∧
    w1.app.cBuffer.size = w2.app.cBuffer.size ∧
    w1.app.cBuffer.data = none := by
  obtain ⟨-, happd, -, -⟩ := deferredQuadAndBlit_effect w2
  obtain ⟨-, happe, -⟩ := deferredGizmos_effect glm _ w1 hgiz
  refine ⟨?_, ?_, ?_, ?_, ?_⟩ <;> rw [happe, happd] <;> rfl

/-- The global block of the lighting pass as `deferredPasses` leaves it in the
mapped buffer: the camera position, the number of lights, and one record per
light. -/
theorem deferredPasses_block (glm : Glm) (drv : Driver) (w w2 : World)
    (hok : deferredPasses glm drv w = .ok w2) :
    w2.app.cBuffer.head ≤ w2.app.cBuffer.size ∧
    ∃ region, w2.app.cBuffer.data = some region ∧
      (∀ k, k < 12 → region (w2.app.globalParamsOffset + k) =
        (bytesOfVec3 w.app.camera.cameraPos).getD k 0) ∧
      (∀ k, k < 4 → region (w2.app.globalParamsOffset + 12 + k) =
        (bytesOfU32 (w.app.lights.length % 2 ^ 32)).getD k 0) ∧
      ∀ i (hi : i < w.app.lights.length),
        alignUp16 (w2.app.globalParamsOffset + 16) + 48 * i + 44 ≤ w2.app.cBuffer.head ∧
        ∀ k, k < 44 →
          region (alignUp16 (w2.app.globalParamsOffset + 16) + 48 * i + k) =
            (deferredLightRecord w.app.lights[i]).getD k 0 := by
  simp only [deferredPasses, bind_eq_ok, lookup_eq_ok] at hok
  obtain ⟨program, -, wa, hglob, wb, hent, hlight⟩ := hok
  obtain ⟨-, hsa, -, -, -, -, -, -, hda, -, -⟩ :=
    deferredGlobals_effect glm drv program w wa hglob
  rw [List.range_eq_range'] at hent
  obtain ⟨-, -, -, -, hsb, -, -, -, -, -, hdb, -, -⟩ :=
    renderEntities_effect glm deferredModelMatrix deferredLocation program _ 0 wa wb hent
  obtain ⟨region0, hregion0⟩ := Option.isSome_iff_exists.1 (hdb hda)
  obtain ⟨hoff, hcap, hsize, hgs, hlast, -, region, hregion, hrec⟩ :=
    deferredLighting_lights wb w2 region0 hlight hregion0
  obtain ⟨-, -, -, -, -, -, hregc, -, -⟩ := deferredLighting_effect wb w2 hlight
  obtain ⟨region1, hregion1, hcam, hcount⟩ := hregc region0 hregion0
  have hreg : region1 = region := Option.some.inj (hregion1.symm.trans hregion)
  subst hreg
  have hlights : wb.app.lights = w.app.lights :=
    App.sameScene_lights (App.sameScene_trans hsa hsb)
  have hcamera : wb.app.camera = w.app.camera :=
    App.sameScene_camera (App.sameScene_trans hsa hsb)
  rw [hlights] at hlast hcount
  rw [hcamera] at hcam
  refine ⟨hcap, region1, hregion, hcam, hcount, fun i hi => ⟨?_, ?_⟩⟩
  · have hne : w.app.lights ≠ [] := by
      intro h
      rw [h] at hi
      exact absurd hi (Nat.not_lt_zero _)
    rw [hlast hne]
    omega
  · intro k hk
    have := hrec i (by rw [hlights]; exact hi) k hk
    simp only [hlights] at this
    exact this

/-- C15: a DEFERRED frame that returns issues exactly one draw of the
full-screen quad (`glDrawArrays(GL_TRIANGLE_STRIP, 0, 4)`); the range bound at
binding point 0 just before it is the global block of the lighting pass
(`globalParamsOffset`, `globalParamsSize`).  In the state `w2` in which the
frame binds that range, the one `deferredPasses` returns from the state after
the prologue and from which the rest of the frame runs, the mapped buffer
holds, from the first byte of the block, the twelve bytes of the camera
position and then the four bytes of the number of lights.  That number is 7
for the lights `CreateEntities` adds to an empty list. -/
theorem Deferred_lighting_pass (glm : Glm) (drv : Driver) (w w1 : World)
    (hmode : w.app.mode = .DEFERRED) (hok : Render glm drv w = .ok w1) :
    ∃ pre post w2 region,
      events (frameCalls w w1) = pre ++
        [.glBindBufferRange .GL_UNIFORM_BUFFER 0 w.app.cBuffer.handle
           w1.app.globalParamsOffset w1.app.globalParamsSize,
         .glDrawArrays .GL_TRIANGLE_STRIP 0 4] ++ post ∧
      (∀ c ∈ pre ++ post, c ≠ .glDrawArrays .GL_TRIANGLE_STRIP 0 4) ∧
      deferredPasses glm drv (renderPrologue w) = .ok w2 ∧
      deferredGizmos glm (deferredQuadAndBlit w2) = .ok w1 ∧
      w2.app.globalParamsOffset = w1.app.globalParamsOffset ∧
      w2.app.globalParamsSize = w1.app.globalParamsSize ∧
      w2.app.cBuffer.data = some region ∧
      (∀ k, k < 12 → region (w1.app.globalParamsOffset + k) =
        (bytesOfVec3 w.app.camera.cameraPos).getD k 0) ∧
      (∀ k, k < 4 → region (w1.app.globalParamsOffset + 12 + k) =
        (bytesOfU32 (w.app.lights.length % 2 ^ 32)).getD k 0) ∧
      ∀ env w0, w0.app.lights = [] → (CreateEntities env w0).app.lights.length = 7 := by
  obtain ⟨-, -, he, -, -, -, -, -, -⟩ := Render_deferred_effect glm drv w w1 hmode hok
  rw [Render_deferred glm drv w hmode] at hok
  obtain ⟨w2, hpasses, hgiz⟩ := RenderDeferred_passes glm drv _ w1 hok
  obtain ⟨hoff, hsz, -, -, -⟩ := deferredGizmos_keeps glm w2 w1 hgiz
  obtain ⟨-, region, hregion, hcam, hcount, -⟩ := deferredPasses_block glm drv _ w2 hpasses
  simp only [renderPrologue_app] at hcam hcount
  rw [← hoff] at hcam hcount
  refine ⟨[.glBindFramebuffer .GL_FRAMEBUFFER w.app.frameBufferController] ++
      (if w.app.showCubeMap then
        [.glDrawArrays .GL_TRIANGLES 0 36, .glDrawArrays .GL_TRIANGLES 0 36] else []) ++
      entityEvents w.app.cBuffer.handle w.app.models (meshGeometry w.app.meshes) 0 16
        w1.app.entities ++ [.glBindFramebuffer .GL_FRAMEBUFFER 0],
    [.glBindFramebuffer .GL_READ_FRAMEBUFFER w.app.frameBufferController,
     .glBindFramebuffer .GL_DRAW_FRAMEBUFFER 0,
     .glBlitFramebuffer 0 0 w.app.displaySize.x w.app.displaySize.y
       0 0 w.app.displaySize.x w.app.displaySize.y [.GL_DEPTH_BUFFER_BIT] .GL_NEAREST,
     .glBindFramebuffer .GL_FRAMEBUFFER 0] ++ gizmoEvents glm w.app (sphereCount w.globals),
    w2, region, ?_, ?_, hpasses, hgiz, hoff.symm, hsz.symm, hregion, hcam, hcount,
    fun env w0 h => (defaultLights_length env w0 h).2⟩
  · rw [he]
    simp only [List.append_assoc, List.cons_append, List.nil_append]
  · intro c hc
    simp only [List.mem_append, List.mem_cons, List.mem_singleton, List.not_mem_nil,
      or_false] at hc
    rcases hc with ((((rfl | hcm) | hee) | rfl) | ((rfl | rfl | rfl | rfl) | hg))
    · simp
    · split at hcm
      · simp only [List.mem_cons, List.mem_singleton, List.not_mem_nil, or_false] at hcm
        rcases hcm with rfl | rfl <;> simp
      · simp at hcm
    · rcases mem_entityEvents _ _ _ _ _ _ c hee with ⟨_, _, _, rfl⟩ | ⟨_, _, rfl⟩ <;> simp
    · simp
    · simp
    · simp
    · simp
    · simp
    · rcases mem_gizmoEvents _ _ _ c hg with ⟨_, _, rfl⟩ | ⟨_, _, rfl⟩ | rfl | rfl <;> simp

theorem sceneLighting_ok :
    deferredPasses sampleGlm sampleDriver (renderPrologue sceneWorld) = .ok sceneLighting := rfl

set_option maxRecDepth 100000 in
theorem Deferred_lighting_pass_witness :
    sceneWorld.app.lights.length = 7 ∧
    (sceneFrame.app.globalParamsOffset, sceneFrame.app.globalParamsSize) = (512, 348) ∧
    (sceneLighting.app.cBuffer.data.map fun region =>
      (List.range 16).map fun k => region (512 + k)) =
      some ((bytesOfVec3 sceneWorld.app.camera.cameraPos) ++ [7, 0, 0, 0]) ∧
    ∃ pre post w2 region,
      events (frameCalls sceneWorld sceneFrame) = pre ++
        [.glBindBufferRange .GL_UNIFORM_BUFFER 0 sceneWorld.app.cBuffer.handle
           sceneFrame.app.globalParamsOffset sceneFrame.app.globalParamsSize,
         .glDrawArrays .GL_TRIANGLE_STRIP 0 4] ++ post ∧
      (∀ c ∈ pre ++ post, c ≠ .glDrawArrays .GL_TRIANGLE_STRIP 0 4) ∧
      deferredPasses sampleGlm sampleDriver (renderPrologue sceneWorld) = .ok w2 ∧
      deferredGizmos sampleGlm (deferredQuadAndBlit w2) = .ok sceneFrame ∧
      w2.app.globalParamsOffset = sceneFrame.app.globalParamsOffset ∧
      w2.app.globalParamsSize = sceneFrame.app.globalParamsSize ∧
      w2.app.cBuffer.data = some region ∧
      (∀ k, k < 12 → region (sceneFrame.app.globalParamsOffset + k) =
        (bytesOfVec3 sceneWorld.app.camera.cameraPos).getD k 0) ∧
      (∀ k, k < 4 → region (sceneFrame.app.globalParamsOffset + 12 + k) =
        (bytesOfU32 (sceneWorld.app.lights.length % 2 ^ 32)).getD k 0) ∧
      ∀ env w0, w0.app.lights = [] → (CreateEntities env w0).app.lights.length = 7 :=
  ⟨rfl, rfl, by decide,
    Deferred_lighting_pass sampleGlm sampleDriver sceneWorld sceneFrame rfl sceneFrame_ok⟩

/-- C21: in the state `w2` in which a DEFERRED frame that returns binds the
global block of its lighting pass, the one `deferredPasses` returns from the
state after the prologue and from which the rest of the frame runs, the mapped
buffer holds one record per light of the list.  The record of light `i` starts
at `alignUp16 (globalParamsOffset + 16) + 48 * i`, a multiple of 16 that lies
after the camera position and the light count and ends inside the part of the
buffer the frame has written.  From that offset the record holds the four
bytes of the type, then the twelve bytes of the colour, of the direction and
of the position, then the four bytes of the intensity. -/
theorem Deferred_light_records (glm : Glm) (drv : Driver) (w w1 : World)
    (hmode : w.app.mode = .DEFERRED) (hok : Render glm drv w = .ok w1) :
    ∃ w2 region, deferredPasses glm drv (renderPrologue w) = .ok w2 ∧
      deferredGizmos glm (deferredQuadAndBlit w2) = .ok w1 ∧
      w2.app.globalParamsOffset = w1.app.globalParamsOffset ∧
      w2.app.cBuffer.head = w1.app.cBuffer.head ∧
      w2.app.cBuffer.data = some region ∧
      ∀ i (hi : i < w.app.lights.length),
        16 ∣ alignUp16 (w1.app.globalParamsOffset + 16) + 48 * i ∧
        w1.app.globalParamsOffset + 16 ≤ alignUp16 (w1.app.globalParamsOffset + 16) + 48 * i ∧
        alignUp16 (w1.app.globalParamsOffset + 16) + 48 * i + 44 ≤ w1.app.cBuffer.head ∧
        (∀ k, k < 4 → region (alignUp16 (w1.app.globalParamsOffset + 16) + 48 * i + k) =
          (bytesOfU32 w.app.lights[i].type.toNat).getD k 0) ∧
        (∀ k, k < 12 → region (alignUp16 (w1.app.globalParamsOffset + 16) + 48 * i + 4 + k) =
          (bytesOfVec3 w.app.lights[i].color).getD k 0) ∧
        (∀ k, k < 12 → region (alignUp16 (w1.app.globalParamsOffset + 16) + 48 * i + 16 + k) =
          (bytesOfVec3 w.app.lights[i].direction).getD k 0) ∧
        (∀ k, k < 12 → region (alignUp16 (w1.app.globalParamsOffset + 16) + 48 * i + 28 + k) =
          (bytesOfVec3 w.app.lights[i].position).getD k 0) ∧
        (∀ k, k < 4 → region (alignUp16 (w1.app.globalParamsOffset + 16) + 48 * i + 40 + k) =
          (bytesOfU32 w.app.lights[i].intensity).getD k 0) := by
  rw [Render_deferred glm drv w hmode] at hok
  obtain ⟨w2, hpasses, hgiz⟩ := RenderDeferred_passes glm drv _ w1 hok
  obtain ⟨hoff, -, hhead, -, -⟩ := deferredGizmos_keeps glm w2 w1 hgiz
  obtain ⟨-, region, hregion, -, -, hrec⟩ := deferredPasses_block glm drv _ w2 hpasses
  simp only [renderPrologue_app] at hrec
  rw [← hoff, ← hhead] at hrec
  refine ⟨w2, region, hpasses, hgiz, hoff.symm, hhead.symm, hregion, fun i hi => ?_⟩
  obtain ⟨hend, hbytes⟩ := hrec i hi
  obtain ⟨htype, hcolor, hdir, hpos, hint⟩ := deferredLightRecord_fields w.app.lights[i]
  refine ⟨Dvd.dvd.add (alignUp16_dvd _) (Dvd.dvd.mul_right (by decide) i), ?_, hend,
    fun k hk => ?_, fun k hk => ?_, fun k hk => ?_, fun k hk => ?_, fun k hk => ?_⟩
  · have := alignUp16_le (w1.app.globalParamsOffset + 16)
    omega
  · rw [hbytes k (by omega), htype k hk]
  · rw [Nat.add_assoc, hbytes (4 + k) (by omega), hcolor k hk]
  · rw [Nat.add_assoc, hbytes (16 + k) (by omega), hdir k hk]
  · rw [Nat.add_assoc, hbytes (28 + k) (by omega), hpos k hk]
  · rw [Nat.add_assoc, hbytes (40 + k) (by omega), hint k hk]

set_option maxRecDepth 100000 in
theorem Deferred_light_records_witness :
    sceneWorld.app.lights.length = 7 ∧ sceneFrame.app.globalParamsOffset = 512 ∧
    deferredPasses sampleGlm sampleDriver (renderPrologue sceneWorld) = .ok sceneLighting ∧
    (sceneLighting.app.cBuffer.data.map fun region =>
      (List.range 52).map fun k => region (528 + k)) =
      some [0, 0, 0, 0, 205, 204, 76, 63, 205, 204, 76, 63, 205, 204, 76, 63,
        0, 0, 0, 0, 0, 0, 128, 191, 0, 0, 128, 63, 0, 0, 128, 64, 0, 0, 128, 64, 0, 0, 0, 0,
        205, 204, 204, 61, 0, 0, 0, 0, 1, 0, 0, 0] ∧
    ∃ w2 region, deferredPasses sampleGlm sampleDriver (renderPrologue sceneWorld) = .ok w2 ∧
      deferredGizmos sampleGlm (deferredQuadAndBlit w2) = .ok sceneFrame ∧
      w2.app.globalParamsOffset = sceneFrame.app.globalParamsOffset ∧
      w2.app.cBuffer.head = sceneFrame.app.cBuffer.head ∧
      w2.app.cBuffer.data = some region ∧
      ∀ i (hi : i < sceneWorld.app.lights.length),
        16 ∣ alignUp16 (sceneFrame.app.globalParamsOffset + 16) + 48 * i ∧
        sceneFrame.app.globalParamsOffset + 16 ≤
          alignUp16 (sceneFrame.app.globalParamsOffset + 16) + 48 * i ∧
        alignUp16 (sceneFrame.app.globalParamsOffset + 16) + 48 * i + 44 ≤
          sceneFrame.app.cBuffer.head ∧
        (∀ k, k < 4 →
          region (alignUp16 (sceneFrame.app.globalParamsOffset + 16) + 48 * i + k) =
            (bytesOfU32 sceneWorld.app.lights[i].type.toNat).getD k 0) ∧
        (∀ k, k < 12 →
          region (alignUp16 (sceneFrame.app.globalParamsOffset + 16) + 48 * i + 4 + k) =
            (bytesOfVec3 sceneWorld.app.lights[i].color).getD k 0) ∧
        (∀ k, k < 12 →
          region (alignUp16 (sceneFrame.app.globalParamsOffset + 16) + 48 * i + 16 + k) =
            (bytesOfVec3 sceneWorld.app.lights[i].direction).getD k 0) ∧
        (∀ k, k < 12 →
          region (alignUp16 (sceneFrame.app.globalParamsOffset + 16) + 48 * i + 28 + k) =
            (bytesOfVec3 sceneWorld.app.lights[i].position).getD k 0) ∧
        (∀ k, k < 4 →
          region (alignUp16 (sceneFrame.app.globalParamsOffset + 16) + 48 * i + 40 + k) =
            (bytesOfU32 sceneWorld.app.lights[i].intensity).getD k 0) :=
  ⟨rfl, rfl, rfl, by decide,
    Deferred_light_records sampleGlm sampleDriver sceneWorld sceneFrame rfl sceneFrame_ok⟩

/-- C12, amended: for every framebuffer status other than
`GL_FRAMEBUFFER_COMPLETE`, `InitBuffers` returns, having added to the log the
line that names the status and nothing else (for a status without a `case`,
the line of the `default` with the status printed by `%i`), and having issued,
as its last two commands, `glDrawBuffers` with the four colour images and
`glBindFramebuffer(GL_FRAMEBUFFER, 0)`; `Init` does not stop there: when
`InitModes` returned, `Init` returns the state `CreateEntities` builds from what
`InitBuffers` left, with the seven default lights added and the line in its
log. -/
theorem InitBuffers_logs_and_Init_continues (glm : Glm) (env : Platform) (w w1 : World)
    (hstatus : env.framebufferStatus ≠ .GL_FRAMEBUFFER_COMPLETE)
    (hmodes : InitModes glm env (InitGPUInfo env (initCameraPos w)) = .ok w1) :
    (∀ w0, (InitBuffers env.framebufferStatus w0).log =
      w0.log ++ [framebufferStatusLine env.framebufferStatus]) ∧
    (env.framebufferStatus ≠ .GL_FRAMEBUFFER_UNDEFINED →
      env.framebufferStatus ≠ .GL_FRAMEBUFFER_INCOMPLETE_ATTACHMENT →
      env.framebufferStatus ≠ .GL_FRAMEBUFFER_INCOMPLETE_MISSING_ATTACHMENT →
      env.framebufferStatus ≠ .GL_FRAMEBUFFER_INCOMPLETE_DRAW_BUFFER →
      env.framebufferStatus ≠ .GL_FRAMEBUFFER_INCOMPLETE_READ_BUFFER →
      env.framebufferStatus ≠ .GL_FRAMEBUFFER_UNSUPPORTED →
      env.framebufferStatus ≠ .GL_FRAMEBUFFER_INCOMPLETE_MULTISAMPLE →
      env.framebufferStatus ≠ .GL_FRAMEBUFFER_INCOMPLETE_LAYER_TARGETS →
      framebufferStatusLine env.framebufferStatus =
        "Unknown franebuffer status error | " ++
          toString (toGLint env.framebufferStatus.value)) ∧
    (∀ w0, ∃ pre, frameCalls w0 (InitBuffers env.framebufferStatus w0) = pre ++
      [.glDrawBuffersValues 4
         [(InitBuffers env.framebufferStatus w0).app.colorController,
          (InitBuffers env.framebufferStatus w0).app.normalsController,
          (InitBuffers env.framebufferStatus w0).app.albedoController,
          (InitBuffers env.framebufferStatus w0).app.positionController],
       .glBindFramebuffer .GL_FRAMEBUFFER 0]) ∧
    Init glm env w =
      .ok (CreateEntities env (InitBuffers env.framebufferStatus (InitCubeMap env w1))) ∧
    ∃ w2, Init glm env w = .ok w2 ∧
      w2.app.lights = (InitCubeMap env w1).app.lights ++ defaultLights ∧
      w2.app.entities.length = (InitCubeMap env w1).app.entities.length + 1 ∧
      w2.log = (InitCubeMap env w1).log ++ [framebufferStatusLine env.framebufferStatus] := by
  have hlog : ∀ w0, (InitBuffers env.framebufferStatus w0).log =
      w0.log ++ [framebufferStatusLine env.framebufferStatus] := by
    intro w0
    rw [InitBuffers_log, if_pos hstatus]
  have hinit : Init glm env w =
      .ok (CreateEntities env (InitBuffers env.framebufferStatus (InitCubeMap env w1))) := by
    rw [Init_eq, hmodes]
    rfl
  obtain ⟨hl, he, hg⟩ := CreateEntities_lights env
    (InitBuffers env.framebufferStatus (InitCubeMap env w1))
  obtain ⟨-, -, -, -, -, -, -, hbl, hbe⟩ :=
    InitBuffers_fields env.framebufferStatus (InitCubeMap env w1)
  exact ⟨hlog, framebufferStatusLine_other env.framebufferStatus,
    InitBuffers_tail env.framebufferStatus, hinit, _, hinit, by rw [hl, hbl], by rw [he, hbe],
    by rw [hg, hlog]⟩

theorem InitBuffers_logs_and_Init_continues_witness :
    framebufferStatusLine .GL_FRAMEBUFFER_UNSUPPORTED = "GL_FRAMEBUFFER_UNSUPPORTED" ∧
    framebufferStatusLine ⟨3000000000, by decide⟩ =
      "Unknown franebuffer status error | -1294967296" ∧
    Init sampleGlm (samplePlatform .GL_FRAMEBUFFER_UNSUPPORTED true) initWorld =
      .ok (CreateEntities (samplePlatform .GL_FRAMEBUFFER_UNSUPPORTED true)
        (InitBuffers .GL_FRAMEBUFFER_UNSUPPORTED
          (InitCubeMap (samplePlatform .GL_FRAMEBUFFER_UNSUPPORTED true) initModesWorld))) :=
  ⟨by decide, by decide,
    (InitBuffers_logs_and_Init_continues sampleGlm
      (samplePlatform .GL_FRAMEBUFFER_UNSUPPORTED true)
      initWorld initModesWorld (by decide) initModesWorld_ok).2.2.2.1⟩


theorem Push_map_bound (buffer buffer1 : Buffer) (bytes : List Nat)
    (hok : (Push buffer bytes).map Prod.snd = .ok buffer1) : buffer1.head ≤ buffer1.size := by
  obtain ⟨h, rfl⟩ := Push_map_ok buffer buffer1 bytes hok
  exact h

theorem pushLightForward_bound (app app1 : App) (light : Light)
    (hok : pushLightForward app light = .ok app1) : app1.cBuffer.head ≤ app1.cBuffer.size := by
  simp only [pushLightForward, bind_eq_ok, PushUInt, PushVec3] at hok
  obtain ⟨b1, hb1, b2, hb2, b3, hb3, happ⟩ := hok
  simp only [Except.ok.injEq] at happ
  subst happ
  exact Push_map_bound _ _ _ hb3

theorem pushLightsForward_bound (lights : List Light) :
    ∀ (app app1 : App), pushLightsForward lights app = .ok app1 →
      app.cBuffer.head ≤ app.cBuffer.size → app1.cBuffer.head ≤ app1.cBuffer.size := by
  induction lights with
  | nil =>
    intro app app1 hok h
    simp only [pushLightsForward, Except.ok.injEq] at hok
    subst hok
    exact h
  | cons light rest ih =>
    intro app app1 hok _
    simp only [pushLightsForward, bind_eq_ok] at hok
    obtain ⟨app2, h1, h2⟩ := hok
    exact ih app2 app1 h2 (pushLightForward_bound app app2 light h1)

theorem forwardGlobals_bound (drv : Driver) (program : Program) (w w1 : World)
    (hok : forwardGlobals drv program w = .ok w1) :
    w1.app.cBuffer.head ≤ w1.app.cBuffer.size := by
  simp only [forwardGlobals, bind_eq_ok, World.issue_app] at hok
  obtain ⟨b1, hb1, b2, hb2, app1, happ, hw⟩ := hok
  simp only [Except.ok.injEq] at hw
  subst hw
  exact pushLightsForward_bound _ _ _ happ (Push_map_bound _ _ _ hb2)

theorem renderEntity_bound (glm : Glm) (modelMatrix : Entity → mat4) (location : App → Int)
    (program : Program) (i : Nat) (w w1 : World)
    (hok : renderEntity glm modelMatrix location program i w = .ok w1) :
    w1.app.cBuffer.head ≤ w1.app.cBuffer.size := by
  have hhead := renderEntity_head glm modelMatrix location program i w w1 hok
  obtain ⟨e, -, -, -, -, -, -, -, -, hsize, -, -, -⟩ :=
    renderEntity_effect glm modelMatrix location program i w w1 hok
  simp only [renderEntity, bind_eq_ok, lookup_eq_ok] at hok
  obtain ⟨e, he, model, hmodel, mesh, hmesh, b1, hb1, b2, hb2, hloop⟩ := hok
  obtain ⟨hh1, -, hs1, -⟩ := PushMat4_ok _ _ _ hb1
  have hcap2 := (Push_map_ok _ _ _ hb2).1
  obtain ⟨hcap1, -⟩ := Push_map_ok _ _ _ hb1
  rw [bytesOfMat4_length] at hcap2 hcap1
  rw [hhead, hsize]
  rw [hh1, hs1] at hcap2
  rw [AlignHead_size] at hcap2
  omega

theorem renderEntities_bound (glm : Glm) (modelMatrix : Entity → mat4) (location : App → Int)
    (program : Program) (is : List Nat) :
    ∀ (w w1 : World), renderEntities glm modelMatrix location program is w = .ok w1 →
      w.app.cBuffer.head ≤ w.app.cBuffer.size → w1.app.cBuffer.head ≤ w1.app.cBuffer.size := by
  induction is with
  | nil =>
    intro w w1 hok h
    simp only [renderEntities, Except.ok.injEq] at hok
    subst hok
    exact h
  | cons i rest ih =>
    intro w w1 hok _
    simp only [renderEntities, bind_eq_ok] at hok
    obtain ⟨w2, h1, h2⟩ := hok
    exact ih w2 w1 h2 (renderEntity_bound glm modelMatrix location program i w w2 h1)

theorem guiLights_ne_nil (ui : Widgets) (i : Nat) (lights : List Light) (h : lights ≠ []) :
    guiLights ui i lights ≠ [] := by
  cases lights with
  | nil => exact absurd rfl h
  | cons light rest => simp [guiLights]

theorem Gui_lights (ui : Widgets) (w : World) (h : w.app.lights ≠ []) :
    (Gui ui w).app.lights ≠ [] := by
  simp only [Gui]
  split_ifs <;> first | exact h | exact guiLights_ne_nil ui 0 _ h

theorem Update_lights (fm : FloatMath) (input : Input) (w : World) :
    (Update fm input w).app.lights = w.app.lights := rfl

theorem Render_lights (glm : Glm) (drv : Driver) (w w1 : World)
    (hok : Render glm drv w = .ok w1) : w1.app.lights = w.app.lights := by
  cases hmode : w.app.mode with
  | TEXTUREDQUAD =>
    simp only [Render, renderPrologue_app, hmode] at hok
    simp only [RenderTexturedQuad, bind_eq_ok, lookup_eq_ok, World.issue_app,
      Except.ok.injEq] at hok
    obtain ⟨texture, -, program, -, rfl⟩ := hok
    simp only [World.issue_app, renderPrologue_app]
  | DEFERRED =>
    obtain ⟨w2, -, -, hs, -⟩ := Render_deferred_effect glm drv w w1 hmode hok
    exact App.sameScene_lights hs
  | FORWARD =>
    obtain ⟨-, hs, -⟩ := Render_forward_effect glm drv w w1 hmode hok
    exact App.sameScene_lights hs

/-- In every state the engine reaches, the list of lights is not empty: `Init`
ends by adding the seven lights of `CreateEntities`, and no call removes a
light. -/
theorem Reachable_lights (glm : Glm) (fm : FloatMath) (env : Platform) (w0 w : World)
    (h : Reachable glm fm env w0 w) : w.app.lights ≠ [] := by
  induction h with
  | init w hinit =>
    rw [Init_eq] at hinit
    cases hmodes : InitModes glm env (InitGPUInfo env (initCameraPos w0)) with
    | error e => rw [hmodes] at hinit; cases hinit
    | ok wm =>
      rw [hmodes] at hinit
      have hw1 := (Except.ok.inj hinit).symm
      subst hw1
      rw [(CreateEntities_lights env _).1]
      intro hnil
      have := congrArg List.length hnil
      simp [defaultLights] at this
  | gui ui w _ ih => exact Gui_lights ui w ih
  | update input w _ ih =>
    rw [Update_lights]
    exact ih
  | render w w1 _ hok ih =>
    rw [Render_lights glm env.driver w w1 hok]
    exact ih

theorem GLState.after_issue (cs : List GLCall) (gl : GLState) (c : GLCall) :
    (gl.after cs).issue c = (gl.issue c).after cs := by
  simp only [GLState.after, GLState.issue, List.append_assoc]

theorem GLState.after_genVertexArray (cs : List GLCall) (gl : GLState) :
    (gl.after cs).genVertexArray = (gl.genVertexArray.1, gl.genVertexArray.2.after cs) := by
  simp only [GLState.after, GLState.genVertexArray, List.append_assoc]

theorem World.recast_gl (cs : List GLCall) (f : List Entity → List Entity) (w : World) :
    (w.recast cs f).gl = w.gl.after cs := rfl

theorem World.recast_issue (cs : List GLCall) (f : List Entity → List Entity) (w : World)
    (c : GLCall) : (w.recast cs f).issue c = (w.issue c).recast cs f := by
  simp only [World.recast, World.issue, GLState.issue, List.append_assoc]

theorem bind_congr_map {α β γ : Type} (x x1 : Except Abort α) (g : α → Except Abort β)
    (g1 : α → Except Abort γ) (T : β → γ) (hx : x1 = x)
    (hg : ∀ a, x = .ok a → g1 a = (g a).map T) : (x1 >>= g1) = (x >>= g).map T := by
  subst hx
  cases x1 with
  | error e => rfl
  | ok a => exact hg a rfl

theorem bind_map_congr {α β γ : Type} (x : Except Abort α) (S : α → α)
    (g : α → Except Abort β) (g1 : α → Except Abort γ) (T : β → γ)
    (hg : ∀ a, x = .ok a → g1 (S a) = (g a).map T) :
    (x.map S >>= g1) = (x >>= g).map T := by
  cases x with
  | error e => rfl
  | ok a => exact hg a rfl

theorem linkAttribute_after (submesh : Submesh) (a : VertexShaderAttribute) (cs : List GLCall) :
    ∀ (bs : List VertexBufferAttribute) (gl : GLState),
      linkAttribute submesh a bs (gl.after cs) =
        ((linkAttribute submesh a bs gl).1, (linkAttribute submesh a bs gl).2.after cs) := by
  intro bs
  induction bs with
  | nil => intro gl; rfl
  | cons b rest ih =>
    intro gl
    unfold linkAttribute
    split_ifs
    · exact ih gl
    · simp only [GLState.after_issue]

theorem linkAttributes_after (submesh : Submesh) (cs : List GLCall) :
    ∀ (as : List VertexShaderAttribute) (gl : GLState),
      linkAttributes submesh as (gl.after cs) =
        (linkAttributes submesh as gl).map (GLState.after cs) := by
  intro as
  induction as with
  | nil => intro gl; rfl
  | cons a rest ih =>
    intro gl
    unfold linkAttributes
    rw [linkAttribute_after]
    cases h : linkAttribute submesh a submesh.vertexBufferLayout.attributes gl with
    | mk b g =>
      cases b with
      | false => rfl
      | true => exact ih g

theorem FindVAO_after (mesh : Mesh) (i : Nat) (program : Program) (cs : List GLCall)
    (gl : GLState) :
    FindVAO mesh i program (gl.after cs) =
      (FindVAO mesh i program gl).map fun r => (r.1, r.2.1, r.2.2.after cs) := by
  unfold FindVAO
  cases mesh.submeshes[i]? with
  | none => rfl
  | some submesh =>
    simp only []
    cases findCachedVao program.handle submesh.vaos with
    | some handle => rfl
    | none =>
      simp only [GLState.after_genVertexArray, GLState.after_issue, linkAttributes_after]
      cases linkAttributes submesh program.vertexInputLayout.attributes
        (((gl.genVertexArray.2.issue (.glBindVertexArray gl.genVertexArray.1)).issue
          (.glBindBuffer .GL_ARRAY_BUFFER mesh.vertexBufferHandle)).issue
          (.glBindBuffer .GL_ELEMENT_ARRAY_BUFFER mesh.indexBufferHandle)) with
      | error e => rfl
      | ok g => simp only [Except.map, GLState.after_issue]

theorem drawSubmesh_recast (cs : List GLCall) (f : List Entity → List Entity) (location : Int)
    (model : Model) (program : Program) (i : Nat) (w : World) :
    drawSubmesh location model program i (w.recast cs f) =
      (drawSubmesh location model program i w).map (World.recast cs f) := by
  unfold drawSubmesh
  refine bind_congr_map _ _ _ _ _ rfl (fun mesh _ => ?_)
  rw [World.recast_gl, FindVAO_after]
  refine bind_map_congr _ _ _ _ _ (fun r _ => ?_)
  obtain ⟨vao, mesh1, gl1⟩ := r
  simp only []
  refine bind_congr_map _ _ _ _ _ rfl (fun idx _ => ?_)
  refine bind_congr_map _ _ _ _ _ rfl (fun mat _ => ?_)
  refine bind_congr_map _ _ _ _ _ rfl (fun tex _ => ?_)
  refine bind_congr_map _ _ _ _ _ rfl (fun sub _ => ?_)
  simp only [Except.map, ← World.recast_issue]
  rfl

theorem drawSubmeshes_recast (cs : List GLCall) (f : List Entity → List Entity) (location : Int)
    (model : Model) (program : Program) (is : List Nat) :
    ∀ w : World, drawSubmeshes location model program is (w.recast cs f) =
      (drawSubmeshes location model program is w).map (World.recast cs f) := by
  induction is with
  | nil => intro w; rfl
  | cons i rest ih =>
    intro w
    unfold drawSubmeshes
    rw [drawSubmesh_recast]
    exact bind_map_congr _ _ _ _ _ (fun a _ => ih a)

theorem lookup_reoffset (i : Nat) (offsets sizes : Nat → Nat) (entities : List Entity) :
    lookup (reoffset i offsets sizes entities) i =
      (lookup entities i).map fun e =>
        { e with localParamsOffset := offsets i, localParamsSize := sizes i } := by
  unfold lookup reoffset
  rw [List.getElem?_mapIdx]
  cases entities[i]? with
  | none => rfl
  | some e => simp [Except.map]

theorem reoffset_set (i : Nat) (offsets sizes : Nat → Nat) (entities : List Entity)
    (x : Entity) :
    (reoffset i offsets sizes entities).set i x =
      reoffset (i + 1) offsets sizes (entities.set i x) := by
  apply List.ext_getElem?
  intro j
  simp only [reoffset, List.getElem?_set, List.getElem?_mapIdx, List.length_mapIdx]
  by_cases hij : i = j
  · subst hij
    by_cases hlt : i < entities.length
    · simp [hlt]
    · simp [hlt]
  · simp only [hij, if_false]
    cases entities[j]? with
    | none => rfl
    | some e =>
      simp only [Option.map_some']
      by_cases h1 : i ≤ j
      · have h2 : i + 1 ≤ j := by omega
        simp [h1, h2]
      · have h2 : ¬ i + 1 ≤ j := by omega
        simp [h1, h2]

theorem reoffset_length (i : Nat) (offsets sizes : Nat → Nat) (entities : List Entity) :
    (reoffset i offsets sizes entities).length = entities.length := by
  simp only [reoffset, List.length_mapIdx]

theorem reoffset_of_le (i : Nat) (offsets sizes : Nat → Nat) (entities : List Entity)
    (h : entities.length ≤ i) : reoffset i offsets sizes entities = entities := by
  apply List.ext_getElem?
  intro j
  simp only [reoffset, List.getElem?_mapIdx]
  cases hj : entities[j]? with
  | none => rfl
  | some e =>
    have hlt : j < entities.length := (List.getElem?_eq_some.1 hj).1
    have h2 : ¬ i ≤ j := by omega
    simp [h2]

theorem renderEntity_recast (glm : Glm) (modelMatrix : Entity → mat4) (location : App → Int)
    (program : Program) (cs : List GLCall) (offsets sizes : Nat → Nat)
    (hmm : ∀ (e : Entity) (off size : Nat),
      modelMatrix { e with localParamsOffset := off, localParamsSize := size } = modelMatrix e)
    (hloc : ∀ (app : App) (es : List Entity), location { app with entities := es } = location app)
    (i : Nat) (w : World) :
    renderEntity glm modelMatrix location program i (w.recast cs (reoffset i offsets sizes)) =
      (renderEntity glm modelMatrix location program i w).map
        (World.recast cs (reoffset (i + 1) offsets sizes)) := by
  unfold renderEntity
  have h0 : lookup (w.recast cs (reoffset i offsets sizes)).app.entities i =
      (lookup w.app.entities i).map fun e =>
        { e with localParamsOffset := offsets i, localParamsSize := sizes i } :=
    lookup_reoffset i offsets sizes w.app.entities
  rw [h0]
  refine bind_map_congr _ _ _ _ _ (fun e _ => ?_)
  refine bind_congr_map _ _ _ _ _ rfl (fun model _ => ?_)
  refine bind_congr_map _ _ _ _ _ rfl (fun mesh _ => ?_)
  refine bind_congr_map _ _ _ _ _ (by rw [hmm]; rfl) (fun b1 _ => ?_)
  refine bind_congr_map _ _ _ _ _ rfl (fun b2 _ => ?_)
  have hbase : ({ w.recast cs (reoffset i offsets sizes) with
      app := { (w.recast cs (reoffset i offsets sizes)).app with
        cBuffer := b2
        entities := (reoffset i offsets sizes w.app.entities).set i
          { e with
            localParamsOffset :=
              (AlignHead w.app.cBuffer w.app.uniformBlockAlignmentOffset.toNat).head
            localParamsSize := u32sub b2.head
              (AlignHead w.app.cBuffer w.app.uniformBlockAlignmentOffset.toNat).head } } } :
        World) =
      ({ w with
        app := { w.app with
          cBuffer := b2
          entities := w.app.entities.set i
            { e with
              localParamsOffset :=
                (AlignHead w.app.cBuffer w.app.uniformBlockAlignmentOffset.toNat).head
              localParamsSize := u32sub b2.head
                (AlignHead w.app.cBuffer w.app.uniformBlockAlignmentOffset.toNat).head } } } :
        World).recast cs (reoffset (i + 1) offsets sizes) := by
    rw [reoffset_set]
    rfl
  show drawSubmeshes
      (location ((({ w.recast cs (reoffset i offsets sizes) with
        app := { (w.recast cs (reoffset i offsets sizes)).app with
          cBuffer := b2
          entities := (reoffset i offsets sizes w.app.entities).set i
            { e with
              localParamsOffset :=
                (AlignHead w.app.cBuffer w.app.uniformBlockAlignmentOffset.toNat).head
              localParamsSize := u32sub b2.head
                (AlignHead w.app.cBuffer w.app.uniformBlockAlignmentOffset.toNat).head } } } :
          World).issue (.glBindBufferRange .GL_UNIFORM_BUFFER 0 b2.handle
            w.app.globalParamsOffset w.app.globalParamsSize)).issue
          (.glBindBufferRange .GL_UNIFORM_BUFFER 1 b2.handle
            (AlignHead w.app.cBuffer w.app.uniformBlockAlignmentOffset.toNat).head
            (u32sub b2.head
              (AlignHead w.app.cBuffer w.app.uniformBlockAlignmentOffset.toNat).head))).app)
      model program (List.range mesh.submeshes.length)
      ((({ w.recast cs (reoffset i offsets sizes) with
        app := { (w.recast cs (reoffset i offsets sizes)).app with
          cBuffer := b2
          entities := (reoffset i offsets sizes w.app.entities).set i
            { e with
              localParamsOffset :=
                (AlignHead w.app.cBuffer w.app.uniformBlockAlignmentOffset.toNat).head
              localParamsSize := u32sub b2.head
                (AlignHead w.app.cBuffer w.app.uniformBlockAlignmentOffset.toNat).head } } } :
          World).issue (.glBindBufferRange .GL_UNIFORM_BUFFER 0 b2.handle
            w.app.globalParamsOffset w.app.globalParamsSize)).issue
          (.glBindBufferRange .GL_UNIFORM_BUFFER 1 b2.handle
            (AlignHead w.app.cBuffer w.app.uniformBlockAlignmentOffset.toNat).head
            (u32sub b2.head
              (AlignHead w.app.cBuffer w.app.uniformBlockAlignmentOffset.toNat).head))) = _
  rw [hbase, World.recast_issue, World.recast_issue]
  refine Eq.trans ?_ (drawSubmeshes_recast cs _ _ model program _ _)
  exact congrArg (fun l => drawSubmeshes l model program _ _) (hloc _ _)

theorem renderEntities_recast (glm : Glm) (modelMatrix : Entity → mat4) (location : App → Int)
    (program : Program) (cs : List GLCall) (offsets sizes : Nat → Nat)
    (hmm : ∀ (e : Entity) (off size : Nat),
      modelMatrix { e with localParamsOffset := off, localParamsSize := size } = modelMatrix e)
    (hloc : ∀ (app : App) (es : List Entity), location { app with entities := es } = location app)
    (n : Nat) :
    ∀ (i : Nat) (w : World),
      renderEntities glm modelMatrix location program (List.range' i n)
          (w.recast cs (reoffset i offsets sizes)) =
        (renderEntities glm modelMatrix location program (List.range' i n) w).map
          (World.recast cs (reoffset (i + n) offsets sizes)) := by
  induction n with
  | zero => intro i w; rfl
  | succ n ih =>
    intro i w
    simp only [List.range'_succ, renderEntities]
    rw [renderEntity_recast glm modelMatrix location program cs offsets sizes hmm hloc]
    refine bind_map_congr _ _ _ _ _ (fun a _ => ?_)
    rw [ih (i + 1) a, show i + 1 + n = i + (n + 1) by omega]

theorem pushLightForward_entities (app : App) (light : Light) (size : Nat) (es : List Entity) :
    pushLightForward { app with globalParamsSize := size, entities := es } light =
      (pushLightForward app light).map fun a => { a with entities := es } := by
  unfold pushLightForward
  refine bind_congr_map _ _ _ _ _ rfl (fun b1 _ => ?_)
  refine bind_congr_map _ _ _ _ _ rfl (fun b2 _ => ?_)
  refine bind_congr_map _ _ _ _ _ rfl (fun b3 _ => ?_)
  rfl

theorem pushLightsForward_entities (lights : List Light) (es : List Entity) :
    ∀ app : App, pushLightsForward lights { app with entities := es } =
      (pushLightsForward lights app).map fun a => { a with entities := es } := by
  induction lights with
  | nil => intro app; rfl
  | cons light rest ih =>
    intro app
    unfold pushLightsForward
    have h := pushLightForward_entities app light app.globalParamsSize es
    rw [show ({ app with entities := es } : App) =
      { app with globalParamsSize := app.globalParamsSize, entities := es } from rfl, h]
    exact bind_map_congr _ _ _ _ _ (fun a _ => ih a)

theorem pushLightsForward_scratch (lights : List Light) (hl : lights ≠ []) (app : App)
    (size : Nat) (es : List Entity) :
    pushLightsForward lights { app with globalParamsSize := size, entities := es } =
      (pushLightsForward lights app).map fun a => { a with entities := es } := by
  cases lights with
  | nil => exact absurd rfl hl
  | cons light rest =>
    unfold pushLightsForward
    rw [pushLightForward_entities]
    exact bind_map_congr _ _ _ _ _ (fun a _ => pushLightsForward_entities rest es a)

theorem World.rescratch_issue (cs : List GLCall) (h : Nat) (d : Option (Nat → Nat))
    (o s : Nat) (f : List Entity → List Entity) (w : World) (c : GLCall) :
    (w.rescratch cs h d o s f).issue c = (w.issue c).rescratch cs h d o s f := by
  simp only [World.rescratch, World.issue, GLState.issue, List.append_assoc]

theorem forwardGlobals_rescratch (drv : Driver) (program : Program) (cs : List GLCall) (h : Nat)
    (d : Option (Nat → Nat)) (o s : Nat) (f : List Entity → List Entity) (w : World)
    (hl : w.app.lights ≠ []) :
    forwardGlobals drv program (w.rescratch cs h d o s f) =
      (forwardGlobals drv program w).map (World.recast cs f) := by
  unfold forwardGlobals
  refine bind_congr_map _ _ _ _ _ rfl (fun b1 _ => ?_)
  refine bind_congr_map _ _ _ _ _ rfl (fun b2 _ => ?_)
  have hpush := pushLightsForward_scratch w.app.lights hl
    { w.app with
      cBuffer := b2
      globalParamsOffset :=
        (MapBuffer w.app.cBuffer (drv.glMapBuffer w.app.cBuffer.handle)).head }
    s (f w.app.entities)
  show (pushLightsForward w.app.lights
      { ({ w.app with
          cBuffer := b2
          globalParamsOffset :=
            (MapBuffer w.app.cBuffer (drv.glMapBuffer w.app.cBuffer.handle)).head } : App) with
        globalParamsSize := s, entities := f w.app.entities } >>= _) = _
  rw [hpush]
  refine bind_map_congr _ _ _ _ _ (fun a ha => ?_)
  have hent : a.entities = w.app.entities := (pushLightsForward_effect _ _ _ ha).2.1
  simp only [World.rescratch_issue, Except.map]
  rw [show f w.app.entities = f a.entities by rw [hent]]
  rfl

theorem forwardBlit_recast (cs : List GLCall) (f : List Entity → List Entity) (w : World) :
    forwardBlit (w.recast cs f) = (forwardBlit w).recast cs f := by
  unfold forwardBlit
  simp only [← World.recast_issue]
  rfl

theorem renderPrologue_rescratch (cs : List GLCall) (h : Nat) (d : Option (Nat → Nat))
    (o s : Nat) (f : List Entity → List Entity) (w : World) :
    renderPrologue (w.rescratch cs h d o s f) = (renderPrologue w).rescratch cs h d o s f := by
  unfold renderPrologue
  simp only [← World.rescratch_issue]
  rfl

theorem forwardModelMatrix_scratch (glm : Glm) (e : Entity) (off size : Nat) :
    forwardModelMatrix glm { e with localParamsOffset := off, localParamsSize := size } =
      forwardModelMatrix glm e := rfl

theorem forwardLocation_entities (app : App) (es : List Entity) :
    forwardLocation { app with entities := es } = forwardLocation app := rfl

theorem RenderForward_rescratch (glm : Glm) (drv : Driver) (cs : List GLCall) (h : Nat)
    (d : Option (Nat → Nat)) (o s : Nat) (offsets sizes : Nat → Nat) (w : World)
    (hl : w.app.lights ≠ []) :
    RenderForward glm drv (w.rescratch cs h d o s (reoffset 0 offsets sizes)) =
      (RenderForward glm drv w).map
        (World.recast cs (reoffset w.app.entities.length offsets sizes)) := by
  unfold RenderForward
  refine bind_congr_map _ _ _ _ _ rfl (fun program _ => ?_)
  rw [forwardGlobals_rescratch drv program cs h d o s _ w hl]
  refine bind_map_congr _ _ _ _ _ (fun w2 hw2 => ?_)
  have hent : w2.app.entities = w.app.entities :=
    (forwardGlobals_effect drv program w w2 hw2).2.2.1
  have hlen : (w2.recast cs (reoffset 0 offsets sizes)).app.entities.length =
      w.app.entities.length := by
    show (reoffset 0 offsets sizes w2.app.entities).length = _
    rw [reoffset_length, hent]
  rw [hlen, hent, List.range_eq_range',
    renderEntities_recast glm (forwardModelMatrix glm) forwardLocation program cs offsets sizes
      (forwardModelMatrix_scratch glm) forwardLocation_entities]
  refine bind_map_congr _ _ _ _ _ (fun w3 _ => ?_)
  rw [forwardBlit_recast, Nat.zero_add]
  rfl

theorem Render_forward_rescratch (glm : Glm) (drv : Driver) (cs : List GLCall) (h : Nat)
    (d : Option (Nat → Nat)) (o s : Nat) (offsets sizes : Nat → Nat) (w : World)
    (hmode : w.app.mode = .FORWARD) (hl : w.app.lights ≠ []) :
    Render glm drv (w.rescratch cs h d o s (reoffset 0 offsets sizes)) =
      (Render glm drv w).map
        (World.recast cs (reoffset w.app.entities.length offsets sizes)) := by
  rw [Render_forward glm drv _ (show (w.rescratch cs h d o s
      (reoffset 0 offsets sizes)).app.mode = .FORWARD from hmode),
    Render_forward glm drv w hmode, renderPrologue_rescratch,
    RenderForward_rescratch glm drv cs h d o s offsets sizes _
      (by rw [renderPrologue_app]; exact hl), renderPrologue_app]

theorem reoffset_forgetScratch (entities : List Entity) :
    reoffset 0 (fun j => ((entities[j]?).map Entity.localParamsOffset).getD 0)
      (fun j => ((entities[j]?).map Entity.localParamsSize).getD 0)
      (entities.map Entity.forgetScratch) = entities := by
  apply List.ext_getElem?
  intro j
  simp only [reoffset, List.getElem?_mapIdx, List.getElem?_map]
  cases entities[j]? with
  | none => rfl
  | some e => simp [Entity.forgetScratch]

/-- Every state is its scene with its own scratch values and its own record of
commands put back. -/
theorem World.eq_rescratch (w : World) :
    w = w.forgetScratch.rescratch w.gl.calls w.app.cBuffer.head w.app.cBuffer.data
      w.app.globalParamsOffset w.app.globalParamsSize
      (reoffset 0 (fun j => ((w.app.entities[j]?).map Entity.localParamsOffset).getD 0)
        (fun j => ((w.app.entities[j]?).map Entity.localParamsSize).getD 0)) := by
  have hes := reoffset_forgetScratch w.app.entities
  have h : w.forgetScratch.rescratch w.gl.calls w.app.cBuffer.head w.app.cBuffer.data
      w.app.globalParamsOffset w.app.globalParamsSize
      (reoffset 0 (fun j => ((w.app.entities[j]?).map Entity.localParamsOffset).getD 0)
        (fun j => ((w.app.entities[j]?).map Entity.localParamsSize).getD 0)) =
      { w with
        gl := { w.gl with calls := w.gl.calls ++ [] }
        app := { w.app with
          entities := reoffset 0
            (fun j => ((w.app.entities[j]?).map Entity.localParamsOffset).getD 0)
            (fun j => ((w.app.entities[j]?).map Entity.localParamsSize).getD 0)
            (w.app.entities.map Entity.forgetScratch) } } := rfl
  rw [h, hes, List.append_nil]

theorem World.recast_app_of_le (cs : List GLCall) (n : Nat) (offsets sizes : Nat → Nat)
    (r : World) (h : r.app.entities.length ≤ n) :
    (r.recast cs (reoffset n offsets sizes)).app = r.app := by
  show ({ r.app with entities := reoffset n offsets sizes r.app.entities } : App) = r.app
  rw [reoffset_of_le n offsets sizes _ h]

/-- C19: a FORWARD frame carries over nothing of what the calls before left in
the fields it recomputes.  Let `w` and `w1` be two states that agree on the
scene, that is, that are equal up to the head and the mapping of the uniform
buffer, `globalParamsOffset`, `globalParamsSize`, the `localParamsOffset` and
`localParamsSize` of the entities, and the record of the commands issued
before; let the mode be FORWARD and the list of lights not empty.  When the
frame returns from `w`, it returns from `w1` too, it issues the same commands,
so binds the same ranges, and it ends with the same application state: the
same head, the same offset and size of the global block, the same offset and
size for every entity.  The list of lights is not empty in any state the
engine reaches. -/
theorem Forward_frame_forgets_scratch (glm : Glm) (drv : Driver) (w w1 v : World)
    (hmode : w.app.mode = .FORWARD) (hlights : w.app.lights ≠ [])
    (hscene : w1.forgetScratch = w.forgetScratch)
    (hok : Render glm drv w = .ok v) :
    (∃ v1, Render glm drv w1 = .ok v1 ∧
      frameCalls w1 v1 = frameCalls w v ∧
      events (frameCalls w1 v1) = events (frameCalls w v) ∧
      v1.app = v.app ∧
      v1.app.cBuffer.head = v.app.cBuffer.head ∧
      v1.app.globalParamsOffset = v.app.globalParamsOffset ∧
      v1.app.globalParamsSize = v.app.globalParamsSize ∧
      (v1.app.entities.map fun e => (e.localParamsOffset, e.localParamsSize)) =
        (v.app.entities.map fun e => (e.localParamsOffset, e.localParamsSize)) ∧
      v1.globals = v.globals ∧ v1.log = v.log) ∧
    ∀ fm env w0 u, Reachable glm fm env w0 u → u.app.lights ≠ [] := by
  refine ⟨?_, fun fm env w0 u hu => Reachable_lights glm fm env w0 u hu⟩
  have hR := Render_forward_rescratch glm drv w.gl.calls w.app.cBuffer.head w.app.cBuffer.data
    w.app.globalParamsOffset w.app.globalParamsSize
    (fun j => ((w.app.entities[j]?).map Entity.localParamsOffset).getD 0)
    (fun j => ((w.app.entities[j]?).map Entity.localParamsSize).getD 0)
    w.forgetScratch hmode hlights
  rw [← World.eq_rescratch w] at hR
  have hR1 := Render_forward_rescratch glm drv w1.gl.calls w1.app.cBuffer.head
    w1.app.cBuffer.data w1.app.globalParamsOffset w1.app.globalParamsSize
    (fun j => ((w1.app.entities[j]?).map Entity.localParamsOffset).getD 0)
    (fun j => ((w1.app.entities[j]?).map Entity.localParamsSize).getD 0)
    w.forgetScratch hmode hlights
  rw [← hscene, ← World.eq_rescratch w1, hscene] at hR1
  rw [hR] at hok
  obtain ⟨r, hr, hv⟩ := (map_eq_ok _ _ _).1 hok
  have hlen : r.app.entities.length ≤ w.forgetScratch.app.entities.length :=
    le_of_eq (Render_forward_effect glm drv w.forgetScratch r hmode hr).2.2.2.1
  have happ := World.recast_app_of_le w.gl.calls _
    (fun j => ((w.app.entities[j]?).map Entity.localParamsOffset).getD 0)
    (fun j => ((w.app.entities[j]?).map Entity.localParamsSize).getD 0) r hlen
  have happ1 := World.recast_app_of_le w1.gl.calls _
    (fun j => ((w1.app.entities[j]?).map Entity.localParamsOffset).getD 0)
    (fun j => ((w1.app.entities[j]?).map Entity.localParamsSize).getD 0) r hlen
  subst hv
  have hcalls : frameCalls w1 (r.recast w1.gl.calls (reoffset w.forgetScratch.app.entities.length
      (fun j => ((w1.app.entities[j]?).map Entity.localParamsOffset).getD 0)
      (fun j => ((w1.app.entities[j]?).map Entity.localParamsSize).getD 0))) =
      frameCalls w (r.recast w.gl.calls (reoffset w.forgetScratch.app.entities.length
      (fun j => ((w.app.entities[j]?).map Entity.localParamsOffset).getD 0)
      (fun j => ((w.app.entities[j]?).map Entity.localParamsSize).getD 0))) := by
    rw [frameCalls_append w1 _ r.gl.calls rfl, frameCalls_append w _ r.gl.calls rfl]
  refine ⟨_, by rw [hR1, hr]; rfl, hcalls, by rw [hcalls], ?_, ?_, ?_, ?_, ?_, rfl, rfl⟩
  · rw [happ, happ1]
  · rw [happ, happ1]
  · rw [happ, happ1]
  · rw [happ, happ1]
  · rw [happ, happ1]

/-- A state `w1` that differs from `w` at most in the fields a frame writes
agrees with it on the scene when the buffer is the same buffer, the entities
are the same up to their blocks, and no vertex array object was added. -/
theorem forgetScratch_eq_of_sameScene (w w1 : World) (hs : w.app.sameScene w1.app)
    (hbuf : (w1.app.cBuffer.handle, w1.app.cBuffer.type, w1.app.cBuffer.size) =
      (w.app.cBuffer.handle, w.app.cBuffer.type, w.app.cBuffer.size))
    (hent : w1.app.entities.map Entity.forgetScratch = w.app.entities.map Entity.forgetScratch)
    (hmesh : w1.app.meshes = w.app.meshes)
    (hgl : (w1.gl.vertexArrays, w1.gl.textures, w1.gl.buffers, w1.gl.framebuffers,
        w1.gl.objects) =
      (w.gl.vertexArrays, w.gl.textures, w.gl.buffers, w.gl.framebuffers, w.gl.objects))
    (hglobals : w1.globals = w.globals) (hlog : w1.log = w.log) :
    w1.forgetScratch = w.forgetScratch := by
  simp only [Prod.mk.injEq] at hbuf hgl
  obtain ⟨hb1, hb2, hb3⟩ := hbuf
  obtain ⟨hg1, hg2, hg3, hg4, hg5⟩ := hgl
  have happ : w1.forgetScratch.app = w.forgetScratch.app := by
    have h1 := congrArg (fun a : App =>
      ({ a with
        cBuffer := { a.cBuffer with head := 0, data := none }
        globalParamsOffset := 0
        globalParamsSize := 0
        entities := a.entities.map Entity.forgetScratch } : App)) hs
    have h2 : w1.forgetScratch.app =
        { w.app with
          cBuffer :=
            { handle := w1.app.cBuffer.handle, type := w1.app.cBuffer.type
              size := w1.app.cBuffer.size, head := 0, data := none }
          globalParamsOffset := 0
          globalParamsSize := 0
          entities := w1.app.entities.map Entity.forgetScratch
          meshes := w1.app.meshes } := h1
    rw [h2, hb1, hb2, hb3, hent, hmesh]
    rfl
  have hgl : w1.forgetScratch.gl = w.forgetScratch.gl := by
    show ({ w1.gl with calls := [] } : GLState) = { w.gl with calls := [] }
    show GLState.mk [] w1.gl.vertexArrays w1.gl.textures w1.gl.buffers w1.gl.framebuffers
      w1.gl.objects = GLState.mk [] w.gl.vertexArrays w.gl.textures w.gl.buffers
      w.gl.framebuffers w.gl.objects
    rw [hg1, hg2, hg3, hg4, hg5]
  show World.mk w1.forgetScratch.app w1.forgetScratch.gl w1.globals w1.log =
    World.mk w.forgetScratch.app w.forgetScratch.gl w.globals w.log
  rw [happ, hgl, hglobals, hlog]

theorem deferredThenForwardFrame_ok :
    Render sampleGlm sampleDriver deferredThenForward = .ok deferredThenForwardFrame := rfl

set_option maxRecDepth 1000000 in
theorem deferredThenForwardFrame_scene :
    deferredThenForwardFrame.forgetScratch = deferredThenForward.forgetScratch :=
  forgetScratch_eq_of_sameScene deferredThenForward deferredThenForwardFrame
    (Render_forward_effect sampleGlm sampleDriver deferredThenForward deferredThenForwardFrame
      rfl deferredThenForwardFrame_ok).2.1
    (by decide) (by decide) (by decide) (by decide) (by decide) (by decide)

theorem initDoneFrame_ok :
    Render sampleGlm sampleDriver initDone = .ok initDoneFrame := rfl

theorem deferredThenForward_reachable :
    Reachable sampleGlm sampleFloatMath (samplePlatform .GL_FRAMEBUFFER_COMPLETE true) initWorld
      deferredThenForward :=
  Reachable.update sampleInput _ (Reachable.gui (sampleWidgets "Forward") _
    (Reachable.render initDone initDoneFrame (Reachable.init initDone initDone_ok)
      initDoneFrame_ok))

set_option maxRecDepth 1000000 in
theorem Forward_frame_forgets_scratch_witness :
    Reachable sampleGlm sampleFloatMath (samplePlatform .GL_FRAMEBUFFER_COMPLETE true) initWorld
      deferredThenForward ∧
    Reachable sampleGlm sampleFloatMath (samplePlatform .GL_FRAMEBUFFER_COMPLETE true) initWorld
      deferredThenForwardFrame ∧
    (deferredThenForward.app.cBuffer.head, deferredThenForward.app.globalParamsOffset,
      deferredThenForward.app.globalParamsSize,
      deferredThenForward.app.entities.map fun e => (e.localParamsOffset, e.localParamsSize)) =
      (860, 512, 348, [(256, 128)]) ∧
    (deferredThenForwardFrame.app.cBuffer.head, deferredThenForwardFrame.app.globalParamsOffset,
      deferredThenForwardFrame.app.globalParamsSize,
      deferredThenForwardFrame.app.entities.map fun e =>
        (e.localParamsOffset, e.localParamsSize)) =
      (384, 0, 236, [(256, 128)]) ∧
    ∃ v1, Render sampleGlm sampleDriver deferredThenForwardFrame = .ok v1 ∧
      frameCalls deferredThenForwardFrame v1 =
        frameCalls deferredThenForward deferredThenForwardFrame ∧
      events (frameCalls deferredThenForwardFrame v1) =
        events (frameCalls deferredThenForward deferredThenForwardFrame) ∧
      v1.app = deferredThenForwardFrame.app ∧
      v1.app.cBuffer.head = deferredThenForwardFrame.app.cBuffer.head ∧
      v1.app.globalParamsOffset = deferredThenForwardFrame.app.globalParamsOffset ∧
      v1.app.globalParamsSize = deferredThenForwardFrame.app.globalParamsSize ∧
      (v1.app.entities.map fun e => (e.localParamsOffset, e.localParamsSize)) =
        (deferredThenForwardFrame.app.entities.map fun e =>
          (e.localParamsOffset, e.localParamsSize)) ∧
      v1.globals = deferredThenForwardFrame.globals ∧ v1.log = deferredThenForwardFrame.log :=
  ⟨deferredThenForward_reachable,
    Reachable.render deferredThenForward deferredThenForwardFrame deferredThenForward_reachable
      deferredThenForwardFrame_ok,
    by decide, by decide,
    (Forward_frame_forgets_scratch sampleGlm sampleDriver deferredThenForward
      deferredThenForwardFrame deferredThenForwardFrame rfl
      (Reachable_lights _ _ _ _ _ deferredThenForward_reachable)
      deferredThenForwardFrame_scene deferredThenForwardFrame_ok).1⟩

/-- A DEFERRED or FORWARD frame that returns ends with `head <= size`, whatever
the head it started with. -/
theorem Render_frame_bound (glm : Glm) (drv : Driver) (w w1 : World)
    (hmode : w.app.mode ≠ .TEXTUREDQUAD) (hok : Render glm drv w = .ok w1) :
    w1.app.cBuffer.head ≤ w1.app.cBuffer.size := by
  cases hm : w.app.mode with
  | TEXTUREDQUAD => exact absurd hm hmode
  | DEFERRED =>
    rw [Render_deferred glm drv w hm] at hok
    obtain ⟨w2, hpasses, hgiz⟩ := RenderDeferred_passes glm drv _ w1 hok
    obtain ⟨-, -, hhead, hsize, -⟩ := deferredGizmos_keeps glm w2 w1 hgiz
    rw [hhead, hsize]
    exact (deferredPasses_block glm drv _ w2 hpasses).1
  | FORWARD =>
    rw [Render_forward glm drv w hm] at hok
    obtain ⟨program, w2, w3, hglob, hent, hw1, -, -, -, hhead, -, -, hsize⟩ :=
      RenderForward_globals glm drv _ w1 hok
    have hb3 := renderEntities_bound glm _ _ program _ w2 w3 hent
      (forwardGlobals_bound drv program _ w2 hglob)
    have hs1 : w1.app.cBuffer.size = w3.app.cBuffer.size := by
      rw [hw1, (forwardBlit_effect w3).2.1]
      rfl
    rw [hhead, hs1]
    exact hb3

/-- C27: the byte ranges a frame that returns has bound, for a positive
alignment, a buffer of less than `2 ^ 32` bytes and a list of lights that is
not empty, as it is in every state the engine reaches.  In a DEFERRED frame
the first global block `(0, 16)`, the blocks of the entities and the global
block of the lighting pass lie one after the other between 0 and the final
head, so they are pairwise disjoint and inside the part written.  In a
FORWARD frame the same holds of the global block `(0, globalParamsSize)` and
the blocks of the entities. -/
theorem frame_blocks_separated (glm : Glm) (drv : Driver) (w w1 : World)
    (halign : 0 < w.app.uniformBlockAlignmentOffset.toNat)
    (hsize : w.app.cBuffer.size < 2 ^ 32)
    (hlights : w.app.lights ≠ [])
    (hok : Render glm drv w = .ok w1) :
    (w.app.mode = .DEFERRED →
      separated 0
        ((0, 16) :: (w1.app.entities.map fun e => (e.localParamsOffset, e.localParamsSize)) ++
          [(w1.app.globalParamsOffset, w1.app.globalParamsSize)])
        w1.app.cBuffer.head ∧
      pairwiseDisjoint
        ((0, 16) :: (w1.app.entities.map fun e => (e.localParamsOffset, e.localParamsSize)) ++
          [(w1.app.globalParamsOffset, w1.app.globalParamsSize)]) ∧
      ∀ b ∈ (0, 16) :: (w1.app.entities.map fun e => (e.localParamsOffset, e.localParamsSize)) ++
          [(w1.app.globalParamsOffset, w1.app.globalParamsSize)],
        b.1 + b.2 ≤ w1.app.cBuffer.head) ∧
    (w.app.mode = .FORWARD →
      w1.app.globalParamsOffset = 0 ∧
      separated 0
        ((0, w1.app.globalParamsSize) ::
          w1.app.entities.map fun e => (e.localParamsOffset, e.localParamsSize))
        w1.app.cBuffer.head ∧
      pairwiseDisjoint
        ((0, w1.app.globalParamsSize) ::
          w1.app.entities.map fun e => (e.localParamsOffset, e.localParamsSize)) ∧
      ∀ b ∈ (0, w1.app.globalParamsSize) ::
          w1.app.entities.map fun e => (e.localParamsOffset, e.localParamsSize),
        b.1 + b.2 ≤ w1.app.cBuffer.head) ∧
    (w.app.mode ≠ .TEXTUREDQUAD → w1.app.cBuffer.head ≤ w1.app.cBuffer.size) ∧
    ∀ fm env w0 u, Reachable glm fm env w0 u → u.app.lights ≠ [] := by
  refine ⟨fun hmode => ?_, fun hmode => ?_,
    fun hmode => Render_frame_bound glm drv w w1 hmode hok,
    fun fm env w0 u hu => Reachable_lights glm fm env w0 u hu⟩
  · rw [Render_deferred glm drv w hmode] at hok
    have hsep := RenderDeferred_blocks glm drv _ w1 hok
      (by rw [renderPrologue_app]; exact halign) (by rw [renderPrologue_app]; exact hsize)
    obtain ⟨hp, hb⟩ := separated_spec _ _ _ hsep
    exact ⟨hsep, hp, fun b hbm => (hb b hbm).2⟩
  · have hoff := (Render_forward_effect glm drv w w1 hmode hok).2.2.2.2.1
    rw [Render_forward glm drv w hmode] at hok
    have hsep := (RenderForward_blocks glm drv _ w1 hok
      (by rw [renderPrologue_app]; exact halign) (by rw [renderPrologue_app]; exact hsize)).1
      (by rw [renderPrologue_app]; exact hlights)
    obtain ⟨hp, hb⟩ := separated_spec _ _ _ hsep
    exact ⟨hoff, hsep, hp, fun b hbm => (hb b hbm).2⟩

set_option maxRecDepth 1000000 in
theorem frame_blocks_separated_witness :
    (initDoneFrame.app.cBuffer.head,
      (0, 16) ::
        (initDoneFrame.app.entities.map fun e => (e.localParamsOffset, e.localParamsSize)) ++
        [(initDoneFrame.app.globalParamsOffset, initDoneFrame.app.globalParamsSize)]) =
      (860, [(0, 16), (256, 128), (512, 348)]) ∧
    (deferredThenForwardFrame.app.cBuffer.head,
      (0, deferredThenForwardFrame.app.globalParamsSize) ::
        deferredThenForwardFrame.app.entities.map fun e =>
          (e.localParamsOffset, e.localParamsSize)) =
      (384, [(0, 236), (256, 128)]) ∧
    (separated 0
        ((0, 16) ::
          (initDoneFrame.app.entities.map fun e => (e.localParamsOffset, e.localParamsSize)) ++
          [(initDoneFrame.app.globalParamsOffset, initDoneFrame.app.globalParamsSize)])
        initDoneFrame.app.cBuffer.head ∧
      pairwiseDisjoint
        ((0, 16) ::
          (initDoneFrame.app.entities.map fun e => (e.localParamsOffset, e.localParamsSize)) ++
          [(initDoneFrame.app.globalParamsOffset, initDoneFrame.app.globalParamsSize)]) ∧
      ∀ b ∈ (0, 16) ::
          (initDoneFrame.app.entities.map fun e => (e.localParamsOffset, e.localParamsSize)) ++
          [(initDoneFrame.app.globalParamsOffset, initDoneFrame.app.globalParamsSize)],
        b.1 + b.2 ≤ initDoneFrame.app.cBuffer.head) ∧
    (deferredThenForwardFrame.app.globalParamsOffset = 0 ∧
      separated 0
        ((0, deferredThenForwardFrame.app.globalParamsSize) ::
          deferredThenForwardFrame.app.entities.map fun e =>
            (e.localParamsOffset, e.localParamsSize))
        deferredThenForwardFrame.app.cBuffer.head ∧
      pairwiseDisjoint
        ((0, deferredThenForwardFrame.app.globalParamsSize) ::
          deferredThenForwardFrame.app.entities.map fun e =>
            (e.localParamsOffset, e.localParamsSize)) ∧
      ∀ b ∈ (0, deferredThenForwardFrame.app.globalParamsSize) ::
          deferredThenForwardFrame.app.entities.map fun e =>
            (e.localParamsOffset, e.localParamsSize),
        b.1 + b.2 ≤ deferredThenForwardFrame.app.cBuffer.head) :=
  ⟨by decide, by decide,
    (frame_blocks_separated sampleGlm sampleDriver initDone initDoneFrame (by decide)
      (by decide)
      (Reachable_lights sampleGlm sampleFloatMath _ _ _ (Reachable.init initDone initDone_ok))
      initDoneFrame_ok).1 (by decide),
    (frame_blocks_separated sampleGlm sampleDriver deferredThenForward
      deferredThenForwardFrame (by decide) (by decide)
      (Reachable_lights _ _ _ _ _ deferredThenForward_reachable)
      deferredThenForwardFrame_ok).2.1 (by decide)⟩

end Engine
